import Mathlib

/-!
# Vulkan 3D model viewer: frame scheduling, swap chain, thumbnail path, scene and teardown

A shallow embedding of `src/rendering/Renderer.cpp`, `src/rendering/SwapChain.cpp`,
`src/rendering/ThumbnailRenderer.cpp`, `Application::render`, `src/scene/Scene.cpp` and
the face loop and `cleanup` of `src/scene/Model.cpp`.

* Vulkan handles are natural numbers, `VK_NULL_HANDLE` is `0`.
* Every call into the Vulkan API (and the few other external calls that matter) is
  appended to a call log kept in the device, in program order; the log is what the
  theorems speak about.  Results the driver returns (`VkResult` codes, acquired image
  indices, surface capabilities) are inputs of the embedded functions.
* A C++ exception is the `Outcome.thrown` constructor; it keeps the state reached at
  the `throw`.
* `float` values are rationals.
-/

namespace VulkanViewer

/-! ## Vulkan constants and plain data -/

abbrev Handle := Nat

def VK_NULL_HANDLE : Handle := 0

abbrev VkResult := Int

def VK_SUCCESS : VkResult := 0
def VK_TIMEOUT : VkResult := 2
def VK_SUBOPTIMAL_KHR : VkResult := 1000001003
def VK_ERROR_OUT_OF_DATE_KHR : VkResult := -1000001004
def VK_ERROR_DEVICE_LOST : VkResult := -4

def UINT32_MAX : Nat := 2 ^ 32 - 1
def UINT64_MAX : Nat := 2 ^ 64 - 1

/-- The value of `static_cast<uint32_t>(n)` for an unsigned `n`. -/
def static_cast_uint32_t (n : Nat) : Nat := n % 2 ^ 32

/-- The constant `Renderer::MAX_FRAMES_IN_FLIGHT`. -/
def MAX_FRAMES_IN_FLIGHT : Nat := 2

def VK_FENCE_CREATE_SIGNALED_BIT : Nat := 1

structure VkExtent2D where
  width : Nat
  height : Nat
deriving DecidableEq, Repr

structure Vec3 where
  x : ℚ
  y : ℚ
  z : ℚ
deriving DecidableEq, Repr

structure Vec4 where
  x : ℚ
  y : ℚ
  z : ℚ
  w : ℚ
deriving DecidableEq, Repr

/-- A `glm::mat4`: four columns. -/
structure Mat4 where
  c0 : Vec4
  c1 : Vec4
  c2 : Vec4
  c3 : Vec4
deriving DecidableEq, Repr

/-- The value of `glm::mat4(1.0f)`. -/
def Mat4.identity : Mat4 :=
  ⟨⟨1, 0, 0, 0⟩, ⟨0, 1, 0, 0⟩, ⟨0, 0, 1, 0⟩, ⟨0, 0, 0, 1⟩⟩

/-- The struct `PushConstants` of `Renderer.hpp`; a value-initialised one is all zero. -/
structure PushConstants where
  model : Mat4
  materialDiffuse : Vec3
  hasTexture : ℚ
deriving DecidableEq, Repr

def PushConstants.zero : PushConstants :=
  ⟨⟨⟨0, 0, 0, 0⟩, ⟨0, 0, 0, 0⟩, ⟨0, 0, 0, 0⟩, ⟨0, 0, 0, 0⟩⟩, ⟨0, 0, 0⟩, 0⟩

/-! ## Scene data (`Model.hpp`, `Scene.hpp`) -/

structure Vertex where
  pos : Vec3
deriving DecidableEq, Repr

structure Mesh where
  vertices : List Vertex
  indices : List Nat
  materialIndex : Nat
  vertexBuffer : Handle
  vertexBufferMemory : Handle
  indexBuffer : Handle
  indexBufferMemory : Handle
deriving DecidableEq, Repr

structure Material where
  diffuse : Vec3
  textureImage : Handle
  textureImageMemory : Handle
  textureImageView : Handle
  textureSampler : Handle
deriving DecidableEq, Repr

structure Model where
  m_transform : Mat4
  m_meshes : List Mesh
  m_materials : List Material
deriving DecidableEq, Repr

/-- The part of `Scene` the renderer reads: `getModels()`. -/
structure Scene where
  m_models : List Model
deriving DecidableEq, Repr

/-- Embedding of `Model::getMaterialTextureView`. -/
def Model.getMaterialTextureView (model : Model) (materialIndex : Nat) : Handle :=
  match model.m_materials.get? materialIndex with
  | none => VK_NULL_HANDLE
  | some material => material.textureImageView

/-- Embedding of `Model::getMaterialTextureSampler`. -/
def Model.getMaterialTextureSampler (model : Model) (materialIndex : Nat) : Handle :=
  match model.m_materials.get? materialIndex with
  | none => VK_NULL_HANDLE
  | some material => material.textureSampler

/-! ## The call log -/

/-- The external calls that create, map, write or destroy a resource outside the frame
loop, with the arguments the program passes.  `createBuffer`, `beginSingleTimeCommands`
and `endSingleTimeCommands` are the `VulkanDevice` helpers, `readFile` is the opening of
a shader file, `vkUpdateDescriptorSetsBuffer` is one buffer write of a
`vkUpdateDescriptorSets`, `vkAllocateCommandBuffersFrom` is a `vkAllocateCommandBuffers`
from a command pool other than the device's. -/
inductive ResourceCall where
  | vkCreateRenderPass (renderPass : Handle)
  | vkDestroyRenderPass (renderPass : Handle)
  | createBuffer (buffer memory : Handle)
  | vkDestroyBuffer (buffer : Handle)
  | vkMapMemory (memory mapped : Handle)
  | vkUnmapMemory (memory : Handle)
  | vkCreateDescriptorSetLayout (layout : Handle)
  | vkDestroyDescriptorSetLayout (layout : Handle)
  | vkCreateDescriptorPool (pool : Handle)
  | vkDestroyDescriptorPool (pool : Handle)
  | vkAllocateDescriptorSets (pool : Handle) (sets : List Handle)
  | vkUpdateDescriptorSetsBuffer (dstSet : Handle) (dstBinding : Nat) (buffer : Handle)
  | readFile (filename : String)
  | vkCreateShaderModule (shaderModule : Handle)
  | vkDestroyShaderModule (shaderModule : Handle)
  | vkCreatePipelineLayout (layout setLayout : Handle)
  | vkDestroyPipelineLayout (layout : Handle)
  | vkCreateGraphicsPipelines (pipeline layout renderPass : Handle)
  | vkDestroyPipeline (pipeline : Handle)
  | vkDestroySemaphore (semaphore : Handle)
  | vkCreateCommandPool (commandPool : Handle)
  | vkDestroyCommandPool (commandPool : Handle)
  | vkAllocateCommandBuffersFrom (commandPool : Handle) (commandBuffers : List Handle)
  | vkFreeCommandBuffers (commandBuffers : List Handle)
  | beginSingleTimeCommands (cb : Handle)
  | endSingleTimeCommands (cb : Handle)
  | vkCmdCopyBufferToImage (cb buffer image : Handle)
deriving DecidableEq, Repr

/-- One external call, with the arguments the program passes. -/
inductive Call where
  | vkDeviceWaitIdle
  | vkCreateSemaphore (semaphore : Handle)
  | vkCreateFence (fence : Handle) (flags : Nat)
  | vkDestroyFence (fence : Handle)
  | vkAllocateCommandBuffers (commandBuffers : List Handle)
  | vkCreateFramebuffer (framebuffer : Handle) (colorView depthView : Handle)
      (extent : VkExtent2D)
  | vkDestroyFramebuffer (framebuffer : Handle)
  | vkCreateSwapchainKHR (swapChain : Handle) (minImageCount : Nat)
      (surfaceFormat : Nat × Nat) (extent : VkExtent2D) (presentMode : Nat)
  | vkDestroySwapchainKHR (swapChain : Handle)
  | createImage (image memory : Handle) (width height : Nat)
  | createImageView (view image : Handle)
  | vkCreateImageView (view image : Handle)
  | vkCreateSampler (sampler : Handle)
  | vkDestroySampler (sampler : Handle)
  | vkDestroyImageView (view : Handle)
  | vkDestroyImage (image : Handle)
  | vkFreeMemory (memory : Handle)
  | ImGui_ImplVulkan_AddTexture (descriptorSet sampler view : Handle)
  | ImGui_ImplVulkan_RemoveTexture (descriptorSet : Handle)
  | vkWaitForFences (fence : Handle) (timeout : Nat)
  | vkAcquireNextImageKHR (swapChain : Handle) (semaphore : Handle)
  | vkResetFences (fence : Handle)
  | vkResetCommandBuffer (cb : Handle)
  | vkBeginCommandBuffer (cb : Handle)
  | vkCmdBeginRenderPass (cb renderPass framebuffer : Handle) (extent : VkExtent2D)
  | vkCmdSetViewport (cb : Handle) (width height : Nat)
  | vkCmdSetScissor (cb : Handle) (extent : VkExtent2D)
  | vkCmdBindPipeline (cb pipeline : Handle)
  | setAspectRatio (width height : Nat)
  | memcpy (dst : Handle)
  | vkCmdPushConstants (cb layout : Handle) (pc : PushConstants)
  | vkUpdateDescriptorSets (dstSet : Handle) (dstBinding : Nat) (imageView sampler : Handle)
  | vkCmdBindDescriptorSets (cb layout set : Handle)
  | vkCmdBindVertexBuffers (cb buffer : Handle)
  | vkCmdBindIndexBuffer (cb buffer : Handle)
  | vkCmdDrawIndexed (cb : Handle) (indexCount instanceCount : Nat)
  | vkCmdDraw (cb : Handle) (vertexCount instanceCount : Nat)
  | vkCmdPipelineBarrier (cb image : Handle)
  | vkCmdCopyImage (cb src dst : Handle)
  | ImGui_ImplVulkan_RenderDrawData (cb : Handle)
  | vkCmdEndRenderPass (cb : Handle)
  | vkEndCommandBuffer (cb : Handle)
  | vkQueueSubmit (waitSemaphore cb signalSemaphore fence : Handle)
  | vkQueuePresentKHR (waitSemaphore swapChain : Handle) (imageIndex : Nat)
  | resource (call : ResourceCall)
deriving DecidableEq, Repr

/-- The command buffer a call records into, for the `vkCmd*` calls (and the UI overlay,
which records through `ImGui_ImplVulkan_RenderDrawData`). -/
def Call.recordsInto : Call → Option Handle
  | .vkCmdBeginRenderPass cb _ _ _ => some cb
  | .vkCmdSetViewport cb _ _ => some cb
  | .vkCmdSetScissor cb _ => some cb
  | .vkCmdBindPipeline cb _ => some cb
  | .vkCmdPushConstants cb _ _ => some cb
  | .vkCmdBindDescriptorSets cb _ _ => some cb
  | .vkCmdBindVertexBuffers cb _ => some cb
  | .vkCmdBindIndexBuffer cb _ => some cb
  | .vkCmdDrawIndexed cb _ _ => some cb
  | .vkCmdDraw cb _ _ => some cb
  | .vkCmdPipelineBarrier cb _ => some cb
  | .vkCmdCopyImage cb _ _ => some cb
  | .ImGui_ImplVulkan_RenderDrawData cb => some cb
  | .vkCmdEndRenderPass cb => some cb
  | _ => none

def Call.isQueueSubmit : Call → Bool
  | .vkQueueSubmit _ _ _ _ => true
  | _ => false

def Call.isQueuePresent : Call → Bool
  | .vkQueuePresentKHR _ _ _ => true
  | _ => false

def Call.isBindPipeline : Call → Bool
  | .vkCmdBindPipeline _ _ => true
  | _ => false

def Call.isDrawIndexed : Call → Bool
  | .vkCmdDrawIndexed _ _ _ => true
  | _ => false

def Call.isDraw : Call → Bool
  | .vkCmdDraw _ _ _ => true
  | _ => false

/-- The calls that feed geometry: vertex-buffer bind, index-buffer bind, indexed draw. -/
def Call.isGeometry : Call → Bool
  | .vkCmdBindVertexBuffers _ _ => true
  | .vkCmdBindIndexBuffer _ _ => true
  | .vkCmdDrawIndexed _ _ _ => true
  | _ => false

/-- A function either returns or throws a `std::runtime_error`; both keep the state. -/
inductive Outcome (σ : Type) where
  | ok (s : σ)
  | thrown (s : σ) (what : String)
deriving Repr

def Outcome.state {σ : Type} : Outcome σ → σ
  | .ok s => s
  | .thrown s _ => s

def Outcome.isOk {σ : Type} : Outcome σ → Bool
  | .ok _ => true
  | .thrown _ _ => false

/-- Element access `v[i]` of a `std::vector` of handles. -/
def vecAt (v : List Handle) (i : Nat) : Handle := v.getD i VK_NULL_HANDLE

/-! ## The device (`VulkanDevice`) -/

/-- The surface capabilities the program reads from `VkSurfaceCapabilitiesKHR`. -/
structure VkSurfaceCapabilitiesKHR where
  minImageCount : Nat
  maxImageCount : Nat
  currentExtent : VkExtent2D
  minImageExtent : VkExtent2D
  maxImageExtent : VkExtent2D
deriving DecidableEq, Repr

structure VkSurfaceFormatKHR where
  format : Nat
  colorSpace : Nat
deriving DecidableEq, Repr

def VK_FORMAT_B8G8R8A8_SRGB : Nat := 50
def VK_COLOR_SPACE_SRGB_NONLINEAR_KHR : Nat := 0
def VK_PRESENT_MODE_MAILBOX_KHR : Nat := 1
def VK_PRESENT_MODE_FIFO_KHR : Nat := 2

structure SwapChainSupportDetails where
  capabilities : VkSurfaceCapabilitiesKHR
  formats : List VkSurfaceFormatKHR
  presentModes : List Nat
deriving DecidableEq, Repr

/-- The device as the embedded code sees it: the log of calls made so far and the
source of new handles (every object the driver creates gets a handle not used before). -/
structure VulkanDevice where
  calls : List Call
  nextHandle : Handle
deriving DecidableEq, Repr

def VulkanDevice.initial : VulkanDevice := ⟨[], 1⟩

def VulkanDevice.log (dev : VulkanDevice) (c : Call) : VulkanDevice :=
  { dev with calls := dev.calls ++ [c] }

def VulkanDevice.logAll (dev : VulkanDevice) (cs : List Call) : VulkanDevice :=
  { dev with calls := dev.calls ++ cs }

/-- The handle the next object creation returns, and the device after it. -/
def VulkanDevice.fresh (dev : VulkanDevice) : Handle × VulkanDevice :=
  (dev.nextHandle, { dev with nextHandle := dev.nextHandle + 1 })

/-- The handles `n` object creations in a row return. -/
def VulkanDevice.freshN (dev : VulkanDevice) (n : Nat) : List Handle × VulkanDevice :=
  ((List.range n).map (fun i => dev.nextHandle + i), { dev with nextHandle := dev.nextHandle + n })

/-- Modelled from the spec: `VulkanDevice::waitIdle` (its body is not part of the sources),
"wait for the device to go fully idle". -/
def VulkanDevice.waitIdle (dev : VulkanDevice) : VulkanDevice :=
  dev.log .vkDeviceWaitIdle

/-- Modelled from the spec: `VulkanDevice::createImage` (its body is not part of the
sources), "createImage(size, usage, memProps) -> handle+memory"; `ok = false` is a
failed creation, which throws. -/
def VulkanDevice.createImage (dev : VulkanDevice) (ok : Bool) (width height : Nat) :
    Outcome (VulkanDevice × Handle × Handle) :=
  if ok then
    let (image, dev1) := dev.fresh
    let (memory, dev2) := dev1.fresh
    .ok (dev2.log (.createImage image memory width height), image, memory)
  else
    .thrown (dev, VK_NULL_HANDLE, VK_NULL_HANDLE) "failed to create image!"

/-- Modelled from the spec: `VulkanDevice::createImageView` (its body is not part of the
sources): a view of the given image. -/
def VulkanDevice.createImageView (dev : VulkanDevice) (image : Handle) : Handle × VulkanDevice :=
  let (view, dev1) := dev.fresh
  (view, dev1.log (.createImageView view image))

/-! ## The swap chain (`SwapChain.cpp`) -/

structure SwapChain where
  m_swapChain : Handle
  m_swapChainImages : List Handle
  m_swapChainImageViews : List Handle
  m_swapChainImageFormat : Nat
  m_swapChainExtent : VkExtent2D
  m_depthImage : Handle
  m_depthImageMemory : Handle
  m_depthImageView : Handle
deriving DecidableEq, Repr

/-- What the driver answers while a swap chain is built. -/
structure SwapChainEnv where
  support : SwapChainSupportDetails
  createResult : VkResult
  imageCount : Nat
  depthImageOk : Bool
deriving DecidableEq, Repr

/-- The value of `std::clamp(v, lo, hi)` on `uint32_t`:
`(v < lo) ? lo : (hi < v) ? hi : v`. -/
def clamp (v lo hi : Nat) : Nat :=
  if v < lo then lo else if hi < v then hi else v

/-- Embedding of `SwapChain::chooseSwapSurfaceFormat`; `availableFormats[0]` of an empty
vector is read as the zero format. -/
def chooseSwapSurfaceFormat (availableFormats : List VkSurfaceFormatKHR) : VkSurfaceFormatKHR :=
  match availableFormats.find? (fun f =>
      f.format == VK_FORMAT_B8G8R8A8_SRGB && f.colorSpace == VK_COLOR_SPACE_SRGB_NONLINEAR_KHR) with
  | some f => f
  | none => availableFormats.headD ⟨0, 0⟩

/-- Embedding of `SwapChain::chooseSwapPresentMode`. -/
def chooseSwapPresentMode (availablePresentModes : List Nat) : Nat :=
  match availablePresentModes.find? (fun m => m == VK_PRESENT_MODE_MAILBOX_KHR) with
  | some m => m
  | none => VK_PRESENT_MODE_FIFO_KHR

/-- Embedding of `SwapChain::chooseSwapExtent`. -/
def chooseSwapExtent (capabilities : VkSurfaceCapabilitiesKHR) (width height : Nat) : VkExtent2D :=
  if capabilities.currentExtent.width ≠ UINT32_MAX then
    capabilities.currentExtent
  else
    { width := clamp width capabilities.minImageExtent.width capabilities.maxImageExtent.width
      height := clamp height capabilities.minImageExtent.height capabilities.maxImageExtent.height }

/-- The image count requested in `SwapChain::createSwapChain` (`uint32_t` arithmetic). -/
def requestedImageCount (capabilities : VkSurfaceCapabilitiesKHR) : Nat :=
  let imageCount := (capabilities.minImageCount + 1) % 2 ^ 32
  if capabilities.maxImageCount > 0 ∧ imageCount > capabilities.maxImageCount then
    capabilities.maxImageCount
  else
    imageCount

/-- The views `SwapChain::createImageViews` makes, one per image, in order. -/
def createImageViews (dev : VulkanDevice) : List Handle → List Handle × VulkanDevice
  | [] => ([], dev)
  | image :: rest =>
    let (view, dev1) := dev.createImageView image
    let (views, dev2) := createImageViews dev1 rest
    (view :: views, dev2)

/-- Embedding of the constructor `SwapChain::SwapChain`: `createSwapChain`,
`createImageViews`, `createDepthResources`. -/
def SwapChain.create (dev : VulkanDevice) (env : SwapChainEnv) (width height : Nat) :
    Outcome (VulkanDevice × SwapChain) :=
  let surfaceFormat := chooseSwapSurfaceFormat env.support.formats
  let presentMode := chooseSwapPresentMode env.support.presentModes
  let extent := chooseSwapExtent env.support.capabilities width height
  let imageCount := requestedImageCount env.support.capabilities
  let (swapChain, dev1) := dev.fresh
  let dev2 := dev1.log (.vkCreateSwapchainKHR swapChain imageCount
    (surfaceFormat.format, surfaceFormat.colorSpace) extent presentMode)
  if env.createResult ≠ VK_SUCCESS then
    .thrown (dev2, ⟨VK_NULL_HANDLE, [], [], 0, ⟨0, 0⟩, 0, 0, 0⟩) "Failed to create swap chain!"
  else
    let (images, dev3) := dev2.freshN env.imageCount
    let (views, dev4) := createImageViews dev3 images
    match dev4.createImage env.depthImageOk extent.width extent.height with
    | .thrown (dev5, _, _) what =>
      .thrown (dev5, ⟨swapChain, images, views, surfaceFormat.format, extent, 0, 0, 0⟩) what
    | .ok (dev5, depthImage, depthMemory) =>
      let (depthView, dev6) := dev5.createImageView depthImage
      .ok (dev6, ⟨swapChain, images, views, surfaceFormat.format, extent,
                  depthImage, depthMemory, depthView⟩)

/-- Embedding of `SwapChain::cleanup` (run by the destructor): the calls it makes. -/
def SwapChain.cleanupCalls (sc : SwapChain) : List Call :=
  (if sc.m_depthImageView ≠ VK_NULL_HANDLE then [Call.vkDestroyImageView sc.m_depthImageView] else [])
  ++ (if sc.m_depthImage ≠ VK_NULL_HANDLE then [Call.vkDestroyImage sc.m_depthImage] else [])
  ++ (if sc.m_depthImageMemory ≠ VK_NULL_HANDLE then [Call.vkFreeMemory sc.m_depthImageMemory] else [])
  ++ sc.m_swapChainImageViews.map Call.vkDestroyImageView
  ++ (if sc.m_swapChain ≠ VK_NULL_HANDLE then [Call.vkDestroySwapchainKHR sc.m_swapChain] else [])

/-! ## The renderer (`Renderer.cpp`) -/

structure Renderer where
  m_swapChain : SwapChain
  m_renderPass : Handle
  m_framebuffers : List Handle
  m_commandBuffers : List Handle
  m_imageAvailableSemaphores : List Handle
  m_renderFinishedSemaphores : List Handle
  m_inFlightFences : List Handle
  m_gridPipeline : Handle
  m_gridPipelineLayout : Handle
  m_descriptorSetLayout : Handle
  m_descriptorPool : Handle
  m_gridDescriptorSets : List Handle
  m_modelPipeline : Handle
  m_modelPipelineLayout : Handle
  m_modelDescriptorSets : List Handle
  m_modelUniformBuffers : List Handle
  m_modelUniformBuffersMemory : List Handle
  m_modelUniformBuffersMapped : List Handle
  m_gridUniformBuffers : List Handle
  m_gridUniformBuffersMemory : List Handle
  m_gridUniformBuffersMapped : List Handle
  m_defaultTextureImage : Handle
  m_defaultTextureImageMemory : Handle
  m_defaultTextureImageView : Handle
  m_defaultTextureSampler : Handle
  m_currentFrame : Nat
  m_imageIndex : Nat
deriving DecidableEq, Repr

/-- What the driver answers during one frame. -/
structure FrameEnv where
  acquireResult : VkResult
  acquiredImageIndex : Nat
  beginResult : VkResult
  endResult : VkResult
  submitResult : VkResult
  presentResult : VkResult
deriving DecidableEq, Repr

/-- The value of `v.resize(n)` on a vector of handles: cut, or padded with null handles. -/
def vecResize (v : List Handle) (n : Nat) : List Handle :=
  v.take n ++ List.replicate (n - v.length) VK_NULL_HANDLE

/-- The loop of `Renderer::createFramebuffers` from image `i` on; `results` holds the
result of each `vkCreateFramebuffer` still to come (a missing one is `VK_SUCCESS`). -/
def createFramebuffersLoop (sc : SwapChain) :
    Nat → List VkResult → Nat → VulkanDevice → List Handle → Outcome (VulkanDevice × List Handle)
  | 0, _, _, dev, fbs => .ok (dev, fbs)
  | n + 1, results, i, dev, fbs =>
    let (fb, dev1) := dev.fresh
    let dev2 := dev1.log (.vkCreateFramebuffer fb (vecAt sc.m_swapChainImageViews i)
      sc.m_depthImageView sc.m_swapChainExtent)
    if results.headD VK_SUCCESS ≠ VK_SUCCESS then
      .thrown (dev2, fbs) "Failed to create framebuffer!"
    else
      createFramebuffersLoop sc n results.tail (i + 1) dev2 (fbs.set i fb)

/-- Embedding of `Renderer::createFramebuffers`. -/
def Renderer.createFramebuffers (dev : VulkanDevice) (r : Renderer) (results : List VkResult) :
    Outcome (VulkanDevice × Renderer) :=
  let n := r.m_swapChain.m_swapChainImages.length
  match createFramebuffersLoop r.m_swapChain n results 0 dev
      (vecResize r.m_framebuffers n) with
  | .ok (dev1, fbs) => .ok (dev1, { r with m_framebuffers := fbs })
  | .thrown (dev1, fbs) what => .thrown (dev1, { r with m_framebuffers := fbs }) what

/-- Embedding of `Renderer::createCommandBuffers`. -/
def Renderer.createCommandBuffers (dev : VulkanDevice) (r : Renderer) (result : VkResult) :
    Outcome (VulkanDevice × Renderer) :=
  let resized := vecResize r.m_commandBuffers MAX_FRAMES_IN_FLIGHT
  if result ≠ VK_SUCCESS then
    .thrown (dev.log (.vkAllocateCommandBuffers []), { r with m_commandBuffers := resized })
      "Failed to allocate command buffers!"
  else
    let (cbs, dev1) := dev.freshN resized.length
    .ok (dev1.log (.vkAllocateCommandBuffers cbs), { r with m_commandBuffers := cbs })

/-- The loop of `Renderer::createSyncObjects` from slot `i` on: per slot two semaphores
and one fence, the fence created with `VK_FENCE_CREATE_SIGNALED_BIT`; `results` holds,
per slot still to come, the results of the three creations (the `||` stops at the first
failure). -/
def createSyncObjectsLoop :
    Nat → List (VkResult × VkResult × VkResult) → Nat → VulkanDevice → Renderer →
      Outcome (VulkanDevice × Renderer)
  | 0, _, _, dev, r => .ok (dev, r)
  | n + 1, results, i, dev, r =>
    let (res1, res2, res3) := results.headD (VK_SUCCESS, VK_SUCCESS, VK_SUCCESS)
    let (sem1, dev1) := dev.fresh
    let dev2 := dev1.log (.vkCreateSemaphore sem1)
    let r1 := { r with m_imageAvailableSemaphores := r.m_imageAvailableSemaphores.set i sem1 }
    if res1 ≠ VK_SUCCESS then
      .thrown (dev2, r) "Failed to create synchronization objects for a frame!"
    else
      let (sem2, dev3) := dev2.fresh
      let dev4 := dev3.log (.vkCreateSemaphore sem2)
      let r2 := { r1 with m_renderFinishedSemaphores := r1.m_renderFinishedSemaphores.set i sem2 }
      if res2 ≠ VK_SUCCESS then
        .thrown (dev4, r1) "Failed to create synchronization objects for a frame!"
      else
        let (fence, dev5) := dev4.fresh
        let dev6 := dev5.log (.vkCreateFence fence VK_FENCE_CREATE_SIGNALED_BIT)
        let r3 := { r2 with m_inFlightFences := r2.m_inFlightFences.set i fence }
        if res3 ≠ VK_SUCCESS then
          .thrown (dev6, r2) "Failed to create synchronization objects for a frame!"
        else
          createSyncObjectsLoop n results.tail (i + 1) dev6 r3

/-- Embedding of `Renderer::createSyncObjects`. -/
def Renderer.createSyncObjects (dev : VulkanDevice) (r : Renderer)
    (results : List (VkResult × VkResult × VkResult)) : Outcome (VulkanDevice × Renderer) :=
  createSyncObjectsLoop MAX_FRAMES_IN_FLIGHT results 0 dev
    { r with
      m_imageAvailableSemaphores := vecResize r.m_imageAvailableSemaphores MAX_FRAMES_IN_FLIGHT
      m_renderFinishedSemaphores := vecResize r.m_renderFinishedSemaphores MAX_FRAMES_IN_FLIGHT
      m_inFlightFences := vecResize r.m_inFlightFences MAX_FRAMES_IN_FLIGHT }

/-- What the driver answers during `Renderer::recreateSwapChain`. -/
structure RecreateEnv where
  swapChain : SwapChainEnv
  framebufferResults : List VkResult
  allocateResult : VkResult
deriving DecidableEq, Repr

/-- Embedding of `Renderer::recreateSwapChain`.  The assignment to `m_swapChain`
constructs the new swap chain first and destroys the old one after it. -/
def Renderer.recreateSwapChain (dev : VulkanDevice) (r : Renderer) (env : RecreateEnv)
    (width height : Nat) : Outcome (VulkanDevice × Renderer) :=
  let dev1 := dev.waitIdle
  let dev2 := dev1.logAll (r.m_framebuffers.map Call.vkDestroyFramebuffer)
  let r1 := { r with m_framebuffers := [] }
  match SwapChain.create dev2 env.swapChain width height with
  | .thrown (dev3, _) what => .thrown (dev3, r1) what
  | .ok (dev3, sc) =>
    let dev4 := dev3.logAll r.m_swapChain.cleanupCalls
    let r2 := { r1 with m_swapChain := sc }
    match Renderer.createFramebuffers dev4 r2 env.framebufferResults with
    | .thrown s what => .thrown s what
    | .ok (dev5, r3) => Renderer.createCommandBuffers dev5 r3 env.allocateResult

/-- Embedding of `Renderer::beginFrame`.  The acquire stores the image index when it
hands out an image (`VK_SUCCESS`, `VK_SUBOPTIMAL_KHR`). -/
def Renderer.beginFrame (dev : VulkanDevice) (r : Renderer) (env : FrameEnv) :
    Outcome (VulkanDevice × Renderer) :=
  let k := r.m_currentFrame
  let dev1 := dev.log (.vkWaitForFences (vecAt r.m_inFlightFences k) UINT64_MAX)
  let dev2 := dev1.log (.vkAcquireNextImageKHR r.m_swapChain.m_swapChain
    (vecAt r.m_imageAvailableSemaphores k))
  let r1 := if env.acquireResult = VK_SUCCESS ∨ env.acquireResult = VK_SUBOPTIMAL_KHR then
      { r with m_imageIndex := env.acquiredImageIndex } else r
  if env.acquireResult = VK_ERROR_OUT_OF_DATE_KHR then
    .ok (dev2, r1)
  else if env.acquireResult ≠ VK_SUCCESS ∧ env.acquireResult ≠ VK_SUBOPTIMAL_KHR then
    .thrown (dev2, r1) "Failed to acquire swap chain image!"
  else
    let cb := vecAt r.m_commandBuffers k
    let dev3 := dev2.logAll [.vkResetFences (vecAt r.m_inFlightFences k),
      .vkResetCommandBuffer cb, .vkBeginCommandBuffer cb]
    if env.beginResult ≠ VK_SUCCESS then
      .thrown (dev3, r1) "Failed to begin recording command buffer!"
    else
      .ok (dev3.log (.vkCmdBeginRenderPass cb r.m_renderPass
        (vecAt r.m_framebuffers r1.m_imageIndex) r.m_swapChain.m_swapChainExtent), r1)

/-- Embedding of `Renderer::updateModelUniformBuffer`: the aspect ratio
`width / (float) height` handed to the camera, and the copy into the mapped buffer. -/
def Renderer.updateModelUniformBuffer (r : Renderer) (currentImage : Nat) : List Call :=
  [.setAspectRatio r.m_swapChain.m_swapChainExtent.width r.m_swapChain.m_swapChainExtent.height,
   .memcpy (vecAt r.m_modelUniformBuffersMapped currentImage)]

/-- Embedding of `Renderer::updateGridUniformBuffer`. -/
def Renderer.updateGridUniformBuffer (r : Renderer) (currentImage : Nat) : List Call :=
  [.setAspectRatio r.m_swapChain.m_swapChainExtent.width r.m_swapChain.m_swapChainExtent.height,
   .memcpy (vecAt r.m_gridUniformBuffersMapped currentImage)]

/-- Embedding of `Renderer::updateDescriptorSetForMesh`: its one `vkUpdateDescriptorSets`. -/
def Renderer.updateDescriptorSetForMesh (r : Renderer) (model : Model) (materialIndex : Nat) :
    Call :=
  let textureView := model.getMaterialTextureView materialIndex
  let textureSampler := model.getMaterialTextureSampler materialIndex
  if textureView = VK_NULL_HANDLE ∨ textureSampler = VK_NULL_HANDLE then
    .vkUpdateDescriptorSets (vecAt r.m_modelDescriptorSets r.m_currentFrame) 1
      r.m_defaultTextureImageView r.m_defaultTextureSampler
  else
    .vkUpdateDescriptorSets (vecAt r.m_modelDescriptorSets r.m_currentFrame) 1
      textureView textureSampler

/-- The push constants after the `if (mesh.materialIndex < materials.size())` block of the
mesh loop; `pc` is the value the variable had before this mesh. -/
def meshPushConstants (model : Model) (pc : PushConstants) (mesh : Mesh) : PushConstants :=
  match model.m_materials.get? mesh.materialIndex with
  | some material =>
    { pc with
      materialDiffuse := material.diffuse
      hasTexture := if model.getMaterialTextureView mesh.materialIndex ≠ VK_NULL_HANDLE then 1 else 0 }
  | none => pc

/-- The calls of one iteration of the mesh loop of `Renderer::renderScene`. -/
def Renderer.drawMesh (r : Renderer) (model : Model) (pc : PushConstants) (mesh : Mesh) :
    List Call :=
  let cb := vecAt r.m_commandBuffers r.m_currentFrame
  [.vkCmdPushConstants cb r.m_modelPipelineLayout pc,
   r.updateDescriptorSetForMesh model mesh.materialIndex,
   .vkCmdBindDescriptorSets cb r.m_modelPipelineLayout
     (vecAt r.m_modelDescriptorSets r.m_currentFrame),
   .vkCmdBindVertexBuffers cb mesh.vertexBuffer,
   .vkCmdBindIndexBuffer cb mesh.indexBuffer,
   .vkCmdDrawIndexed cb (static_cast_uint32_t mesh.indices.length) 1]

/-- The mesh loop of `Renderer::renderScene`; the push constants live across iterations. -/
def Renderer.drawMeshes (r : Renderer) (model : Model) : PushConstants → List Mesh → List Call
  | _, [] => []
  | pc, mesh :: rest =>
    r.drawMesh model (meshPushConstants model pc mesh) mesh
      ++ Renderer.drawMeshes r model (meshPushConstants model pc mesh) rest

/-- The body of the model loop of `Renderer::renderScene`; `0.9f` is read as `9/10`. -/
def Renderer.drawModel (r : Renderer) (model : Model) : List Call :=
  r.drawMeshes model
    { PushConstants.zero with
      model := model.m_transform, materialDiffuse := ⟨9 / 10, 9 / 10, 9 / 10⟩, hasTexture := 0 }
    model.m_meshes

/-- The calls `Renderer::renderScene` makes, in order. -/
def Renderer.renderSceneCalls (r : Renderer) (scene : Scene) : List Call :=
  let cb := vecAt r.m_commandBuffers r.m_currentFrame
  [.vkCmdSetViewport cb r.m_swapChain.m_swapChainExtent.width r.m_swapChain.m_swapChainExtent.height,
   .vkCmdSetScissor cb r.m_swapChain.m_swapChainExtent]
  ++ (if scene.m_models.isEmpty then []
      else
        [Call.vkCmdBindPipeline cb r.m_modelPipeline]
        ++ r.updateModelUniformBuffer r.m_currentFrame
        ++ scene.m_models.flatMap r.drawModel)
  ++ r.updateGridUniformBuffer r.m_currentFrame
  ++ [.vkCmdBindPipeline cb r.m_gridPipeline,
      .vkCmdBindDescriptorSets cb r.m_gridPipelineLayout
        (vecAt r.m_gridDescriptorSets r.m_currentFrame),
      .vkCmdDraw cb 6 1]

/-- Embedding of `Renderer::renderScene`. -/
def Renderer.renderScene (dev : VulkanDevice) (r : Renderer) (scene : Scene) :
    VulkanDevice × Renderer :=
  (dev.logAll (r.renderSceneCalls scene), r)

/-- Embedding of `Renderer::endFrame`; `m_currentFrame` is a `size_t`. -/
def Renderer.endFrame (dev : VulkanDevice) (r : Renderer) (env : FrameEnv) :
    Outcome (VulkanDevice × Renderer) :=
  let k := r.m_currentFrame
  let cb := vecAt r.m_commandBuffers k
  let dev1 := dev.logAll [.vkCmdEndRenderPass cb, .vkEndCommandBuffer cb]
  if env.endResult ≠ VK_SUCCESS then
    .thrown (dev1, r) "Failed to record command buffer!"
  else
    let dev2 := dev1.log (.vkQueueSubmit (vecAt r.m_imageAvailableSemaphores k) cb
      (vecAt r.m_renderFinishedSemaphores k) (vecAt r.m_inFlightFences k))
    if env.submitResult ≠ VK_SUCCESS then
      .thrown (dev2, r) "Failed to submit draw command buffer!"
    else
      let dev3 := dev2.log (.vkQueuePresentKHR (vecAt r.m_renderFinishedSemaphores k)
        r.m_swapChain.m_swapChain r.m_imageIndex)
      .ok (dev3, { r with m_currentFrame := ((k + 1) % 2 ^ 64) % MAX_FRAMES_IN_FLIGHT })

/-! ## The application frame (`Application.cpp`, `UI.cpp`) -/

/-- The part of `UI::render` that touches the renderer: the overlay is recorded into
the renderer's current command buffer. -/
def UI.render (dev : VulkanDevice) (r : Renderer) : VulkanDevice :=
  dev.log (.ImGui_ImplVulkan_RenderDrawData (vecAt r.m_commandBuffers r.m_currentFrame))

structure Application where
  m_device : VulkanDevice
  m_renderer : Renderer
  m_scene : Scene
  m_framebufferResized : Bool
  m_windowWidth : Nat
  m_windowHeight : Nat
deriving DecidableEq, Repr

/-- What the outside world answers during one iteration of the main loop. -/
structure LoopEnv where
  resizeEvent : Bool
  framebufferSizes : List (Nat × Nat)
  recreate : RecreateEnv
  frame : FrameEnv
deriving DecidableEq, Repr

/-- The size loop of `Application::render`: the first size reported by
`glfwGetFramebufferSize` with neither side zero; `none` when no such size is reported
(the loop keeps waiting). -/
def awaitFramebufferSize : List (Nat × Nat) → Option (Nat × Nat)
  | [] => none
  | (width, height) :: rest =>
    if width = 0 ∨ height = 0 then awaitFramebufferSize rest else some (width, height)

/-- Embedding of `Application::framebuffer_resize_callback`. -/
def Application.framebuffer_resize_callback (app : Application) : Application :=
  { app with m_framebufferResized := true }

/-- The three calls at the end of `Application::render`: `beginFrame`, `renderScene`,
`UI::render`, `endFrame`. -/
def Application.renderFrame (app : Application) (env : FrameEnv) : Outcome Application :=
  match app.m_renderer.beginFrame app.m_device env with
  | .thrown (dev1, r1) what => .thrown { app with m_device := dev1, m_renderer := r1 } what
  | .ok (dev1, r1) =>
    let (dev2, r2) := r1.renderScene dev1 app.m_scene
    let dev3 := UI.render dev2 r2
    match r2.endFrame dev3 env with
    | .thrown (dev4, r3) what => .thrown { app with m_device := dev4, m_renderer := r3 } what
    | .ok (dev4, r3) => .ok { app with m_device := dev4, m_renderer := r3 }

/-- Embedding of `Application::render`; `none` when the size loop never ends. -/
def Application.render (app : Application) (env : LoopEnv) : Option (Outcome Application) :=
  if app.m_framebufferResized then
    match awaitFramebufferSize env.framebufferSizes with
    | none => none
    | some (width, height) =>
      let app1 := { app with m_windowWidth := width, m_windowHeight := height }
      match app1.m_renderer.recreateSwapChain app1.m_device env.recreate width height with
      | .thrown (dev1, r1) what =>
        some (.thrown { app1 with m_device := dev1, m_renderer := r1 } what)
      | .ok (dev1, r1) =>
        some (Application.renderFrame
          { app1 with m_device := dev1, m_renderer := r1, m_framebufferResized := false } env.frame)
  else
    some (app.renderFrame env.frame)

/-- One iteration of `Application::mainLoop` as far as rendering goes: the window events
(a resize event runs the resize callback), then `render`. -/
def Application.mainLoopIteration (app : Application) (env : LoopEnv) :
    Option (Outcome Application) :=
  (if env.resizeEvent then app.framebuffer_resize_callback else app).render env

/-- The main loop over the given iterations; it stops at the first exception, which
leaves `main`, and at a size loop that never ends. -/
def Application.mainLoop (app : Application) : List LoopEnv → Option (Outcome Application)
  | [] => some (.ok app)
  | env :: rest =>
    match app.mainLoopIteration env with
    | none => none
    | some (.thrown app1 what) => some (.thrown app1 what)
    | some (.ok app1) => Application.mainLoop app1 rest

/-! ## The thumbnail path (`ThumbnailRenderer.cpp`) -/

structure ThumbnailData where
  image : Handle
  imageMemory : Handle
  imageView : Handle
  sampler : Handle
  descriptorSet : Handle
  width : Nat
  height : Nat
  isGenerated : Bool
deriving DecidableEq, Repr

/-- The default member initialisers of `ThumbnailData`. -/
def ThumbnailData.init : ThumbnailData := ⟨0, 0, 0, 0, 0, 512, 512, false⟩

def THUMBNAIL_SIZE : Nat := 1024

/-- The map `m_thumbnails`: at most one entry per name, order irrelevant. -/
abbrev ThumbnailMap := List (String × ThumbnailData)

/-- The value of `m_thumbnails.find(name)`. -/
def ThumbnailMap.find (m : ThumbnailMap) (name : String) : Option ThumbnailData :=
  List.lookup name m

/-- The effect of `m_thumbnails[name] = value`: the entry of `name` is created or replaced. -/
def ThumbnailMap.assign (m : ThumbnailMap) (name : String) (value : ThumbnailData) :
    ThumbnailMap :=
  (name, value) :: m.filter (fun e => e.1 != name)

structure ThumbnailRenderer where
  m_offscreenRenderPass : Handle := VK_NULL_HANDLE
  m_offscreenFramebuffer : Handle := VK_NULL_HANDLE
  m_colorImage : Handle := VK_NULL_HANDLE
  m_colorImageMemory : Handle := VK_NULL_HANDLE
  m_colorImageView : Handle := VK_NULL_HANDLE
  m_depthImage : Handle := VK_NULL_HANDLE
  m_depthImageMemory : Handle := VK_NULL_HANDLE
  m_depthImageView : Handle := VK_NULL_HANDLE
  m_commandPool : Handle := VK_NULL_HANDLE
  m_commandBuffer : Handle := VK_NULL_HANDLE
  m_modelPipeline : Handle := VK_NULL_HANDLE
  m_modelPipelineLayout : Handle := VK_NULL_HANDLE
  m_descriptorSetLayout : Handle := VK_NULL_HANDLE
  m_descriptorPool : Handle := VK_NULL_HANDLE
  m_descriptorSet : Handle := VK_NULL_HANDLE
  m_uniformBuffer : Handle := VK_NULL_HANDLE
  m_uniformBufferMemory : Handle := VK_NULL_HANDLE
  m_uniformBufferMapped : Handle := VK_NULL_HANDLE
  m_thumbnails : ThumbnailMap := []
deriving DecidableEq, Repr

/-- What the driver answers during one `generateThumbnail`. -/
structure ThumbnailEnv where
  createImageOk : Bool
  imageViewResult : VkResult
  samplerResult : VkResult
  beginResult : VkResult
  endResult : VkResult
  createFenceResult : VkResult
  submitResult : VkResult
  waitResult : VkResult
deriving DecidableEq, Repr

/-- Embedding of `ThumbnailRenderer::hasThumbnail`. -/
def ThumbnailRenderer.hasThumbnail (t : ThumbnailRenderer) (modelName : String) : Bool :=
  match t.m_thumbnails.find modelName with
  | some thumbnail => thumbnail.isGenerated
  | none => false

/-- Embedding of `ThumbnailRenderer::getThumbnail` (`none` is the null pointer). -/
def ThumbnailRenderer.getThumbnail (t : ThumbnailRenderer) (modelName : String) :
    Option ThumbnailData :=
  match t.m_thumbnails.find modelName with
  | some thumbnail => if thumbnail.isGenerated then some thumbnail else none
  | none => none

/-- Embedding of `ThumbnailRenderer::createThumbnailTexture`.  The local `thumbnail`
reaches the map only in the last statement; at a `throw` it is dropped, its handles
are not destroyed. -/
def ThumbnailRenderer.createThumbnailTexture (dev : VulkanDevice) (t : ThumbnailRenderer)
    (env : ThumbnailEnv) (modelName : String) : Outcome (VulkanDevice × ThumbnailRenderer) :=
  match dev.createImage env.createImageOk THUMBNAIL_SIZE THUMBNAIL_SIZE with
  | .thrown (dev1, _, _) what => .thrown (dev1, t) what
  | .ok (dev1, image, imageMemory) =>
    let (imageView, dev2) := dev1.fresh
    let dev3 := dev2.log (.vkCreateImageView imageView image)
    if env.imageViewResult ≠ VK_SUCCESS then
      .thrown (dev3, t) "Failed to create thumbnail image view!"
    else
      let (sampler, dev4) := dev3.fresh
      let dev5 := dev4.log (.vkCreateSampler sampler)
      if env.samplerResult ≠ VK_SUCCESS then
        .thrown (dev5, t) "Failed to create thumbnail sampler!"
      else
        let (descriptorSet, dev6) := dev5.fresh
        let dev7 := dev6.log (.ImGui_ImplVulkan_AddTexture descriptorSet sampler imageView)
        let thumbnail : ThumbnailData :=
          { ThumbnailData.init with
            image := image, imageMemory := imageMemory, imageView := imageView,
            sampler := sampler, descriptorSet := descriptorSet,
            width := THUMBNAIL_SIZE, height := THUMBNAIL_SIZE }
        .ok (dev7, { t with m_thumbnails := t.m_thumbnails.assign modelName thumbnail })

/-- The constant `FLT_MAX`. -/
def FLT_MAX : ℚ := 340282346638528859811704183484516925440

structure Bounds where
  minBounds : Vec3
  maxBounds : Vec3
deriving DecidableEq, Repr

/-- The body of the vertex loop of `renderModelToTexture`. -/
def Bounds.addVertex (b : Bounds) (vertex : Vertex) : Bounds :=
  { minBounds := ⟨min b.minBounds.x vertex.pos.x, min b.minBounds.y vertex.pos.y,
                  min b.minBounds.z vertex.pos.z⟩
    maxBounds := ⟨max b.maxBounds.x vertex.pos.x, max b.maxBounds.y vertex.pos.y,
                  max b.maxBounds.z vertex.pos.z⟩ }

/-- The two nested loops of `renderModelToTexture` over the meshes and their vertices,
started at `minBounds(FLT_MAX)`, `maxBounds(-FLT_MAX)`. -/
def computeBounds (meshes : List Mesh) : Bounds :=
  meshes.foldl (fun b mesh => mesh.vertices.foldl Bounds.addVertex b)
    ⟨⟨FLT_MAX, FLT_MAX, FLT_MAX⟩, ⟨-FLT_MAX, -FLT_MAX, -FLT_MAX⟩⟩

/-- The camera `renderModelToTexture` derives from the bounds. -/
structure ThumbnailCamera where
  modelCenter : Vec3
  modelSize : Vec3
  maxDimension : ℚ
  cameraDistance : ℚ
  cameraPos : Vec3
  nearPlane : ℚ
  farPlane : ℚ
deriving DecidableEq, Repr

/-- The camera computation of `renderModelToTexture`: `cameraPos` is the eye and
`modelCenter` the target handed to `glm::lookAt`, `nearPlane` and `farPlane` go to
`glm::perspective`; the constants `0.5f`, `1.8f`, `0.6f`, `0.4f`, `0.8f`, `0.1f` are
read as `1/2`, `9/5`, `3/5`, `2/5`, `4/5`, `1/10`. -/
def thumbnailCamera (meshes : List Mesh) : ThumbnailCamera :=
  let b := computeBounds meshes
  let modelCenter : Vec3 :=
    ⟨(b.minBounds.x + b.maxBounds.x) * (1 / 2), (b.minBounds.y + b.maxBounds.y) * (1 / 2),
     (b.minBounds.z + b.maxBounds.z) * (1 / 2)⟩
  let modelSize : Vec3 :=
    ⟨b.maxBounds.x - b.minBounds.x, b.maxBounds.y - b.minBounds.y,
     b.maxBounds.z - b.minBounds.z⟩
  let maxDimension := max (max modelSize.x modelSize.y) modelSize.z
  let cameraDistance := maxDimension * (9 / 5)
  { modelCenter := modelCenter
    modelSize := modelSize
    maxDimension := maxDimension
    cameraDistance := cameraDistance
    cameraPos := ⟨modelCenter.x + cameraDistance * (3 / 5), modelCenter.y + cameraDistance * (2 / 5),
                  modelCenter.z + cameraDistance * (4 / 5)⟩
    nearPlane := 1 / 10
    farPlane := cameraDistance * 10 }

/-- The draw loop of `renderModelToTexture`. -/
def ThumbnailRenderer.drawMeshes (t : ThumbnailRenderer) (meshes : List Mesh) : List Call :=
  meshes.flatMap (fun mesh =>
    [.vkCmdBindVertexBuffers t.m_commandBuffer mesh.vertexBuffer,
     .vkCmdBindIndexBuffer t.m_commandBuffer mesh.indexBuffer,
     .vkCmdDrawIndexed t.m_commandBuffer (static_cast_uint32_t mesh.indices.length) 1])

/-- Embedding of `ThumbnailRenderer::renderModelToTexture`.  The uniform write is logged
as the `memcpy` into the mapped buffer; the pushed model matrix is the translation by
minus the model centre. -/
def ThumbnailRenderer.renderModelToTexture (dev : VulkanDevice) (t : ThumbnailRenderer)
    (env : ThumbnailEnv) (model : Model) (targetImage : Handle) : Outcome VulkanDevice :=
  let cb := t.m_commandBuffer
  let dev1 := dev.logAll [.vkResetCommandBuffer cb, .vkBeginCommandBuffer cb]
  if env.beginResult ≠ VK_SUCCESS then
    .thrown dev1 "Failed to begin recording thumbnail command buffer!"
  else
    let cam := thumbnailCamera model.m_meshes
    let pushConstants : PushConstants :=
      { PushConstants.zero with
        model := ⟨⟨1, 0, 0, 0⟩, ⟨0, 1, 0, 0⟩, ⟨0, 0, 1, 0⟩,
                  ⟨-cam.modelCenter.x, -cam.modelCenter.y, -cam.modelCenter.z, 1⟩⟩ }
    let dev2 := dev1.logAll
      ([.memcpy t.m_uniformBufferMapped,
        .vkCmdBeginRenderPass cb t.m_offscreenRenderPass t.m_offscreenFramebuffer
          ⟨THUMBNAIL_SIZE, THUMBNAIL_SIZE⟩,
        .vkCmdSetViewport cb THUMBNAIL_SIZE THUMBNAIL_SIZE,
        .vkCmdSetScissor cb ⟨THUMBNAIL_SIZE, THUMBNAIL_SIZE⟩,
        .vkCmdBindPipeline cb t.m_modelPipeline,
        .vkCmdPushConstants cb t.m_modelPipelineLayout pushConstants,
        .vkCmdBindDescriptorSets cb t.m_modelPipelineLayout t.m_descriptorSet]
       ++ t.drawMeshes model.m_meshes
       ++ [.vkCmdEndRenderPass cb]
       ++ (if targetImage ≠ t.m_colorImage then
             [Call.vkCmdPipelineBarrier cb targetImage,
              Call.vkCmdCopyImage cb t.m_colorImage targetImage,
              Call.vkCmdPipelineBarrier cb targetImage]
           else [])
       ++ [.vkEndCommandBuffer cb])
    if env.endResult ≠ VK_SUCCESS then
      .thrown dev2 "Failed to record thumbnail command buffer!"
    else
      let (fence, dev3) := dev2.fresh
      let dev4 := dev3.log (.vkCreateFence fence 0)
      if env.createFenceResult ≠ VK_SUCCESS then
        .thrown dev4 "Failed to create thumbnail fence!"
      else
        let dev5 := dev4.log (.vkQueueSubmit VK_NULL_HANDLE cb VK_NULL_HANDLE fence)
        if env.submitResult ≠ VK_SUCCESS then
          .thrown (dev5.log (.vkDestroyFence fence)) "Failed to submit thumbnail command buffer!"
        else
          let dev6 := dev5.logAll [.vkWaitForFences fence 1000000000, .vkDestroyFence fence]
          if env.waitResult ≠ VK_SUCCESS then
            .thrown dev6 "Thumbnail rendering timed out or failed!"
          else
            .ok dev6

/-- The value of `m_thumbnails[name]->image` (the entry exists at the point of use). -/
def ThumbnailMap.imageOf (m : ThumbnailMap) (name : String) : Handle :=
  match m.find name with
  | some thumbnail => thumbnail.image
  | none => VK_NULL_HANDLE

/-- The effect of `m_thumbnails[name]->isGenerated = true`. -/
def ThumbnailMap.setGenerated (m : ThumbnailMap) (name : String) : ThumbnailMap :=
  m.map (fun e => if e.1 == name then (e.1, { e.2 with isGenerated := true }) else e)

/-- Embedding of `ThumbnailRenderer::generateThumbnail`; `model = none` is the null
pointer.  Every exception of the `try` block is caught and turned into `false`. -/
def ThumbnailRenderer.generateThumbnail (dev : VulkanDevice) (t : ThumbnailRenderer)
    (env : ThumbnailEnv) (model : Option Model) (modelName : String) :
    VulkanDevice × ThumbnailRenderer × Bool :=
  match model with
  | none => (dev, t, false)
  | some m =>
    if t.hasThumbnail modelName then
      (dev, t, false)
    else
      match t.createThumbnailTexture dev env modelName with
      | .thrown (dev1, t1) _ => (dev1, t1, false)
      | .ok (dev1, t1) =>
        match t1.renderModelToTexture dev1 env m (t1.m_thumbnails.imageOf modelName) with
        | .thrown dev2 _ => (dev2, t1, false)
        | .ok dev2 =>
          (dev2, { t1 with m_thumbnails := t1.m_thumbnails.setGenerated modelName }, true)

/-- The calls one pass of the loop of `ThumbnailRenderer::clearThumbnails` makes for an
entry: each of the four handles is destroyed when it is not null. -/
def ThumbnailData.releaseCalls (thumbnail : ThumbnailData) : List Call :=
  (if thumbnail.sampler ≠ VK_NULL_HANDLE then [Call.vkDestroySampler thumbnail.sampler] else [])
  ++ (if thumbnail.imageView ≠ VK_NULL_HANDLE then [Call.vkDestroyImageView thumbnail.imageView]
      else [])
  ++ (if thumbnail.image ≠ VK_NULL_HANDLE then [Call.vkDestroyImage thumbnail.image] else [])
  ++ (if thumbnail.imageMemory ≠ VK_NULL_HANDLE then [Call.vkFreeMemory thumbnail.imageMemory]
      else [])

/-- Embedding of `ThumbnailRenderer::clearThumbnails`: the loop over the entries, then
`m_thumbnails.clear()`. -/
def ThumbnailRenderer.clearThumbnails (dev : VulkanDevice) (t : ThumbnailRenderer) :
    VulkanDevice × ThumbnailRenderer :=
  (dev.logAll (t.m_thumbnails.flatMap (fun pair => pair.2.releaseCalls)),
   { t with m_thumbnails := [] })

/-! ## The fence protocol on the call log -/

/-- The GPU side of a call log, as far as fences and submissions go. -/
structure GpuState where
  signalled : List Handle
  pending : List (Handle × Handle)
  resetWhilePending : List Handle
  blocked : Bool
deriving DecidableEq, Repr

/-- The fence side of the Vulkan driver (an external library) as the renderer relies on
it and the spec describes it ("Fence: a GPU→CPU signal used to know when GPU work has
completed"; the submit is "signaling ... slot k's fence on completion"): the effect of
one call on the fences and on the set of submissions the GPU has not completed, each
kept as (command buffer, fence).  A fence created with the signalled bit starts
signalled; a submit makes its command buffer pending; the fence passed to the submit
becomes signalled when the submission completes; `vkResetFences` unsignals;
`vkWaitForFences` without a timeout (`UINT64_MAX`) returns at once on a signalled fence
and otherwise returns when the submissions guarded by the fence have completed;
`vkDeviceWaitIdle` completes every submission.  The GPU is taken at its slowest: a
submission completes only when the program blocks on it.  `resetWhilePending` collects
the command buffers reset while one of their submissions is pending; `blocked` records a
wait that can never return. -/
def GpuState.step (g : GpuState) : Call → GpuState
  | .vkCreateFence fence flags =>
    if flags = VK_FENCE_CREATE_SIGNALED_BIT then { g with signalled := fence :: g.signalled }
    else g
  | .vkWaitForFences fence timeout =>
    if timeout ≠ UINT64_MAX then g
    else if fence ∈ g.signalled then g
    else if g.pending.any (fun e => e.2 == fence) then
      { g with
        pending := g.pending.filter (fun e => e.2 != fence)
        signalled := fence :: g.signalled }
    else { g with blocked := true }
  | .vkResetFences fence => { g with signalled := g.signalled.filter (fun f => f != fence) }
  | .vkQueueSubmit _ cb _ fence => { g with pending := (cb, fence) :: g.pending }
  | .vkDeviceWaitIdle =>
    { g with pending := [], signalled := g.pending.map (·.2) ++ g.signalled }
  | .vkResetCommandBuffer cb =>
    if g.pending.any (fun e => e.1 == cb) then
      { g with resetWhilePending := cb :: g.resetWhilePending }
    else g
  | _ => g

/-- The GPU side after a whole call log. -/
def gpuRun (calls : List Call) : GpuState :=
  calls.foldl GpuState.step ⟨[], [], [], false⟩

/-- Calls that leave the fences and the pending submissions as they are. -/
def Call.gpuNeutral : Call → Bool
  | .vkCreateFence _ _ => false
  | .vkWaitForFences _ _ => false
  | .vkResetFences _ => false
  | .vkQueueSubmit _ _ _ _ => false
  | .vkDeviceWaitIdle => false
  | .vkResetCommandBuffer _ => false
  | _ => true

/-- The state of the fence protocol between two frames, for the two slots given by their
command buffers and fences: a pending submission belongs to a slot, its fence is then
unsignalled, and a slot without pending submission has its fence signalled. -/
structure SlotInv (g : GpuState) (cbs fences : List Handle) : Prop where
  fences_ne : vecAt fences 0 ≠ vecAt fences 1
  cbs_ne : vecAt cbs 0 ≠ vecAt cbs 1
  pending_slots : ∀ e ∈ g.pending,
    e = (vecAt cbs 0, vecAt fences 0) ∨ e = (vecAt cbs 1, vecAt fences 1)
  pending_unsignalled : ∀ j, j < 2 →
    (vecAt cbs j, vecAt fences j) ∈ g.pending → vecAt fences j ∉ g.signalled
  ready : ∀ j, j < 2 →
    vecAt fences j ∈ g.signalled ∨ (vecAt cbs j, vecAt fences j) ∈ g.pending
  clean : g.resetWhilePending = [] ∧ g.blocked = false

/-! ## Auxiliary notions used in the statements -/

/-- The geometry calls one mesh is expected to get: its own vertex buffer, its own
index buffer, then one indexed draw of its index count (as the `uint32_t` passed). -/
def Renderer.meshGeometry (r : Renderer) (mesh : Mesh) : List Call :=
  [.vkCmdBindVertexBuffers (vecAt r.m_commandBuffers r.m_currentFrame) mesh.vertexBuffer,
   .vkCmdBindIndexBuffer (vecAt r.m_commandBuffers r.m_currentFrame) mesh.indexBuffer,
   .vkCmdDrawIndexed (vecAt r.m_commandBuffers r.m_currentFrame)
     (static_cast_uint32_t mesh.indices.length) 1]

/-- The bounds of a single point. -/
def pointBounds (p : Vec3) : Bounds := ⟨p, p⟩

/-- The images created through `createImage` in a log. -/
def createdImages (calls : List Call) : List Handle :=
  calls.filterMap (fun c => match c with
    | .createImage image _ _ _ => some image
    | _ => none)

/-- The images destroyed in a log. -/
def destroyedImages (calls : List Call) : List Handle :=
  calls.filterMap (fun c => match c with
    | .vkDestroyImage image => some image
    | _ => none)

/-! ## Concrete states and driver answers used in the examples -/

/-- A renderer just before its command buffers and sync objects exist: a swap chain of
three 800x600 images, both pipelines and the per-slot descriptor sets in place. -/
def blankRenderer : Renderer :=
  { m_swapChain := ⟨100, [101, 102, 103], [111, 112, 113], 50, ⟨800, 600⟩, 120, 121, 122⟩
    m_renderPass := 130
    m_framebuffers := [131, 132, 133]
    m_commandBuffers := []
    m_imageAvailableSemaphores := []
    m_renderFinishedSemaphores := []
    m_inFlightFences := []
    m_gridPipeline := 140
    m_gridPipelineLayout := 141
    m_descriptorSetLayout := 144
    m_descriptorPool := 145
    m_gridDescriptorSets := [142, 143]
    m_modelPipeline := 150
    m_modelPipelineLayout := 151
    m_modelDescriptorSets := [152, 153]
    m_modelUniformBuffers := [180, 181]
    m_modelUniformBuffersMemory := [182, 183]
    m_modelUniformBuffersMapped := [160, 161]
    m_gridUniformBuffers := [184, 185]
    m_gridUniformBuffersMemory := [186, 187]
    m_gridUniformBuffersMapped := [162, 163]
    m_defaultTextureImage := 174
    m_defaultTextureImageMemory := 175
    m_defaultTextureImageView := 170
    m_defaultTextureSampler := 171
    m_currentFrame := 0
    m_imageIndex := 0 }

/-- The end of the constructor `Renderer::Renderer` on `blankRenderer`:
`createCommandBuffers`, then `createSyncObjects`, every creation succeeding. -/
def startRenderer : Outcome (VulkanDevice × Renderer) :=
  match blankRenderer.createCommandBuffers ⟨[], 1000⟩ VK_SUCCESS with
  | .ok (dev, r) => r.createSyncObjects dev []
  | .thrown s what => .thrown s what

/-- The application at the first iteration of the main loop, with the given scene. -/
def startApp (scene : Scene) : Application :=
  { m_device := startRenderer.state.1
    m_renderer := startRenderer.state.2
    m_scene := scene
    m_framebufferResized := false
    m_windowWidth := 800
    m_windowHeight := 600 }

def okFrame (imageIndex : Nat) : FrameEnv :=
  ⟨VK_SUCCESS, imageIndex, VK_SUCCESS, VK_SUCCESS, VK_SUCCESS, VK_SUCCESS⟩

def outOfDateFrame : FrameEnv :=
  ⟨VK_ERROR_OUT_OF_DATE_KHR, 0, VK_SUCCESS, VK_SUCCESS, VK_SUCCESS, VK_SUCCESS⟩

/-- Surface support of a windowing system that fixes the extent itself (800x600). -/
def fixedSupport : SwapChainSupportDetails :=
  ⟨⟨2, 0, ⟨800, 600⟩, ⟨1, 1⟩, ⟨4096, 4096⟩⟩, [⟨50, 0⟩], [2]⟩

/-- Surface support of a windowing system that leaves the extent to the swap chain
(`currentExtent` is the sentinel), with extents between 1x1 and 4096x4096. -/
def freeSupport : SwapChainSupportDetails :=
  ⟨⟨2, 0, ⟨UINT32_MAX, UINT32_MAX⟩, ⟨1, 1⟩, ⟨4096, 4096⟩⟩, [⟨50, 0⟩], [2]⟩

/-- Surface support of a minimised window: every extent is 0x0. -/
def minimisedSupport : SwapChainSupportDetails :=
  ⟨⟨2, 0, ⟨0, 0⟩, ⟨0, 0⟩, ⟨0, 0⟩⟩, [⟨50, 0⟩], [2]⟩

/-- Surface support that leaves the extent to the swap chain and allows a 0x0 surface. -/
def freeZeroSupport : SwapChainSupportDetails :=
  ⟨⟨2, 0, ⟨UINT32_MAX, UINT32_MAX⟩, ⟨0, 0⟩, ⟨4096, 4096⟩⟩, [⟨50, 0⟩], [2]⟩

def okRecreate : RecreateEnv := ⟨⟨fixedSupport, VK_SUCCESS, 3, true⟩, [], VK_SUCCESS⟩

def recreateWith (support : SwapChainSupportDetails) : RecreateEnv :=
  ⟨⟨support, VK_SUCCESS, 3, true⟩, [], VK_SUCCESS⟩

/-- A main-loop iteration without a resize event in which every call succeeds. -/
def okLoop (imageIndex : Nat) : LoopEnv := ⟨false, [], okRecreate, okFrame imageIndex⟩

/-- A main-loop iteration without a resize event whose acquire reports out-of-date. -/
def outOfDateLoop : LoopEnv := ⟨false, [], okRecreate, outOfDateFrame⟩

/-- The application state the main loop reaches on the given iterations (the state at
the `throw` when it throws, the start state when the size loop never ends). -/
def afterFrames (app : Application) (envs : List LoopEnv) : Application :=
  match app.mainLoop envs with
  | some out => out.state
  | none => app

/-- A mesh of `2 ^ 32` indices. -/
def hugeMesh : Mesh := ⟨[], List.replicate (2 ^ 32) 0, 0, 7, 9, 8, 10⟩

def hugeScene : Scene := ⟨[⟨Mat4.identity, [hugeMesh], []⟩]⟩

/-- A scene of two models, the first with two meshes (one textured material). -/
def twoModelScene : Scene :=
  ⟨[⟨Mat4.identity,
      [⟨[], [0, 1, 2], 0, 21, 41, 22, 42⟩, ⟨[], [0, 1, 2, 2, 3, 0], 5, 23, 43, 24, 44⟩],
      [⟨⟨1, 0, 0⟩, 35, 36, 31, 32⟩]⟩,
    ⟨Mat4.identity, [⟨[], [0, 1, 2], 0, 25, 45, 26, 46⟩], []⟩]⟩

/-- A model of one triangle. -/
def triangleModel : Model :=
  ⟨Mat4.identity,
   [⟨[⟨⟨0, 0, 0⟩⟩, ⟨⟨1, 0, 0⟩⟩, ⟨⟨0, 1, 0⟩⟩], [0, 1, 2], 0, 21, 41, 22, 42⟩], []⟩

/-- A model whose three vertices all sit at the point (1, 2, 3). -/
def pointModel : Model :=
  ⟨Mat4.identity,
   [⟨[⟨⟨1, 2, 3⟩⟩, ⟨⟨1, 2, 3⟩⟩, ⟨⟨1, 2, 3⟩⟩], [0, 1, 2], 0, 21, 41, 22, 42⟩], []⟩

/-- A thumbnail renderer with its offscreen resources in place and no thumbnails. -/
def startThumbnails : ThumbnailRenderer :=
  { m_offscreenRenderPass := 200, m_offscreenFramebuffer := 201, m_colorImage := 202,
    m_commandBuffer := 203, m_modelPipeline := 204, m_modelPipelineLayout := 205,
    m_descriptorSet := 206, m_uniformBufferMapped := 207, m_thumbnails := [] }

def okThumbnail : ThumbnailEnv :=
  ⟨true, VK_SUCCESS, VK_SUCCESS, VK_SUCCESS, VK_SUCCESS, VK_SUCCESS, VK_SUCCESS, VK_SUCCESS⟩

/-- A generation whose fence wait times out. -/
def timeoutThumbnail : ThumbnailEnv :=
  ⟨true, VK_SUCCESS, VK_SUCCESS, VK_SUCCESS, VK_SUCCESS, VK_SUCCESS, VK_SUCCESS, VK_TIMEOUT⟩

/-- The thumbnail renderer after one successful generation for the name "a". -/
def generatedOnce : VulkanDevice × ThumbnailRenderer × Bool :=
  startThumbnails.generateThumbnail ⟨[], 1⟩ okThumbnail (some triangleModel) "a"

/-- The thumbnail renderer after a generation for "a" whose fence wait timed out. -/
def timedOutOnce : VulkanDevice × ThumbnailRenderer × Bool :=
  startThumbnails.generateThumbnail ⟨[], 1⟩ timeoutThumbnail (some triangleModel) "a"

/-- The second request for "a" after the timed-out one, every call succeeding. -/
def retriedAfterTimeout : VulkanDevice × ThumbnailRenderer × Bool :=
  timedOutOnce.2.1.generateThumbnail timedOutOnce.1 okThumbnail (some triangleModel) "a"

/-- The acquire reporting a suboptimal surface with image 1, every other call succeeding. -/
def suboptimalFrame : FrameEnv :=
  ⟨VK_SUBOPTIMAL_KHR, 1, VK_SUCCESS, VK_SUCCESS, VK_SUCCESS, VK_SUCCESS⟩

/-- The acquire reporting a lost device. -/
def deviceLostFrame : FrameEnv :=
  ⟨VK_ERROR_DEVICE_LOST, 0, VK_SUCCESS, VK_SUCCESS, VK_SUCCESS, VK_SUCCESS⟩

/-- A frame whose queue submit reports a lost device. -/
def submitLostFrame : FrameEnv :=
  ⟨VK_SUCCESS, 0, VK_SUCCESS, VK_SUCCESS, VK_ERROR_DEVICE_LOST, VK_SUCCESS⟩

/-- A frame whose present reports an out-of-date surface. -/
def presentOutOfDateFrame : FrameEnv :=
  ⟨VK_SUCCESS, 0, VK_SUCCESS, VK_SUCCESS, VK_SUCCESS, VK_ERROR_OUT_OF_DATE_KHR⟩

/-- A model with two materials: the first textured (view 31, sampler 32), the second
with a view but no sampler. -/
def twoMaterialModel : Model :=
  ⟨Mat4.identity, [], [⟨⟨1, 0, 0⟩, 35, 36, 31, 32⟩, ⟨⟨0, 1, 0⟩, 37, 38, 33, 0⟩]⟩

/-- Surface formats with the preferred one in third place. -/
def formatsWithPreferred : List VkSurfaceFormatKHR := [⟨44, 0⟩, ⟨50, 7⟩, ⟨50, 0⟩, ⟨37, 0⟩]

/-- Surface formats without the preferred one. -/
def formatsWithoutPreferred : List VkSurfaceFormatKHR := [⟨44, 0⟩, ⟨50, 7⟩, ⟨37, 0⟩]

/-- Capabilities with `minImageCount` 2 and `maxImageCount` 2. -/
def tightCapabilities : VkSurfaceCapabilitiesKHR := ⟨2, 2, ⟨800, 600⟩, ⟨1, 1⟩, ⟨4096, 4096⟩⟩

/-- Every driver answer of one `generateThumbnail` is a success. -/
def ThumbnailEnv.allSucceed (env : ThumbnailEnv) : Bool :=
  env.createImageOk && env.imageViewResult == VK_SUCCESS && env.samplerResult == VK_SUCCESS
    && env.beginResult == VK_SUCCESS && env.endResult == VK_SUCCESS
    && env.createFenceResult == VK_SUCCESS && env.submitResult == VK_SUCCESS
    && env.waitResult == VK_SUCCESS

/-- The calls of a log that release the UI-visible texture handle `descriptorSet`. -/
def removedTextures (calls : List Call) : List Handle :=
  calls.filterMap (fun c => match c with
    | .ImGui_ImplVulkan_RemoveTexture descriptorSet => some descriptorSet
    | _ => none)

/-- The state after `clearThumbnails` on the renderer holding the generated thumbnail "a". -/
def clearedAfterOne : VulkanDevice × ThumbnailRenderer :=
  generatedOnce.2.1.clearThumbnails generatedOnce.1

/-- A sequence of `generateThumbnail` calls made one after the other, each with its model,
its name and the driver answers it meets. -/
def ThumbnailRenderer.generateThumbnails (dev : VulkanDevice) (t : ThumbnailRenderer) :
    List (ThumbnailEnv × Option Model × String) → VulkanDevice × ThumbnailRenderer
  | [] => (dev, t)
  | (env, model, modelName) :: rest =>
    let s := t.generateThumbnail dev env model modelName
    ThumbnailRenderer.generateThumbnails s.1 s.2.1 rest

/-- Every vertex of every mesh, in the order the two loops of `renderModelToTexture`
visit them. -/
def allVertices (meshes : List Mesh) : List Vertex :=
  meshes.flatMap (fun mesh => mesh.vertices)

/-- The three coordinates are finite `float` values: between `-FLT_MAX` and `FLT_MAX`. -/
def Vec3.isFinite (p : Vec3) : Prop :=
  (-FLT_MAX ≤ p.x ∧ p.x ≤ FLT_MAX) ∧ (-FLT_MAX ≤ p.y ∧ p.y ≤ FLT_MAX)
    ∧ (-FLT_MAX ≤ p.z ∧ p.z ≤ FLT_MAX)

/-! ## The bounds loop on `float` values that need not be finite -/

/-- A `float` value as the comparisons in `std::min` and `std::max` see it: a finite
value, one of the two infinities, or a NaN. -/
inductive FloatValue where
  | finite (q : ℚ)
  | posInf
  | negInf
  | nan
deriving DecidableEq, Repr

/-- The comparison `a < b` of two `float` values: false as soon as one of them is a
NaN; minus infinity is below every other value, plus infinity above. -/
def FloatValue.lt : FloatValue → FloatValue → Bool
  | .nan, _ => false
  | _, .nan => false
  | .negInf, .negInf => false
  | .negInf, _ => true
  | _, .negInf => false
  | .posInf, _ => false
  | _, .posInf => true
  | .finite a, .finite b => decide (a < b)

/-- The function `std::min(a, b)`: `b` when `b < a`, else `a`. -/
def std.min (a b : FloatValue) : FloatValue := if b.lt a then b else a

/-- The function `std::max(a, b)`: `b` when `a < b`, else `a`. -/
def std.max (a b : FloatValue) : FloatValue := if a.lt b then b else a

/-- A `glm::vec3` of `float` values. -/
structure FloatVec3 where
  x : FloatValue
  y : FloatValue
  z : FloatValue
deriving DecidableEq, Repr

structure FloatBounds where
  minBounds : FloatVec3
  maxBounds : FloatVec3
deriving DecidableEq, Repr

/-- The body of the vertex loop of `renderModelToTexture`, on the position of the
vertex. -/
def FloatBounds.addVertex (b : FloatBounds) (pos : FloatVec3) : FloatBounds :=
  { minBounds := ⟨std.min b.minBounds.x pos.x, std.min b.minBounds.y pos.y,
                  std.min b.minBounds.z pos.z⟩
    maxBounds := ⟨std.max b.maxBounds.x pos.x, std.max b.maxBounds.y pos.y,
                  std.max b.maxBounds.z pos.z⟩ }

/-- The two nested loops of `renderModelToTexture` over the meshes and their vertices,
started at `minBounds(FLT_MAX)`, `maxBounds(-FLT_MAX)`; a mesh is given by the positions
of its vertices. -/
def computeFloatBounds (meshes : List (List FloatVec3)) : FloatBounds :=
  meshes.foldl (fun b vertices => vertices.foldl FloatBounds.addVertex b)
    ⟨⟨.finite FLT_MAX, .finite FLT_MAX, .finite FLT_MAX⟩,
     ⟨.finite (-FLT_MAX), .finite (-FLT_MAX), .finite (-FLT_MAX)⟩⟩

/-- A position with rational coordinates as a position of `float` values. -/
def Vec3.toFloat (p : Vec3) : FloatVec3 := ⟨.finite p.x, .finite p.y, .finite p.z⟩

/-- Bounds with rational coordinates as bounds of `float` values. -/
def Bounds.toFloat (b : Bounds) : FloatBounds := ⟨b.minBounds.toFloat, b.maxBounds.toFloat⟩

/-- The positions of the vertices of the meshes of a model, as `float` values. -/
def floatPositions (meshes : List Mesh) : List (List FloatVec3) :=
  meshes.map (fun mesh => mesh.vertices.map (fun vertex => vertex.pos.toFloat))

/-- A model of two meshes, with vertices (0,5,-1), (2,-3,4) and (-7,1,1). -/
def twoMeshModel : Model :=
  ⟨Mat4.identity,
   [⟨[⟨⟨0, 5, -1⟩⟩, ⟨⟨2, -3, 4⟩⟩], [0, 1, 0], 0, 21, 41, 22, 42⟩,
    ⟨[], [], 0, 23, 43, 24, 44⟩,
    ⟨[⟨⟨-7, 1, 1⟩⟩], [0, 0, 0], 0, 25, 45, 26, 46⟩], []⟩

/-- The calls that create an image or an image view through the device helpers. -/
def Call.isImageSetup : Call → Bool
  | .createImage _ _ _ _ => true
  | .createImageView _ _ => true
  | _ => false

/-- The members of the renderer that do not depend on the extent: the frame-sync
semaphores and fences, both pipelines with their layouts, the descriptor sets of both
pipelines and the current slot index. -/
def Renderer.extentIndependent (r : Renderer) :
    List Handle × List Handle × List Handle × Handle × Handle × List Handle × Handle × Handle
      × List Handle × Nat :=
  (r.m_imageAvailableSemaphores, r.m_renderFinishedSemaphores, r.m_inFlightFences,
   r.m_gridPipeline, r.m_gridPipelineLayout, r.m_gridDescriptorSets,
   r.m_modelPipeline, r.m_modelPipelineLayout, r.m_modelDescriptorSets, r.m_currentFrame)

/-- Every driver answer during `recreateSwapChain` is a success. -/
def RecreateEnv.allSucceed (env : RecreateEnv) : Bool :=
  env.swapChain.createResult == VK_SUCCESS && env.swapChain.depthImageOk
    && env.framebufferResults.all (fun res => res == VK_SUCCESS)
    && env.allocateResult == VK_SUCCESS

/-- The state `recreateSwapChain(1024, 768)` reaches from `startRenderer` on a surface
that leaves the extent to the swap chain. -/
def resizedRenderer : Outcome (VulkanDevice × Renderer) :=
  startRenderer.state.2.recreateSwapChain startRenderer.state.1 (recreateWith freeSupport)
    1024 768

/-! ## The OBJ loader (`Model::loadOBJ`, `Model.cpp`) -/

/-- The variables of `Model::loadOBJ` a face line reads or writes: the positions read so
far, the vertices and indices collected so far, and the map `uniqueVertices` from a
reference string to the index of its vertex. -/
structure ObjState where
  positions : List Vec3
  vertices : List Vertex
  indices : List Nat
  uniqueVertices : List (String × Nat)
deriving DecidableEq, Repr

/-- How the handling of one face line ends: it completes; `std::stoi` throws (the
exception leaves `loadOBJ`); or `faceVertices[idx]` is read with `idx` outside the
vector. -/
inductive FaceResult where
  | done (s : ObjState)
  | threw (s : ObjState)
  | outOfRange (s : ObjState) (idx : Nat)
deriving DecidableEq, Repr

/-- The vertex built for a reference `pos/tex/normal` seen for the first time; `stoi` is
`std::stoi` (`none` when it throws).  `none`: one of the `std::stoi` calls threw. -/
def parseFaceVertex (stoi : String → Option Int) (positions : List Vec3) (vertex : String) :
    Option Vertex :=
  let parts := vertex.splitOn "/"
  let posStr := parts.getD 0 ""
  let texStr := parts.getD 1 ""
  let normalStr := parts.getD 2 ""
  match stoi posStr with
  | none => none
  | some n =>
    let posIdx := n - 1
    let pos : Vec3 :=
      if 0 ≤ posIdx ∧ posIdx < positions.length then positions.getD posIdx.toNat ⟨0, 0, 0⟩
      else ⟨0, 0, 0⟩
    if texStr ≠ "" ∧ stoi texStr = none then none
    else if normalStr ≠ "" ∧ stoi normalStr = none then none
    else some ⟨pos⟩

/-- The body of the `j` loop of `Model::loadOBJ` once `vertex = faceVertices[idx]` is
read: a reference not yet in `uniqueVertices` gets the index
`static_cast<uint32_t>(vertices.size())` and its vertex is appended; then the index of
the reference is appended to `indices`. -/
def addFaceVertex (stoi : String → Option Int) (s : ObjState) (vertex : String) : FaceResult :=
  match s.uniqueVertices.lookup vertex with
  | some index => .done { s with indices := s.indices ++ [index] }
  | none =>
    let index := static_cast_uint32_t s.vertices.length
    let s1 := { s with uniqueVertices := (vertex, index) :: s.uniqueVertices }
    match parseFaceVertex stoi s.positions vertex with
    | none => .threw s1
    | some v => .done { s1 with vertices := s1.vertices ++ [v], indices := s1.indices ++ [index] }

/-- The `j` loop of `Model::loadOBJ` over the element indices `idx` it reads. -/
def addFaceCorners (stoi : String → Option Int) (faceVertices : List String) :
    List Nat → ObjState → FaceResult
  | [], s => .done s
  | idx :: rest, s =>
    match faceVertices.get? idx with
    | none => .outOfRange s idx
    | some vertex =>
      match addFaceVertex stoi s vertex with
      | .done s1 => addFaceCorners stoi faceVertices rest s1
      | r => r

/-- The `i` loop of `Model::loadOBJ` from `i` on, with the number of iterations still to
run; the inner loop reads the elements `0`, `i`, `i + 1` (`size_t` arithmetic). -/
def faceLoop (stoi : String → Option Int) (faceVertices : List String) :
    Nat → Nat → ObjState → FaceResult
  | 0, _, s => .done s
  | n + 1, i, s =>
    match addFaceCorners stoi faceVertices [0, i, (i + 1) % 2 ^ 64] s with
    | .done s1 => faceLoop stoi faceVertices n (i + 1) s1
    | r => r

/-- The handling of one `f` line by `Model::loadOBJ`, `faceVertices` being the references
read from the line.  The loop `for (size_t i = 1; i < faceVertices.size() - 1; i++)` runs
for `i = 1, ..., bound - 1` with `bound = faceVertices.size() - 1` in `size_t`
arithmetic. -/
def processFaceLine (stoi : String → Option Int) (faceVertices : List String) (s : ObjState) :
    FaceResult :=
  let bound := (faceVertices.length + 2 ^ 64 - 1) % 2 ^ 64
  faceLoop stoi faceVertices (bound - 1) 1 s

/-- The index `uniqueVertices` gives to the reference at place `idx` of a face line. -/
def refIndex (s : ObjState) (faceVertices : List String) (idx : Nat) : Option Nat :=
  (faceVertices.get? idx).bind (fun vertex => s.uniqueVertices.lookup vertex)

/-- Every index in `uniqueVertices` and in `indices` is below the number of vertices. -/
def ObjState.IndexInv (s : ObjState) : Prop :=
  (∀ e ∈ s.uniqueVertices, e.2 < s.vertices.length) ∧ (∀ x ∈ s.indices, x < s.vertices.length)

/-- The state at the first line of a file. -/
def ObjState.start : ObjState := ⟨[], [], [], []⟩

/-- Every entry of the first map is an entry of the second. -/
def ObjState.Extends (s s1 : ObjState) : Prop :=
  ∀ key v, s.uniqueVertices.lookup key = some v → s1.uniqueVertices.lookup key = some v

/-! ## The scene (`Scene.cpp`) and the `glm` transforms it uses -/

def Vec4.smul (a : ℚ) (v : Vec4) : Vec4 := ⟨a * v.x, a * v.y, a * v.z, a * v.w⟩

def Vec4.add (u v : Vec4) : Vec4 := ⟨u.x + v.x, u.y + v.y, u.z + v.z, u.w + v.w⟩

/-- The value of `glm::translate(m, v)`: the last column becomes
`m[0] * v[0] + m[1] * v[1] + m[2] * v[2] + m[3]`. -/
def glm.translate (m : Mat4) (v : Vec3) : Mat4 :=
  { m with
    c3 := Vec4.add (Vec4.add (Vec4.add (Vec4.smul v.x m.c0) (Vec4.smul v.y m.c1))
            (Vec4.smul v.z m.c2)) m.c3 }

/-- The value of `glm::scale(m, v)`: the first three columns are scaled. -/
def glm.scale (m : Mat4) (v : Vec3) : Mat4 :=
  { c0 := Vec4.smul v.x m.c0, c1 := Vec4.smul v.y m.c1, c2 := Vec4.smul v.z m.c2, c3 := m.c3 }

/-- The value of converting an unsigned `n` to `int` (32 bits, two's complement). -/
def static_cast_int (n : Nat) : Int := (((n + 2 ^ 31) % 2 ^ 32 : Nat) : Int) - 2 ^ 31

/-- Embedding of `Scene::addModel`; `/` and `%` on `int` truncate, `5.0f` and `0.1f` are
read as `5` and `1/10`. -/
def Scene.addModel (scene : Scene) (model : Model) : Scene :=
  let currentTransform := model.m_transform
  let isIdentityTransform : Bool := currentTransform == Mat4.identity
  if isIdentityTransform then
    let modelCount : Int := static_cast_int scene.m_models.length
    let spacing : ℚ := 5
    let gridSize : Int := 3
    let row : Int := Int.tdiv modelCount gridSize
    let col : Int := Int.tmod modelCount gridSize
    let position : Vec3 :=
      ⟨((col - Int.tdiv gridSize 2 : Int) : ℚ) * spacing, 0,
       ((row - Int.tdiv gridSize 2 : Int) : ℚ) * spacing⟩
    let transform := glm.scale (glm.translate Mat4.identity position) ⟨1 / 10, 1 / 10, 1 / 10⟩
    { scene with m_models := scene.m_models ++ [{ model with m_transform := transform }] }
  else
    { scene with m_models := scene.m_models ++ [model] }

/-- Embedding of `Scene::removeModel`. -/
def Scene.removeModel (scene : Scene) (index : Int) : Scene :=
  if 0 ≤ index ∧ index < static_cast_int scene.m_models.length then
    { scene with m_models := scene.m_models.eraseIdx index.toNat }
  else
    scene

/-- Embedding of `Scene::clearModels`. -/
def Scene.clearModels (scene : Scene) : Scene :=
  { scene with m_models := [] }

/-- The models added one after the other. -/
def Scene.addModels (scene : Scene) (models : List Model) : Scene :=
  models.foldl Scene.addModel scene

/-- The transform of the claim for the model added as number `n`: the translation
(((n mod 3) - 1) * 5, 0, ((n div 3) - 1) * 5) with uniform scale 0.1. -/
def gridTransformSpec (n : Nat) : Mat4 :=
  ⟨⟨1 / 10, 0, 0, 0⟩, ⟨0, 1 / 10, 0, 0⟩, ⟨0, 0, 1 / 10, 0⟩,
   ⟨(((n % 3 : Nat) : ℚ) - 1) * 5, 0, (((n / 3 : Nat) : ℚ) - 1) * 5, 1⟩⟩

/-- The translation part of a transform. -/
def Mat4.translation (m : Mat4) : Vec3 := ⟨m.c3.x, m.c3.y, m.c3.z⟩

/-- Two models are added, the first is removed, a third is added; all three come with the
identity transform. -/
def sceneAfterRemoval : Scene :=
  ((((Scene.mk []).addModel triangleModel).addModel pointModel).removeModel 0).addModel
    twoMeshModel

/-- The place `m * vec4(p, 1)` a point gets under a transform (first three components). -/
def Mat4.transformPoint (m : Mat4) (p : Vec3) : Vec3 :=
  ⟨m.c0.x * p.x + m.c1.x * p.y + m.c2.x * p.z + m.c3.x,
   m.c0.y * p.x + m.c1.y * p.y + m.c2.y * p.z + m.c3.y,
   m.c0.z * p.x + m.c1.z * p.y + m.c2.z * p.z + m.c3.z⟩

/-- The model matrix `renderModelToTexture` pushes:
`glm::translate(glm::mat4(1.0f), -modelCenter)`. -/
def thumbnailModelMatrix (meshes : List Mesh) : Mat4 :=
  glm.translate Mat4.identity
    ⟨-(thumbnailCamera meshes).modelCenter.x, -(thumbnailCamera meshes).modelCenter.y,
     -(thumbnailCamera meshes).modelCenter.z⟩

/-- The `center` argument of the `glm::lookAt` call of `renderModelToTexture`. -/
def thumbnailLookAtTarget (meshes : List Mesh) : Vec3 :=
  (thumbnailCamera meshes).modelCenter

def Vec3.sub (u v : Vec3) : Vec3 := ⟨u.x - v.x, u.y - v.y, u.z - v.z⟩

def Vec3.dot (u v : Vec3) : ℚ := u.x * v.x + u.y * v.y + u.z * v.z

/-- A point lies beyond the far plane of a camera at `eye` looking at `target`: its
depth along the viewing direction exceeds `far` (stated without the square root). -/
def beyondFarPlane (eye target : Vec3) (far : ℚ) (p : Vec3) : Prop :=
  0 < Vec3.dot (Vec3.sub p eye) (Vec3.sub target eye)
  ∧ far ^ 2 * Vec3.dot (Vec3.sub target eye) (Vec3.sub target eye)
      < Vec3.dot (Vec3.sub p eye) (Vec3.sub target eye) ^ 2

/-- A triangle away from the origin: vertices (100,0,0), (101,0,0), (100,1,0). -/
def offsetModel : Model :=
  ⟨Mat4.identity,
   [⟨[⟨⟨100, 0, 0⟩⟩, ⟨⟨101, 0, 0⟩⟩, ⟨⟨100, 1, 0⟩⟩], [0, 1, 2], 0, 21, 41, 22, 42⟩], []⟩

/-- The image write a call makes to a descriptor set: set, binding, view, sampler. -/
def Call.descriptorWrite : Call → Option (Handle × Nat × Handle × Handle)
  | .vkUpdateDescriptorSets dstSet dstBinding imageView sampler =>
    some (dstSet, dstBinding, imageView, sampler)
  | _ => none

/-- The (view, sampler) pair a binding of a descriptor set holds after a log: the pair of
the last write to it. -/
def descriptorContents (calls : List Call) (set : Handle) (binding : Nat) :
    Option (Handle × Handle) :=
  (((calls.filterMap Call.descriptorWrite).filter
      (fun w => w.1 == set && w.2.1 == binding)).getLast?).map (fun w => w.2.2)

/-- The descriptor set a call binds: command buffer, pipeline layout, set. -/
def Call.descriptorBind : Call → Option (Handle × Handle × Handle)
  | .vkCmdBindDescriptorSets cb layout set => some (cb, layout, set)
  | _ => none

/-- The push constants a call sends. -/
def Call.pushConstants : Call → Option PushConstants
  | .vkCmdPushConstants _ _ pc => some pc
  | _ => none

/-- The meshes `renderScene` draws, in order, each with its model. -/
def Scene.drawnMeshes (scene : Scene) : List (Model × Mesh) :=
  scene.m_models.flatMap (fun model => model.m_meshes.map (fun mesh => (model, mesh)))

/-- The (view, sampler) pair `updateDescriptorSetForMesh` writes for a mesh. -/
def Renderer.writtenPair (r : Renderer) (model : Model) (mesh : Mesh) : Handle × Handle :=
  match (r.updateDescriptorSetForMesh model mesh.materialIndex).descriptorWrite with
  | some w => w.2.2
  | none => (VK_NULL_HANDLE, VK_NULL_HANDLE)

/-- A scene of one model with two textured materials (views 31 and 71) and one mesh for
each. -/
def twoTextureScene : Scene :=
  ⟨[⟨Mat4.identity,
     [⟨[], [0, 1, 2], 0, 21, 41, 22, 42⟩, ⟨[], [0, 1, 2], 1, 23, 43, 24, 44⟩],
     [⟨⟨1, 0, 0⟩, 35, 36, 31, 32⟩, ⟨⟨0, 1, 0⟩, 75, 76, 71, 72⟩]⟩]⟩

/-- A model whose second mesh names a material that does not exist (index 5), after a
first mesh with the textured red material 0. -/
def staleMaterialModel : Model :=
  ⟨Mat4.identity,
   [⟨[], [0, 1, 2], 0, 21, 41, 22, 42⟩, ⟨[], [0, 1, 2, 2, 3, 0], 5, 23, 43, 24, 44⟩],
   [⟨⟨1, 0, 0⟩, 35, 36, 31, 32⟩]⟩

/-- A model whose only material has a texture view (33) but no sampler. -/
def viewOnlyModel : Model :=
  ⟨Mat4.identity, [⟨[], [0, 1, 2], 0, 21, 41, 22, 42⟩], [⟨⟨0, 1, 0⟩, 37, 38, 33, 0⟩]⟩

/-- The push constants the mesh loop of `renderScene` sends, one per mesh in order; `pc`
is the value of the variable `pushConstants` before the first of these meshes. -/
def pushConstantsSent (model : Model) : PushConstants → List Mesh → List PushConstants
  | _, [] => []
  | pc, mesh :: rest =>
    meshPushConstants model pc mesh
      :: pushConstantsSent model (meshPushConstants model pc mesh) rest

/-! ## Releasing a model (`Model::cleanup`, `Model.cpp`) -/

/-- The calls one pass of the mesh loop of `Model::cleanup` makes: each of the four
handles of the mesh is released when it is not null. -/
def Mesh.cleanupCalls (mesh : Mesh) : List Call :=
  (if mesh.vertexBuffer ≠ VK_NULL_HANDLE then [Call.resource (.vkDestroyBuffer mesh.vertexBuffer)]
   else [])
  ++ (if mesh.vertexBufferMemory ≠ VK_NULL_HANDLE then [Call.vkFreeMemory mesh.vertexBufferMemory]
      else [])
  ++ (if mesh.indexBuffer ≠ VK_NULL_HANDLE then [Call.resource (.vkDestroyBuffer mesh.indexBuffer)]
      else [])
  ++ (if mesh.indexBufferMemory ≠ VK_NULL_HANDLE then [Call.vkFreeMemory mesh.indexBufferMemory]
      else [])

/-- Embedding of `Model::cleanup`: the loop over the meshes, then `m_meshes.clear()` and
`m_materials.clear()`. -/
def Model.cleanup (dev : VulkanDevice) (model : Model) : VulkanDevice × Model :=
  (dev.logAll (model.m_meshes.flatMap Mesh.cleanupCalls),
   { model with m_meshes := [], m_materials := [] })

/-- The calls that release an image, an image view or a sampler. -/
def Call.isTextureRelease : Call → Bool
  | .vkDestroyImage _ => true
  | .vkDestroyImageView _ => true
  | .vkDestroySampler _ => true
  | _ => false

/-- The memory a call frees. -/
def Call.freedMemory : Call → Option Handle
  | .vkFreeMemory memory => some memory
  | _ => none

/-! ## Construction and teardown of the renderer (`Renderer.cpp`, `ThumbnailRenderer.cpp`) -/

/-- Modelled from the spec: `VulkanDevice::createBuffer` (its body is not part of the
sources), "createBuffer/createImage(size, usage, memProps) -> handle+memory"; `ok = false`
is a failed creation, which throws. -/
def VulkanDevice.createBuffer (dev : VulkanDevice) (ok : Bool) :
    Outcome (VulkanDevice × Handle × Handle) :=
  if ok then
    let (buffer, dev1) := dev.fresh
    let (memory, dev2) := dev1.fresh
    .ok (dev2.log (.resource (.createBuffer buffer memory)), buffer, memory)
  else
    .thrown (dev, VK_NULL_HANDLE, VK_NULL_HANDLE) "failed to create buffer!"

/-- Modelled from the spec: `VulkanDevice::beginSingleTimeCommands` (its body is not part
of the sources), the opening of a "scoped synchronous command submission": it hands out
the command buffer of the scope. -/
def VulkanDevice.beginSingleTimeCommands (dev : VulkanDevice) : Handle × VulkanDevice :=
  let (cb, dev1) := dev.fresh
  (cb, dev1.log (.resource (.beginSingleTimeCommands cb)))

/-- Modelled from the spec: `VulkanDevice::endSingleTimeCommands` (its body is not part of
the sources), the end of the scope. -/
def VulkanDevice.endSingleTimeCommands (dev : VulkanDevice) (cb : Handle) : VulkanDevice :=
  dev.log (.resource (.endSingleTimeCommands cb))

/-- A `vkCreate*` call whose result the caller compares with `VK_SUCCESS`: the call is
logged with the handle it hands out, any other result makes the caller throw `what`. -/
def VulkanDevice.vkCreate (dev : VulkanDevice) (result : VkResult) (call : Handle → Call)
    (what : String) : Outcome (VulkanDevice × Handle) :=
  let (h, dev1) := dev.fresh
  let dev2 := dev1.log (call h)
  if result ≠ VK_SUCCESS then .thrown (dev2, VK_NULL_HANDLE) what else .ok (dev2, h)

/-- The call `vkMapMemory`, whose result the program never looks at: the address the
memory is mapped at. -/
def VulkanDevice.vkMapMemory (dev : VulkanDevice) (memory : Handle) : Handle × VulkanDevice :=
  let (mapped, dev1) := dev.fresh
  (mapped, dev1.log (.resource (.vkMapMemory memory mapped)))

/-- Embedding of `Renderer::createRenderPass`. -/
def Renderer.createRenderPass (dev : VulkanDevice) (r : Renderer) (result : VkResult) :
    Outcome (VulkanDevice × Renderer) :=
  match dev.vkCreate result (fun h => .resource (.vkCreateRenderPass h))
      "Failed to create render pass!" with
  | .thrown (dev1, _) what => .thrown (dev1, r) what
  | .ok (dev1, renderPass) => .ok (dev1, { r with m_renderPass := renderPass })

/-- The loop of `Renderer::createUniformBuffers` from slot `i` on: per slot the model
buffer is created and its memory mapped, then the grid buffer; `oks` holds, per
`createBuffer` still to come, whether it succeeds (a missing one does). -/
def createUniformBuffersLoop :
    Nat → List Bool → Nat → VulkanDevice → Renderer → Outcome (VulkanDevice × Renderer)
  | 0, _, _, dev, r => .ok (dev, r)
  | n + 1, oks, i, dev, r =>
    match dev.createBuffer (oks.headD true) with
    | .thrown (dev1, _, _) what => .thrown (dev1, r) what
    | .ok (dev1, buffer, memory) =>
      let (mapped, dev2) := dev1.vkMapMemory memory
      let r1 := { r with
        m_modelUniformBuffers := r.m_modelUniformBuffers.set i buffer
        m_modelUniformBuffersMemory := r.m_modelUniformBuffersMemory.set i memory
        m_modelUniformBuffersMapped := r.m_modelUniformBuffersMapped.set i mapped }
      match dev2.createBuffer (oks.tail.headD true) with
      | .thrown (dev3, _, _) what => .thrown (dev3, r1) what
      | .ok (dev3, gridBuffer, gridMemory) =>
        let (gridMapped, dev4) := dev3.vkMapMemory gridMemory
        createUniformBuffersLoop n oks.tail.tail (i + 1) dev4
          { r1 with
            m_gridUniformBuffers := r1.m_gridUniformBuffers.set i gridBuffer
            m_gridUniformBuffersMemory := r1.m_gridUniformBuffersMemory.set i gridMemory
            m_gridUniformBuffersMapped := r1.m_gridUniformBuffersMapped.set i gridMapped }

/-- Embedding of `Renderer::createUniformBuffers`. -/
def Renderer.createUniformBuffers (dev : VulkanDevice) (r : Renderer) (oks : List Bool) :
    Outcome (VulkanDevice × Renderer) :=
  createUniformBuffersLoop MAX_FRAMES_IN_FLIGHT oks 0 dev
    { r with
      m_modelUniformBuffers := vecResize r.m_modelUniformBuffers MAX_FRAMES_IN_FLIGHT
      m_modelUniformBuffersMemory := vecResize r.m_modelUniformBuffersMemory MAX_FRAMES_IN_FLIGHT
      m_modelUniformBuffersMapped := vecResize r.m_modelUniformBuffersMapped MAX_FRAMES_IN_FLIGHT
      m_gridUniformBuffers := vecResize r.m_gridUniformBuffers MAX_FRAMES_IN_FLIGHT
      m_gridUniformBuffersMemory := vecResize r.m_gridUniformBuffersMemory MAX_FRAMES_IN_FLIGHT
      m_gridUniformBuffersMapped := vecResize r.m_gridUniformBuffersMapped MAX_FRAMES_IN_FLIGHT }

/-- What the driver answers during `Renderer::createDefaultTexture`. -/
structure DefaultTextureEnv where
  stagingBufferOk : Bool
  imageOk : Bool
  viewResult : VkResult
  samplerResult : VkResult
deriving DecidableEq, Repr

/-- Embedding of `Renderer::createDefaultTexture`: the white 1x1 pixel goes through a
staging buffer into the image, then the view and the sampler are created. -/
def Renderer.createDefaultTexture (dev : VulkanDevice) (r : Renderer) (env : DefaultTextureEnv) :
    Outcome (VulkanDevice × Renderer) :=
  match dev.createBuffer env.stagingBufferOk with
  | .thrown (dev1, _, _) what => .thrown (dev1, r) what
  | .ok (dev1, stagingBuffer, stagingBufferMemory) =>
    let (data, dev2) := dev1.vkMapMemory stagingBufferMemory
    let dev3 := dev2.logAll [.memcpy data, .resource (.vkUnmapMemory stagingBufferMemory)]
    match dev3.createImage env.imageOk 1 1 with
    | .thrown (dev4, _, _) what => .thrown (dev4, r) what
    | .ok (dev4, image, memory) =>
      let r1 := { r with m_defaultTextureImage := image, m_defaultTextureImageMemory := memory }
      let (commandBuffer, dev5) := dev4.beginSingleTimeCommands
      let dev6 := dev5.logAll [.vkCmdPipelineBarrier commandBuffer image,
        .resource (.vkCmdCopyBufferToImage commandBuffer stagingBuffer image),
        .vkCmdPipelineBarrier commandBuffer image]
      let dev7 := (dev6.endSingleTimeCommands commandBuffer).logAll
        [.resource (.vkDestroyBuffer stagingBuffer), .vkFreeMemory stagingBufferMemory]
      match dev7.vkCreate env.viewResult (fun view => .vkCreateImageView view image)
          "failed to create default texture image view!" with
      | .thrown (dev8, _) what => .thrown (dev8, r1) what
      | .ok (dev8, view) =>
        let r2 := { r1 with m_defaultTextureImageView := view }
        match dev8.vkCreate env.samplerResult Call.vkCreateSampler
            "failed to create default texture sampler!" with
        | .thrown (dev9, _) what => .thrown (dev9, r2) what
        | .ok (dev9, sampler) => .ok (dev9, { r2 with m_defaultTextureSampler := sampler })

/-- What the driver answers to the creation of a descriptor set layout, of a descriptor
pool, and to the allocation of the sets. -/
structure DescriptorEnv where
  layoutResult : VkResult
  poolResult : VkResult
  allocateResult : VkResult
deriving DecidableEq, Repr

/-- What the file system and the driver answer while a pipeline is built: whether the two
shader files open, and the results of the two shader modules, of the pipeline layout and
of the pipeline. -/
structure ShaderEnv where
  vertFileOpens : Bool
  fragFileOpens : Bool
  vertModuleResult : VkResult
  fragModuleResult : VkResult
  layoutResult : VkResult
  pipelineResult : VkResult
deriving DecidableEq, Repr

/-- Embedding of `Renderer::readFile` (and of `ThumbnailRenderer::readFile`, whose message
names the file): a file that does not open throws `what`. -/
def readFile (dev : VulkanDevice) (filename : String) (opens : Bool) (what : String) :
    Outcome VulkanDevice :=
  let dev1 := dev.log (.resource (.readFile filename))
  if opens then .ok dev1 else .thrown dev1 what

/-- Embedding of `Renderer::createShaderModule` (and of
`ThumbnailRenderer::createShaderModule`, which is the same text). -/
def createShaderModule (dev : VulkanDevice) (result : VkResult) :
    Outcome (VulkanDevice × Handle) :=
  dev.vkCreate result (fun h => .resource (.vkCreateShaderModule h))
    "failed to create shader module!"

/-- The opening of the shader part of a pipeline function: both files are read, then both
modules created; the result holds the vertex and the fragment module. -/
def loadShaders (dev : VulkanDevice) (vert frag : String) (env : ShaderEnv)
    (whatVert whatFrag : String) : Outcome (VulkanDevice × Handle × Handle) :=
  match readFile dev vert env.vertFileOpens whatVert with
  | .thrown dev1 what => .thrown (dev1, VK_NULL_HANDLE, VK_NULL_HANDLE) what
  | .ok dev1 =>
    match readFile dev1 frag env.fragFileOpens whatFrag with
    | .thrown dev2 what => .thrown (dev2, VK_NULL_HANDLE, VK_NULL_HANDLE) what
    | .ok dev2 =>
      match createShaderModule dev2 env.vertModuleResult with
      | .thrown (dev3, _) what => .thrown (dev3, VK_NULL_HANDLE, VK_NULL_HANDLE) what
      | .ok (dev3, vertShaderModule) =>
        match createShaderModule dev3 env.fragModuleResult with
        | .thrown (dev4, _) what => .thrown (dev4, vertShaderModule, VK_NULL_HANDLE) what
        | .ok (dev4, fragShaderModule) => .ok (dev4, vertShaderModule, fragShaderModule)

/-- The two writes `createGridPipeline` makes per descriptor set: the uniform buffer at
binding 0, the default texture at binding 1. -/
def Renderer.initialWrites (r : Renderer) (sets buffers : List Handle) : List Call :=
  (List.range MAX_FRAMES_IN_FLIGHT).flatMap (fun i =>
    [Call.resource (.vkUpdateDescriptorSetsBuffer (vecAt sets i) 0 (vecAt buffers i)),
     Call.vkUpdateDescriptorSets (vecAt sets i) 1 r.m_defaultTextureImageView
       r.m_defaultTextureSampler])

/-- Embedding of `Renderer::createGridPipeline`: the descriptor set layout, the pool, the
four sets (the first two for the model pipeline, the last two for the grid pipeline) and
their first writes, then the grid pipeline. -/
def Renderer.createGridPipeline (dev : VulkanDevice) (r : Renderer) (denv : DescriptorEnv)
    (env : ShaderEnv) : Outcome (VulkanDevice × Renderer) :=
  match dev.vkCreate denv.layoutResult (fun h => .resource (.vkCreateDescriptorSetLayout h))
      "failed to create descriptor set layout!" with
  | .thrown (dev1, _) what => .thrown (dev1, r) what
  | .ok (dev1, setLayout) =>
    let r1 := { r with m_descriptorSetLayout := setLayout }
    match dev1.vkCreate denv.poolResult (fun h => .resource (.vkCreateDescriptorPool h))
        "failed to create descriptor pool!" with
    | .thrown (dev2, _) what => .thrown (dev2, r1) what
    | .ok (dev2, pool) =>
      let r2 := { r1 with m_descriptorPool := pool }
      if denv.allocateResult ≠ VK_SUCCESS then
        .thrown (dev2.log (.resource (.vkAllocateDescriptorSets pool [])), r2)
          "failed to allocate descriptor sets!"
      else
        let (allDescriptorSets, dev3) := dev2.freshN (MAX_FRAMES_IN_FLIGHT * 2)
        let dev4 := dev3.log (.resource (.vkAllocateDescriptorSets pool allDescriptorSets))
        let r3 := { r2 with
          m_modelDescriptorSets :=
            (List.range MAX_FRAMES_IN_FLIGHT).map (fun i => vecAt allDescriptorSets i)
          m_gridDescriptorSets :=
            (List.range MAX_FRAMES_IN_FLIGHT).map
              (fun i => vecAt allDescriptorSets (i + MAX_FRAMES_IN_FLIGHT)) }
        let dev5 := dev4.logAll
          (r3.initialWrites r3.m_modelDescriptorSets r3.m_modelUniformBuffers
            ++ r3.initialWrites r3.m_gridDescriptorSets r3.m_gridUniformBuffers)
        match loadShaders dev5 "shaders/grid_vert.spv" "shaders/grid_frag.spv" env
            "failed to open file!" "failed to open file!" with
        | .thrown (dev6, _, _) what => .thrown (dev6, r3) what
        | .ok (dev6, vertShaderModule, fragShaderModule) =>
          match dev6.vkCreate env.layoutResult
              (fun h => .resource (.vkCreatePipelineLayout h r3.m_descriptorSetLayout))
              "failed to create pipeline layout!" with
          | .thrown (dev7, _) what => .thrown (dev7, r3) what
          | .ok (dev7, layout) =>
            let r4 := { r3 with m_gridPipelineLayout := layout }
            match dev7.vkCreate env.pipelineResult
                (fun h => .resource (.vkCreateGraphicsPipelines h layout r4.m_renderPass))
                "failed to create graphics pipeline!" with
            | .thrown (dev8, _) what => .thrown (dev8, r4) what
            | .ok (dev8, pipeline) =>
              .ok (dev8.logAll [.resource (.vkDestroyShaderModule fragShaderModule),
                     .resource (.vkDestroyShaderModule vertShaderModule)],
                   { r4 with m_gridPipeline := pipeline })

/-- Embedding of `Renderer::createModelPipeline`. -/
def Renderer.createModelPipeline (dev : VulkanDevice) (r : Renderer) (env : ShaderEnv) :
    Outcome (VulkanDevice × Renderer) :=
  match loadShaders dev "shaders/model_vert.spv" "shaders/model_frag.spv" env
      "failed to open file!" "failed to open file!" with
  | .thrown (dev1, _, _) what => .thrown (dev1, r) what
  | .ok (dev1, vertShaderModule, fragShaderModule) =>
    match dev1.vkCreate env.layoutResult
        (fun h => .resource (.vkCreatePipelineLayout h r.m_descriptorSetLayout))
        "failed to create model pipeline layout!" with
    | .thrown (dev2, _) what => .thrown (dev2, r) what
    | .ok (dev2, layout) =>
      let r1 := { r with m_modelPipelineLayout := layout }
      match dev2.vkCreate env.pipelineResult
          (fun h => .resource (.vkCreateGraphicsPipelines h layout r1.m_renderPass))
          "failed to create model graphics pipeline!" with
      | .thrown (dev3, _) what => .thrown (dev3, r1) what
      | .ok (dev3, pipeline) =>
        .ok (dev3.logAll [.resource (.vkDestroyShaderModule fragShaderModule),
               .resource (.vkDestroyShaderModule vertShaderModule)],
             { r1 with m_modelPipeline := pipeline })

/-- What the driver answers during the constructor of the thumbnail renderer. -/
structure ThumbnailSetupEnv where
  commandPoolResult : VkResult
  allocateResult : VkResult
  colorImageOk : Bool
  colorViewResult : VkResult
  depthImageOk : Bool
  depthViewResult : VkResult
  renderPassResult : VkResult
  framebufferResult : VkResult
  uniformBufferOk : Bool
  descriptors : DescriptorEnv
  shaders : ShaderEnv
deriving DecidableEq, Repr

/-- Embedding of `ThumbnailRenderer::createOffscreenResources`: the command pool of the
thumbnail renderer and its command buffer, the colour and depth targets with their views,
the render pass, the framebuffer, and the uniform buffer, which stays mapped. -/
def ThumbnailRenderer.createOffscreenResources (dev : VulkanDevice) (t : ThumbnailRenderer)
    (env : ThumbnailSetupEnv) : Outcome (VulkanDevice × ThumbnailRenderer) :=
  match dev.vkCreate env.commandPoolResult (fun h => .resource (.vkCreateCommandPool h))
      "Failed to create command pool for thumbnail renderer!" with
  | .thrown (dev1, _) what => .thrown (dev1, t) what
  | .ok (dev1, commandPool) =>
    let t1 := { t with m_commandPool := commandPool }
    match dev1.vkCreate env.allocateResult
        (fun h => .resource (.vkAllocateCommandBuffersFrom commandPool [h]))
        "Failed to allocate command buffer for thumbnail renderer!" with
    | .thrown (dev2, _) what => .thrown (dev2, t1) what
    | .ok (dev2, commandBuffer) =>
      let t2 := { t1 with m_commandBuffer := commandBuffer }
      match dev2.createImage env.colorImageOk THUMBNAIL_SIZE THUMBNAIL_SIZE with
      | .thrown (dev3, _, _) what => .thrown (dev3, t2) what
      | .ok (dev3, colorImage, colorMemory) =>
        let t3 := { t2 with m_colorImage := colorImage, m_colorImageMemory := colorMemory }
        match dev3.vkCreate env.colorViewResult (fun h => .vkCreateImageView h colorImage)
            "Failed to create color image view for thumbnail renderer!" with
        | .thrown (dev4, _) what => .thrown (dev4, t3) what
        | .ok (dev4, colorView) =>
          let t4 := { t3 with m_colorImageView := colorView }
          match dev4.createImage env.depthImageOk THUMBNAIL_SIZE THUMBNAIL_SIZE with
          | .thrown (dev5, _, _) what => .thrown (dev5, t4) what
          | .ok (dev5, depthImage, depthMemory) =>
            let t5 := { t4 with m_depthImage := depthImage, m_depthImageMemory := depthMemory }
            match dev5.vkCreate env.depthViewResult (fun h => .vkCreateImageView h depthImage)
                "Failed to create depth image view for thumbnail renderer!" with
            | .thrown (dev6, _) what => .thrown (dev6, t5) what
            | .ok (dev6, depthView) =>
              let t6 := { t5 with m_depthImageView := depthView }
              match dev6.vkCreate env.renderPassResult
                  (fun h => .resource (.vkCreateRenderPass h))
                  "Failed to create off-screen render pass!" with
              | .thrown (dev7, _) what => .thrown (dev7, t6) what
              | .ok (dev7, renderPass) =>
                let t7 := { t6 with m_offscreenRenderPass := renderPass }
                match dev7.vkCreate env.framebufferResult
                    (fun h => .vkCreateFramebuffer h colorView depthView
                      ⟨THUMBNAIL_SIZE, THUMBNAIL_SIZE⟩)
                    "Failed to create off-screen framebuffer!" with
                | .thrown (dev8, _) what => .thrown (dev8, t7) what
                | .ok (dev8, framebuffer) =>
                  let t8 := { t7 with m_offscreenFramebuffer := framebuffer }
                  match dev8.createBuffer env.uniformBufferOk with
                  | .thrown (dev9, _, _) what => .thrown (dev9, t8) what
                  | .ok (dev9, buffer, memory) =>
                    let (mapped, dev10) := dev9.vkMapMemory memory
                    .ok (dev10, { t8 with m_uniformBuffer := buffer
                                          m_uniformBufferMemory := memory
                                          m_uniformBufferMapped := mapped })

/-- Embedding of `ThumbnailRenderer::createModelPipeline`: the descriptor set layout, the
pool and the one descriptor set of the thumbnail renderer, the write of its uniform
buffer at binding 0, then the pipeline for the off-screen render pass. -/
def ThumbnailRenderer.createModelPipeline (dev : VulkanDevice) (t : ThumbnailRenderer)
    (denv : DescriptorEnv) (env : ShaderEnv) : Outcome (VulkanDevice × ThumbnailRenderer) :=
  match dev.vkCreate denv.layoutResult (fun h => .resource (.vkCreateDescriptorSetLayout h))
      "Failed to create thumbnail descriptor set layout!" with
  | .thrown (dev1, _) what => .thrown (dev1, t) what
  | .ok (dev1, setLayout) =>
    let t1 := { t with m_descriptorSetLayout := setLayout }
    match dev1.vkCreate denv.poolResult (fun h => .resource (.vkCreateDescriptorPool h))
        "Failed to create thumbnail descriptor pool!" with
    | .thrown (dev2, _) what => .thrown (dev2, t1) what
    | .ok (dev2, pool) =>
      let t2 := { t1 with m_descriptorPool := pool }
      match dev2.vkCreate denv.allocateResult
          (fun h => .resource (.vkAllocateDescriptorSets pool [h]))
          "Failed to allocate thumbnail descriptor set!" with
      | .thrown (dev3, _) what => .thrown (dev3, t2) what
      | .ok (dev3, descriptorSet) =>
        let t3 := { t2 with m_descriptorSet := descriptorSet }
        let dev4 := dev3.log
          (.resource (.vkUpdateDescriptorSetsBuffer descriptorSet 0 t3.m_uniformBuffer))
        match loadShaders dev4 "shaders/model_vert.spv" "shaders/model_frag.spv" env
            "failed to open file: shaders/model_vert.spv"
            "failed to open file: shaders/model_frag.spv" with
        | .thrown (dev5, _, _) what => .thrown (dev5, t3) what
        | .ok (dev5, vertShaderModule, fragShaderModule) =>
          match dev5.vkCreate env.layoutResult
              (fun h => .resource (.vkCreatePipelineLayout h setLayout))
              "Failed to create thumbnail pipeline layout!" with
          | .thrown (dev6, _) what => .thrown (dev6, t3) what
          | .ok (dev6, layout) =>
            let t4 := { t3 with m_modelPipelineLayout := layout }
            match dev6.vkCreate env.pipelineResult
                (fun h => .resource (.vkCreateGraphicsPipelines h layout
                  t4.m_offscreenRenderPass))
                "Failed to create thumbnail model pipeline!" with
            | .thrown (dev7, _) what => .thrown (dev7, t4) what
            | .ok (dev7, pipeline) =>
              .ok (dev7.logAll [.resource (.vkDestroyShaderModule fragShaderModule),
                     .resource (.vkDestroyShaderModule vertShaderModule)],
                   { t4 with m_modelPipeline := pipeline })

/-- Embedding of `ThumbnailRenderer::updateDescriptorSetWithDefaultTexture`: the default
view and sampler of the main renderer are written to binding 1 of the descriptor set of
the thumbnail renderer, unless one of them is null. -/
def ThumbnailRenderer.updateDescriptorSetWithDefaultTexture (dev : VulkanDevice)
    (t : ThumbnailRenderer) (mainRenderer : Renderer) : VulkanDevice :=
  let defaultTextureView := mainRenderer.m_defaultTextureImageView
  let defaultTextureSampler := mainRenderer.m_defaultTextureSampler
  if defaultTextureView = VK_NULL_HANDLE ∨ defaultTextureSampler = VK_NULL_HANDLE then
    dev
  else
    dev.log (.vkUpdateDescriptorSets t.m_descriptorSet 1 defaultTextureView
      defaultTextureSampler)

/-- Embedding of the constructor `ThumbnailRenderer::ThumbnailRenderer`; every member
starts at its initialiser, the null handle. -/
def ThumbnailRenderer.construct (dev : VulkanDevice) (mainRenderer : Renderer)
    (env : ThumbnailSetupEnv) : Outcome (VulkanDevice × ThumbnailRenderer) :=
  match ThumbnailRenderer.createOffscreenResources dev {} env with
  | .thrown s what => .thrown s what
  | .ok (dev1, t1) =>
    match t1.createModelPipeline dev1 env.descriptors env.shaders with
    | .thrown s what => .thrown s what
    | .ok (dev2, t2) => .ok (t2.updateDescriptorSetWithDefaultTexture dev2 mainRenderer, t2)

/-- What the driver answers during the constructor of the renderer. -/
structure RendererEnv where
  swapChain : SwapChainEnv
  renderPassResult : VkResult
  framebufferResults : List VkResult
  uniformBufferOk : List Bool
  defaultTexture : DefaultTextureEnv
  descriptors : DescriptorEnv
  gridShaders : ShaderEnv
  modelShaders : ShaderEnv
  allocateResult : VkResult
  syncResults : List (VkResult × VkResult × VkResult)
  thumbnail : ThumbnailSetupEnv
deriving DecidableEq, Repr

/-- The members of a renderer when the body of its constructor starts, around the swap
chain `sc`: the vectors are empty, the members with an initialiser hold it, and the
handles without one hold `junk`, whatever the storage held. -/
def Renderer.members (junk : Handle) (sc : SwapChain) : Renderer :=
  { m_swapChain := sc
    m_renderPass := junk
    m_framebuffers := []
    m_commandBuffers := []
    m_imageAvailableSemaphores := []
    m_renderFinishedSemaphores := []
    m_inFlightFences := []
    m_gridPipeline := junk
    m_gridPipelineLayout := junk
    m_descriptorSetLayout := junk
    m_descriptorPool := junk
    m_gridDescriptorSets := []
    m_modelPipeline := junk
    m_modelPipelineLayout := junk
    m_modelDescriptorSets := []
    m_modelUniformBuffers := []
    m_modelUniformBuffersMemory := []
    m_modelUniformBuffersMapped := []
    m_gridUniformBuffers := []
    m_gridUniformBuffersMemory := []
    m_gridUniformBuffersMapped := []
    m_defaultTextureImage := VK_NULL_HANDLE
    m_defaultTextureImageMemory := VK_NULL_HANDLE
    m_defaultTextureImageView := VK_NULL_HANDLE
    m_defaultTextureSampler := VK_NULL_HANDLE
    m_currentFrame := 0
    m_imageIndex := 0 }

/-- The statements of the constructor `Renderer::Renderer` after the swap chain exists,
up to `createSyncObjects`. -/
def Renderer.constructSteps (dev : VulkanDevice) (r : Renderer) (env : RendererEnv) :
    Outcome (VulkanDevice × Renderer) :=
  match r.createRenderPass dev env.renderPassResult with
  | .thrown s what => .thrown s what
  | .ok (dev1, r1) =>
    match r1.createFramebuffers dev1 env.framebufferResults with
    | .thrown s what => .thrown s what
    | .ok (dev2, r2) =>
      match r2.createUniformBuffers dev2 env.uniformBufferOk with
      | .thrown s what => .thrown s what
      | .ok (dev3, r3) =>
        match r3.createDefaultTexture dev3 env.defaultTexture with
        | .thrown s what => .thrown s what
        | .ok (dev4, r4) =>
          match r4.createGridPipeline dev4 env.descriptors env.gridShaders with
          | .thrown s what => .thrown s what
          | .ok (dev5, r5) =>
            match r5.createModelPipeline dev5 env.modelShaders with
            | .thrown s what => .thrown s what
            | .ok (dev6, r6) =>
              match r6.createCommandBuffers dev6 env.allocateResult with
              | .thrown s what => .thrown s what
              | .ok (dev7, r7) => r7.createSyncObjects dev7 env.syncResults

/-- Embedding of the constructor `Renderer::Renderer`: the swap chain, the statements up
to `createSyncObjects`, then the thumbnail renderer the renderer owns
(`m_thumbnailRenderer`), which is handed out next to the renderer. -/
def Renderer.construct (dev : VulkanDevice) (junk : Handle) (env : RendererEnv)
    (width height : Nat) : Outcome (VulkanDevice × Renderer × ThumbnailRenderer) :=
  match SwapChain.create dev env.swapChain width height with
  | .thrown (dev1, _) what =>
    .thrown (dev1, Renderer.members junk ⟨VK_NULL_HANDLE, [], [], 0, ⟨0, 0⟩, 0, 0, 0⟩, {}) what
  | .ok (dev1, sc) =>
    match (Renderer.members junk sc).constructSteps dev1 env with
    | .thrown (dev2, r) what => .thrown (dev2, r, {}) what
    | .ok (dev2, r) =>
      match ThumbnailRenderer.construct dev2 r env.thumbnail with
      | .thrown (dev3, t) what => .thrown (dev3, r, t) what
      | .ok (dev3, t) => .ok (dev3, r, t)

/-- The calls `Renderer::cleanup` makes for slot `i` of the uniform buffers. -/
def Renderer.uniformCleanupCalls (r : Renderer) (i : Nat) : List Call :=
  (if r.m_modelUniformBuffers.length > i ∧ vecAt r.m_modelUniformBuffers i ≠ VK_NULL_HANDLE
    then [Call.resource (.vkDestroyBuffer (vecAt r.m_modelUniformBuffers i))] else [])
  ++ (if r.m_modelUniformBuffersMemory.length > i
        ∧ vecAt r.m_modelUniformBuffersMemory i ≠ VK_NULL_HANDLE
    then [Call.vkFreeMemory (vecAt r.m_modelUniformBuffersMemory i)] else [])
  ++ (if r.m_gridUniformBuffers.length > i ∧ vecAt r.m_gridUniformBuffers i ≠ VK_NULL_HANDLE
    then [Call.resource (.vkDestroyBuffer (vecAt r.m_gridUniformBuffers i))] else [])
  ++ (if r.m_gridUniformBuffersMemory.length > i
        ∧ vecAt r.m_gridUniformBuffersMemory i ≠ VK_NULL_HANDLE
    then [Call.vkFreeMemory (vecAt r.m_gridUniformBuffersMemory i)] else [])

/-- The calls of `Renderer::cleanup` before the uniform buffers: both pipelines with their
layouts, the descriptor set layout and the descriptor pool. -/
def Renderer.pipelineCleanupCalls (r : Renderer) : List Call :=
  (if r.m_modelPipeline ≠ VK_NULL_HANDLE
    then [Call.resource (.vkDestroyPipeline r.m_modelPipeline)] else [])
  ++ (if r.m_modelPipelineLayout ≠ VK_NULL_HANDLE
    then [Call.resource (.vkDestroyPipelineLayout r.m_modelPipelineLayout)] else [])
  ++ (if r.m_gridPipeline ≠ VK_NULL_HANDLE
    then [Call.resource (.vkDestroyPipeline r.m_gridPipeline)] else [])
  ++ (if r.m_gridPipelineLayout ≠ VK_NULL_HANDLE
    then [Call.resource (.vkDestroyPipelineLayout r.m_gridPipelineLayout)] else [])
  ++ (if r.m_descriptorSetLayout ≠ VK_NULL_HANDLE
    then [Call.resource (.vkDestroyDescriptorSetLayout r.m_descriptorSetLayout)] else [])
  ++ (if r.m_descriptorPool ≠ VK_NULL_HANDLE
    then [Call.resource (.vkDestroyDescriptorPool r.m_descriptorPool)] else [])

/-- The calls of `Renderer::cleanup` for the default texture. -/
def Renderer.textureCleanupCalls (r : Renderer) : List Call :=
  (if r.m_defaultTextureSampler ≠ VK_NULL_HANDLE
    then [Call.vkDestroySampler r.m_defaultTextureSampler] else [])
  ++ (if r.m_defaultTextureImageView ≠ VK_NULL_HANDLE
    then [Call.vkDestroyImageView r.m_defaultTextureImageView] else [])
  ++ (if r.m_defaultTextureImage ≠ VK_NULL_HANDLE
    then [Call.vkDestroyImage r.m_defaultTextureImage] else [])
  ++ (if r.m_defaultTextureImageMemory ≠ VK_NULL_HANDLE
    then [Call.vkFreeMemory r.m_defaultTextureImageMemory] else [])

/-- The calls of the loop of `Renderer::cleanup` over the frame-sync objects; the loop
reads the three vectors without looking at their size. -/
def Renderer.syncCleanupCalls (r : Renderer) : List Call :=
  (List.range MAX_FRAMES_IN_FLIGHT).flatMap (fun i =>
    [Call.resource (.vkDestroySemaphore (vecAt r.m_renderFinishedSemaphores i)),
     Call.resource (.vkDestroySemaphore (vecAt r.m_imageAvailableSemaphores i)),
     Call.vkDestroyFence (vecAt r.m_inFlightFences i)])

/-- Embedding of `Renderer::cleanup`: the calls it makes, in the order of its
statements. -/
def Renderer.cleanupCalls (r : Renderer) : List Call :=
  r.pipelineCleanupCalls
  ++ (List.range MAX_FRAMES_IN_FLIGHT).flatMap r.uniformCleanupCalls
  ++ r.textureCleanupCalls
  ++ r.m_framebuffers.map Call.vkDestroyFramebuffer
  ++ r.syncCleanupCalls
  ++ (if r.m_renderPass ≠ VK_NULL_HANDLE
    then [Call.resource (.vkDestroyRenderPass r.m_renderPass)] else [])

/-- Embedding of `Renderer::cleanup`: its calls, and the members it resets. -/
def Renderer.cleanup (dev : VulkanDevice) (r : Renderer) : VulkanDevice × Renderer :=
  (dev.logAll r.cleanupCalls,
   { r with
     m_modelPipeline := VK_NULL_HANDLE
     m_modelPipelineLayout := VK_NULL_HANDLE
     m_gridPipeline := VK_NULL_HANDLE
     m_gridPipelineLayout := VK_NULL_HANDLE
     m_descriptorSetLayout := VK_NULL_HANDLE
     m_descriptorPool := VK_NULL_HANDLE
     m_defaultTextureSampler := VK_NULL_HANDLE
     m_defaultTextureImageView := VK_NULL_HANDLE
     m_defaultTextureImage := VK_NULL_HANDLE
     m_defaultTextureImageMemory := VK_NULL_HANDLE
     m_framebuffers := []
     m_renderPass := VK_NULL_HANDLE })

/-- The calls of `ThumbnailRenderer::cleanupOffscreenResources` before the uniform buffer:
the pipeline with its layout, the descriptor set layout and the descriptor pool. -/
def ThumbnailRenderer.pipelineCleanupCalls (t : ThumbnailRenderer) : List Call :=
  (if t.m_modelPipeline ≠ VK_NULL_HANDLE
    then [Call.resource (.vkDestroyPipeline t.m_modelPipeline)] else [])
  ++ (if t.m_modelPipelineLayout ≠ VK_NULL_HANDLE
    then [Call.resource (.vkDestroyPipelineLayout t.m_modelPipelineLayout)] else [])
  ++ (if t.m_descriptorSetLayout ≠ VK_NULL_HANDLE
    then [Call.resource (.vkDestroyDescriptorSetLayout t.m_descriptorSetLayout)] else [])
  ++ (if t.m_descriptorPool ≠ VK_NULL_HANDLE
    then [Call.resource (.vkDestroyDescriptorPool t.m_descriptorPool)] else [])

/-- The calls of `ThumbnailRenderer::cleanupOffscreenResources` for the uniform buffer:
its memory is unmapped, then the buffer is destroyed and the memory freed. -/
def ThumbnailRenderer.uniformCleanupCalls (t : ThumbnailRenderer) : List Call :=
  (if t.m_uniformBufferMapped ≠ VK_NULL_HANDLE
    then [Call.resource (.vkUnmapMemory t.m_uniformBufferMemory)] else [])
  ++ (if t.m_uniformBuffer ≠ VK_NULL_HANDLE
    then [Call.resource (.vkDestroyBuffer t.m_uniformBuffer)] else [])
  ++ (if t.m_uniformBufferMemory ≠ VK_NULL_HANDLE
    then [Call.vkFreeMemory t.m_uniformBufferMemory] else [])

/-- The calls of `ThumbnailRenderer::cleanupOffscreenResources` after the uniform buffer:
the framebuffer, the render pass, the depth and colour targets, the command pool. -/
def ThumbnailRenderer.targetCleanupCalls (t : ThumbnailRenderer) : List Call :=
  (if t.m_offscreenFramebuffer ≠ VK_NULL_HANDLE
    then [Call.vkDestroyFramebuffer t.m_offscreenFramebuffer] else [])
  ++ (if t.m_offscreenRenderPass ≠ VK_NULL_HANDLE
    then [Call.resource (.vkDestroyRenderPass t.m_offscreenRenderPass)] else [])
  ++ (if t.m_depthImageView ≠ VK_NULL_HANDLE
    then [Call.vkDestroyImageView t.m_depthImageView] else [])
  ++ (if t.m_depthImage ≠ VK_NULL_HANDLE then [Call.vkDestroyImage t.m_depthImage] else [])
  ++ (if t.m_depthImageMemory ≠ VK_NULL_HANDLE
    then [Call.vkFreeMemory t.m_depthImageMemory] else [])
  ++ (if t.m_colorImageView ≠ VK_NULL_HANDLE
    then [Call.vkDestroyImageView t.m_colorImageView] else [])
  ++ (if t.m_colorImage ≠ VK_NULL_HANDLE then [Call.vkDestroyImage t.m_colorImage] else [])
  ++ (if t.m_colorImageMemory ≠ VK_NULL_HANDLE
    then [Call.vkFreeMemory t.m_colorImageMemory] else [])
  ++ (if t.m_commandPool ≠ VK_NULL_HANDLE
    then [Call.resource (.vkDestroyCommandPool t.m_commandPool)] else [])

/-- The calls of `ThumbnailRenderer::cleanupOffscreenResources`, in the order of its
statements. -/
def ThumbnailRenderer.cleanupOffscreenCalls (t : ThumbnailRenderer) : List Call :=
  t.pipelineCleanupCalls ++ t.uniformCleanupCalls ++ t.targetCleanupCalls

/-- Embedding of `ThumbnailRenderer::cleanupOffscreenResources`: its calls, and the
members it resets. -/
def ThumbnailRenderer.cleanupOffscreenResources (dev : VulkanDevice) (t : ThumbnailRenderer) :
    VulkanDevice × ThumbnailRenderer :=
  (dev.logAll t.cleanupOffscreenCalls,
   { t with
     m_modelPipeline := VK_NULL_HANDLE
     m_modelPipelineLayout := VK_NULL_HANDLE
     m_descriptorSetLayout := VK_NULL_HANDLE
     m_descriptorPool := VK_NULL_HANDLE
     m_uniformBufferMapped := VK_NULL_HANDLE
     m_uniformBuffer := VK_NULL_HANDLE
     m_uniformBufferMemory := VK_NULL_HANDLE
     m_offscreenFramebuffer := VK_NULL_HANDLE
     m_offscreenRenderPass := VK_NULL_HANDLE
     m_depthImageView := VK_NULL_HANDLE
     m_depthImage := VK_NULL_HANDLE
     m_depthImageMemory := VK_NULL_HANDLE
     m_colorImageView := VK_NULL_HANDLE
     m_colorImage := VK_NULL_HANDLE
     m_colorImageMemory := VK_NULL_HANDLE
     m_commandPool := VK_NULL_HANDLE })

/-- Embedding of the destructor `ThumbnailRenderer::~ThumbnailRenderer`:
`cleanupOffscreenResources`, then `clearThumbnails`. -/
def ThumbnailRenderer.destroy (dev : VulkanDevice) (t : ThumbnailRenderer) :
    VulkanDevice × ThumbnailRenderer :=
  let (dev1, t1) := t.cleanupOffscreenResources dev
  t1.clearThumbnails dev1

/-- Embedding of the destructor `Renderer::~Renderer`: its body is `cleanup()`; after the
body the members go in the reverse order of their declaration, of which the thumbnail
renderer (`m_thumbnailRenderer`, declared late) comes before the swap chain
(`m_swapChain`, declared first). -/
def Renderer.destroy (dev : VulkanDevice) (r : Renderer) (t : ThumbnailRenderer) :
    VulkanDevice :=
  let (dev1, r1) := r.cleanup dev
  let (dev2, _) := t.destroy dev1
  dev2.logAll r1.m_swapChain.cleanupCalls

/-! ## Notions on the call log used for the life of the resources -/

/-- The memories that are mapped after the calls of a log: `vkMapMemory` maps one,
`vkUnmapMemory` unmaps it, and so does `vkFreeMemory`. -/
def mappedMemories (calls : List Call) : List Handle :=
  calls.foldl (fun mapped c =>
    match c with
    | .resource (.vkMapMemory memory _) => mapped ++ [memory]
    | .resource (.vkUnmapMemory memory) => mapped.filter (fun m => m ≠ memory)
    | .vkFreeMemory memory => mapped.filter (fun m => m ≠ memory)
    | _ => mapped) []

/-- The memories a log frees while they are still mapped, in the order of the frees. -/
def freedWhileMapped : List Call → List Call → List Handle
  | _, [] => []
  | before, c :: rest =>
    (match c with
      | .vkFreeMemory memory => if memory ∈ mappedMemories before then [memory] else []
      | _ => [])
    ++ freedWhileMapped (before ++ [c]) rest

/-- The memory a call unmaps, for a `vkUnmapMemory`. -/
def Call.unmapped : Call → Option Handle
  | .resource (.vkUnmapMemory memory) => some memory
  | _ => none

/-- The command buffers a call allocates from the command pool of the device. -/
def Call.allocated : Call → List Handle
  | .vkAllocateCommandBuffers cbs => cbs
  | _ => []

/-- The command buffers a call hands back, for a `vkFreeCommandBuffers`. -/
def Call.freed : Call → List Handle
  | .resource (.vkFreeCommandBuffers cbs) => cbs
  | _ => []

/-- The command buffers a log allocates from the command pool of the device. -/
def allocatedCommandBuffers (calls : List Call) : List Handle :=
  calls.flatMap Call.allocated

/-- The command buffers a log hands back with `vkFreeCommandBuffers`. -/
def freedCommandBuffers (calls : List Call) : List Handle :=
  calls.flatMap Call.freed

/-- The number of command buffers of the device pool a log has allocated and not handed
back. -/
def unfreedCommandBuffers (calls : List Call) : Int :=
  ((allocatedCommandBuffers calls).length : Int) - ((freedCommandBuffers calls).length : Int)

/-- One framebuffer per swap-chain image: the three sizes agree. -/
def Renderer.framebufferPerImage (r : Renderer) : Prop :=
  r.m_framebuffers.length = r.m_swapChain.m_swapChainImages.length
    ∧ r.m_swapChain.m_swapChainImages.length = r.m_swapChain.m_swapChainImageViews.length

/-- Driver answers of a shader part in which everything succeeds. -/
def okShaders : ShaderEnv := ⟨true, true, VK_SUCCESS, VK_SUCCESS, VK_SUCCESS, VK_SUCCESS⟩

/-- Driver answers of a construction in which everything succeeds, on a surface with a
fixed extent and three images. -/
def okConstruct : RendererEnv :=
  { swapChain := ⟨fixedSupport, VK_SUCCESS, 3, true⟩
    renderPassResult := VK_SUCCESS
    framebufferResults := []
    uniformBufferOk := []
    defaultTexture := ⟨true, true, VK_SUCCESS, VK_SUCCESS⟩
    descriptors := ⟨VK_SUCCESS, VK_SUCCESS, VK_SUCCESS⟩
    gridShaders := okShaders
    modelShaders := okShaders
    allocateResult := VK_SUCCESS
    syncResults := []
    thumbnail := ⟨VK_SUCCESS, VK_SUCCESS, true, VK_SUCCESS, true, VK_SUCCESS, VK_SUCCESS,
      VK_SUCCESS, true, ⟨VK_SUCCESS, VK_SUCCESS, VK_SUCCESS⟩, okShaders⟩ }

/-- The renderer the constructor builds for an 800x600 window, every creation
succeeding. -/
def constructedRenderer : Outcome (VulkanDevice × Renderer × ThumbnailRenderer) :=
  Renderer.construct VulkanDevice.initial 7 okConstruct 800 600

/-- The log after the renderer built by `constructedRenderer` is destroyed. -/
def constructedThenDestroyed : VulkanDevice :=
  constructedRenderer.state.2.1.destroy constructedRenderer.state.1
    constructedRenderer.state.2.2

/-- The swap chain and the framebuffers of a renderer. -/
def Renderer.targets (r : Renderer) : SwapChain × List Handle :=
  (r.m_swapChain, r.m_framebuffers)

/-- A sequence of `recreateSwapChain` calls made one after the other, each with the driver
answers and the window size it meets; a throw ends the sequence. -/
def Renderer.recreateSwapChains (dev : VulkanDevice) (r : Renderer) :
    List (RecreateEnv × Nat × Nat) → Outcome (VulkanDevice × Renderer)
  | [] => .ok (dev, r)
  | (env, width, height) :: rest =>
    match r.recreateSwapChain dev env width height with
    | .thrown s what => .thrown s what
    | .ok (dev1, r1) => Renderer.recreateSwapChains dev1 r1 rest

/-- The renderer built by `constructedRenderer` after the window was resized to 1024x768
and then to 640x480, on a surface that leaves the extent to the swap chain. -/
def resizedTwice : Outcome (VulkanDevice × Renderer) :=
  constructedRenderer.state.2.1.recreateSwapChains constructedRenderer.state.1
    [(recreateWith freeSupport, 1024, 768), (recreateWith freeSupport, 640, 480)]

end VulkanViewer

/-! # Theorems -/

namespace VulkanViewer

/-! ## Helper lemmas: the slot index -/

theorem slot_succ_mod (k : Nat) : ((k + 1) % 2 ^ 64) % MAX_FRAMES_IN_FLIGHT = (k + 1) % 2 := by
  unfold MAX_FRAMES_IN_FLIGHT
  omega

theorem beginFrame_currentFrame (dev : VulkanDevice) (r : Renderer) (env : FrameEnv)
    (o : Outcome (VulkanDevice × Renderer)) (h : r.beginFrame dev env = o) :
    o.state.2.m_currentFrame = r.m_currentFrame := by
  subst h
  unfold Renderer.beginFrame
  simp only []
  split_ifs <;> simp [Outcome.state]

theorem endFrame_currentFrame_ok (dev : VulkanDevice) (r : Renderer) (env : FrameEnv)
    (s : VulkanDevice × Renderer) (h : r.endFrame dev env = .ok s) :
    s.2.m_currentFrame = (r.m_currentFrame + 1) % 2 := by
  unfold Renderer.endFrame at h
  simp only [] at h
  split_ifs at h
  injection h with h
  subst h
  exact slot_succ_mod _

theorem endFrame_currentFrame_thrown (dev : VulkanDevice) (r : Renderer) (env : FrameEnv)
    (s : VulkanDevice × Renderer) (what : String) (h : r.endFrame dev env = .thrown s what) :
    s.2.m_currentFrame = r.m_currentFrame := by
  unfold Renderer.endFrame at h
  simp only [] at h
  split_ifs at h <;> (injection h with h _; subst h; rfl)

theorem createFramebuffers_currentFrame (dev : VulkanDevice) (r : Renderer)
    (results : List VkResult) (o : Outcome (VulkanDevice × Renderer))
    (h : r.createFramebuffers dev results = o) :
    o.state.2.m_currentFrame = r.m_currentFrame := by
  subst h
  unfold Renderer.createFramebuffers
  simp only []
  split <;> rfl

theorem createCommandBuffers_currentFrame (dev : VulkanDevice) (r : Renderer)
    (result : VkResult) (o : Outcome (VulkanDevice × Renderer))
    (h : r.createCommandBuffers dev result = o) :
    o.state.2.m_currentFrame = r.m_currentFrame := by
  subst h
  unfold Renderer.createCommandBuffers
  simp only []
  split_ifs <;> rfl

theorem recreateSwapChain_currentFrame (dev : VulkanDevice) (r : Renderer) (env : RecreateEnv)
    (width height : Nat) (o : Outcome (VulkanDevice × Renderer))
    (h : r.recreateSwapChain dev env width height = o) :
    o.state.2.m_currentFrame = r.m_currentFrame := by
  subst h
  unfold Renderer.recreateSwapChain
  simp only []
  split
  · rfl
  · split
    · rename_i s what h
      have h1 := createFramebuffers_currentFrame _ _ _ _ h
      exact h1
    · rename_i dev5 r3 h
      have h1 := createFramebuffers_currentFrame _ _ _ _ h
      rw [createCommandBuffers_currentFrame _ _ _ _ rfl]
      exact h1

theorem renderFrame_ok (app app1 : Application) (env : FrameEnv)
    (h : app.renderFrame env = .ok app1) :
    app1.m_renderer.m_currentFrame = (app.m_renderer.m_currentFrame + 1) % 2 := by
  unfold Application.renderFrame at h
  split at h
  · exact absurd h (by simp)
  · rename_i dev1 r1 hb
    have h1 := beginFrame_currentFrame _ _ _ _ hb
    simp only [Outcome.state] at h1
    simp only [Renderer.renderScene] at h
    split at h
    · exact absurd h (by simp)
    · rename_i dev4 r3 he
      have h2 := endFrame_currentFrame_ok _ _ _ _ he
      injection h with h
      subst h
      simp only [] at h2 ⊢
      rw [h2, h1]

theorem renderFrame_thrown (app app1 : Application) (env : FrameEnv) (what : String)
    (h : app.renderFrame env = .thrown app1 what) :
    app1.m_renderer.m_currentFrame = app.m_renderer.m_currentFrame := by
  unfold Application.renderFrame at h
  split at h
  · rename_i dev1 r1 what1 hb
    have h1 := beginFrame_currentFrame _ _ _ _ hb
    injection h with h _
    subst h
    exact h1
  · rename_i dev1 r1 hb
    have h1 := beginFrame_currentFrame _ _ _ _ hb
    simp only [Outcome.state] at h1
    simp only [Renderer.renderScene] at h
    split at h
    · rename_i dev4 r3 what2 he
      have h2 := endFrame_currentFrame_thrown _ _ _ _ _ he
      injection h with h _
      subst h
      simp only [] at h2 ⊢
      rw [h2, h1]
    · exact absurd h (by simp)

theorem renderFrame_currentFrame (app : Application) (env : FrameEnv) :
    (app.renderFrame env).state.m_renderer.m_currentFrame =
      if (app.renderFrame env).isOk then (app.m_renderer.m_currentFrame + 1) % 2
      else app.m_renderer.m_currentFrame := by
  cases h : app.renderFrame env with
  | ok app1 => simpa [Outcome.state, Outcome.isOk] using renderFrame_ok _ _ _ h
  | thrown app1 what => simpa [Outcome.state, Outcome.isOk] using renderFrame_thrown _ _ _ _ h

theorem render_currentFrame (app : Application) (env : LoopEnv) (out : Outcome Application)
    (h : app.render env = some out) :
    out.state.m_renderer.m_currentFrame =
      if out.isOk then (app.m_renderer.m_currentFrame + 1) % 2
      else app.m_renderer.m_currentFrame := by
  unfold Application.render at h
  split_ifs at h with hr
  · split at h
    · exact absurd h (by simp)
    · rename_i width height hs
      simp only [] at h
      split at h
      · rename_i dev1 r1 what hrec
        have h1 := recreateSwapChain_currentFrame _ _ _ _ _ _ hrec
        injection h with h
        subst h
        simpa [Outcome.state, Outcome.isOk] using h1
      · rename_i dev1 r1 hrec
        have h1 := recreateSwapChain_currentFrame _ _ _ _ _ _ hrec
        simp only [Outcome.state] at h1
        injection h with h
        subst h
        rw [renderFrame_currentFrame]
        simp only [h1]
  · injection h with h
    subst h
    exact renderFrame_currentFrame app env.frame

theorem mainLoopIteration_currentFrame (app : Application) (env : LoopEnv)
    (out : Outcome Application) (h : app.mainLoopIteration env = some out) :
    out.state.m_renderer.m_currentFrame =
      if out.isOk then (app.m_renderer.m_currentFrame + 1) % 2
      else app.m_renderer.m_currentFrame := by
  unfold Application.mainLoopIteration at h
  have := render_currentFrame _ env out h
  rw [this]
  split_ifs <;> rfl

theorem mainLoop_currentFrame_lt (envs : List LoopEnv) :
    ∀ (app : Application) (out : Outcome Application), app.m_renderer.m_currentFrame < 2 →
      app.mainLoop envs = some out → out.state.m_renderer.m_currentFrame < 2 := by
  induction envs with
  | nil =>
    intro app out hk h
    simp only [Application.mainLoop, Option.some.injEq] at h
    subst h
    exact hk
  | cons env rest ih =>
    intro app out hk h
    simp only [Application.mainLoop] at h
    cases hi : app.mainLoopIteration env with
    | none => simp [hi] at h
    | some o =>
      have hc := mainLoopIteration_currentFrame app env o hi
      cases o with
      | thrown app1 what =>
        simp only [hi, Option.some.injEq] at h
        subst h
        simp only [Outcome.isOk] at hc
        simp only [Bool.false_eq_true, if_false] at hc
        omega
      | ok app1 =>
        simp only [hi] at h
        simp only [Outcome.isOk, if_true, Outcome.state] at hc
        exact ih app1 out (by omega) h

theorem mainLoop_currentFrame_ok (envs : List LoopEnv) :
    ∀ (app app1 : Application), app.m_renderer.m_currentFrame < 2 →
      app.mainLoop envs = some (.ok app1) →
      app1.m_renderer.m_currentFrame = (app.m_renderer.m_currentFrame + envs.length) % 2 := by
  induction envs with
  | nil =>
    intro app app1 hk h
    simp only [Application.mainLoop, Option.some.injEq, Outcome.ok.injEq] at h
    subst h
    simp only [List.length_nil, Nat.add_zero]
    omega
  | cons env rest ih =>
    intro app app1 hk h
    simp only [Application.mainLoop] at h
    cases hi : app.mainLoopIteration env with
    | none => simp [hi] at h
    | some o =>
      have hc := mainLoopIteration_currentFrame app env o hi
      cases o with
      | thrown app2 what => simp [hi] at h
      | ok app2 =>
        simp only [hi] at h
        simp only [Outcome.isOk, if_true, Outcome.state] at hc
        have := ih app2 app1 (by omega) h
        rw [this, hc, List.length_cons]
        omega

/-! ## The recorded command sequence of `renderScene` -/

theorem drawMeshes_filter (r : Renderer) (model : Model) (p : Call → Bool)
    (f : Mesh → List Call)
    (hp : ∀ pc mesh, (r.drawMesh model pc mesh).filter p = f mesh) :
    ∀ (meshes : List Mesh) (pc : PushConstants),
      (r.drawMeshes model pc meshes).filter p = meshes.flatMap f := by
  intro meshes
  induction meshes with
  | nil => intro pc; rfl
  | cons mesh rest ih =>
    intro pc
    rw [Renderer.drawMeshes, List.filter_append, hp, ih, List.flatMap_cons]

theorem drawModels_filter (r : Renderer) (p : Call → Bool) (f : Mesh → List Call)
    (hp : ∀ model pc mesh, (r.drawMesh model pc mesh).filter p = f mesh) :
    ∀ models : List Model,
      (models.flatMap r.drawModel).filter p = (models.flatMap (·.m_meshes)).flatMap f := by
  intro models
  induction models with
  | nil => rfl
  | cons model rest ih =>
    rw [List.flatMap_cons, List.filter_append, ih, List.flatMap_cons, List.flatMap_append,
      Renderer.drawModel, drawMeshes_filter r model p f (hp model)]

theorem drawMesh_filter_geometry (r : Renderer) (model : Model) (pc : PushConstants)
    (mesh : Mesh) : (r.drawMesh model pc mesh).filter Call.isGeometry = r.meshGeometry mesh := by
  unfold Renderer.drawMesh Renderer.updateDescriptorSetForMesh Renderer.meshGeometry
  simp only []
  split_ifs <;> simp [List.filter, Call.isGeometry]

theorem drawMesh_filter_drawIndexed (r : Renderer) (model : Model) (pc : PushConstants)
    (mesh : Mesh) : (r.drawMesh model pc mesh).filter Call.isDrawIndexed =
      [.vkCmdDrawIndexed (vecAt r.m_commandBuffers r.m_currentFrame)
        (static_cast_uint32_t mesh.indices.length) 1] := by
  unfold Renderer.drawMesh Renderer.updateDescriptorSetForMesh
  simp only []
  split_ifs <;> simp [List.filter, Call.isDrawIndexed]

theorem drawMesh_filter_draw (r : Renderer) (model : Model) (pc : PushConstants)
    (mesh : Mesh) : (r.drawMesh model pc mesh).filter Call.isDraw = [] := by
  unfold Renderer.drawMesh Renderer.updateDescriptorSetForMesh
  simp only []
  split_ifs <;> simp [List.filter, Call.isDraw]

theorem drawMesh_filter_bindPipeline (r : Renderer) (model : Model) (pc : PushConstants)
    (mesh : Mesh) : (r.drawMesh model pc mesh).filter Call.isBindPipeline = [] := by
  unfold Renderer.drawMesh Renderer.updateDescriptorSetForMesh
  simp only []
  split_ifs <;> simp [List.filter, Call.isBindPipeline]

theorem flatMap_nil_fun {α β : Type} (l : List α) : l.flatMap (fun _ => ([] : List β)) = [] := by
  induction l with
  | nil => rfl
  | cons a rest ih => rw [List.flatMap_cons, ih]; rfl

theorem flatMap_singleton_fun {α β : Type} (g : α → β) (l : List α) :
    l.flatMap (fun a => [g a]) = l.map g := by
  induction l with
  | nil => rfl
  | cons a rest ih => rw [List.flatMap_cons, ih]; rfl

/-- The part of the recorded sequence before the grid bind. -/
theorem renderSceneCalls_split (r : Renderer) (scene : Scene) :
    r.renderSceneCalls scene =
      ([Call.vkCmdSetViewport (vecAt r.m_commandBuffers r.m_currentFrame)
          r.m_swapChain.m_swapChainExtent.width r.m_swapChain.m_swapChainExtent.height,
        Call.vkCmdSetScissor (vecAt r.m_commandBuffers r.m_currentFrame)
          r.m_swapChain.m_swapChainExtent]
        ++ (if scene.m_models.isEmpty then []
            else [Call.vkCmdBindPipeline (vecAt r.m_commandBuffers r.m_currentFrame) r.m_modelPipeline]
              ++ r.updateModelUniformBuffer r.m_currentFrame
              ++ scene.m_models.flatMap r.drawModel)
        ++ r.updateGridUniformBuffer r.m_currentFrame)
      ++ [.vkCmdBindPipeline (vecAt r.m_commandBuffers r.m_currentFrame) r.m_gridPipeline,
          .vkCmdBindDescriptorSets (vecAt r.m_commandBuffers r.m_currentFrame)
            r.m_gridPipelineLayout (vecAt r.m_gridDescriptorSets r.m_currentFrame),
          .vkCmdDraw (vecAt r.m_commandBuffers r.m_currentFrame) 6 1] := by
  unfold Renderer.renderSceneCalls
  simp only [List.append_assoc]

theorem renderSceneCalls_filter_drawIndexed (r : Renderer) (scene : Scene) :
    (r.renderSceneCalls scene).filter Call.isDrawIndexed =
      (scene.m_models.flatMap (·.m_meshes)).map (fun mesh =>
        Call.vkCmdDrawIndexed (vecAt r.m_commandBuffers r.m_currentFrame)
          (static_cast_uint32_t mesh.indices.length) 1) := by
  have h := drawModels_filter r Call.isDrawIndexed _
    (fun model pc mesh => drawMesh_filter_drawIndexed r model pc mesh) scene.m_models
  rw [flatMap_singleton_fun] at h
  unfold Renderer.renderSceneCalls Renderer.updateModelUniformBuffer
    Renderer.updateGridUniformBuffer
  split_ifs with he
  · have : scene.m_models = [] := by simpa using he
    simp [this, List.filter, Call.isDrawIndexed]
  · simp only [List.filter_append, h]
    simp [List.filter, Call.isDrawIndexed]

theorem renderSceneCalls_filter_geometry (r : Renderer) (scene : Scene) :
    (r.renderSceneCalls scene).filter Call.isGeometry =
      (scene.m_models.flatMap (·.m_meshes)).flatMap r.meshGeometry := by
  have h := drawModels_filter r Call.isGeometry _
    (fun model pc mesh => drawMesh_filter_geometry r model pc mesh) scene.m_models
  unfold Renderer.renderSceneCalls Renderer.updateModelUniformBuffer
    Renderer.updateGridUniformBuffer
  split_ifs with he
  · have : scene.m_models = [] := by simpa using he
    simp [this, List.filter, Call.isGeometry]
  · simp only [List.filter_append, h]
    simp [List.filter, Call.isGeometry]

theorem renderSceneCalls_filter_bindPipeline (r : Renderer) (scene : Scene) :
    (r.renderSceneCalls scene).filter Call.isBindPipeline =
      (if scene.m_models.isEmpty then []
        else [Call.vkCmdBindPipeline (vecAt r.m_commandBuffers r.m_currentFrame) r.m_modelPipeline])
      ++ [.vkCmdBindPipeline (vecAt r.m_commandBuffers r.m_currentFrame) r.m_gridPipeline] := by
  have h := drawModels_filter r Call.isBindPipeline _
    (fun model pc mesh => drawMesh_filter_bindPipeline r model pc mesh) scene.m_models
  rw [flatMap_nil_fun] at h
  unfold Renderer.renderSceneCalls Renderer.updateModelUniformBuffer
    Renderer.updateGridUniformBuffer
  split_ifs with he
  · simp [List.filter, Call.isBindPipeline]
  · simp only [List.filter_append, h]
    simp [List.filter, Call.isBindPipeline]

/-! ## C1 -/

theorem drawMesh_filter_queueSubmit (r : Renderer) (model : Model) (pc : PushConstants)
    (mesh : Mesh) : (r.drawMesh model pc mesh).filter Call.isQueueSubmit = [] := by
  unfold Renderer.drawMesh Renderer.updateDescriptorSetForMesh
  simp only []
  split_ifs <;> simp [List.filter, Call.isQueueSubmit]

theorem drawMesh_filter_queuePresent (r : Renderer) (model : Model) (pc : PushConstants)
    (mesh : Mesh) : (r.drawMesh model pc mesh).filter Call.isQueuePresent = [] := by
  unfold Renderer.drawMesh Renderer.updateDescriptorSetForMesh
  simp only []
  split_ifs <;> simp [List.filter, Call.isQueuePresent]

theorem renderSceneCalls_filter_queueSubmit (r : Renderer) (scene : Scene) :
    (r.renderSceneCalls scene).filter Call.isQueueSubmit = [] := by
  have h := drawModels_filter r Call.isQueueSubmit _
    (fun model pc mesh => drawMesh_filter_queueSubmit r model pc mesh) scene.m_models
  rw [flatMap_nil_fun] at h
  unfold Renderer.renderSceneCalls Renderer.updateModelUniformBuffer
    Renderer.updateGridUniformBuffer
  split_ifs with he
  · simp [List.filter, Call.isQueueSubmit]
  · simp only [List.filter_append, h]
    simp [List.filter, Call.isQueueSubmit]

theorem renderSceneCalls_filter_queuePresent (r : Renderer) (scene : Scene) :
    (r.renderSceneCalls scene).filter Call.isQueuePresent = [] := by
  have h := drawModels_filter r Call.isQueuePresent _
    (fun model pc mesh => drawMesh_filter_queuePresent r model pc mesh) scene.m_models
  rw [flatMap_nil_fun] at h
  unfold Renderer.renderSceneCalls Renderer.updateModelUniformBuffer
    Renderer.updateGridUniformBuffer
  split_ifs with he
  · simp [List.filter, Call.isQueuePresent]
  · simp only [List.filter_append, h]
    simp [List.filter, Call.isQueuePresent]

/-- C1 (what the code does instead): when the acquire inside `beginFrame` reports
`VK_ERROR_OUT_OF_DATE_KHR`, `beginFrame` returns early, but `Application::render` goes on
with `renderScene`, the UI overlay and `endFrame`: the whole scene is recorded into the
slot's command buffer (which was neither reset nor begun), and, the driver accepting
`vkEndCommandBuffer` and `vkQueueSubmit`, the command buffer is submitted once and the
image index is presented once. -/
theorem C1_out_of_date_frame_is_not_skipped (app : Application) (env : LoopEnv)
    (hres : app.m_framebufferResized = false)
    (hacq : env.frame.acquireResult = VK_ERROR_OUT_OF_DATE_KHR)
    (hend : env.frame.endResult = VK_SUCCESS) (hsub : env.frame.submitResult = VK_SUCCESS) :
    ∃ (app1 : Application) (frameCalls : List Call),
      app.render env = some (.ok app1)
      ∧ app1.m_device.calls = app.m_device.calls ++ frameCalls
      ∧ frameCalls =
          [.vkWaitForFences (vecAt app.m_renderer.m_inFlightFences app.m_renderer.m_currentFrame)
              UINT64_MAX,
           .vkAcquireNextImageKHR app.m_renderer.m_swapChain.m_swapChain
              (vecAt app.m_renderer.m_imageAvailableSemaphores app.m_renderer.m_currentFrame)]
          ++ app.m_renderer.renderSceneCalls app.m_scene
          ++ [.ImGui_ImplVulkan_RenderDrawData
                (vecAt app.m_renderer.m_commandBuffers app.m_renderer.m_currentFrame),
              .vkCmdEndRenderPass
                (vecAt app.m_renderer.m_commandBuffers app.m_renderer.m_currentFrame),
              .vkEndCommandBuffer
                (vecAt app.m_renderer.m_commandBuffers app.m_renderer.m_currentFrame),
              .vkQueueSubmit
                (vecAt app.m_renderer.m_imageAvailableSemaphores app.m_renderer.m_currentFrame)
                (vecAt app.m_renderer.m_commandBuffers app.m_renderer.m_currentFrame)
                (vecAt app.m_renderer.m_renderFinishedSemaphores app.m_renderer.m_currentFrame)
                (vecAt app.m_renderer.m_inFlightFences app.m_renderer.m_currentFrame),
              .vkQueuePresentKHR
                (vecAt app.m_renderer.m_renderFinishedSemaphores app.m_renderer.m_currentFrame)
                app.m_renderer.m_swapChain.m_swapChain app.m_renderer.m_imageIndex]
      ∧ (frameCalls.filter Call.isQueueSubmit).length = 1
      ∧ (frameCalls.filter Call.isQueuePresent).length = 1
      ∧ Call.vkCmdDraw (vecAt app.m_renderer.m_commandBuffers app.m_renderer.m_currentFrame) 6 1
          ∈ frameCalls := by
  have hne : VK_ERROR_OUT_OF_DATE_KHR ≠ VK_SUCCESS := by decide
  have hne2 : VK_ERROR_OUT_OF_DATE_KHR ≠ VK_SUBOPTIMAL_KHR := by decide
  have hrun : app.render env = some (.ok
      { app with
        m_device := UI.render
          (app.m_renderer.renderScene
            ((app.m_device.log (.vkWaitForFences
                (vecAt app.m_renderer.m_inFlightFences app.m_renderer.m_currentFrame) UINT64_MAX)).log
              (.vkAcquireNextImageKHR app.m_renderer.m_swapChain.m_swapChain
                (vecAt app.m_renderer.m_imageAvailableSemaphores app.m_renderer.m_currentFrame)))
            app.m_scene).1 app.m_renderer
          |>.logAll [.vkCmdEndRenderPass
                (vecAt app.m_renderer.m_commandBuffers app.m_renderer.m_currentFrame),
              .vkEndCommandBuffer
                (vecAt app.m_renderer.m_commandBuffers app.m_renderer.m_currentFrame)]
          |>.log (.vkQueueSubmit
                (vecAt app.m_renderer.m_imageAvailableSemaphores app.m_renderer.m_currentFrame)
                (vecAt app.m_renderer.m_commandBuffers app.m_renderer.m_currentFrame)
                (vecAt app.m_renderer.m_renderFinishedSemaphores app.m_renderer.m_currentFrame)
                (vecAt app.m_renderer.m_inFlightFences app.m_renderer.m_currentFrame))
          |>.log (.vkQueuePresentKHR
                (vecAt app.m_renderer.m_renderFinishedSemaphores app.m_renderer.m_currentFrame)
                app.m_renderer.m_swapChain.m_swapChain app.m_renderer.m_imageIndex)
        m_renderer := { app.m_renderer with
          m_currentFrame := ((app.m_renderer.m_currentFrame + 1) % 2 ^ 64) % MAX_FRAMES_IN_FLIGHT } }) := by
    unfold Application.render
    rw [if_neg (by simp [hres])]
    unfold Application.renderFrame Renderer.beginFrame Renderer.renderScene Renderer.endFrame
    simp [hacq, hend, hsub, hne, hne2]
  refine ⟨_, _, hrun, ?_, rfl, ?_, ?_, ?_⟩
  · simp [UI.render, Renderer.renderScene, VulkanDevice.log, VulkanDevice.logAll]
  · simp only [List.filter_append, renderSceneCalls_filter_queueSubmit]
    simp [List.filter, Call.isQueueSubmit]
  · simp only [List.filter_append, renderSceneCalls_filter_queuePresent]
    simp [List.filter, Call.isQueuePresent]
  · rw [renderSceneCalls_split]
    simp

/-- Witness for C1: the start application, empty scene, first frame out of date: the
calls of that frame. -/
theorem C1_out_of_date_frame_is_not_skipped_witness :
    ∃ app1 : Application,
      (startApp ⟨[]⟩).render outOfDateLoop = some (.ok app1)
      ∧ app1.m_device.calls = (startApp ⟨[]⟩).m_device.calls ++
          [.vkWaitForFences 1004 UINT64_MAX,
           .vkAcquireNextImageKHR 100 1002,
           .vkCmdSetViewport 1000 800 600,
           .vkCmdSetScissor 1000 ⟨800, 600⟩,
           .setAspectRatio 800 600,
           .memcpy 162,
           .vkCmdBindPipeline 1000 140,
           .vkCmdBindDescriptorSets 1000 141 142,
           .vkCmdDraw 1000 6 1,
           .ImGui_ImplVulkan_RenderDrawData 1000,
           .vkCmdEndRenderPass 1000,
           .vkEndCommandBuffer 1000,
           .vkQueueSubmit 1002 1000 1003 1004,
           .vkQueuePresentKHR 1003 100 0] := by
  obtain ⟨app1, frameCalls, h1, h2, h3, _⟩ :=
    C1_out_of_date_frame_is_not_skipped (startApp ⟨[]⟩) outOfDateLoop rfl rfl rfl rfl
  refine ⟨app1, h1, ?_⟩
  rw [h2, h3]
  rfl

/-! ## C2 -/

/-- C2 (what the code does instead): three iterations of the main loop from the start
state, the first acquire reporting out-of-date, the other two frames succeeding.  The
first iteration submits slot 0's command buffer (1000) with slot 0's fence (1004) still
signalled, as created; in the third iteration the wait on that fence therefore returns
at once and `vkResetCommandBuffer` hits command buffer 1000 while its submission is
pending. -/
theorem C2_reset_while_pending_after_out_of_date :
    (startApp ⟨[]⟩).mainLoop [outOfDateLoop, okLoop 1, okLoop 2]
        = some (.ok (afterFrames (startApp ⟨[]⟩) [outOfDateLoop, okLoop 1, okLoop 2]))
    ∧ GpuState.resetWhilePending
        (gpuRun (afterFrames (startApp ⟨[]⟩) [outOfDateLoop, okLoop 1, okLoop 2]).m_device.calls)
        = [1000]
    ∧ (gpuRun (afterFrames (startApp ⟨[]⟩) [outOfDateLoop]).m_device.calls).signalled
        = [1007, 1004]
    ∧ (gpuRun (afterFrames (startApp ⟨[]⟩) [outOfDateLoop]).m_device.calls).pending
        = [(1000, 1004)] := by
  refine ⟨by rfl, by decide, by decide, by decide⟩

/-! ## The fence protocol when no acquire reports out-of-date -/

theorem step_neutral (g : GpuState) (c : Call) (h : c.gpuNeutral = true) : g.step c = g := by
  cases c <;> first | rfl | simp [Call.gpuNeutral] at h

theorem foldl_neutral (xs : List Call) (h : ∀ c ∈ xs, c.gpuNeutral = true) (g : GpuState) :
    xs.foldl GpuState.step g = g := by
  induction xs generalizing g with
  | nil => rfl
  | cons c rest ih =>
    rw [List.foldl_cons, step_neutral g c (h c (List.mem_cons_self _ _))]
    exact ih (fun d hd => h d (List.mem_cons_of_mem _ hd)) g

theorem gpuRun_append (l xs : List Call) :
    gpuRun (l ++ xs) = xs.foldl GpuState.step (gpuRun l) := by
  unfold gpuRun
  rw [List.foldl_append]

/-- One turn of a slot: wait on its fence, reset the fence, reset the command buffer; the
reset meets no pending submission, and after the submit the invariant holds again. -/
theorem slot_cycle (g : GpuState) (cbs fences : List Handle) (k : Nat) (hk : k < 2)
    (h : SlotInv g cbs fences) :
    (((g.step (.vkWaitForFences (vecAt fences k) UINT64_MAX)).step
        (.vkResetFences (vecAt fences k))).step
        (.vkResetCommandBuffer (vecAt cbs k))).resetWhilePending = []
    ∧ (((g.step (.vkWaitForFences (vecAt fences k) UINT64_MAX)).step
        (.vkResetFences (vecAt fences k))).step
        (.vkResetCommandBuffer (vecAt cbs k))).blocked = false
    ∧ ∀ ws ss : Handle, SlotInv
        ((((g.step (.vkWaitForFences (vecAt fences k) UINT64_MAX)).step
          (.vkResetFences (vecAt fences k))).step
          (.vkResetCommandBuffer (vecAt cbs k))).step
          (.vkQueueSubmit ws (vecAt cbs k) ss (vecAt fences k))) cbs fences := by
  obtain ⟨o, ho, hfo, hco, hjo⟩ : ∃ o, o < 2 ∧ vecAt fences o ≠ vecAt fences k
      ∧ vecAt cbs o ≠ vecAt cbs k ∧ ∀ j, j < 2 → j = k ∨ j = o := by
    rcases (by omega : k = 0 ∨ k = 1) with hk0 | hk1
    · subst hk0
      exact ⟨1, by omega, h.fences_ne.symm, h.cbs_ne.symm, fun j hj => by omega⟩
    · subst hk1
      exact ⟨0, by omega, h.fences_ne, h.cbs_ne, fun j hj => by omega⟩
  have hslots : ∀ e ∈ g.pending,
      e = (vecAt cbs k, vecAt fences k) ∨ e = (vecAt cbs o, vecAt fences o) := by
    intro e he
    rcases h.pending_slots e he with h0 | h1
    · rcases hjo 0 (by omega) with hz | hz
      · left; rw [h0, hz]
      · right; rw [h0, hz]
    · rcases hjo 1 (by omega) with hz | hz
      · left; rw [h1, hz]
      · right; rw [h1, hz]
  -- the state after the wait
  obtain ⟨g1, hg1, hsig, hpend, huns, hready, hclean⟩ :
      ∃ g1, g.step (.vkWaitForFences (vecAt fences k) UINT64_MAX) = g1
        ∧ vecAt fences k ∈ g1.signalled
        ∧ (∀ e ∈ g1.pending, e = (vecAt cbs o, vecAt fences o))
        ∧ ((vecAt cbs o, vecAt fences o) ∈ g1.pending → vecAt fences o ∉ g1.signalled)
        ∧ (vecAt fences o ∈ g1.signalled ∨ (vecAt cbs o, vecAt fences o) ∈ g1.pending)
        ∧ (g1.resetWhilePending = [] ∧ g1.blocked = false) := by
    by_cases hs : vecAt fences k ∈ g.signalled
    · refine ⟨g, ?_, hs, ?_, h.pending_unsignalled o ho, h.ready o ho, h.clean⟩
      · simp [GpuState.step, hs]
      · intro e he
        rcases hslots e he with hek | heo
        · rw [hek] at he
          exact absurd hs (h.pending_unsignalled k hk he)
        · exact heo
    · have hp : (vecAt cbs k, vecAt fences k) ∈ g.pending := by
        rcases h.ready k hk with h1 | h1
        · exact absurd h1 hs
        · exact h1
      have hany : g.pending.any (fun e => e.2 == vecAt fences k) = true :=
        List.any_eq_true.mpr ⟨_, hp, by simp⟩
      refine ⟨{ g with
          pending := g.pending.filter (fun e => e.2 != vecAt fences k)
          signalled := vecAt fences k :: g.signalled }, ?_, ?_, ?_, ?_, ?_, h.clean⟩
      · simp [GpuState.step, hs, hany]
      · exact List.mem_cons_self _ _
      · intro e he
        obtain ⟨hmem, hne⟩ := List.mem_filter.mp he
        rcases hslots e hmem with hek | heo
        · rw [hek] at hne
          simp at hne
        · exact heo
      · intro he hsig
        obtain ⟨hmem, _⟩ := List.mem_filter.mp he
        rcases List.mem_cons.mp hsig with h1 | h1
        · exact hfo h1
        · exact h.pending_unsignalled o ho hmem h1
      · rcases h.ready o ho with h1 | h1
        · exact Or.inl (List.mem_cons_of_mem _ h1)
        · exact Or.inr (List.mem_filter.mpr ⟨h1, by simpa using hfo⟩)
  rw [hg1]
  have hnoany : g1.pending.any (fun e => e.1 == vecAt cbs k) = false := by
    rw [List.any_eq_false]
    intro e he
    rw [hpend e he]
    simpa using hco
  have hreset : ((g1.step (.vkResetFences (vecAt fences k))).step
      (.vkResetCommandBuffer (vecAt cbs k)))
      = { g1 with signalled := g1.signalled.filter (fun f => f != vecAt fences k) } := by
    simp [GpuState.step, hnoany]
  rw [hreset]
  refine ⟨hclean.1, hclean.2, ?_⟩
  intro ws ss
  have hpk : ∀ j, j < 2 → j = k ∨ (vecAt cbs j = vecAt cbs o ∧ vecAt fences j = vecAt fences o) := by
    intro j hj
    rcases hjo j hj with hz | hz
    · exact Or.inl hz
    · exact Or.inr ⟨by rw [hz], by rw [hz]⟩
  refine ⟨h.fences_ne, h.cbs_ne, ?_, ?_, ?_, hclean⟩
  · intro e he
    simp only [GpuState.step] at he
    rcases List.mem_cons.mp he with h1 | h1
    · rcases (by omega : k = 0 ∨ k = 1) with hk0 | hk1
      · left; rw [h1, hk0]
      · right; rw [h1, hk1]
    · have := hpend e h1
      rcases (by omega : o = 0 ∨ o = 1) with ho0 | ho1
      · left; rw [this, ho0]
      · right; rw [this, ho1]
  · intro j hj he hsigj
    simp only [GpuState.step] at he hsigj
    obtain ⟨hmem, hne⟩ := List.mem_filter.mp hsigj
    rcases hpk j hj with hz | ⟨hcj, hfj⟩
    · subst hz
      simp at hne
    · rw [hcj, hfj] at he
      rw [hfj] at hmem
      rcases List.mem_cons.mp he with h1 | h1
      · exact hco (Prod.mk.inj h1).1
      · exact huns h1 hmem
  · intro j hj
    simp only [GpuState.step]
    rcases hpk j hj with hz | ⟨hcj, hfj⟩
    · subst hz
      exact Or.inr (List.mem_cons_self _ _)
    · rw [hcj, hfj]
      rcases hready with h1 | h1
      · exact Or.inl (List.mem_filter.mpr ⟨h1, by simpa using hfo⟩)
      · exact Or.inr (List.mem_cons_of_mem _ h1)

theorem drawMesh_filter_notNeutral (r : Renderer) (model : Model) (pc : PushConstants)
    (mesh : Mesh) : (r.drawMesh model pc mesh).filter (fun c => !c.gpuNeutral) = [] := by
  unfold Renderer.drawMesh Renderer.updateDescriptorSetForMesh
  simp only []
  split_ifs <;> simp [List.filter, Call.gpuNeutral]

theorem renderSceneCalls_neutral (r : Renderer) (scene : Scene) :
    ∀ c ∈ r.renderSceneCalls scene, c.gpuNeutral = true := by
  have h := drawModels_filter r (fun c => !c.gpuNeutral) _
    (fun model pc mesh => drawMesh_filter_notNeutral r model pc mesh) scene.m_models
  rw [flatMap_nil_fun] at h
  have hall : (r.renderSceneCalls scene).filter (fun c => !c.gpuNeutral) = [] := by
    unfold Renderer.renderSceneCalls Renderer.updateModelUniformBuffer
      Renderer.updateGridUniformBuffer
    split_ifs with he
    · simp [List.filter, Call.gpuNeutral]
    · simp only [List.filter_append, h]
      simp [List.filter, Call.gpuNeutral]
  intro c hc
  have := List.filter_eq_nil_iff.mp hall c hc
  simpa using this

theorem foldl_renderSceneCalls (r : Renderer) (scene : Scene) (g : GpuState) :
    (r.renderSceneCalls scene).foldl GpuState.step g = g :=
  foldl_neutral _ (renderSceneCalls_neutral r scene) g

theorem wait_clean (g : GpuState) (cbs fences : List Handle) (k : Nat) (hk : k < 2)
    (h : SlotInv g cbs fences) :
    (g.step (.vkWaitForFences (vecAt fences k) UINT64_MAX)).resetWhilePending = []
    ∧ (g.step (.vkWaitForFences (vecAt fences k) UINT64_MAX)).blocked = false := by
  by_cases hs : vecAt fences k ∈ g.signalled
  · simp [GpuState.step, hs, h.clean.1, h.clean.2]
  · have hp : (vecAt cbs k, vecAt fences k) ∈ g.pending := by
      rcases h.ready k hk with h1 | h1
      · exact absurd h1 hs
      · exact h1
    have hany : g.pending.any (fun e => e.2 == vecAt fences k) = true :=
      List.any_eq_true.mpr ⟨_, hp, by simp⟩
    simp [GpuState.step, hs, hany, h.clean.1, h.clean.2]

/-- One frame (`beginFrame`, `renderScene`, the overlay, `endFrame`) whose acquire does
not report out-of-date: no command buffer is reset while pending, no wait blocks for
ever, and when the frame returns the fence invariant holds again. -/
theorem renderFrame_fence_protocol (app : Application) (env : FrameEnv)
    (hacq : env.acquireResult ≠ VK_ERROR_OUT_OF_DATE_KHR)
    (hk : app.m_renderer.m_currentFrame < 2)
    (hinv : SlotInv (gpuRun app.m_device.calls) app.m_renderer.m_commandBuffers
      app.m_renderer.m_inFlightFences) :
    (gpuRun (app.renderFrame env).state.m_device.calls).resetWhilePending = []
      ∧ (gpuRun (app.renderFrame env).state.m_device.calls).blocked = false
      ∧ ((app.renderFrame env).isOk = true →
          (app.renderFrame env).state.m_framebufferResized = app.m_framebufferResized
          ∧ (app.renderFrame env).state.m_renderer.m_currentFrame < 2
          ∧ SlotInv (gpuRun (app.renderFrame env).state.m_device.calls)
              (app.renderFrame env).state.m_renderer.m_commandBuffers
              (app.renderFrame env).state.m_renderer.m_inFlightFences) := by
  obtain ⟨hc1, hc2, hc3⟩ := slot_cycle _ _ _ _ hk hinv
  obtain ⟨hw1, hw2⟩ := wait_clean _ _ _ _ hk hinv
  unfold Application.renderFrame Renderer.beginFrame
  simp only [hacq, if_false]
  by_cases ha : env.acquireResult = VK_SUCCESS ∨ env.acquireResult = VK_SUBOPTIMAL_KHR
  · have ha2 : ¬ (env.acquireResult ≠ VK_SUCCESS ∧ env.acquireResult ≠ VK_SUBOPTIMAL_KHR) := by
      rcases ha with h1 | h1 <;> simp [h1]
    simp only [ha, ha2, if_true, if_false]
    by_cases hb : env.beginResult = VK_SUCCESS
    · simp only [hb, ne_eq, not_true_eq_false, if_false]
      unfold Renderer.renderScene Renderer.endFrame UI.render
      by_cases he : env.endResult = VK_SUCCESS
      · simp only [he, ne_eq, not_true_eq_false, if_false]
        by_cases hsb : env.submitResult = VK_SUCCESS
        · simp only [hsb, ne_eq, not_true_eq_false, if_false, Outcome.state, Outcome.isOk,
            VulkanDevice.log, VulkanDevice.logAll, gpuRun_append, List.foldl_append,
            List.foldl_cons, List.foldl_nil, foldl_renderSceneCalls]
          simp only [step_neutral, Call.gpuNeutral]
          refine ⟨(hc3 _ _).clean.1, (hc3 _ _).clean.2, fun _ => ⟨trivial, ?_, hc3 _ _⟩⟩
          unfold MAX_FRAMES_IN_FLIGHT
          omega
        · simp only [hsb, ne_eq, not_false_eq_true, if_true, Outcome.state, Outcome.isOk,
            VulkanDevice.log, VulkanDevice.logAll, gpuRun_append, List.foldl_append,
            List.foldl_cons, List.foldl_nil, foldl_renderSceneCalls]
          simp only [step_neutral, Call.gpuNeutral]
          exact ⟨(hc3 _ _).clean.1, (hc3 _ _).clean.2, fun h => absurd h (by simp)⟩
      · simp only [he, ne_eq, not_false_eq_true, if_true, Outcome.state, Outcome.isOk,
          VulkanDevice.log, VulkanDevice.logAll, gpuRun_append, List.foldl_append,
          List.foldl_cons, List.foldl_nil, foldl_renderSceneCalls]
        simp only [step_neutral, Call.gpuNeutral]
        exact ⟨hc1, hc2, fun h => absurd h (by simp)⟩
    · simp only [hb, ne_eq, not_false_eq_true, if_true, Outcome.state, Outcome.isOk,
        VulkanDevice.log, VulkanDevice.logAll, gpuRun_append, List.foldl_append,
        List.foldl_cons, List.foldl_nil]
      simp only [step_neutral, Call.gpuNeutral]
      exact ⟨hc1, hc2, fun h => absurd h (by simp)⟩
  · have h1 : ¬ env.acquireResult = VK_SUCCESS := fun h => ha (Or.inl h)
    have h2 : ¬ env.acquireResult = VK_SUBOPTIMAL_KHR := fun h => ha (Or.inr h)
    simp only [h1, h2, ne_eq, not_false_eq_true, and_self, or_self, if_true, if_false,
      Outcome.state, Outcome.isOk, VulkanDevice.log, VulkanDevice.logAll, gpuRun_append,
      List.foldl_append, List.foldl_cons, List.foldl_nil]
    simp only [step_neutral, Call.gpuNeutral]
    exact ⟨hw1, hw2, fun h => absurd h (by simp)⟩

/-! ### Resizing keeps the fence protocol -/

theorem gpuRun_log_neutral (dev : VulkanDevice) (c : Call) (h : c.gpuNeutral = true) :
    gpuRun (dev.log c).calls = gpuRun dev.calls := by
  simp only [VulkanDevice.log, gpuRun_append, List.foldl_cons, List.foldl_nil, step_neutral _ _ h]

theorem gpuRun_logAll_neutral (dev : VulkanDevice) (cs : List Call)
    (h : ∀ c ∈ cs, c.gpuNeutral = true) :
    gpuRun (dev.logAll cs).calls = gpuRun dev.calls := by
  simp only [VulkanDevice.logAll, gpuRun_append, foldl_neutral cs h]

theorem createImageViews_gpu (images : List Handle) :
    ∀ dev : VulkanDevice, gpuRun (createImageViews dev images).2.calls = gpuRun dev.calls := by
  induction images with
  | nil => intro dev; rfl
  | cons image rest ih =>
    intro dev
    simp only [createImageViews]
    rw [ih]
    exact gpuRun_log_neutral _ _ rfl

theorem fresh_calls (dev : VulkanDevice) : dev.fresh.2.calls = dev.calls := rfl

theorem freshN_calls (dev : VulkanDevice) (n : Nat) : (dev.freshN n).2.calls = dev.calls := rfl

theorem createImage_gpu (dev : VulkanDevice) (ok : Bool) (width height : Nat)
    (o : Outcome (VulkanDevice × Handle × Handle)) (heq : dev.createImage ok width height = o) :
    gpuRun o.state.1.calls = gpuRun dev.calls := by
  subst heq
  unfold VulkanDevice.createImage
  cases ok with
  | false => rfl
  | true =>
    simp only [if_true, Outcome.state]
    exact gpuRun_log_neutral _ _ rfl

theorem createImageView_gpu (dev : VulkanDevice) (image : Handle) :
    gpuRun (dev.createImageView image).2.calls = gpuRun dev.calls := by
  unfold VulkanDevice.createImageView
  exact gpuRun_log_neutral _ _ rfl

theorem SwapChain_create_gpu (dev : VulkanDevice) (env : SwapChainEnv) (width height : Nat) :
    gpuRun (SwapChain.create dev env width height).state.1.calls = gpuRun dev.calls := by
  have hbase : ∀ c : Call, c.gpuNeutral = true →
      gpuRun (createImageViews ((dev.fresh.2.log c).freshN env.imageCount).2
        ((dev.fresh.2.log c).freshN env.imageCount).1).2.calls = gpuRun dev.calls := by
    intro c hc
    rw [createImageViews_gpu]
    exact gpuRun_log_neutral _ _ hc
  unfold SwapChain.create
  simp only []
  split_ifs with h1
  · exact gpuRun_log_neutral _ _ rfl
  · split
    · rename_i dev5 x y what heq
      have h := createImage_gpu _ _ _ _ _ heq
      simp only [Outcome.state] at h ⊢
      rw [h]
      exact hbase _ rfl
    · rename_i dev5 depthImage depthMemory heq
      have h := createImage_gpu _ _ _ _ _ heq
      simp only [Outcome.state] at h ⊢
      rw [createImageView_gpu, h]
      exact hbase _ rfl

theorem cleanupCalls_neutral (sc : SwapChain) : ∀ c ∈ sc.cleanupCalls, c.gpuNeutral = true := by
  intro c hc
  unfold SwapChain.cleanupCalls at hc
  simp only [List.mem_append, List.mem_map] at hc
  rcases hc with (((hc | hc) | hc) | ⟨v, _, hc⟩) | hc
  · split_ifs at hc
    · rw [List.mem_singleton.mp hc]; rfl
    · exact absurd hc (List.not_mem_nil _)
  · split_ifs at hc
    · rw [List.mem_singleton.mp hc]; rfl
    · exact absurd hc (List.not_mem_nil _)
  · split_ifs at hc
    · rw [List.mem_singleton.mp hc]; rfl
    · exact absurd hc (List.not_mem_nil _)
  · rw [← hc]; rfl
  · split_ifs at hc
    · rw [List.mem_singleton.mp hc]; rfl
    · exact absurd hc (List.not_mem_nil _)

theorem createFramebuffersLoop_gpu (sc : SwapChain) (n : Nat) :
    ∀ (results : List VkResult) (i : Nat) (dev : VulkanDevice) (fbs : List Handle),
      gpuRun (createFramebuffersLoop sc n results i dev fbs).state.1.calls = gpuRun dev.calls := by
  induction n with
  | zero => intro results i dev fbs; rfl
  | succ n ih =>
    intro results i dev fbs
    simp only [createFramebuffersLoop]
    split_ifs
    · exact gpuRun_log_neutral _ _ rfl
    · rw [ih]
      exact gpuRun_log_neutral _ _ rfl

theorem createFramebuffers_gpu (dev : VulkanDevice) (r : Renderer) (results : List VkResult) :
    gpuRun (r.createFramebuffers dev results).state.1.calls = gpuRun dev.calls := by
  have h := createFramebuffersLoop_gpu r.m_swapChain r.m_swapChain.m_swapChainImages.length
    results 0 dev (vecResize r.m_framebuffers r.m_swapChain.m_swapChainImages.length)
  unfold Renderer.createFramebuffers
  simp only []
  split
  · rename_i dev1 fbs heq
    rw [heq] at h
    exact h
  · rename_i dev1 fbs what heq
    rw [heq] at h
    exact h

theorem createCommandBuffers_gpu (dev : VulkanDevice) (r : Renderer) (result : VkResult) :
    gpuRun (r.createCommandBuffers dev result).state.1.calls = gpuRun dev.calls := by
  unfold Renderer.createCommandBuffers
  simp only []
  split_ifs
  · exact gpuRun_log_neutral _ _ rfl
  · exact gpuRun_log_neutral _ _ rfl

theorem createFramebuffers_fences (dev : VulkanDevice) (r : Renderer)
    (results : List VkResult) (o : Outcome (VulkanDevice × Renderer))
    (h : r.createFramebuffers dev results = o) :
    o.state.2.m_inFlightFences = r.m_inFlightFences
      ∧ o.state.2.m_commandBuffers = r.m_commandBuffers := by
  subst h
  unfold Renderer.createFramebuffers
  simp only []
  split <;> exact ⟨rfl, rfl⟩

theorem vecResize_length (v : List Handle) (n : Nat) : (vecResize v n).length = n := by
  unfold vecResize
  simp only [List.length_append, List.length_take, List.length_replicate]
  omega

/-- The command buffers a successful `createCommandBuffers` leaves: two new, distinct ones. -/
theorem createCommandBuffers_ok (dev : VulkanDevice) (r : Renderer) (result : VkResult)
    (s : VulkanDevice × Renderer) (h : r.createCommandBuffers dev result = .ok s) :
    s.2.m_inFlightFences = r.m_inFlightFences
      ∧ vecAt s.2.m_commandBuffers 0 ≠ vecAt s.2.m_commandBuffers 1 := by
  unfold Renderer.createCommandBuffers at h
  simp only [] at h
  split_ifs at h
  injection h with h
  subst h
  refine ⟨rfl, ?_⟩
  simp only [VulkanDevice.freshN, vecResize_length, MAX_FRAMES_IN_FLIGHT]
  simp [vecAt, List.range, List.range.loop]

/-- The device-idle wait re-establishes the fence invariant for any two distinct command
buffers: nothing is pending after it and every slot's fence is signalled. -/
theorem waitIdle_slotInv (g : GpuState) (cbs cbs1 fences : List Handle)
    (h : SlotInv g cbs fences) (hne : vecAt cbs1 0 ≠ vecAt cbs1 1) :
    SlotInv (g.step .vkDeviceWaitIdle) cbs1 fences := by
  refine ⟨h.fences_ne, hne, ?_, ?_, ?_, h.clean⟩
  · intro e he
    exact absurd he (List.not_mem_nil _)
  · intro j _ he
    exact absurd he (List.not_mem_nil _)
  · intro j hj
    left
    simp only [GpuState.step, List.mem_append, List.mem_map]
    rcases h.ready j hj with h1 | h1
    · exact Or.inr h1
    · exact Or.inl ⟨_, h1, rfl⟩

/-- The GPU side of `recreateSwapChain`: of all its calls only the device-idle wait
touches fences and submissions. -/
theorem recreateSwapChain_gpu (dev : VulkanDevice) (r : Renderer) (env : RecreateEnv)
    (width height : Nat) :
    gpuRun (r.recreateSwapChain dev env width height).state.1.calls
      = (gpuRun dev.calls).step .vkDeviceWaitIdle := by
  have h0 : gpuRun (dev.waitIdle.logAll (r.m_framebuffers.map Call.vkDestroyFramebuffer)).calls
      = (gpuRun dev.calls).step .vkDeviceWaitIdle := by
    rw [gpuRun_logAll_neutral]
    · simp only [VulkanDevice.waitIdle, VulkanDevice.log, gpuRun_append, List.foldl_cons,
        List.foldl_nil]
    · intro c hc
      obtain ⟨fb, _, hfb⟩ := List.mem_map.mp hc
      rw [← hfb]
      rfl
  have h1 := SwapChain_create_gpu
    (dev.waitIdle.logAll (r.m_framebuffers.map Call.vkDestroyFramebuffer)) env.swapChain
    width height
  unfold Renderer.recreateSwapChain
  simp only []
  split
  · rename_i dev3 sc what hsc
    rw [hsc] at h1
    simp only [Outcome.state] at h1 ⊢
    rw [h1, h0]
  · rename_i dev3 sc hsc
    rw [hsc] at h1
    simp only [Outcome.state] at h1
    split
    · rename_i s what hfb
      have h2 := createFramebuffers_gpu (dev3.logAll r.m_swapChain.cleanupCalls)
        { r with m_framebuffers := [], m_swapChain := sc } env.framebufferResults
      rw [hfb] at h2
      rw [h2, gpuRun_logAll_neutral _ _ (cleanupCalls_neutral _), h1, h0]
    · rename_i dev5 r3 hfb
      have h2 := createFramebuffers_gpu (dev3.logAll r.m_swapChain.cleanupCalls)
        { r with m_framebuffers := [], m_swapChain := sc } env.framebufferResults
      rw [hfb] at h2
      simp only [Outcome.state] at h2
      rw [createCommandBuffers_gpu, h2, gpuRun_logAll_neutral _ _ (cleanupCalls_neutral _),
        h1, h0]

/-- A `recreateSwapChain` that returns keeps the fences and leaves two distinct command
buffers. -/
theorem recreateSwapChain_ok (dev : VulkanDevice) (r : Renderer) (env : RecreateEnv)
    (width height : Nat) (s : VulkanDevice × Renderer)
    (h : r.recreateSwapChain dev env width height = .ok s) :
    s.2.m_inFlightFences = r.m_inFlightFences
      ∧ vecAt s.2.m_commandBuffers 0 ≠ vecAt s.2.m_commandBuffers 1 := by
  unfold Renderer.recreateSwapChain at h
  simp only [] at h
  split at h
  · exact absurd h (by simp)
  · split at h
    · exact absurd h (by simp)
    · rename_i dev5 r3 hfb
      have h1 := (createFramebuffers_fences _ _ _ _ hfb).1
      have h2 := createCommandBuffers_ok _ _ _ _ h
      simp only [Outcome.state] at h1
      exact ⟨h2.1.trans h1, h2.2⟩

/-- One iteration of the main loop whose acquire does not report out-of-date, with or
without a resize: no command buffer is reset while pending, no wait blocks for ever, and
when the iteration returns the fence invariant holds again. -/
theorem iteration_fence_protocol (app : Application) (env : LoopEnv)
    (out : Outcome Application)
    (hacq : env.frame.acquireResult ≠ VK_ERROR_OUT_OF_DATE_KHR)
    (hk : app.m_renderer.m_currentFrame < 2)
    (hinv : SlotInv (gpuRun app.m_device.calls) app.m_renderer.m_commandBuffers
      app.m_renderer.m_inFlightFences)
    (hout : app.mainLoopIteration env = some out) :
    (gpuRun out.state.m_device.calls).resetWhilePending = []
      ∧ (gpuRun out.state.m_device.calls).blocked = false
      ∧ (out.isOk = true →
          out.state.m_renderer.m_currentFrame < 2
          ∧ SlotInv (gpuRun out.state.m_device.calls) out.state.m_renderer.m_commandBuffers
              out.state.m_renderer.m_inFlightFences) := by
  have hframe : ∀ app1 : Application, app1.m_renderer.m_currentFrame < 2 →
      SlotInv (gpuRun app1.m_device.calls) app1.m_renderer.m_commandBuffers
        app1.m_renderer.m_inFlightFences →
      (gpuRun (app1.renderFrame env.frame).state.m_device.calls).resetWhilePending = []
      ∧ (gpuRun (app1.renderFrame env.frame).state.m_device.calls).blocked = false
      ∧ ((app1.renderFrame env.frame).isOk = true →
          (app1.renderFrame env.frame).state.m_renderer.m_currentFrame < 2
          ∧ SlotInv (gpuRun (app1.renderFrame env.frame).state.m_device.calls)
              (app1.renderFrame env.frame).state.m_renderer.m_commandBuffers
              (app1.renderFrame env.frame).state.m_renderer.m_inFlightFences) := by
    intro app1 hk1 hinv1
    obtain ⟨h1, h2, h3⟩ := renderFrame_fence_protocol app1 env.frame hacq hk1 hinv1
    exact ⟨h1, h2, fun hok => ⟨(h3 hok).2.1, (h3 hok).2.2⟩⟩
  have hrender : ∀ app0 : Application, app0.m_renderer = app.m_renderer →
      app0.m_device = app.m_device → app0.render env = some out →
      (gpuRun out.state.m_device.calls).resetWhilePending = []
      ∧ (gpuRun out.state.m_device.calls).blocked = false
      ∧ (out.isOk = true →
          out.state.m_renderer.m_currentFrame < 2
          ∧ SlotInv (gpuRun out.state.m_device.calls) out.state.m_renderer.m_commandBuffers
              out.state.m_renderer.m_inFlightFences) := by
    intro app0 hr0 hd0 hrun
    unfold Application.render at hrun
    split_ifs at hrun with hres
    · split at hrun
      · exact absurd hrun (by simp)
      · rename_i width height hsize
        simp only [hr0, hd0] at hrun
        have hgpu := recreateSwapChain_gpu app.m_device app.m_renderer env.recreate width height
        split at hrun
        · rename_i dev1 r1 what hrec
          injection hrun with hrun
          subst hrun
          rw [hrec] at hgpu
          simp only [Outcome.state] at hgpu ⊢
          rw [hgpu]
          exact ⟨hinv.clean.1, hinv.clean.2, fun h => absurd h (by simp [Outcome.isOk])⟩
        · rename_i dev1 r1 hrec
          injection hrun with hrun
          subst hrun
          rw [hrec] at hgpu
          simp only [Outcome.state] at hgpu
          have hok := recreateSwapChain_ok _ _ _ _ _ _ hrec
          have hcf := recreateSwapChain_currentFrame _ _ _ _ _ _ hrec
          simp only [Outcome.state] at hcf
          apply hframe
          · simp only [hcf]
            exact hk
          · have hs := waitIdle_slotInv _ _ r1.m_commandBuffers _ hinv hok.2
            rw [← hok.1, ← hgpu] at hs
            exact hs
    · injection hrun with hrun
      subst hrun
      apply hframe
      · rw [hr0]; exact hk
      · rw [hr0, hd0]; exact hinv
  unfold Application.mainLoopIteration at hout
  split_ifs at hout
  · exact hrender app.framebuffer_resize_callback rfl rfl hout
  · exact hrender app rfl rfl hout

/-- Over every run of the main loop, resizes included, in which no acquire reports
out-of-date, from a state that satisfies the fence invariant: no command buffer is ever
reset while one of its submissions is pending, and no fence wait blocks for ever. -/
theorem fence_protocol_without_out_of_date (envs : List LoopEnv) :
    ∀ (app : Application) (out : Outcome Application),
      app.m_renderer.m_currentFrame < 2 →
      SlotInv (gpuRun app.m_device.calls) app.m_renderer.m_commandBuffers
        app.m_renderer.m_inFlightFences →
      (∀ env ∈ envs, env.frame.acquireResult ≠ VK_ERROR_OUT_OF_DATE_KHR) →
      app.mainLoop envs = some out →
      (gpuRun out.state.m_device.calls).resetWhilePending = []
        ∧ (gpuRun out.state.m_device.calls).blocked = false := by
  induction envs with
  | nil =>
    intro app out _ hinv _ hrun
    simp only [Application.mainLoop, Option.some.injEq] at hrun
    subst hrun
    exact hinv.clean
  | cons env rest ih =>
    intro app out hk hinv henvs hrun
    simp only [Application.mainLoop] at hrun
    cases hit : app.mainLoopIteration env with
    | none => simp [hit] at hrun
    | some o =>
      obtain ⟨hclean1, hclean2, hnext⟩ := iteration_fence_protocol app env o
        (henvs env (List.mem_cons_self _ _)) hk hinv hit
      cases o with
      | thrown app1 what =>
        simp only [hit, Option.some.injEq] at hrun
        subst hrun
        exact ⟨hclean1, hclean2⟩
      | ok app1 =>
        simp only [hit] at hrun
        obtain ⟨h2, h3⟩ := hnext rfl
        exact ih app1 out h2 h3 (fun e he => henvs e (List.mem_cons_of_mem _ he)) hrun

/-- The start state satisfies the fence invariant: both fences signalled as created,
nothing pending. -/
theorem startApp_slotInv (scene : Scene) :
    SlotInv (gpuRun (startApp scene).m_device.calls) (startApp scene).m_renderer.m_commandBuffers
      (startApp scene).m_renderer.m_inFlightFences := by
  have hg : gpuRun (startApp scene).m_device.calls = ⟨[1007, 1004], [], [], false⟩ := by rfl
  have hcb : (startApp scene).m_renderer.m_commandBuffers = [1000, 1001] := by rfl
  have hf : (startApp scene).m_renderer.m_inFlightFences = [1004, 1007] := by rfl
  rw [hg, hcb, hf]
  refine ⟨by decide, by decide, ?_, ?_, ?_, ⟨rfl, rfl⟩⟩
  · intro e he
    exact absurd he (List.not_mem_nil _)
  · intro j _ he
    exact absurd he (List.not_mem_nil _)
  · intro j hj
    left
    rcases (by omega : j = 0 ∨ j = 1) with h | h <;> subst h <;> decide

/-- From the start state, for every scene: as long as no acquire reports out-of-date, no
command buffer is reset while one of its submissions is pending. -/
theorem startApp_fence_protocol (scene : Scene) (envs : List LoopEnv)
    (out : Outcome Application)
    (henvs : ∀ env ∈ envs, env.frame.acquireResult ≠ VK_ERROR_OUT_OF_DATE_KHR)
    (hrun : (startApp scene).mainLoop envs = some out) :
    (gpuRun out.state.m_device.calls).resetWhilePending = []
      ∧ (gpuRun out.state.m_device.calls).blocked = false :=
  fence_protocol_without_out_of_date envs (startApp scene) out (Nat.zero_lt_two)
    (startApp_slotInv scene) henvs hrun

/-! ## C3 -/

/-- C3: `Renderer::endFrame`, when ending the command buffer and the queue submit
succeed, submits and presents slot `k` and replaces the slot index `k` by
`(k + 1) mod 2`; `beginFrame` and `renderScene` leave the index unchanged; hence over
every run of the main loop an index below 2 stays below 2, and starting from index 0
the frame that follows `i` successfully submitted frames finds the index `i mod 2`
(slots 0, 1, 0, 1, ...). -/
theorem C3_slot_index_round_robin :
    (∀ (dev : VulkanDevice) (r : Renderer) (env : FrameEnv),
        env.endResult = VK_SUCCESS → env.submitResult = VK_SUCCESS →
        r.endFrame dev env = .ok
          (dev.logAll
            [.vkCmdEndRenderPass (vecAt r.m_commandBuffers r.m_currentFrame),
             .vkEndCommandBuffer (vecAt r.m_commandBuffers r.m_currentFrame),
             .vkQueueSubmit (vecAt r.m_imageAvailableSemaphores r.m_currentFrame)
               (vecAt r.m_commandBuffers r.m_currentFrame)
               (vecAt r.m_renderFinishedSemaphores r.m_currentFrame)
               (vecAt r.m_inFlightFences r.m_currentFrame),
             .vkQueuePresentKHR (vecAt r.m_renderFinishedSemaphores r.m_currentFrame)
               r.m_swapChain.m_swapChain r.m_imageIndex],
           { r with m_currentFrame := (r.m_currentFrame + 1) % 2 }))
    ∧ (∀ (dev : VulkanDevice) (r : Renderer) (env : FrameEnv),
        (r.beginFrame dev env).state.2.m_currentFrame = r.m_currentFrame)
    ∧ (∀ (dev : VulkanDevice) (r : Renderer) (scene : Scene),
        (r.renderScene dev scene).2.m_currentFrame = r.m_currentFrame)
    ∧ (∀ (app : Application) (envs : List LoopEnv) (out : Outcome Application),
        app.m_renderer.m_currentFrame < 2 → app.mainLoop envs = some out →
        out.state.m_renderer.m_currentFrame < 2)
    ∧ (∀ (app : Application) (envs : List LoopEnv) (i : Nat) (app1 : Application),
        app.m_renderer.m_currentFrame = 0 → i ≤ envs.length →
        app.mainLoop (envs.take i) = some (.ok app1) →
        app1.m_renderer.m_currentFrame = i % 2) := by
  refine ⟨?_, ?_, ?_, ?_, ?_⟩
  · intro dev r env he hs
    unfold Renderer.endFrame
    simp [he, hs, VulkanDevice.log, VulkanDevice.logAll]
    unfold MAX_FRAMES_IN_FLIGHT
    omega
  · intro dev r env
    exact beginFrame_currentFrame dev r env _ rfl
  · intro dev r scene
    rfl
  · intro app envs out hk h
    exact mainLoop_currentFrame_lt envs app out hk h
  · intro app envs i app1 h0 hi h
    have := mainLoop_currentFrame_ok (envs.take i) app app1 (by omega) h
    rw [this, h0, List.length_take, Nat.min_eq_left hi, Nat.zero_add]

/-- Witness for C3: three successful frames of the start application use slots 0, 1, 0,
and the fourth frame finds index `3 mod 2 = 1`. -/
theorem C3_slot_index_round_robin_witness :
    (startApp ⟨[]⟩).m_renderer.endFrame (startApp ⟨[]⟩).m_device (okFrame 0) = .ok
        ((startApp ⟨[]⟩).m_device.logAll
          [.vkCmdEndRenderPass 1000, .vkEndCommandBuffer 1000,
           .vkQueueSubmit 1002 1000 1003 1004, .vkQueuePresentKHR 1003 100 0],
         { (startApp ⟨[]⟩).m_renderer with m_currentFrame := 1 })
    ∧ (∀ out, (startApp ⟨[]⟩).mainLoop [okLoop 0, okLoop 1, okLoop 2] = some out →
        out.state.m_renderer.m_currentFrame < 2)
    ∧ (∃ app1, (startApp ⟨[]⟩).mainLoop ([okLoop 0, okLoop 1, okLoop 2].take 3) = some (.ok app1)
        ∧ app1.m_renderer.m_currentFrame = 3 % 2) :=
  ⟨C3_slot_index_round_robin.1 (startApp ⟨[]⟩).m_device (startApp ⟨[]⟩).m_renderer (okFrame 0)
      rfl rfl,
   fun out h => C3_slot_index_round_robin.2.2.2.1 (startApp ⟨[]⟩) _ out (by decide) h,
   ⟨afterFrames (startApp ⟨[]⟩) [okLoop 0, okLoop 1, okLoop 2], by rfl,
    C3_slot_index_round_robin.2.2.2.2 (startApp ⟨[]⟩) [okLoop 0, okLoop 1, okLoop 2] 3 _
      (by rfl) (by decide) (by rfl)⟩⟩

/-! ## C4 -/

/-- C4: for every scene (also one without models) the sequence `renderScene` records
ends with the grid-pipeline bind, the grid descriptor-set bind and the grid draw
`vkCmdDraw(6, 1)`; before these three there is no non-indexed draw, every pipeline bind
is the model-pipeline bind, and all indexed draws of the sequence are there; so the
grid draw is recorded exactly once and is the last command. -/
theorem C4_models_before_grid (dev : VulkanDevice) (r : Renderer) (scene : Scene) :
    ∃ pre : List Call,
      (r.renderScene dev scene).1.calls = dev.calls ++ (pre ++
        [.vkCmdBindPipeline (vecAt r.m_commandBuffers r.m_currentFrame) r.m_gridPipeline,
         .vkCmdBindDescriptorSets (vecAt r.m_commandBuffers r.m_currentFrame)
           r.m_gridPipelineLayout (vecAt r.m_gridDescriptorSets r.m_currentFrame),
         .vkCmdDraw (vecAt r.m_commandBuffers r.m_currentFrame) 6 1])
      ∧ pre.filter Call.isDraw = []
      ∧ (∀ c ∈ pre, c.isBindPipeline = true →
          c = .vkCmdBindPipeline (vecAt r.m_commandBuffers r.m_currentFrame) r.m_modelPipeline)
      ∧ pre.filter Call.isDrawIndexed = (r.renderSceneCalls scene).filter Call.isDrawIndexed
      ∧ (r.renderSceneCalls scene).filter Call.isDraw =
          [.vkCmdDraw (vecAt r.m_commandBuffers r.m_currentFrame) 6 1]
      ∧ (r.renderSceneCalls scene).getLast? =
          some (.vkCmdDraw (vecAt r.m_commandBuffers r.m_currentFrame) 6 1) := by
  have hd := drawModels_filter r Call.isDraw _
    (fun model pc mesh => drawMesh_filter_draw r model pc mesh) scene.m_models
  rw [flatMap_nil_fun] at hd
  have hb := drawModels_filter r Call.isBindPipeline _
    (fun model pc mesh => drawMesh_filter_bindPipeline r model pc mesh) scene.m_models
  rw [flatMap_nil_fun] at hb
  have hpre : ∀ pre : List Call, pre = ([Call.vkCmdSetViewport (vecAt r.m_commandBuffers r.m_currentFrame)
          r.m_swapChain.m_swapChainExtent.width r.m_swapChain.m_swapChainExtent.height,
        Call.vkCmdSetScissor (vecAt r.m_commandBuffers r.m_currentFrame)
          r.m_swapChain.m_swapChainExtent]
        ++ (if scene.m_models.isEmpty then []
            else [Call.vkCmdBindPipeline (vecAt r.m_commandBuffers r.m_currentFrame) r.m_modelPipeline]
              ++ r.updateModelUniformBuffer r.m_currentFrame
              ++ scene.m_models.flatMap r.drawModel)
        ++ r.updateGridUniformBuffer r.m_currentFrame) →
      pre.filter Call.isDraw = [] ∧
      pre.filter Call.isBindPipeline = (if scene.m_models.isEmpty then []
        else [Call.vkCmdBindPipeline (vecAt r.m_commandBuffers r.m_currentFrame) r.m_modelPipeline]) := by
    intro pre hpre
    subst hpre
    unfold Renderer.updateModelUniformBuffer Renderer.updateGridUniformBuffer
    split_ifs with he
    · simp [List.filter, Call.isDraw, Call.isBindPipeline]
    · simp only [List.filter_append, hd, hb]
      simp [List.filter, Call.isDraw, Call.isBindPipeline]
  refine ⟨_, ?_, (hpre _ rfl).1, ?_, ?_, ?_, ?_⟩
  · show (dev.logAll (r.renderSceneCalls scene)).calls = _
    rw [renderSceneCalls_split]
    rfl
  · intro c hc hcb
    have hmem : c ∈ List.filter Call.isBindPipeline _ := List.mem_filter.mpr ⟨hc, hcb⟩
    rw [(hpre _ rfl).2] at hmem
    split_ifs at hmem with he
    · exact absurd hmem (List.not_mem_nil _)
    · exact List.mem_singleton.mp hmem
  · rw [renderSceneCalls_split, List.filter_append]
    simp [List.filter, Call.isDrawIndexed]
  · rw [renderSceneCalls_split, List.filter_append, (hpre _ rfl).1]
    simp [List.filter, Call.isDraw]
  · rw [renderSceneCalls_split, List.getLast?_append]
    rfl

/-! ## C5 -/

/-- C5 (as stated) fails: for a mesh of `2 ^ 32` indices the recorded indexed draw has
index count `0`, not the mesh's `indices.size()`. -/
theorem C5_index_count_counterexample :
    hugeMesh.indices.length = 4294967296
    ∧ (startRenderer.state.2.renderSceneCalls hugeScene).filter Call.isDrawIndexed
        = [.vkCmdDrawIndexed 1000 0 1]
    ∧ (startRenderer.state.2.renderSceneCalls hugeScene).filter Call.isDrawIndexed
        ≠ (hugeScene.m_models.flatMap (·.m_meshes)).map (fun mesh =>
            Call.vkCmdDrawIndexed 1000 mesh.indices.length 1) := by
  have hlen : hugeMesh.indices.length = 4294967296 := by
    simp only [hugeMesh, List.length_replicate]
    norm_num
  have hcb : vecAt startRenderer.state.2.m_commandBuffers startRenderer.state.2.m_currentFrame
      = 1000 := by decide
  have hcalls : (startRenderer.state.2.renderSceneCalls hugeScene).filter Call.isDrawIndexed
      = [.vkCmdDrawIndexed 1000 0 1] := by
    rw [renderSceneCalls_filter_drawIndexed, hcb]
    simp only [hugeScene, List.flatMap_cons, List.flatMap_nil, List.append_nil, List.map_cons,
      List.map_nil, hlen, static_cast_uint32_t]
    norm_num
  refine ⟨hlen, hcalls, ?_⟩
  rw [hcalls]
  simp only [hugeScene, List.flatMap_cons, List.flatMap_nil, List.append_nil, List.map_cons,
    List.map_nil, hlen]
  simp

/-- C5 (amended): the vertex-buffer binds, index-buffer binds and indexed draws recorded
by `renderScene` are, in order, one triple per mesh of the concatenation of the models'
mesh lists: that mesh's vertex buffer, that mesh's index buffer, then one indexed draw
whose index count is the mesh's `indices.size()` converted to `uint32_t`; when every
mesh has fewer than `2 ^ 32` indices the index counts are exactly the `indices.size()`;
the pipeline binds are the model-pipeline bind (present, once, exactly when the scene
has a model) followed by the grid-pipeline bind. -/
theorem C5_indexed_draws_per_mesh (r : Renderer) (scene : Scene) :
    (r.renderSceneCalls scene).filter Call.isGeometry =
        (scene.m_models.flatMap (·.m_meshes)).flatMap r.meshGeometry
    ∧ ((∀ model ∈ scene.m_models, ∀ mesh ∈ model.m_meshes, mesh.indices.length < 2 ^ 32) →
        (r.renderSceneCalls scene).filter Call.isDrawIndexed =
          (scene.m_models.flatMap (·.m_meshes)).map (fun mesh =>
            Call.vkCmdDrawIndexed (vecAt r.m_commandBuffers r.m_currentFrame)
              mesh.indices.length 1))
    ∧ (r.renderSceneCalls scene).filter Call.isBindPipeline =
        (if scene.m_models.isEmpty then []
          else [Call.vkCmdBindPipeline (vecAt r.m_commandBuffers r.m_currentFrame)
            r.m_modelPipeline])
        ++ [.vkCmdBindPipeline (vecAt r.m_commandBuffers r.m_currentFrame) r.m_gridPipeline] := by
  refine ⟨renderSceneCalls_filter_geometry r scene, ?_, renderSceneCalls_filter_bindPipeline r scene⟩
  intro hsmall
  rw [renderSceneCalls_filter_drawIndexed]
  apply List.map_congr_left
  intro mesh hmesh
  obtain ⟨model, hmodel, hmem⟩ := List.mem_flatMap.mp hmesh
  have := hsmall model hmodel mesh hmem
  simp only [static_cast_uint32_t]
  rw [Nat.mod_eq_of_lt this]

/-- Witness for C5: the two-model scene, whose three meshes have 3, 6 and 3 indices. -/
theorem C5_indexed_draws_per_mesh_witness :
    (startRenderer.state.2.renderSceneCalls twoModelScene).filter Call.isDrawIndexed =
      [.vkCmdDrawIndexed 1000 3 1, .vkCmdDrawIndexed 1000 6 1, .vkCmdDrawIndexed 1000 3 1] :=
  (C5_indexed_draws_per_mesh startRenderer.state.2 twoModelScene).2.1 (by decide)

/-! ## C6 and C7: the swap extent -/

theorem createFramebuffers_swapChain (dev : VulkanDevice) (r : Renderer)
    (results : List VkResult) (o : Outcome (VulkanDevice × Renderer))
    (h : r.createFramebuffers dev results = o) :
    o.state.2.m_swapChain = r.m_swapChain := by
  subst h
  unfold Renderer.createFramebuffers
  simp only []
  split <;> rfl

theorem createCommandBuffers_swapChain (dev : VulkanDevice) (r : Renderer)
    (result : VkResult) (o : Outcome (VulkanDevice × Renderer))
    (h : r.createCommandBuffers dev result = o) :
    o.state.2.m_swapChain = r.m_swapChain := by
  subst h
  unfold Renderer.createCommandBuffers
  simp only []
  split_ifs <;> rfl

theorem SwapChain_create_extent (dev : VulkanDevice) (env : SwapChainEnv) (width height : Nat)
    (s : VulkanDevice × SwapChain) (h : SwapChain.create dev env width height = .ok s) :
    s.2.m_swapChainExtent = chooseSwapExtent env.support.capabilities width height := by
  unfold SwapChain.create at h
  simp only [] at h
  split_ifs at h
  split at h
  · exact absurd h (by simp)
  · injection h with h
    subst h
    rfl

/-- The presentation extent after a `recreateSwapChain` that returns. -/
theorem recreateSwapChain_extent (dev : VulkanDevice) (r : Renderer) (env : RecreateEnv)
    (width height : Nat) (s : VulkanDevice × Renderer)
    (h : r.recreateSwapChain dev env width height = .ok s) :
    s.2.m_swapChain.m_swapChainExtent =
      chooseSwapExtent env.swapChain.support.capabilities width height := by
  unfold Renderer.recreateSwapChain at h
  simp only [] at h
  split at h
  · exact absurd h (by simp)
  · rename_i dev3 sc hsc
    have hext := SwapChain_create_extent _ _ _ _ _ hsc
    simp only [] at hext
    split at h
    · exact absurd h (by simp)
    · rename_i dev5 r3 hfb
      have h1 := createFramebuffers_swapChain _ _ _ _ hfb
      have h2 := createCommandBuffers_swapChain _ _ _ _ h
      simp only [Outcome.state] at h1 h2
      rw [h2, h1, hext]

theorem clamp_zero (lo hi : Nat) : clamp 0 lo hi = lo := by
  unfold clamp
  split_ifs <;> omega

/-- C6 (as stated) fails: on a surface that reports its own extent (800x600, limits 1x1
to 4096x4096) a request for 1024x768 yields 800x600, not the clamped request 1024x768,
also as the presentation extent after `recreateSwapChain(1024, 768)`. -/
theorem C6_clamped_extent_counterexample :
    chooseSwapExtent fixedSupport.capabilities 1024 768 = ⟨800, 600⟩
    ∧ (⟨clamp 1024 fixedSupport.capabilities.minImageExtent.width
            fixedSupport.capabilities.maxImageExtent.width,
         clamp 768 fixedSupport.capabilities.minImageExtent.height
            fixedSupport.capabilities.maxImageExtent.height⟩ : VkExtent2D) = ⟨1024, 768⟩
    ∧ (startRenderer.state.2.recreateSwapChain startRenderer.state.1 (recreateWith fixedSupport)
          1024 768).isOk = true
    ∧ (startRenderer.state.2.recreateSwapChain startRenderer.state.1 (recreateWith fixedSupport)
          1024 768).state.2.m_swapChain.m_swapChainExtent = ⟨800, 600⟩ := by
  refine ⟨by decide, by decide, by rfl, by rfl⟩

/-- C6 (amended): for every surface capability set and every requested (W, H), the
extent chosen by `chooseSwapExtent` is `capabilities.currentExtent` when
`currentExtent.width` is not the sentinel `0xFFFFFFFF`, and
(clamp(W, min.width, max.width), clamp(H, min.height, max.height)) when it is; with
min <= max a clamped side lies between min and max and is the requested side when that
lies between them; the presentation extent after a `recreateSwapChain(W, H)` that
returns is the chosen extent. -/
theorem C6_chosen_extent (capabilities : VkSurfaceCapabilitiesKHR) (W H : Nat) :
    (capabilities.currentExtent.width ≠ UINT32_MAX →
        chooseSwapExtent capabilities W H = capabilities.currentExtent)
    ∧ (capabilities.currentExtent.width = UINT32_MAX →
        chooseSwapExtent capabilities W H =
          ⟨clamp W capabilities.minImageExtent.width capabilities.maxImageExtent.width,
           clamp H capabilities.minImageExtent.height capabilities.maxImageExtent.height⟩)
    ∧ (∀ v lo hi : Nat, lo ≤ hi →
        lo ≤ clamp v lo hi ∧ clamp v lo hi ≤ hi ∧ (lo ≤ v → v ≤ hi → clamp v lo hi = v))
    ∧ (∀ (dev : VulkanDevice) (r : Renderer) (env : RecreateEnv) (s : VulkanDevice × Renderer),
        env.swapChain.support.capabilities = capabilities →
        r.recreateSwapChain dev env W H = .ok s →
        s.2.m_swapChain.m_swapChainExtent = chooseSwapExtent capabilities W H) := by
  refine ⟨?_, ?_, ?_, ?_⟩
  · intro h
    unfold chooseSwapExtent
    rw [if_pos h]
  · intro h
    unfold chooseSwapExtent
    rw [if_neg (by simp [h])]
  · intro v lo hi hle
    unfold clamp
    refine ⟨?_, ?_, ?_⟩
    · split_ifs <;> omega
    · split_ifs <;> omega
    · intro h1 h2
      split_ifs <;> omega
  · intro dev r env s hc h
    rw [← hc]
    exact recreateSwapChain_extent dev r env W H s h

/-- Witness for C6: both kinds of surface, a request of 5000x300. -/
theorem C6_chosen_extent_witness :
    chooseSwapExtent fixedSupport.capabilities 5000 300 = ⟨800, 600⟩
    ∧ chooseSwapExtent freeSupport.capabilities 5000 300 = ⟨4096, 300⟩
    ∧ (1 ≤ clamp 300 1 4096 ∧ clamp 300 1 4096 ≤ 4096 ∧ clamp 300 1 4096 = 300)
    ∧ (startRenderer.state.2.recreateSwapChain startRenderer.state.1 (recreateWith freeSupport)
          5000 300).state.2.m_swapChain.m_swapChainExtent = ⟨4096, 300⟩ :=
  ⟨(C6_chosen_extent fixedSupport.capabilities 5000 300).1 (by decide),
   (C6_chosen_extent freeSupport.capabilities 5000 300).2.1 (by decide),
   ⟨((C6_chosen_extent freeSupport.capabilities 5000 300).2.2.1 300 1 4096 (by decide)).1,
    ((C6_chosen_extent freeSupport.capabilities 5000 300).2.2.1 300 1 4096 (by decide)).2.1,
    ((C6_chosen_extent freeSupport.capabilities 5000 300).2.2.1 300 1 4096 (by decide)).2.2
      (by decide) (by decide)⟩,
   (C6_chosen_extent freeSupport.capabilities 5000 300).2.2.2 startRenderer.state.1
      startRenderer.state.2 (recreateWith freeSupport)
      (startRenderer.state.2.recreateSwapChain startRenderer.state.1 (recreateWith freeSupport)
          5000 300).state
      (by rfl) (by rfl)⟩

/-- The size loop of `Application::render` hands on a size with no zero side. -/
theorem awaitFramebufferSize_nonzero (sizes : List (Nat × Nat)) (width height : Nat)
    (h : awaitFramebufferSize sizes = some (width, height)) : width ≠ 0 ∧ height ≠ 0 := by
  induction sizes with
  | nil => simp [awaitFramebufferSize] at h
  | cons size rest ih =>
    obtain ⟨w, h0⟩ := size
    unfold awaitFramebufferSize at h
    split_ifs at h with hz
    · exact ih h
    · injection h with h
      injection h with h1 h2
      subst h1 h2
      omega

/-- C7 (as stated) fails: with width and height 0, a surface that reports its own
extent gets that extent, not the adapter minimum (800x600 against 1x1); a minimised
window, whose extents are all 0x0, gets the zero-sized extent 0x0; and a surface that
leaves the extent open but allows 0x0 gets 0x0 as well. -/
theorem C7_zero_request_counterexample :
    chooseSwapExtent fixedSupport.capabilities 0 0 = ⟨800, 600⟩
    ∧ fixedSupport.capabilities.minImageExtent = ⟨1, 1⟩
    ∧ chooseSwapExtent minimisedSupport.capabilities 0 0 = ⟨0, 0⟩
    ∧ chooseSwapExtent freeZeroSupport.capabilities 0 0 = ⟨0, 0⟩
    ∧ (startRenderer.state.2.recreateSwapChain startRenderer.state.1
          (recreateWith minimisedSupport) 0 0).isOk = true
    ∧ (startRenderer.state.2.recreateSwapChain startRenderer.state.1
          (recreateWith minimisedSupport) 0 0).state.2.m_swapChain.m_swapChainExtent = ⟨0, 0⟩ := by
  refine ⟨by decide, by decide, by decide, by decide, by rfl, by rfl⟩

/-- C7 (amended): for every surface capability set, `chooseSwapExtent(capabilities, 0, 0)`
is `capabilities.currentExtent` when `currentExtent.width` is not the sentinel
`0xFFFFFFFF` and the adapter minimum extent when it is; its width and height are
non-zero exactly when those of that extent are; after a `recreateSwapChain(0, 0)` that
returns, the aspect ratio handed to the camera for the uniform blocks is the width over
the height of that extent. -/
theorem C7_zero_request_extent (capabilities : VkSurfaceCapabilitiesKHR) :
    (capabilities.currentExtent.width ≠ UINT32_MAX →
        chooseSwapExtent capabilities 0 0 = capabilities.currentExtent)
    ∧ (capabilities.currentExtent.width = UINT32_MAX →
        chooseSwapExtent capabilities 0 0 = capabilities.minImageExtent)
    ∧ (capabilities.currentExtent.width = UINT32_MAX →
        ((chooseSwapExtent capabilities 0 0).width ≠ 0
            ∧ (chooseSwapExtent capabilities 0 0).height ≠ 0
          ↔ capabilities.minImageExtent.width ≠ 0 ∧ capabilities.minImageExtent.height ≠ 0))
    ∧ (∀ (dev : VulkanDevice) (r : Renderer) (env : RecreateEnv) (s : VulkanDevice × Renderer)
        (currentImage : Nat),
        env.swapChain.support.capabilities = capabilities →
        r.recreateSwapChain dev env 0 0 = .ok s →
        s.2.updateGridUniformBuffer currentImage =
          [.setAspectRatio (chooseSwapExtent capabilities 0 0).width
              (chooseSwapExtent capabilities 0 0).height,
           .memcpy (vecAt s.2.m_gridUniformBuffersMapped currentImage)]) := by
  have hmin : capabilities.currentExtent.width = UINT32_MAX →
      chooseSwapExtent capabilities 0 0 = capabilities.minImageExtent := by
    intro h
    unfold chooseSwapExtent
    rw [if_neg (by simp [h]), clamp_zero, clamp_zero]
  refine ⟨?_, hmin, ?_, ?_⟩
  · intro h
    unfold chooseSwapExtent
    rw [if_pos h]
  · intro h
    rw [hmin h]
  · intro dev r env s currentImage hc h
    have := recreateSwapChain_extent dev r env 0 0 s h
    rw [hc] at this
    unfold Renderer.updateGridUniformBuffer
    rw [this]

/-- Witness for C7: a surface that leaves the extent open with minimum 1x1. -/
theorem C7_zero_request_extent_witness :
    chooseSwapExtent fixedSupport.capabilities 0 0 = ⟨800, 600⟩
    ∧ chooseSwapExtent freeSupport.capabilities 0 0 = ⟨1, 1⟩
    ∧ ((chooseSwapExtent freeSupport.capabilities 0 0).width ≠ 0
        ∧ (chooseSwapExtent freeSupport.capabilities 0 0).height ≠ 0)
    ∧ (startRenderer.state.2.recreateSwapChain startRenderer.state.1 (recreateWith freeSupport)
          0 0).state.2.updateGridUniformBuffer 0 = [.setAspectRatio 1 1, .memcpy 162] :=
  ⟨(C7_zero_request_extent fixedSupport.capabilities).1 (by decide),
   (C7_zero_request_extent freeSupport.capabilities).2.1 (by decide),
   ((C7_zero_request_extent freeSupport.capabilities).2.2.1 (by decide)).mpr
      ⟨by decide, by decide⟩,
   (C7_zero_request_extent freeSupport.capabilities).2.2.2 startRenderer.state.1
      startRenderer.state.2 (recreateWith freeSupport)
      (startRenderer.state.2.recreateSwapChain startRenderer.state.1 (recreateWith freeSupport)
          0 0).state 0 (by rfl) (by rfl)⟩

/-! ## C8 and C9: repeated thumbnail requests -/

theorem find_setGenerated_assign (m : ThumbnailMap) (name : String) (th : ThumbnailData) :
    ((m.assign name th).setGenerated name).find name = some { th with isGenerated := true } := by
  unfold ThumbnailMap.setGenerated ThumbnailMap.assign ThumbnailMap.find
  rw [List.map_cons]
  simp only [beq_self_eq_true, ↓reduceIte, List.lookup_cons]

theorem createThumbnailTexture_ok (dev : VulkanDevice) (t : ThumbnailRenderer)
    (env : ThumbnailEnv) (name : String) (s : VulkanDevice × ThumbnailRenderer)
    (h : t.createThumbnailTexture dev env name = .ok s) :
    ∃ th : ThumbnailData, s.2.m_thumbnails = t.m_thumbnails.assign name th := by
  unfold ThumbnailRenderer.createThumbnailTexture at h
  split at h
  · exact absurd h (by simp)
  · simp only [] at h
    split_ifs at h
    injection h with h
    subst h
    exact ⟨_, rfl⟩

/-- After a generation that returned `true` the name has a generated thumbnail. -/
theorem hasThumbnail_of_generated (dev : VulkanDevice) (t : ThumbnailRenderer)
    (env : ThumbnailEnv) (model : Option Model) (name : String)
    (h : (t.generateThumbnail dev env model name).2.2 = true) :
    (t.generateThumbnail dev env model name).2.1.hasThumbnail name = true := by
  cases model with
  | none => simp [ThumbnailRenderer.generateThumbnail] at h
  | some m =>
    by_cases hhas : t.hasThumbnail name = true
    · simp [ThumbnailRenderer.generateThumbnail, hhas] at h
    · simp only [ThumbnailRenderer.generateThumbnail, hhas, if_false] at h ⊢
      cases hc : t.createThumbnailTexture dev env name with
      | thrown s what => simp [hc] at h
      | ok s =>
        obtain ⟨dev1, t1⟩ := s
        obtain ⟨th, hth⟩ := createThumbnailTexture_ok _ _ _ _ _ hc
        simp only [hc, Bool.false_eq_true, if_false] at h ⊢
        cases hr : t1.renderModelToTexture dev1 env m (t1.m_thumbnails.imageOf name) with
        | thrown dev2 what => simp [hr] at h
        | ok dev2 =>
          simp only [] at hth
          simp only [ThumbnailRenderer.hasThumbnail, hth, find_setGenerated_assign]

/-- A request that meets a null model or an already generated thumbnail changes nothing. -/
theorem generateThumbnail_noop (dev : VulkanDevice) (t : ThumbnailRenderer)
    (env : ThumbnailEnv) (model : Option Model) (name : String)
    (h : model = none ∨ t.hasThumbnail name = true) :
    t.generateThumbnail dev env model name = (dev, t, false) := by
  unfold ThumbnailRenderer.generateThumbnail
  cases model with
  | none => rfl
  | some m =>
    rcases h with h | h
    · exact absurd h (by simp)
    · simp only [h, if_true]

/-- C8 (as stated) fails: a first request for "a" whose fence wait times out returns
`false` and leaves image 1 behind; the second request for "a" returns `true` and
allocates a second image (7); the map entry of "a" then owns image 7 only, image 1 was
never destroyed. -/
theorem C8_second_request_counterexample :
    timedOutOnce.2.2 = false
    ∧ createdImages timedOutOnce.1.calls = [1]
    ∧ retriedAfterTimeout.2.2 = true
    ∧ createdImages retriedAfterTimeout.1.calls = [1, 7]
    ∧ destroyedImages retriedAfterTimeout.1.calls = []
    ∧ retriedAfterTimeout.2.1.m_thumbnails.map (fun e => (e.1, e.2.image)) = [("a", 7)] := by
  refine ⟨by rfl, by rfl, by rfl, by rfl, by rfl, by rfl⟩

/-- C8 (amended): for every model and name, when `generateThumbnail` is requested twice
for the same name and the first call returned success, the second call returns failure,
makes no call at all (so it allocates no second GPU image) and leaves the thumbnail map
as it was. -/
theorem C8_second_request_after_success (dev : VulkanDevice) (t : ThumbnailRenderer)
    (env1 env2 : ThumbnailEnv) (model1 model2 : Option Model) (name : String)
    (h : (t.generateThumbnail dev env1 model1 name).2.2 = true) :
    (t.generateThumbnail dev env1 model1 name).2.1.generateThumbnail
        (t.generateThumbnail dev env1 model1 name).1 env2 model2 name
      = ((t.generateThumbnail dev env1 model1 name).1,
         (t.generateThumbnail dev env1 model1 name).2.1, false)
    ∧ createdImages ((t.generateThumbnail dev env1 model1 name).2.1.generateThumbnail
        (t.generateThumbnail dev env1 model1 name).1 env2 model2 name).1.calls
      = createdImages (t.generateThumbnail dev env1 model1 name).1.calls := by
  have hno := generateThumbnail_noop (t.generateThumbnail dev env1 model1 name).1
    (t.generateThumbnail dev env1 model1 name).2.1 env2 model2 name
    (Or.inr (hasThumbnail_of_generated dev t env1 model1 name h))
  exact ⟨hno, by rw [hno]⟩

/-- Witness for C8: a successful request for "a", then a second one. -/
theorem C8_second_request_after_success_witness :
    generatedOnce.2.2 = true
    ∧ generatedOnce.2.1.generateThumbnail generatedOnce.1 okThumbnail (some triangleModel) "a"
        = (generatedOnce.1, generatedOnce.2.1, false)
    ∧ createdImages generatedOnce.1.calls = [1] :=
  ⟨by rfl,
   (C8_second_request_after_success ⟨[], 1⟩ startThumbnails okThumbnail okThumbnail
      (some triangleModel) (some triangleModel) "a" (by rfl)).1,
   by rfl⟩

/-- C9: `generateThumbnail(model, name)` returns `false` and is a no-op whenever `model`
is null or a generated thumbnail for `name` already exists: the device (its call log, so
no image, view, sampler or UI handle created and no command buffer submitted) and the
thumbnail renderer (so the thumbnail map) come back unchanged. -/
theorem C9_generateThumbnail_noop (dev : VulkanDevice) (t : ThumbnailRenderer)
    (env : ThumbnailEnv) (model : Option Model) (name : String)
    (h : model = none ∨ t.hasThumbnail name = true) :
    (t.generateThumbnail dev env model name).2.2 = false
    ∧ (t.generateThumbnail dev env model name).1.calls = dev.calls
    ∧ (t.generateThumbnail dev env model name).1 = dev
    ∧ (t.generateThumbnail dev env model name).2.1.m_thumbnails = t.m_thumbnails
    ∧ (t.generateThumbnail dev env model name).2.1 = t := by
  rw [generateThumbnail_noop dev t env model name h]
  exact ⟨rfl, rfl, rfl, rfl, rfl⟩

/-- Witness for C9: a null model on the empty renderer, and a second request for the
generated name "a". -/
theorem C9_generateThumbnail_noop_witness :
    (startThumbnails.generateThumbnail ⟨[], 1⟩ okThumbnail none "a").1.calls = []
    ∧ generatedOnce.2.1.hasThumbnail "a" = true
    ∧ (generatedOnce.2.1.generateThumbnail generatedOnce.1 okThumbnail (some triangleModel)
        "a").2.2 = false
    ∧ (generatedOnce.2.1.generateThumbnail generatedOnce.1 okThumbnail (some triangleModel)
        "a").1.calls = generatedOnce.1.calls :=
  ⟨(C9_generateThumbnail_noop ⟨[], 1⟩ startThumbnails okThumbnail none "a" (Or.inl rfl)).2.1,
   by rfl,
   (C9_generateThumbnail_noop generatedOnce.1 generatedOnce.2.1 okThumbnail
      (some triangleModel) "a" (Or.inr (by rfl))).1,
   (C9_generateThumbnail_noop generatedOnce.1 generatedOnce.2.1 okThumbnail
      (some triangleModel) "a" (Or.inr (by rfl))).2.1⟩

/-! ## C10: the thumbnail camera of a single-point model -/

theorem addVertex_start (p : Vec3) (v : Vertex) (hv : v.pos = p)
    (hx : -FLT_MAX ≤ p.x ∧ p.x ≤ FLT_MAX) (hy : -FLT_MAX ≤ p.y ∧ p.y ≤ FLT_MAX)
    (hz : -FLT_MAX ≤ p.z ∧ p.z ≤ FLT_MAX) :
    Bounds.addVertex ⟨⟨FLT_MAX, FLT_MAX, FLT_MAX⟩, ⟨-FLT_MAX, -FLT_MAX, -FLT_MAX⟩⟩ v
      = pointBounds p := by
  unfold Bounds.addVertex pointBounds
  rw [hv]
  simp only [min_eq_right hx.2, min_eq_right hy.2, min_eq_right hz.2,
    max_eq_right hx.1, max_eq_right hy.1, max_eq_right hz.1]

theorem addVertex_point (p : Vec3) (v : Vertex) (hv : v.pos = p) :
    Bounds.addVertex (pointBounds p) v = pointBounds p := by
  unfold Bounds.addVertex pointBounds
  rw [hv]
  simp only [min_self, max_self]

theorem foldl_addVertex_point (p : Vec3) (vs : List Vertex) (hvs : ∀ v ∈ vs, v.pos = p) :
    vs.foldl Bounds.addVertex (pointBounds p) = pointBounds p := by
  induction vs with
  | nil => rfl
  | cons v rest ih =>
    rw [List.foldl_cons, addVertex_point p v (hvs v (List.mem_cons_self _ _))]
    exact ih (fun w hw => hvs w (List.mem_cons_of_mem _ hw))

theorem foldl_meshes_point (p : Vec3) (meshes : List Mesh)
    (hall : ∀ mesh ∈ meshes, ∀ v ∈ mesh.vertices, v.pos = p) :
    meshes.foldl (fun b mesh => mesh.vertices.foldl Bounds.addVertex b) (pointBounds p)
      = pointBounds p := by
  induction meshes with
  | nil => rfl
  | cons mesh rest ih =>
    rw [List.foldl_cons, foldl_addVertex_point p mesh.vertices (hall mesh (List.mem_cons_self _ _))]
    exact ih (fun m hm => hall m (List.mem_cons_of_mem _ hm))

/-- The bounds of a model all of whose vertices sit at `p`. -/
theorem computeBounds_point (p : Vec3) (meshes : List Mesh)
    (hall : ∀ mesh ∈ meshes, ∀ v ∈ mesh.vertices, v.pos = p)
    (hsome : ∃ mesh ∈ meshes, mesh.vertices ≠ [])
    (hx : -FLT_MAX ≤ p.x ∧ p.x ≤ FLT_MAX) (hy : -FLT_MAX ≤ p.y ∧ p.y ≤ FLT_MAX)
    (hz : -FLT_MAX ≤ p.z ∧ p.z ≤ FLT_MAX) :
    computeBounds meshes = pointBounds p := by
  unfold computeBounds
  induction meshes with
  | nil =>
    obtain ⟨mesh, hmem, _⟩ := hsome
    exact absurd hmem (List.not_mem_nil _)
  | cons mesh rest ih =>
    rw [List.foldl_cons]
    cases hvs : mesh.vertices with
    | nil =>
      rw [List.foldl_nil]
      apply ih (fun m hm => hall m (List.mem_cons_of_mem _ hm))
      obtain ⟨m, hmem, hne⟩ := hsome
      rcases List.mem_cons.mp hmem with h | h
      · rw [h, hvs] at hne
        exact absurd rfl hne
      · exact ⟨m, h, hne⟩
    | cons v vs =>
      have hmesh := hall mesh (List.mem_cons_self _ _)
      rw [hvs] at hmesh
      rw [List.foldl_cons, addVertex_start p v (hmesh v (List.mem_cons_self _ _)) hx hy hz,
        foldl_addVertex_point p vs (fun w hw => hmesh w (List.mem_cons_of_mem _ hw))]
      exact foldl_meshes_point p rest (fun m hm => hall m (List.mem_cons_of_mem _ hm))

/-- C10 (what the code does instead): for every model with at least one vertex whose
vertices all sit at one point `p` (in `float` range), the camera distance computed by
`renderModelToTexture` is `0 * 1.8 = 0`: there is no floor.  The eye position handed to
`glm::lookAt` equals the look-at target, so the view direction to be
normalised is the zero vector, and the far plane handed to `glm::perspective` is 0,
below the near plane 0.1. -/
theorem C10_degenerate_camera_distance_zero (model : Model) (p : Vec3)
    (hall : ∀ mesh ∈ model.m_meshes, ∀ v ∈ mesh.vertices, v.pos = p)
    (hsome : ∃ mesh ∈ model.m_meshes, mesh.vertices ≠ [])
    (hx : -FLT_MAX ≤ p.x ∧ p.x ≤ FLT_MAX) (hy : -FLT_MAX ≤ p.y ∧ p.y ≤ FLT_MAX)
    (hz : -FLT_MAX ≤ p.z ∧ p.z ≤ FLT_MAX) :
    (thumbnailCamera model.m_meshes).cameraDistance = 0
    ∧ ¬ 0 < (thumbnailCamera model.m_meshes).cameraDistance
    ∧ (thumbnailCamera model.m_meshes).cameraPos = (thumbnailCamera model.m_meshes).modelCenter
    ∧ (thumbnailCamera model.m_meshes).farPlane = 0
    ∧ (thumbnailCamera model.m_meshes).farPlane < (thumbnailCamera model.m_meshes).nearPlane := by
  have hb := computeBounds_point p model.m_meshes hall hsome hx hy hz
  have hc : (p.x + p.x) * (1 / 2) = p.x ∧ (p.y + p.y) * (1 / 2) = p.y
      ∧ (p.z + p.z) * (1 / 2) = p.z := ⟨by ring, by ring, by ring⟩
  unfold thumbnailCamera
  simp only [hb, pointBounds, sub_self, max_self, zero_mul, add_zero, hc.1, hc.2.1, hc.2.2]
  refine ⟨trivial, by simp, trivial, trivial, by norm_num⟩

/-- Witness for C10: the model with three vertices at (1, 2, 3). -/
theorem C10_degenerate_camera_distance_zero_witness :
    (thumbnailCamera pointModel.m_meshes).cameraDistance = 0
    ∧ (thumbnailCamera pointModel.m_meshes).cameraPos
        = (thumbnailCamera pointModel.m_meshes).modelCenter
    ∧ (thumbnailCamera pointModel.m_meshes).farPlane = 0 := by
  have h := C10_degenerate_camera_distance_zero pointModel ⟨1, 2, 3⟩
    (by
      intro mesh hmesh v hv
      simp only [pointModel, List.mem_singleton] at hmesh
      subst hmesh
      simp only [List.mem_cons, List.mem_singleton, List.not_mem_nil, or_false] at hv
      rcases hv with hv | hv | hv <;> rw [hv])
    ⟨_, List.mem_cons_self _ _, by simp⟩
    (by unfold FLT_MAX; norm_num) (by unfold FLT_MAX; norm_num) (by unfold FLT_MAX; norm_num)
  exact ⟨h.1, h.2.2.1, h.2.2.2.1⟩

/-! ## C11 -/

/-- C11: `Renderer::beginFrame` throws at the acquire step (after the wait and the
acquire, nothing else done, state unchanged) exactly when the acquire result is none of
`VK_SUCCESS`, `VK_SUBOPTIMAL_KHR` and `VK_ERROR_OUT_OF_DATE_KHR`; on
`VK_SUBOPTIMAL_KHR` it does exactly what it does on `VK_SUCCESS`: it stores the image
index, resets the slot's fence and command buffer, begins recording and, the begin
succeeding, begins the render pass on the framebuffer of the acquired image index. -/
theorem C11_beginFrame_acquire_results (dev : VulkanDevice) (r : Renderer) (env : FrameEnv) :
    (r.beginFrame dev env = .thrown
        ((dev.log (.vkWaitForFences (vecAt r.m_inFlightFences r.m_currentFrame) UINT64_MAX)).log
          (.vkAcquireNextImageKHR r.m_swapChain.m_swapChain
            (vecAt r.m_imageAvailableSemaphores r.m_currentFrame)), r)
        "Failed to acquire swap chain image!"
      ↔ (env.acquireResult ≠ VK_SUCCESS ∧ env.acquireResult ≠ VK_SUBOPTIMAL_KHR
          ∧ env.acquireResult ≠ VK_ERROR_OUT_OF_DATE_KHR))
    ∧ r.beginFrame dev { env with acquireResult := VK_SUBOPTIMAL_KHR }
        = r.beginFrame dev { env with acquireResult := VK_SUCCESS }
    ∧ (env.beginResult = VK_SUCCESS →
        r.beginFrame dev { env with acquireResult := VK_SUBOPTIMAL_KHR } = .ok
          (dev.logAll
            [.vkWaitForFences (vecAt r.m_inFlightFences r.m_currentFrame) UINT64_MAX,
             .vkAcquireNextImageKHR r.m_swapChain.m_swapChain
               (vecAt r.m_imageAvailableSemaphores r.m_currentFrame),
             .vkResetFences (vecAt r.m_inFlightFences r.m_currentFrame),
             .vkResetCommandBuffer (vecAt r.m_commandBuffers r.m_currentFrame),
             .vkBeginCommandBuffer (vecAt r.m_commandBuffers r.m_currentFrame),
             .vkCmdBeginRenderPass (vecAt r.m_commandBuffers r.m_currentFrame) r.m_renderPass
               (vecAt r.m_framebuffers env.acquiredImageIndex) r.m_swapChain.m_swapChainExtent],
           { r with m_imageIndex := env.acquiredImageIndex })) := by
  have hSO : VK_SUBOPTIMAL_KHR ≠ VK_ERROR_OUT_OF_DATE_KHR := by decide
  have hSS : VK_SUCCESS ≠ VK_ERROR_OUT_OF_DATE_KHR := by decide
  refine ⟨⟨?_, ?_⟩, ?_, ?_⟩
  · intro h
    by_cases hood : env.acquireResult = VK_ERROR_OUT_OF_DATE_KHR
    · unfold Renderer.beginFrame at h
      simp [hood] at h
    · by_cases hok : env.acquireResult = VK_SUCCESS ∨ env.acquireResult = VK_SUBOPTIMAL_KHR
      · have hnot : ¬ (env.acquireResult ≠ VK_SUCCESS ∧ env.acquireResult ≠ VK_SUBOPTIMAL_KHR) := by
          rcases hok with h1 | h1 <;> simp [h1]
        unfold Renderer.beginFrame at h
        simp only [hood, hnot, if_false] at h
        split_ifs at h
        simp at h
      · exact ⟨fun h1 => hok (Or.inl h1), fun h1 => hok (Or.inr h1), hood⟩
  · rintro ⟨h1, h2, h3⟩
    unfold Renderer.beginFrame
    simp [h1, h2, h3]
  · unfold Renderer.beginFrame
    simp [hSO, hSS]
  · intro hb
    unfold Renderer.beginFrame
    simp [hSO, hb, VulkanDevice.log, VulkanDevice.logAll]

/-- Witness for C11: on the start renderer a lost device at the acquire throws there, and
a suboptimal acquire of image 1 begins the render pass on framebuffer 132. -/
theorem C11_beginFrame_acquire_results_witness :
    startRenderer.state.2.beginFrame startRenderer.state.1 deviceLostFrame = .thrown
        (startRenderer.state.1.logAll
          [.vkWaitForFences 1004 UINT64_MAX, .vkAcquireNextImageKHR 100 1002],
         startRenderer.state.2)
        "Failed to acquire swap chain image!"
    ∧ startRenderer.state.2.beginFrame startRenderer.state.1 suboptimalFrame = .ok
        (startRenderer.state.1.logAll
          [.vkWaitForFences 1004 UINT64_MAX, .vkAcquireNextImageKHR 100 1002,
           .vkResetFences 1004, .vkResetCommandBuffer 1000, .vkBeginCommandBuffer 1000,
           .vkCmdBeginRenderPass 1000 130 132 ⟨800, 600⟩],
         { startRenderer.state.2 with m_imageIndex := 1 }) :=
  ⟨(C11_beginFrame_acquire_results startRenderer.state.1 startRenderer.state.2
      deviceLostFrame).1.mpr ⟨by decide, by decide, by decide⟩,
   (C11_beginFrame_acquire_results startRenderer.state.1 startRenderer.state.2
      suboptimalFrame).2.2 rfl⟩

/-! ## C12 -/

/-- C12: `Renderer::endFrame` throws when ending the command buffer fails and when the
queue submit fails; in both cases the present call is not made and the renderer, so the
slot index, is left as it was; when both succeed then, whatever the present call
returns, it does not throw, has made the present call and advances the slot index. -/
theorem C12_endFrame_fatal_and_recoverable (dev : VulkanDevice) (r : Renderer)
    (env : FrameEnv) :
    (env.endResult ≠ VK_SUCCESS →
        r.endFrame dev env = .thrown
          (dev.logAll [.vkCmdEndRenderPass (vecAt r.m_commandBuffers r.m_currentFrame),
                       .vkEndCommandBuffer (vecAt r.m_commandBuffers r.m_currentFrame)], r)
          "Failed to record command buffer!")
    ∧ (env.endResult = VK_SUCCESS → env.submitResult ≠ VK_SUCCESS →
        r.endFrame dev env = .thrown
          (dev.logAll [.vkCmdEndRenderPass (vecAt r.m_commandBuffers r.m_currentFrame),
                       .vkEndCommandBuffer (vecAt r.m_commandBuffers r.m_currentFrame),
                       .vkQueueSubmit (vecAt r.m_imageAvailableSemaphores r.m_currentFrame)
                         (vecAt r.m_commandBuffers r.m_currentFrame)
                         (vecAt r.m_renderFinishedSemaphores r.m_currentFrame)
                         (vecAt r.m_inFlightFences r.m_currentFrame)], r)
          "Failed to submit draw command buffer!")
    ∧ (∀ (s : VulkanDevice × Renderer) (what : String), r.endFrame dev env = .thrown s what →
        (env.endResult ≠ VK_SUCCESS ∨ env.submitResult ≠ VK_SUCCESS)
        ∧ s.2.m_currentFrame = r.m_currentFrame
        ∧ ∃ frameCalls, s.1.calls = dev.calls ++ frameCalls
            ∧ frameCalls.filter Call.isQueuePresent = [])
    ∧ (env.endResult = VK_SUCCESS → env.submitResult = VK_SUCCESS →
        ∀ presentResult : VkResult,
          r.endFrame dev { env with presentResult := presentResult } = .ok
            (dev.logAll [.vkCmdEndRenderPass (vecAt r.m_commandBuffers r.m_currentFrame),
                         .vkEndCommandBuffer (vecAt r.m_commandBuffers r.m_currentFrame),
                         .vkQueueSubmit (vecAt r.m_imageAvailableSemaphores r.m_currentFrame)
                           (vecAt r.m_commandBuffers r.m_currentFrame)
                           (vecAt r.m_renderFinishedSemaphores r.m_currentFrame)
                           (vecAt r.m_inFlightFences r.m_currentFrame),
                         .vkQueuePresentKHR (vecAt r.m_renderFinishedSemaphores r.m_currentFrame)
                           r.m_swapChain.m_swapChain r.m_imageIndex],
             { r with m_currentFrame := (r.m_currentFrame + 1) % 2 })) := by
  refine ⟨?_, ?_, ?_, ?_⟩
  · intro he
    unfold Renderer.endFrame
    simp [he]
  · intro he hs
    unfold Renderer.endFrame
    simp [he, hs, VulkanDevice.log, VulkanDevice.logAll]
  · intro s what h
    unfold Renderer.endFrame at h
    simp only [] at h
    split_ifs at h with he hs
    · injection h with h _
      subst h
      exact ⟨Or.inl he, rfl, _, rfl, by simp [List.filter, Call.isQueuePresent]⟩
    · injection h with h _
      subst h
      refine ⟨Or.inr hs, rfl,
        [.vkCmdEndRenderPass (vecAt r.m_commandBuffers r.m_currentFrame),
         .vkEndCommandBuffer (vecAt r.m_commandBuffers r.m_currentFrame),
         .vkQueueSubmit (vecAt r.m_imageAvailableSemaphores r.m_currentFrame)
           (vecAt r.m_commandBuffers r.m_currentFrame)
           (vecAt r.m_renderFinishedSemaphores r.m_currentFrame)
           (vecAt r.m_inFlightFences r.m_currentFrame)], ?_,
        by simp [List.filter, Call.isQueuePresent]⟩
      simp [VulkanDevice.log, VulkanDevice.logAll]
  · intro he hs presentResult
    unfold Renderer.endFrame
    simp [he, hs, VulkanDevice.log, VulkanDevice.logAll]
    unfold MAX_FRAMES_IN_FLIGHT
    omega

/-- Witness for C12: on the start renderer a failed submit throws without presenting,
and a present that reports out-of-date still advances the slot index to 1. -/
theorem C12_endFrame_fatal_and_recoverable_witness :
    startRenderer.state.2.endFrame startRenderer.state.1 submitLostFrame = .thrown
        (startRenderer.state.1.logAll
          [.vkCmdEndRenderPass 1000, .vkEndCommandBuffer 1000,
           .vkQueueSubmit 1002 1000 1003 1004], startRenderer.state.2)
        "Failed to submit draw command buffer!"
    ∧ startRenderer.state.2.endFrame startRenderer.state.1 presentOutOfDateFrame = .ok
        (startRenderer.state.1.logAll
          [.vkCmdEndRenderPass 1000, .vkEndCommandBuffer 1000,
           .vkQueueSubmit 1002 1000 1003 1004, .vkQueuePresentKHR 1003 100 0],
         { startRenderer.state.2 with m_currentFrame := 1 }) :=
  ⟨(C12_endFrame_fatal_and_recoverable startRenderer.state.1 startRenderer.state.2
      submitLostFrame).2.1 rfl (by decide),
   (C12_endFrame_fatal_and_recoverable startRenderer.state.1 startRenderer.state.2
      presentOutOfDateFrame).2.2.2 rfl rfl VK_ERROR_OUT_OF_DATE_KHR⟩

/-! ## C14 -/

/-- C14: for every model and material index, the one descriptor write of
`Renderer::updateDescriptorSetForMesh` goes to binding 1 of the current slot's model
descriptor set; it carries the material's own (texture view, sampler) pair when the
index is in range and both handles are non-null, and the default texture's (view,
sampler) pair when the index is out of range or the view or the sampler is null. -/
theorem C14_descriptor_write_for_mesh (r : Renderer) (model : Model) (materialIndex : Nat) :
    (∀ material : Material, model.m_materials.get? materialIndex = some material →
        material.textureImageView ≠ VK_NULL_HANDLE →
        material.textureSampler ≠ VK_NULL_HANDLE →
        r.updateDescriptorSetForMesh model materialIndex =
          .vkUpdateDescriptorSets (vecAt r.m_modelDescriptorSets r.m_currentFrame) 1
            material.textureImageView material.textureSampler)
    ∧ (∀ material : Material, model.m_materials.get? materialIndex = some material →
        (material.textureImageView = VK_NULL_HANDLE
          ∨ material.textureSampler = VK_NULL_HANDLE) →
        r.updateDescriptorSetForMesh model materialIndex =
          .vkUpdateDescriptorSets (vecAt r.m_modelDescriptorSets r.m_currentFrame) 1
            r.m_defaultTextureImageView r.m_defaultTextureSampler)
    ∧ (model.m_materials.length ≤ materialIndex →
        r.updateDescriptorSetForMesh model materialIndex =
          .vkUpdateDescriptorSets (vecAt r.m_modelDescriptorSets r.m_currentFrame) 1
            r.m_defaultTextureImageView r.m_defaultTextureSampler)
    ∧ (∃ view sampler : Handle, r.updateDescriptorSetForMesh model materialIndex =
          .vkUpdateDescriptorSets (vecAt r.m_modelDescriptorSets r.m_currentFrame) 1
            view sampler) := by
  refine ⟨?_, ?_, ?_, ?_⟩
  · intro material hm hv hs
    unfold Renderer.updateDescriptorSetForMesh Model.getMaterialTextureView
      Model.getMaterialTextureSampler
    simp only [hm]
    simp [hv, hs]
  · intro material hm hnull
    unfold Renderer.updateDescriptorSetForMesh Model.getMaterialTextureView
      Model.getMaterialTextureSampler
    simp only [hm]
    rcases hnull with h | h <;> simp [h]
  · intro hlen
    have hnone : model.m_materials.get? materialIndex = none := List.get?_eq_none.mpr hlen
    unfold Renderer.updateDescriptorSetForMesh Model.getMaterialTextureView
      Model.getMaterialTextureSampler
    simp only [hnone]
    simp [VK_NULL_HANDLE]
  · unfold Renderer.updateDescriptorSetForMesh
    simp only []
    split_ifs
    · exact ⟨_, _, rfl⟩
    · exact ⟨_, _, rfl⟩

/-- Witness for C14: on the start renderer (slot 0, model set 152, default texture view
170 and sampler 171) material 0 of the two-material model is bound as (31, 32), material
1, which has no sampler, and the missing material 2 fall back to (170, 171). -/
theorem C14_descriptor_write_for_mesh_witness :
    startRenderer.state.2.updateDescriptorSetForMesh twoMaterialModel 0
        = .vkUpdateDescriptorSets 152 1 31 32
    ∧ startRenderer.state.2.updateDescriptorSetForMesh twoMaterialModel 1
        = .vkUpdateDescriptorSets 152 1 170 171
    ∧ startRenderer.state.2.updateDescriptorSetForMesh twoMaterialModel 2
        = .vkUpdateDescriptorSets 152 1 170 171 :=
  ⟨(C14_descriptor_write_for_mesh startRenderer.state.2 twoMaterialModel 0).1
      ⟨⟨1, 0, 0⟩, 35, 36, 31, 32⟩ rfl (by decide) (by decide),
   (C14_descriptor_write_for_mesh startRenderer.state.2 twoMaterialModel 1).2.1
      ⟨⟨0, 1, 0⟩, 37, 38, 33, 0⟩ rfl (Or.inr rfl),
   (C14_descriptor_write_for_mesh startRenderer.state.2 twoMaterialModel 2).2.2.1
      (by decide)⟩

/-! ## The calls of the swap-chain constructor -/

theorem createImageViews_calls (images : List Handle) :
    ∀ dev : VulkanDevice, ∃ made : List Call,
      (createImageViews dev images).2.calls = dev.calls ++ made
      ∧ (∀ c ∈ made, c.isImageSetup = true)
      ∧ (createImageViews dev images).1.length = images.length := by
  induction images with
  | nil =>
    intro dev
    exact ⟨[], by simp [createImageViews], fun c hc => absurd hc (List.not_mem_nil _), rfl⟩
  | cons image rest ih =>
    intro dev
    obtain ⟨made, h1, h2, h3⟩ := ih (dev.createImageView image).2
    refine ⟨Call.createImageView dev.nextHandle image :: made, ?_, ?_, ?_⟩
    · simp only [createImageViews]
      rw [h1]
      simp [VulkanDevice.createImageView, VulkanDevice.log, VulkanDevice.fresh]
    · intro c hc
      rcases List.mem_cons.mp hc with hc | hc
      · rw [hc]
        rfl
      · exact h2 c hc
    · simp only [createImageViews, List.length_cons]
      rw [h3]

theorem createImage_ok_calls (dev : VulkanDevice) (ok : Bool) (width height : Nat)
    (s : VulkanDevice × Handle × Handle) (h : dev.createImage ok width height = .ok s) :
    s.1.calls = dev.calls ++ [Call.createImage s.2.1 s.2.2 width height] := by
  unfold VulkanDevice.createImage at h
  split_ifs at h
  injection h with h
  subst h
  rfl

/-- What a returning `SwapChain::SwapChain` did: the swap-chain creation with the chosen
parameters, then only image and view creations. -/
theorem SwapChain_create_calls (dev : VulkanDevice) (env : SwapChainEnv) (width height : Nat)
    (s : VulkanDevice × SwapChain) (h : SwapChain.create dev env width height = .ok s) :
    ∃ made : List Call,
      s.1.calls = dev.calls ++ Call.vkCreateSwapchainKHR s.2.m_swapChain
          (requestedImageCount env.support.capabilities)
          ((chooseSwapSurfaceFormat env.support.formats).format,
           (chooseSwapSurfaceFormat env.support.formats).colorSpace)
          (chooseSwapExtent env.support.capabilities width height)
          (chooseSwapPresentMode env.support.presentModes) :: made
      ∧ (∀ c ∈ made, c.isImageSetup = true)
      ∧ s.2.m_swapChainImages.length = env.imageCount
      ∧ s.2.m_swapChainImageViews.length = env.imageCount
      ∧ s.2.m_swapChain = dev.nextHandle := by
  unfold SwapChain.create at h
  simp only [] at h
  split_ifs at h
  split at h
  · exact absurd h (by simp)
  · rename_i dev5 depthImage depthMemory hci
    injection h with h
    subst h
    obtain ⟨made, h1, h2, h3⟩ := createImageViews_calls
      ((dev.fresh.2.log (Call.vkCreateSwapchainKHR dev.fresh.1
          (requestedImageCount env.support.capabilities)
          ((chooseSwapSurfaceFormat env.support.formats).format,
           (chooseSwapSurfaceFormat env.support.formats).colorSpace)
          (chooseSwapExtent env.support.capabilities width height)
          (chooseSwapPresentMode env.support.presentModes))).freshN env.imageCount).1
      ((dev.fresh.2.log (Call.vkCreateSwapchainKHR dev.fresh.1
          (requestedImageCount env.support.capabilities)
          ((chooseSwapSurfaceFormat env.support.formats).format,
           (chooseSwapSurfaceFormat env.support.formats).colorSpace)
          (chooseSwapExtent env.support.capabilities width height)
          (chooseSwapPresentMode env.support.presentModes))).freshN env.imageCount).2
    have h4 := createImage_ok_calls _ _ _ _ _ hci
    simp only [] at h4
    refine ⟨made ++ [Call.createImage depthImage depthMemory
        (chooseSwapExtent env.support.capabilities width height).width
        (chooseSwapExtent env.support.capabilities width height).height,
      Call.createImageView dev5.nextHandle depthImage], ?_, ?_, ?_, ?_, rfl⟩
    · simp only [VulkanDevice.createImageView, VulkanDevice.log, VulkanDevice.fresh]
      rw [h4, h1]
      simp [VulkanDevice.freshN, VulkanDevice.log, VulkanDevice.fresh]
    · intro c hc
      rcases List.mem_append.mp hc with hc | hc
      · exact h2 c hc
      · simp only [List.mem_cons, List.mem_singleton, List.not_mem_nil, or_false] at hc
        rcases hc with hc | hc <;> rw [hc] <;> rfl
    · simp [VulkanDevice.freshN]
    · rw [h3]
      simp [VulkanDevice.freshN]

theorem createImage_thrown (dev : VulkanDevice) (ok : Bool) (width height : Nat)
    (s : VulkanDevice × Handle × Handle) (what : String)
    (h : dev.createImage ok width height = .thrown s what) : s.1 = dev := by
  unfold VulkanDevice.createImage at h
  split_ifs at h
  injection h with h _
  subst h
  rfl

/-- Whatever the constructor `SwapChain::SwapChain` meets, its first call is the
swap-chain creation, with the requested image count and the chosen format, extent and
present mode. -/
theorem SwapChain_create_first_call (dev : VulkanDevice) (env : SwapChainEnv)
    (width height : Nat) :
    ∃ rest : List Call,
      (SwapChain.create dev env width height).state.1.calls
        = dev.calls ++ Call.vkCreateSwapchainKHR dev.nextHandle
          (requestedImageCount env.support.capabilities)
          ((chooseSwapSurfaceFormat env.support.formats).format,
           (chooseSwapSurfaceFormat env.support.formats).colorSpace)
          (chooseSwapExtent env.support.capabilities width height)
          (chooseSwapPresentMode env.support.presentModes) :: rest := by
  cases hc : SwapChain.create dev env width height with
  | ok s =>
    obtain ⟨made, h1, _, _, _, h5⟩ := SwapChain_create_calls dev env width height s hc
    rw [h5] at h1
    exact ⟨made, h1⟩
  | thrown s what =>
    unfold SwapChain.create at hc
    simp only [] at hc
    split_ifs at hc
    · injection hc with hc _
      subst hc
      exact ⟨[], rfl⟩
    · split at hc
      · rename_i dev5 x y w hci
        injection hc with hc _
        subst hc
        have h5 := createImage_thrown _ _ _ _ _ _ hci
        simp only [] at h5
        simp only [Outcome.state]
        rw [h5]
        obtain ⟨made, h1, _, _⟩ := createImageViews_calls
          ((dev.fresh.2.log (Call.vkCreateSwapchainKHR dev.fresh.1
              (requestedImageCount env.support.capabilities)
              ((chooseSwapSurfaceFormat env.support.formats).format,
               (chooseSwapSurfaceFormat env.support.formats).colorSpace)
              (chooseSwapExtent env.support.capabilities width height)
              (chooseSwapPresentMode env.support.presentModes))).freshN env.imageCount).1
          ((dev.fresh.2.log (Call.vkCreateSwapchainKHR dev.fresh.1
              (requestedImageCount env.support.capabilities)
              ((chooseSwapSurfaceFormat env.support.formats).format,
               (chooseSwapSurfaceFormat env.support.formats).colorSpace)
              (chooseSwapExtent env.support.capabilities width height)
              (chooseSwapPresentMode env.support.presentModes))).freshN env.imageCount).2
        refine ⟨made, ?_⟩
        rw [h1]
        simp [VulkanDevice.freshN, VulkanDevice.log, VulkanDevice.fresh]
      · exact absurd hc (by simp)

/-! ## C18 -/

/-- C18: the image count requested in `SwapChain::createSwapChain`, with `+` in 32-bit
unsigned arithmetic, is min(minImageCount + 1, maxImageCount) when maxImageCount > 0 and
minImageCount + 1 when maxImageCount = 0; hence whenever minImageCount < 2^32 - 1 and
(maxImageCount = 0 or minImageCount <= maxImageCount) the request is at least
minImageCount and, if maxImageCount > 0, at most maxImageCount.  This count is the
`minImageCount` of the `vkCreateSwapchainKHR` call, the first call the swap-chain
constructor makes, whatever the driver answers. -/
theorem C18_requested_image_count (capabilities : VkSurfaceCapabilitiesKHR) :
    (∀ (dev : VulkanDevice) (env : SwapChainEnv) (width height : Nat),
        env.support.capabilities = capabilities →
        ∃ (surfaceFormat : Nat × Nat) (extent : VkExtent2D) (presentMode : Nat)
          (rest : List Call),
          (SwapChain.create dev env width height).state.1.calls
            = dev.calls ++ Call.vkCreateSwapchainKHR dev.nextHandle
                (requestedImageCount capabilities) surfaceFormat extent presentMode :: rest)
    ∧ (0 < capabilities.maxImageCount →
        requestedImageCount capabilities
          = min ((capabilities.minImageCount + 1) % 2 ^ 32) capabilities.maxImageCount)
    ∧ (capabilities.maxImageCount = 0 →
        requestedImageCount capabilities = (capabilities.minImageCount + 1) % 2 ^ 32)
    ∧ (capabilities.minImageCount < 2 ^ 32 - 1 →
        (capabilities.maxImageCount = 0
          ∨ capabilities.minImageCount ≤ capabilities.maxImageCount) →
        capabilities.minImageCount ≤ requestedImageCount capabilities
        ∧ (0 < capabilities.maxImageCount →
            requestedImageCount capabilities ≤ capabilities.maxImageCount)) := by
  refine ⟨?_, ?_⟩
  · intro dev env width height hcap
    obtain ⟨rest, h⟩ := SwapChain_create_first_call dev env width height
    rw [hcap] at h
    exact ⟨_, _, _, rest, h⟩
  unfold requestedImageCount
  simp only []
  refine ⟨?_, ?_, ?_⟩
  · intro hmax
    split_ifs with h
    · omega
    · omega
  · intro hmax
    split_ifs with h
    · omega
    · rfl
  · intro hmin hrange
    have hmod : (capabilities.minImageCount + 1) % 2 ^ 32 = capabilities.minImageCount + 1 :=
      Nat.mod_eq_of_lt (by omega)
    rw [hmod]
    split_ifs with h
    · omega
    · omega

/-- Witness for C18: minimum 2 without limit requests 3; minimum 2 with maximum 2
requests 2. -/
theorem C18_requested_image_count_witness :
    requestedImageCount fixedSupport.capabilities = 3
    ∧ requestedImageCount tightCapabilities = min 3 2
    ∧ (2 ≤ requestedImageCount tightCapabilities
        ∧ requestedImageCount tightCapabilities ≤ 2) :=
  ⟨(C18_requested_image_count fixedSupport.capabilities).2.2.1 rfl,
   (C18_requested_image_count tightCapabilities).2.1 (by decide),
   ⟨((C18_requested_image_count tightCapabilities).2.2.2 (by decide) (Or.inr (by decide))).1,
    ((C18_requested_image_count tightCapabilities).2.2.2 (by decide) (Or.inr (by decide))).2
      (by decide)⟩⟩

/-! ## C19 -/

/-- C19: for every non-empty list of supported surface formats,
`chooseSwapSurfaceFormat` returns the first entry with format `VK_FORMAT_B8G8R8A8_SRGB`
and colour space `VK_COLOR_SPACE_SRGB_NONLINEAR_KHR` when there is one (no entry before
it in the list is of that kind), and otherwise the first entry of the list; the result
is a member of the list. -/
theorem C19_preferred_surface_format (formats : List VkSurfaceFormatKHR)
    (hne : formats ≠ []) :
    ((∃ f ∈ formats, f.format = VK_FORMAT_B8G8R8A8_SRGB
          ∧ f.colorSpace = VK_COLOR_SPACE_SRGB_NONLINEAR_KHR) →
        (chooseSwapSurfaceFormat formats).format = VK_FORMAT_B8G8R8A8_SRGB
        ∧ (chooseSwapSurfaceFormat formats).colorSpace = VK_COLOR_SPACE_SRGB_NONLINEAR_KHR
        ∧ ∃ before after, formats = before ++ chooseSwapSurfaceFormat formats :: after
            ∧ ∀ g ∈ before, ¬ (g.format = VK_FORMAT_B8G8R8A8_SRGB
                ∧ g.colorSpace = VK_COLOR_SPACE_SRGB_NONLINEAR_KHR))
    ∧ ((∀ f ∈ formats, ¬ (f.format = VK_FORMAT_B8G8R8A8_SRGB
          ∧ f.colorSpace = VK_COLOR_SPACE_SRGB_NONLINEAR_KHR)) →
        chooseSwapSurfaceFormat formats = formats.head hne)
    ∧ chooseSwapSurfaceFormat formats ∈ formats := by
  have hhead : formats.headD ⟨0, 0⟩ = formats.head hne := by
    cases formats with
    | nil => exact absurd rfl hne
    | cons f rest => rfl
  refine ⟨?_, ?_, ?_⟩
  · rintro ⟨f, hf, hfmt, hcs⟩
    unfold chooseSwapSurfaceFormat
    cases hfind : formats.find? (fun f =>
        f.format == VK_FORMAT_B8G8R8A8_SRGB && f.colorSpace == VK_COLOR_SPACE_SRGB_NONLINEAR_KHR) with
    | none =>
      have := List.find?_eq_none.mp hfind f hf
      simp [hfmt, hcs] at this
    | some g =>
      obtain ⟨hp, before, after, hsplit, hbefore⟩ := List.find?_eq_some.mp hfind
      simp only [Bool.and_eq_true, beq_iff_eq] at hp
      refine ⟨hp.1, hp.2, before, after, hsplit, ?_⟩
      intro x hx hpx
      have := hbefore x hx
      simp [hpx.1, hpx.2] at this
  · intro hnone
    unfold chooseSwapSurfaceFormat
    have hfind : formats.find? (fun f =>
        f.format == VK_FORMAT_B8G8R8A8_SRGB && f.colorSpace == VK_COLOR_SPACE_SRGB_NONLINEAR_KHR)
        = none := by
      rw [List.find?_eq_none]
      intro x hx hpx
      simp only [Bool.and_eq_true, beq_iff_eq] at hpx
      exact hnone x hx hpx
    simp only [hfind, hhead]
  · unfold chooseSwapSurfaceFormat
    cases hfind : formats.find? (fun f =>
        f.format == VK_FORMAT_B8G8R8A8_SRGB && f.colorSpace == VK_COLOR_SPACE_SRGB_NONLINEAR_KHR) with
    | none =>
      simp only [hhead]
      exact List.head_mem hne
    | some g => exact List.mem_of_find?_eq_some hfind

/-- Witness for C19: a list with the preferred format in third place, and a list
without it. -/
theorem C19_preferred_surface_format_witness :
    chooseSwapSurfaceFormat formatsWithPreferred = ⟨50, 0⟩
    ∧ (∃ before after,
        formatsWithPreferred = before ++ chooseSwapSurfaceFormat formatsWithPreferred :: after
        ∧ ∀ g ∈ before, ¬ (g.format = VK_FORMAT_B8G8R8A8_SRGB
            ∧ g.colorSpace = VK_COLOR_SPACE_SRGB_NONLINEAR_KHR))
    ∧ chooseSwapSurfaceFormat formatsWithoutPreferred = ⟨44, 0⟩ :=
  ⟨by rfl,
   ((C19_preferred_surface_format formatsWithPreferred (by decide)).1
      ⟨⟨50, 0⟩, by decide, rfl, rfl⟩).2.2,
   (C19_preferred_surface_format formatsWithoutPreferred (by decide)).2.1 (by decide)⟩

/-! ## C15: failed thumbnail generations -/

theorem allSucceed_iff (env : ThumbnailEnv) :
    env.allSucceed = true ↔
      (env.createImageOk = true ∧ env.imageViewResult = VK_SUCCESS
        ∧ env.samplerResult = VK_SUCCESS ∧ env.beginResult = VK_SUCCESS
        ∧ env.endResult = VK_SUCCESS ∧ env.createFenceResult = VK_SUCCESS
        ∧ env.submitResult = VK_SUCCESS ∧ env.waitResult = VK_SUCCESS) := by
  unfold ThumbnailEnv.allSucceed
  simp only [Bool.and_eq_true, beq_iff_eq, and_assoc]

/-- What a returning `createThumbnailTexture` did: every creation succeeded, and the map
got an entry for the name that is not yet generated and is 1024 by 1024. -/
theorem createThumbnailTexture_ok_entry (dev : VulkanDevice) (t : ThumbnailRenderer)
    (env : ThumbnailEnv) (name : String) (s : VulkanDevice × ThumbnailRenderer)
    (h : t.createThumbnailTexture dev env name = .ok s) :
    (env.createImageOk = true ∧ env.imageViewResult = VK_SUCCESS
      ∧ env.samplerResult = VK_SUCCESS)
    ∧ ∃ th : ThumbnailData, s.2 = { t with m_thumbnails := t.m_thumbnails.assign name th }
        ∧ th.isGenerated = false ∧ th.width = THUMBNAIL_SIZE ∧ th.height = THUMBNAIL_SIZE := by
  unfold ThumbnailRenderer.createThumbnailTexture at h
  split at h
  · exact absurd h (by simp)
  · rename_i dev1 image imageMemory hc
    have hok : env.createImageOk = true := by
      unfold VulkanDevice.createImage at hc
      split_ifs at hc with h1
      exact h1
    simp only [] at h
    split_ifs at h with h1 h2
    injection h with h
    subst h
    exact ⟨⟨hok, not_not.mp h1, not_not.mp h2⟩, _, rfl, rfl, rfl, rfl⟩

/-- A throwing `createThumbnailTexture` leaves the thumbnail renderer as it was. -/
theorem createThumbnailTexture_thrown (dev : VulkanDevice) (t : ThumbnailRenderer)
    (env : ThumbnailEnv) (name : String) (s : VulkanDevice × ThumbnailRenderer) (what : String)
    (h : t.createThumbnailTexture dev env name = .thrown s what) : s.2 = t := by
  unfold ThumbnailRenderer.createThumbnailTexture at h
  split at h
  · injection h with h _
    subst h
    rfl
  · simp only [] at h
    split_ifs at h
    · injection h with h _
      subst h
      rfl
    · injection h with h _
      subst h
      rfl

/-- A returning `renderModelToTexture` met no failure. -/
theorem renderModelToTexture_ok (dev : VulkanDevice) (t : ThumbnailRenderer)
    (env : ThumbnailEnv) (model : Model) (target : Handle) (d : VulkanDevice)
    (h : t.renderModelToTexture dev env model target = .ok d) :
    env.beginResult = VK_SUCCESS ∧ env.endResult = VK_SUCCESS
      ∧ env.createFenceResult = VK_SUCCESS ∧ env.submitResult = VK_SUCCESS
      ∧ env.waitResult = VK_SUCCESS := by
  unfold ThumbnailRenderer.renderModelToTexture at h
  simp only [] at h
  split_ifs at h with h1 h2 h3 h4 h5 <;>
    exact ⟨not_not.mp h1, not_not.mp h2, not_not.mp h3, not_not.mp h4, not_not.mp h5⟩

/-- The lookup after an `assign` of the same name. -/
theorem find_assign_same (m : ThumbnailMap) (name : String) (th : ThumbnailData) :
    (m.assign name th).find name = some th := by
  unfold ThumbnailMap.assign ThumbnailMap.find
  simp only [List.lookup_cons, beq_self_eq_true]

/-- A generation that returns `true` met no failure. -/
theorem generateThumbnail_true (dev : VulkanDevice) (t : ThumbnailRenderer)
    (env : ThumbnailEnv) (model : Option Model) (name : String)
    (h : (t.generateThumbnail dev env model name).2.2 = true) :
    env.allSucceed = true := by
  rw [allSucceed_iff]
  unfold ThumbnailRenderer.generateThumbnail at h
  split at h
  · exact absurd h (by simp)
  · split_ifs at h
    split at h
    · exact absurd h (by simp)
    · rename_i dev1 t1 hc
      split at h
      · exact absurd h (by simp)
      · rename_i dev2 hr
        have h1 := (createThumbnailTexture_ok_entry _ _ _ _ _ hc).1
        have h2 := renderModelToTexture_ok _ _ _ _ _ _ hr
        exact ⟨h1.1, h1.2.1, h1.2.2, h2⟩

/-- A generation that returns `false` leaves the answer of `hasThumbnail` for its name
as it was. -/
theorem generateThumbnail_false_keeps (dev : VulkanDevice) (t : ThumbnailRenderer)
    (env : ThumbnailEnv) (model : Option Model) (name : String)
    (h : (t.generateThumbnail dev env model name).2.2 = false) :
    (t.generateThumbnail dev env model name).2.1.hasThumbnail name = t.hasThumbnail name := by
  unfold ThumbnailRenderer.generateThumbnail at h ⊢
  split
  · rfl
  · split_ifs with hhas
    · rfl
    · split
      · rename_i dev1 t1 what hc
        have := createThumbnailTexture_thrown _ _ _ _ _ _ hc
        simp only [] at this
        rw [this]
      · rename_i dev1 t1 hc
        obtain ⟨_, th, hth, hgen, _, _⟩ := createThumbnailTexture_ok_entry _ _ _ _ _ hc
        simp only [] at hth
        split
        · simp only [hth]
          have hfind : ThumbnailRenderer.hasThumbnail
              { t with m_thumbnails := t.m_thumbnails.assign name th } name = false := by
            unfold ThumbnailRenderer.hasThumbnail
            simp only [find_assign_same, hgen]
          rw [hfind]
          simpa using hhas
        · rename_i dev2 hr
          simp only [hhas, if_false, hc, hr] at h
          exact absurd h (by simp)

/-- With a model, no generated thumbnail under the name and every driver answer a
success, the generation returns `true`. -/
theorem generateThumbnail_succeeds (dev : VulkanDevice) (t : ThumbnailRenderer)
    (env : ThumbnailEnv) (m : Model) (name : String)
    (hnot : t.hasThumbnail name = false) (hall : env.allSucceed = true) :
    (t.generateThumbnail dev env (some m) name).2.2 = true := by
  obtain ⟨h1, h2, h3, h4, h5, h6, h7, h8⟩ := (allSucceed_iff env).mp hall
  simp [ThumbnailRenderer.generateThumbnail, hnot, ThumbnailRenderer.createThumbnailTexture,
    VulkanDevice.createImage, ThumbnailRenderer.renderModelToTexture, h1, h2, h3, h4, h5, h6,
    h7, h8]

/-- When the three creations of `createThumbnailTexture` succeed it returns. -/
theorem createThumbnailTexture_returns (dev : VulkanDevice) (t : ThumbnailRenderer)
    (env : ThumbnailEnv) (name : String) (h1 : env.createImageOk = true)
    (h2 : env.imageViewResult = VK_SUCCESS) (h3 : env.samplerResult = VK_SUCCESS) :
    ∃ s, t.createThumbnailTexture dev env name = .ok s := by
  simp [ThumbnailRenderer.createThumbnailTexture, VulkanDevice.createImage, h1, h2, h3]

/-- When `renderModelToTexture` gets as far as the fence wait, the wait is bounded by
1000000000 ns, and the fence is destroyed right after it, whatever the wait reports. -/
theorem renderModelToTexture_wait (dev : VulkanDevice) (t : ThumbnailRenderer)
    (env : ThumbnailEnv) (model : Model) (target : Handle)
    (h4 : env.beginResult = VK_SUCCESS) (h5 : env.endResult = VK_SUCCESS)
    (h6 : env.createFenceResult = VK_SUCCESS) (h7 : env.submitResult = VK_SUCCESS) :
    ∃ before, (t.renderModelToTexture dev env model target).state.calls
      = before ++ [Call.vkWaitForFences dev.nextHandle 1000000000,
                   Call.vkDestroyFence dev.nextHandle] := by
  unfold ThumbnailRenderer.renderModelToTexture
  simp only [h4, h5, h6, h7, ne_eq, not_true_eq_false, if_false]
  split_ifs <;> exact ⟨_, rfl⟩

/-- C15: `generateThumbnail` always returns a value (it is a total function into
`VulkanDevice × ThumbnailRenderer × Bool`: every exception of its `try` block ends in the
`catch`).  For a model and a name without a generated thumbnail, whenever a step fails
(the texture creation: image, view or sampler; the command recording: begin or end; the
fence creation; the queue submission; or the fence wait, which fails or times out), it
returns `false` and `hasThumbnail(name)` is still `false`; a wait that was reached was
made with the bound of 1000000000 ns.  The caller may retry: a later request for the
name in which every step succeeds returns `true`, and `hasThumbnail(name)` is then
`true`. -/
theorem C15_failed_generation_returns_false (dev : VulkanDevice) (t : ThumbnailRenderer)
    (env : ThumbnailEnv) (m : Model) (name : String)
    (hnot : t.hasThumbnail name = false)
    (hfail : env.createImageOk = false ∨ env.imageViewResult ≠ VK_SUCCESS
      ∨ env.samplerResult ≠ VK_SUCCESS ∨ env.beginResult ≠ VK_SUCCESS
      ∨ env.endResult ≠ VK_SUCCESS ∨ env.createFenceResult ≠ VK_SUCCESS
      ∨ env.submitResult ≠ VK_SUCCESS ∨ env.waitResult ≠ VK_SUCCESS) :
    (t.generateThumbnail dev env (some m) name).2.2 = false
    ∧ (t.generateThumbnail dev env (some m) name).2.1.hasThumbnail name = false
    ∧ (t.generateThumbnail dev env (some m) name).2.1.getThumbnail name = none
    ∧ (env.createImageOk = true → env.imageViewResult = VK_SUCCESS →
        env.samplerResult = VK_SUCCESS → env.beginResult = VK_SUCCESS →
        env.endResult = VK_SUCCESS → env.createFenceResult = VK_SUCCESS →
        env.submitResult = VK_SUCCESS →
        ∃ before fence, (t.generateThumbnail dev env (some m) name).1.calls
          = before ++ [Call.vkWaitForFences fence 1000000000, Call.vkDestroyFence fence])
    ∧ (∀ (env2 : ThumbnailEnv) (m2 : Model), env2.allSucceed = true →
        ((t.generateThumbnail dev env (some m) name).2.1.generateThumbnail
            (t.generateThumbnail dev env (some m) name).1 env2 (some m2) name).2.2 = true
        ∧ ((t.generateThumbnail dev env (some m) name).2.1.generateThumbnail
            (t.generateThumbnail dev env (some m) name).1 env2 (some m2) name).2.1.hasThumbnail
              name = true) := by
  have hfalse : (t.generateThumbnail dev env (some m) name).2.2 = false := by
    cases hb : (t.generateThumbnail dev env (some m) name).2.2 with
    | false => rfl
    | true =>
      obtain ⟨h1, h2, h3, h4, h5, h6, h7, h8⟩ :=
        (allSucceed_iff env).mp (generateThumbnail_true dev t env (some m) name hb)
      rcases hfail with h | h | h | h | h | h | h | h
      · rw [h1] at h
        exact absurd h (by simp)
      · exact absurd h2 h
      · exact absurd h3 h
      · exact absurd h4 h
      · exact absurd h5 h
      · exact absurd h6 h
      · exact absurd h7 h
      · exact absurd h8 h
  have hhas : (t.generateThumbnail dev env (some m) name).2.1.hasThumbnail name = false := by
    rw [generateThumbnail_false_keeps dev t env (some m) name hfalse]
    exact hnot
  refine ⟨hfalse, hhas, ?_, ?_, ?_⟩
  · unfold ThumbnailRenderer.hasThumbnail at hhas
    unfold ThumbnailRenderer.getThumbnail
    split
    · rename_i th hfind
      rw [hfind] at hhas
      simp only [] at hhas
      simp [hhas]
    · rfl
  · intro h1 h2 h3 h4 h5 h6 h7
    obtain ⟨s, hc⟩ := createThumbnailTexture_returns dev t env name h1 h2 h3
    obtain ⟨before, hb⟩ := renderModelToTexture_wait s.1 s.2 env m
      (s.2.m_thumbnails.imageOf name) h4 h5 h6 h7
    refine ⟨before, s.1.nextHandle, ?_⟩
    rw [← hb]
    unfold ThumbnailRenderer.generateThumbnail
    simp only [hnot, Bool.false_eq_true, if_false, hc]
    split <;> rename_i hr <;> rw [hr] <;> rfl
  · intro env2 m2 hall
    have hret := generateThumbnail_succeeds (t.generateThumbnail dev env (some m) name).1
      (t.generateThumbnail dev env (some m) name).2.1 env2 m2 name hhas hall
    exact ⟨hret, hasThumbnail_of_generated _ _ _ _ _ hret⟩

/-- Witness for C15: a generation for "a" whose fence wait times out, then a retry in
which every step succeeds. -/
theorem C15_failed_generation_returns_false_witness :
    startThumbnails.hasThumbnail "a" = false
    ∧ timeoutThumbnail.waitResult ≠ VK_SUCCESS
    ∧ timedOutOnce.2.2 = false
    ∧ timedOutOnce.2.1.hasThumbnail "a" = false
    ∧ timedOutOnce.2.1.getThumbnail "a" = none
    ∧ retriedAfterTimeout.2.2 = true :=
  have h := C15_failed_generation_returns_false ⟨[], 1⟩ startThumbnails timeoutThumbnail
    triangleModel "a" (by rfl)
    (Or.inr (Or.inr (Or.inr (Or.inr (Or.inr (Or.inr (Or.inr (by decide))))))))
  ⟨by rfl, by decide, h.1, h.2.1, h.2.2.1, (h.2.2.2.2 okThumbnail triangleModel (by rfl)).1⟩

/-! ## C16: `clearThumbnails` -/

theorem releaseCalls_removedTextures (th : ThumbnailData) :
    removedTextures th.releaseCalls = [] := by
  unfold removedTextures ThumbnailData.releaseCalls
  split_ifs <;> rfl

theorem flatMap_releaseCalls_removedTextures (m : ThumbnailMap) :
    removedTextures (m.flatMap (fun pair => pair.2.releaseCalls)) = [] := by
  induction m with
  | nil => rfl
  | cons e rest ih =>
    have h := releaseCalls_removedTextures e.2
    unfold removedTextures at h ih ⊢
    rw [List.flatMap_cons, List.filterMap_append, h, ih]
    rfl

theorem releaseCalls_count_sampler (th : ThumbnailData) (h : Handle) (hh : h ≠ VK_NULL_HANDLE) :
    th.releaseCalls.count (Call.vkDestroySampler h) = if th.sampler = h then 1 else 0 := by
  unfold ThumbnailData.releaseCalls
  by_cases hs : th.sampler = h
  · subst hs
    simp only [hh, ne_eq, not_false_eq_true, if_true]
    split_ifs <;> simp [List.count_cons]
  · split_ifs <;> simp [List.count_cons, hs]

theorem releaseCalls_count_imageView (th : ThumbnailData) (h : Handle)
    (hh : h ≠ VK_NULL_HANDLE) :
    th.releaseCalls.count (Call.vkDestroyImageView h) = if th.imageView = h then 1 else 0 := by
  unfold ThumbnailData.releaseCalls
  by_cases hs : th.imageView = h
  · subst hs
    simp only [hh, ne_eq, not_false_eq_true, if_true]
    split_ifs <;> simp [List.count_cons]
  · split_ifs <;> simp [List.count_cons, hs]

theorem releaseCalls_count_image (th : ThumbnailData) (h : Handle) (hh : h ≠ VK_NULL_HANDLE) :
    th.releaseCalls.count (Call.vkDestroyImage h) = if th.image = h then 1 else 0 := by
  unfold ThumbnailData.releaseCalls
  by_cases hs : th.image = h
  · subst hs
    simp only [hh, ne_eq, not_false_eq_true, if_true]
    split_ifs <;> simp [List.count_cons]
  · split_ifs <;> simp [List.count_cons, hs]

theorem releaseCalls_count_memory (th : ThumbnailData) (h : Handle) (hh : h ≠ VK_NULL_HANDLE) :
    th.releaseCalls.count (Call.vkFreeMemory h) = if th.imageMemory = h then 1 else 0 := by
  unfold ThumbnailData.releaseCalls
  by_cases hs : th.imageMemory = h
  · subst hs
    simp only [hh, ne_eq, not_false_eq_true, if_true]
    split_ifs <;> simp [List.count_cons]
  · split_ifs <;> simp [List.count_cons, hs]

/-- Counting a call over the loop: the sum over the entries. -/
theorem flatMap_count (m : ThumbnailMap) (c : Call) (field : ThumbnailData → Handle)
    (h : Handle)
    (hone : ∀ th : ThumbnailData, th.releaseCalls.count c = if field th = h then 1 else 0) :
    (m.flatMap (fun pair => pair.2.releaseCalls)).count c
      = (m.filter (fun pair => field pair.2 == h)).length := by
  induction m with
  | nil => rfl
  | cons e rest ih =>
    rw [List.flatMap_cons, List.count_append, ih, hone e.2, List.filter_cons]
    by_cases hf : field e.2 = h
    · simp [hf]
      omega
    · simp [hf]

/-- C16 (as stated) fails: after one generated thumbnail "a" (image 1, memory 2, view 3,
sampler 4, UI texture handle 5, registered through `ImGui_ImplVulkan_AddTexture`),
`clearThumbnails` makes exactly four calls, which destroy the sampler, the view, the
image and the memory; the UI texture handle 5 is not released, neither by these calls nor
by any call before them. -/
theorem C16_texture_handle_counterexample :
    generatedOnce.2.1.m_thumbnails.map (fun e => (e.1, e.2.descriptorSet)) = [("a", 5)]
    ∧ generatedOnce.1.calls.take 4
        = [Call.createImage 1 2 1024 1024, Call.vkCreateImageView 3 1, Call.vkCreateSampler 4,
           Call.ImGui_ImplVulkan_AddTexture 5 4 3]
    ∧ clearedAfterOne.1.calls
        = generatedOnce.1.calls
          ++ [Call.vkDestroySampler 4, Call.vkDestroyImageView 3, Call.vkDestroyImage 1,
              Call.vkFreeMemory 2]
    ∧ removedTextures clearedAfterOne.1.calls = []
    ∧ clearedAfterOne.2.m_thumbnails = [] := by
  refine ⟨by rfl, by rfl, by rfl, by rfl, by rfl⟩

/-- C16 (amended): `ThumbnailRenderer::clearThumbnails` destroys the per-entry Vulkan
resources before clearing the map: its calls are, entry by entry, the destruction of the
sampler, the image view, the image and the image memory (in this order, each when not
null), so each non-null handle is released once per entry that holds it, and exactly once
when the entries hold distinct non-null handles; no call releases a UI-visible texture
handle; afterwards the map is empty, so `hasThumbnail(name)` is false and
`getThumbnail(name)` is null for every name. -/
theorem C16_clearThumbnails_releases (dev : VulkanDevice) (t : ThumbnailRenderer) :
    (∃ released : List Call,
      (t.clearThumbnails dev).1.calls = dev.calls ++ released
      ∧ ((∀ e ∈ t.m_thumbnails, e.2.sampler ≠ VK_NULL_HANDLE ∧ e.2.imageView ≠ VK_NULL_HANDLE
            ∧ e.2.image ≠ VK_NULL_HANDLE ∧ e.2.imageMemory ≠ VK_NULL_HANDLE) →
          released = t.m_thumbnails.flatMap (fun e =>
            [Call.vkDestroySampler e.2.sampler, Call.vkDestroyImageView e.2.imageView,
             Call.vkDestroyImage e.2.image, Call.vkFreeMemory e.2.imageMemory]))
      ∧ (∀ h : Handle, h ≠ VK_NULL_HANDLE →
          released.count (Call.vkDestroySampler h)
            = (t.m_thumbnails.filter (fun e => e.2.sampler == h)).length
          ∧ released.count (Call.vkDestroyImageView h)
            = (t.m_thumbnails.filter (fun e => e.2.imageView == h)).length
          ∧ released.count (Call.vkDestroyImage h)
            = (t.m_thumbnails.filter (fun e => e.2.image == h)).length
          ∧ released.count (Call.vkFreeMemory h)
            = (t.m_thumbnails.filter (fun e => e.2.imageMemory == h)).length)
      ∧ removedTextures released = [])
    ∧ (t.clearThumbnails dev).2.m_thumbnails = []
    ∧ (∀ name : String, (t.clearThumbnails dev).2.hasThumbnail name = false
        ∧ (t.clearThumbnails dev).2.getThumbnail name = none) := by
  refine ⟨⟨t.m_thumbnails.flatMap (fun pair => pair.2.releaseCalls), rfl, ?_, ?_, ?_⟩, rfl, ?_⟩
  · intro hall
    apply List.flatMap_congr
    intro e he
    obtain ⟨h1, h2, h3, h4⟩ := hall e he
    simp [ThumbnailData.releaseCalls, h1, h2, h3, h4]
  · intro h hh
    exact ⟨flatMap_count _ _ ThumbnailData.sampler h (fun th => releaseCalls_count_sampler th h hh),
      flatMap_count _ _ ThumbnailData.imageView h
        (fun th => releaseCalls_count_imageView th h hh),
      flatMap_count _ _ ThumbnailData.image h (fun th => releaseCalls_count_image th h hh),
      flatMap_count _ _ ThumbnailData.imageMemory h
        (fun th => releaseCalls_count_memory th h hh)⟩
  · exact flatMap_releaseCalls_removedTextures _
  · intro name
    exact ⟨rfl, rfl⟩

/-- Witness for C16: the renderer holding the generated thumbnail "a", whose entry has
four non-null handles. -/
theorem C16_clearThumbnails_releases_witness :
    clearedAfterOne.2.m_thumbnails = []
    ∧ clearedAfterOne.2.hasThumbnail "a" = false
    ∧ clearedAfterOne.2.getThumbnail "a" = none
    ∧ generatedOnce.2.1.hasThumbnail "a" = true :=
  have h := C16_clearThumbnails_releases generatedOnce.1 generatedOnce.2.1
  ⟨h.2.1, (h.2.2 "a").1, (h.2.2 "a").2, by rfl⟩

/-! ## C17: a generated thumbnail stays -/

theorem lookup_filter_ne (m : ThumbnailMap) (name other : String) (hne : name ≠ other) :
    List.lookup name (m.filter (fun e => e.1 != other)) = List.lookup name m := by
  induction m with
  | nil => rfl
  | cons e rest ih =>
    obtain ⟨k, v⟩ := e
    rw [List.filter_cons]
    by_cases hk : k = other
    · subst hk
      have h1 : (name == k) = false := by simpa using hne
      simp only [bne_self_eq_false, Bool.false_eq_true, if_false, List.lookup_cons, h1, ih]
    · have h2 : (k != other) = true := by simpa using hk
      simp only [h2, if_true, List.lookup_cons, ih]

theorem find_assign_other (m : ThumbnailMap) (name other : String) (th : ThumbnailData)
    (hne : name ≠ other) : (m.assign other th).find name = m.find name := by
  unfold ThumbnailMap.assign ThumbnailMap.find
  have h1 : (name == other) = false := by simpa using hne
  simp only [List.lookup_cons, h1, lookup_filter_ne m name other hne]

theorem find_setGenerated_other (m : ThumbnailMap) (name other : String) (hne : name ≠ other) :
    (m.setGenerated other).find name = m.find name := by
  unfold ThumbnailMap.setGenerated ThumbnailMap.find
  induction m with
  | nil => rfl
  | cons e rest ih =>
    obtain ⟨k, v⟩ := e
    rw [List.map_cons]
    by_cases hk : k = other
    · subst hk
      have h1 : (name == k) = false := by simpa using hne
      simp only [beq_self_eq_true, if_true, List.lookup_cons, h1, ih]
    · have h2 : (k == other) = false := by simpa using hk
      simp only [h2, Bool.false_eq_true, if_false, List.lookup_cons, ih]

/-- A `generateThumbnail` for another name leaves the map entry of `name` as it was. -/
theorem generateThumbnail_find_other (dev : VulkanDevice) (t : ThumbnailRenderer)
    (env : ThumbnailEnv) (model : Option Model) (name other : String) (hne : name ≠ other) :
    (t.generateThumbnail dev env model other).2.1.m_thumbnails.find name
      = t.m_thumbnails.find name := by
  unfold ThumbnailRenderer.generateThumbnail
  split
  · rfl
  · split_ifs
    · rfl
    · split
      · rename_i dev1 t1 what hc
        have := createThumbnailTexture_thrown _ _ _ _ _ _ hc
        simp only [] at this
        rw [this]
      · rename_i dev1 t1 hc
        obtain ⟨_, th, hth, _⟩ := createThumbnailTexture_ok_entry _ _ _ _ _ hc
        simp only [] at hth
        split
        · simp only [hth, find_assign_other _ _ _ _ hne]
        · simp only [hth, find_setGenerated_other _ _ _ hne, find_assign_other _ _ _ _ hne]

theorem hasThumbnail_of_getThumbnail (t : ThumbnailRenderer) (name : String)
    (th : ThumbnailData) (h : t.getThumbnail name = some th) :
    t.hasThumbnail name = true ∧ th.isGenerated = true := by
  unfold ThumbnailRenderer.getThumbnail at h
  unfold ThumbnailRenderer.hasThumbnail
  split at h
  · rename_i th1 hfind
    split_ifs at h with hg
    injection h with h
    subst h
    simp only [hfind, hg, and_self]
  · exact absurd h (by simp)

/-- One more `generateThumbnail`, for any name, keeps what `getThumbnail(name)` returns
once it returns an entry. -/
theorem generateThumbnail_keeps (dev : VulkanDevice) (t : ThumbnailRenderer)
    (env : ThumbnailEnv) (model : Option Model) (name other : String) (th : ThumbnailData)
    (h : t.getThumbnail name = some th) :
    (t.generateThumbnail dev env model other).2.1.getThumbnail name = some th := by
  by_cases hne : name = other
  · subst hne
    rw [generateThumbnail_noop dev t env model name
      (Or.inr (hasThumbnail_of_getThumbnail t name th h).1)]
    exact h
  · unfold ThumbnailRenderer.getThumbnail at h ⊢
    rw [generateThumbnail_find_other dev t env model name other hne]
    exact h

theorem generateThumbnails_keeps (name : String) (th : ThumbnailData) :
    ∀ (requests : List (ThumbnailEnv × Option Model × String)) (dev : VulkanDevice)
      (t : ThumbnailRenderer), t.getThumbnail name = some th →
      (t.generateThumbnails dev requests).2.getThumbnail name = some th := by
  intro requests
  induction requests with
  | nil =>
    intro dev t h
    exact h
  | cons req rest ih =>
    intro dev t h
    obtain ⟨env, model, other⟩ := req
    unfold ThumbnailRenderer.generateThumbnails
    exact ih _ _ (generateThumbnail_keeps dev t env model name other th h)

/-- What `getThumbnail` returns right after a generation that returned `true`. -/
theorem getThumbnail_of_generated (dev : VulkanDevice) (t : ThumbnailRenderer)
    (env : ThumbnailEnv) (model : Option Model) (name : String)
    (h : (t.generateThumbnail dev env model name).2.2 = true) :
    ∃ th : ThumbnailData,
      (t.generateThumbnail dev env model name).2.1.getThumbnail name = some th
      ∧ th.width = THUMBNAIL_SIZE ∧ th.height = THUMBNAIL_SIZE := by
  unfold ThumbnailRenderer.generateThumbnail at h ⊢
  split at h
  · exact absurd h (by simp)
  · split_ifs at h with hhas
    split at h
    · exact absurd h (by simp)
    · rename_i dev1 t1 hc
      split at h
      · exact absurd h (by simp)
      · rename_i dev2 hr
        obtain ⟨_, th, hth, _, hw, hh⟩ := createThumbnailTexture_ok_entry _ _ _ _ _ hc
        simp only [] at hth
        refine ⟨{ th with isGenerated := true }, ?_, hw, hh⟩
        simp only [hhas, Bool.false_eq_true, if_false, hc, hr]
        unfold ThumbnailRenderer.getThumbnail
        simp only [hth, find_setGenerated_assign, if_true]

/-- C17: after a `generateThumbnail(model, name)` that returned `true` there is one entry
(marked generated, 1024 by 1024) such that `hasThumbnail(name)` is true and
`getThumbnail(name)` returns this entry right away and after every later sequence of
`generateThumbnail` calls, for any names (also `name` itself), any models and any driver
answers, so successful or failed ones alike.  (`clearThumbnails` is the only other member
that changes the map; the sequences contain no call of it.) -/
theorem C17_generated_thumbnail_stays (dev : VulkanDevice) (t : ThumbnailRenderer)
    (env : ThumbnailEnv) (model : Option Model) (name : String)
    (h : (t.generateThumbnail dev env model name).2.2 = true) :
    ∃ th : ThumbnailData,
      th.isGenerated = true ∧ th.width = 1024 ∧ th.height = 1024
      ∧ ∀ requests : List (ThumbnailEnv × Option Model × String),
          ((t.generateThumbnail dev env model name).2.1.generateThumbnails
            (t.generateThumbnail dev env model name).1 requests).2.getThumbnail name = some th
          ∧ ((t.generateThumbnail dev env model name).2.1.generateThumbnails
            (t.generateThumbnail dev env model name).1 requests).2.hasThumbnail name = true := by
  obtain ⟨th, hget, hw, hh⟩ := getThumbnail_of_generated dev t env model name h
  refine ⟨th, (hasThumbnail_of_getThumbnail _ name th hget).2, hw, hh, ?_⟩
  intro requests
  have hk := generateThumbnails_keeps name th requests
    (t.generateThumbnail dev env model name).1 (t.generateThumbnail dev env model name).2.1 hget
  exact ⟨hk, (hasThumbnail_of_getThumbnail _ name th hk).1⟩

/-- Witness for C17: the thumbnail "a" is generated; then a request for "b" times out, a
request for "c" succeeds and "a" is requested again. -/
theorem C17_generated_thumbnail_stays_witness :
    generatedOnce.2.2 = true
    ∧ ∃ th : ThumbnailData,
      th.isGenerated = true ∧ th.width = 1024 ∧ th.height = 1024
      ∧ (generatedOnce.2.1.generateThumbnails generatedOnce.1
          [(timeoutThumbnail, some triangleModel, "b"), (okThumbnail, some pointModel, "c"),
           (okThumbnail, some triangleModel, "a")]).2.getThumbnail "a" = some th :=
  have h := C17_generated_thumbnail_stays ⟨[], 1⟩ startThumbnails okThumbnail
    (some triangleModel) "a" (by rfl)
  ⟨by rfl, h.elim (fun th hth => ⟨th, hth.1, hth.2.1, hth.2.2.1, (hth.2.2.2 _).1⟩)⟩

/-! ## C20: the bounds are the bounding box -/

/-- The nested loops visit the vertices of `allVertices` one after the other. -/
theorem foldl_meshes_allVertices (meshes : List Mesh) :
    ∀ b : Bounds, meshes.foldl (fun b mesh => mesh.vertices.foldl Bounds.addVertex b) b
      = (allVertices meshes).foldl Bounds.addVertex b := by
  induction meshes with
  | nil =>
    intro b
    rfl
  | cons mesh rest ih =>
    intro b
    unfold allVertices at ih ⊢
    rw [List.foldl_cons, List.flatMap_cons, List.foldl_append, ih]

/-- Each of the six bounds runs its own `min` or `max` over the vertices. -/
theorem foldl_addVertex_components (vs : List Vertex) :
    ∀ b : Bounds,
      (vs.foldl Bounds.addVertex b).minBounds.x = vs.foldl (fun a v => min a v.pos.x) b.minBounds.x
      ∧ (vs.foldl Bounds.addVertex b).minBounds.y
          = vs.foldl (fun a v => min a v.pos.y) b.minBounds.y
      ∧ (vs.foldl Bounds.addVertex b).minBounds.z
          = vs.foldl (fun a v => min a v.pos.z) b.minBounds.z
      ∧ (vs.foldl Bounds.addVertex b).maxBounds.x
          = vs.foldl (fun a v => max a v.pos.x) b.maxBounds.x
      ∧ (vs.foldl Bounds.addVertex b).maxBounds.y
          = vs.foldl (fun a v => max a v.pos.y) b.maxBounds.y
      ∧ (vs.foldl Bounds.addVertex b).maxBounds.z
          = vs.foldl (fun a v => max a v.pos.z) b.maxBounds.z := by
  induction vs with
  | nil =>
    intro b
    exact ⟨rfl, rfl, rfl, rfl, rfl, rfl⟩
  | cons v rest ih =>
    intro b
    simp only [List.foldl_cons]
    exact ih (b.addVertex v)

/-- A running minimum is below its start and below every value, and it is the start or
one of the values. -/
theorem foldl_min_spec (f : Vertex → ℚ) (vs : List Vertex) :
    ∀ m0 : ℚ,
      vs.foldl (fun a v => min a (f v)) m0 ≤ m0
      ∧ (∀ v ∈ vs, vs.foldl (fun a v => min a (f v)) m0 ≤ f v)
      ∧ (vs.foldl (fun a v => min a (f v)) m0 = m0
          ∨ ∃ v ∈ vs, f v = vs.foldl (fun a v => min a (f v)) m0) := by
  induction vs with
  | nil =>
    intro m0
    exact ⟨le_refl _, fun v hv => absurd hv (List.not_mem_nil _), Or.inl rfl⟩
  | cons v rest ih =>
    intro m0
    obtain ⟨h1, h2, h3⟩ := ih (min m0 (f v))
    simp only [List.foldl_cons]
    refine ⟨le_trans h1 (min_le_left _ _), ?_, ?_⟩
    · intro w hw
      rcases List.mem_cons.mp hw with hw | hw
      · rw [hw]
        exact le_trans h1 (min_le_right _ _)
      · exact h2 w hw
    · rcases h3 with h3 | ⟨w, hw, hfw⟩
      · rcases min_choice m0 (f v) with hc | hc
        · left
          rw [h3, hc]
        · right
          exact ⟨v, List.mem_cons_self _ _, by rw [h3, hc]⟩
      · right
        exact ⟨w, List.mem_cons_of_mem _ hw, hfw⟩

/-- A running maximum is above its start and above every value, and it is the start or
one of the values. -/
theorem foldl_max_spec (f : Vertex → ℚ) (vs : List Vertex) :
    ∀ m0 : ℚ,
      m0 ≤ vs.foldl (fun a v => max a (f v)) m0
      ∧ (∀ v ∈ vs, f v ≤ vs.foldl (fun a v => max a (f v)) m0)
      ∧ (vs.foldl (fun a v => max a (f v)) m0 = m0
          ∨ ∃ v ∈ vs, f v = vs.foldl (fun a v => max a (f v)) m0) := by
  induction vs with
  | nil =>
    intro m0
    exact ⟨le_refl _, fun v hv => absurd hv (List.not_mem_nil _), Or.inl rfl⟩
  | cons v rest ih =>
    intro m0
    obtain ⟨h1, h2, h3⟩ := ih (max m0 (f v))
    simp only [List.foldl_cons]
    refine ⟨le_trans (le_max_left _ _) h1, ?_, ?_⟩
    · intro w hw
      rcases List.mem_cons.mp hw with hw | hw
      · rw [hw]
        exact le_trans (le_max_right _ _) h1
      · exact h2 w hw
    · rcases h3 with h3 | ⟨w, hw, hfw⟩
      · rcases max_choice m0 (f v) with hc | hc
        · left
          rw [h3, hc]
        · right
          exact ⟨v, List.mem_cons_self _ _, by rw [h3, hc]⟩
      · right
        exact ⟨w, List.mem_cons_of_mem _ hw, hfw⟩

/-- A running minimum started at `FLT_MAX` over a non-empty list of values up to
`FLT_MAX` is the least of the values. -/
theorem foldl_min_attained (f : Vertex → ℚ) (vs : List Vertex) (hne : vs ≠ [])
    (hle : ∀ v ∈ vs, f v ≤ FLT_MAX) :
    (∀ v ∈ vs, vs.foldl (fun a v => min a (f v)) FLT_MAX ≤ f v)
    ∧ ∃ v ∈ vs, f v = vs.foldl (fun a v => min a (f v)) FLT_MAX := by
  obtain ⟨_, h2, h3⟩ := foldl_min_spec f vs FLT_MAX
  refine ⟨h2, ?_⟩
  rcases h3 with h3 | h3
  · obtain ⟨v, hv⟩ := List.exists_mem_of_ne_nil vs hne
    refine ⟨v, hv, le_antisymm ?_ (h2 v hv)⟩
    rw [h3]
    exact hle v hv
  · exact h3

/-- A running maximum started at `-FLT_MAX` over a non-empty list of values from
`-FLT_MAX` up is the greatest of the values. -/
theorem foldl_max_attained (f : Vertex → ℚ) (vs : List Vertex) (hne : vs ≠ [])
    (hle : ∀ v ∈ vs, -FLT_MAX ≤ f v) :
    (∀ v ∈ vs, f v ≤ vs.foldl (fun a v => max a (f v)) (-FLT_MAX))
    ∧ ∃ v ∈ vs, f v = vs.foldl (fun a v => max a (f v)) (-FLT_MAX) := by
  obtain ⟨_, h2, h3⟩ := foldl_max_spec f vs (-FLT_MAX)
  refine ⟨h2, ?_⟩
  rcases h3 with h3 | h3
  · obtain ⟨v, hv⟩ := List.exists_mem_of_ne_nil vs hne
    refine ⟨v, hv, le_antisymm (h2 v hv) ?_⟩
    rw [h3]
    exact hle v hv
  · exact h3

theorem std_min_finite (a b : ℚ) :
    std.min (.finite a) (.finite b) = .finite (min a b) := by
  unfold std.min
  simp only [FloatValue.lt, decide_eq_true_eq]
  rcases lt_or_le b a with h | h
  · rw [if_pos h, min_eq_right h.le]
  · rw [if_neg (not_lt.2 h), min_eq_left h]

theorem std_max_finite (a b : ℚ) :
    std.max (.finite a) (.finite b) = .finite (max a b) := by
  unfold std.max
  simp only [FloatValue.lt, decide_eq_true_eq]
  rcases lt_or_le a b with h | h
  · rw [if_pos h, max_eq_right h.le]
  · rw [if_neg (not_lt.2 h), max_eq_left h]

theorem addVertex_toFloat (b : Bounds) (vertex : Vertex) :
    b.toFloat.addVertex vertex.pos.toFloat = (b.addVertex vertex).toFloat := by
  simp only [FloatBounds.addVertex, Bounds.addVertex, Bounds.toFloat, Vec3.toFloat,
    std_min_finite, std_max_finite]

theorem foldl_addVertex_toFloat (vs : List Vertex) :
    ∀ b : Bounds, (vs.map (fun vertex => vertex.pos.toFloat)).foldl FloatBounds.addVertex
        b.toFloat = (vs.foldl Bounds.addVertex b).toFloat := by
  induction vs with
  | nil =>
    intro b
    rfl
  | cons v rest ih =>
    intro b
    rw [List.map_cons, List.foldl_cons, List.foldl_cons, addVertex_toFloat, ih]

theorem foldl_meshes_toFloat (meshes : List Mesh) :
    ∀ b : Bounds, (floatPositions meshes).foldl
        (fun b vertices => vertices.foldl FloatBounds.addVertex b) b.toFloat
      = (meshes.foldl (fun b mesh => mesh.vertices.foldl Bounds.addVertex b) b).toFloat := by
  induction meshes with
  | nil =>
    intro b
    rfl
  | cons mesh rest ih =>
    intro b
    unfold floatPositions at ih ⊢
    rw [List.map_cons, List.foldl_cons, List.foldl_cons, foldl_addVertex_toFloat, ih]

/-- On rational coordinates the bounds loop on `float` values is `computeBounds`. -/
theorem computeFloatBounds_toFloat (meshes : List Mesh) :
    computeFloatBounds (floatPositions meshes) = (computeBounds meshes).toFloat := by
  unfold computeFloatBounds computeBounds
  exact foldl_meshes_toFloat meshes
    ⟨⟨FLT_MAX, FLT_MAX, FLT_MAX⟩, ⟨-FLT_MAX, -FLT_MAX, -FLT_MAX⟩⟩

/-- C20 (as stated) fails on coordinates that are not finite.  For a model whose only
vertex is (+infinity, 0, 0) the loop leaves `minBounds.x` at `FLT_MAX`
(`std::min(FLT_MAX, +infinity)` is `FLT_MAX`): the bound is not the x of any vertex.
For a model whose only vertex is (NaN, 0, 0) both comparisons are false and the loop
leaves `minBounds.x` at `FLT_MAX` and `maxBounds.x` at `-FLT_MAX`: the box is empty in x
and no bound in x is attained. -/
theorem C20_non_finite_coordinate_counterexample :
    computeFloatBounds [[⟨.posInf, .finite 0, .finite 0⟩]]
      = ⟨⟨.finite FLT_MAX, .finite 0, .finite 0⟩, ⟨.posInf, .finite 0, .finite 0⟩⟩
    ∧ (computeFloatBounds [[⟨.posInf, .finite 0, .finite 0⟩]]).minBounds.x ≠ .posInf
    ∧ computeFloatBounds [[⟨.nan, .finite 0, .finite 0⟩]]
      = ⟨⟨.finite FLT_MAX, .finite 0, .finite 0⟩, ⟨.finite (-FLT_MAX), .finite 0, .finite 0⟩⟩
    ∧ (computeFloatBounds [[⟨.nan, .finite 0, .finite 0⟩]]).minBounds.x ≠ .nan
    ∧ (computeFloatBounds [[⟨.nan, .finite 0, .finite 0⟩]]).maxBounds.x ≠ .nan
    ∧ (computeFloatBounds [[⟨.nan, .finite 0, .finite 0⟩]]).maxBounds.x.lt
        (computeFloatBounds [[⟨.nan, .finite 0, .finite 0⟩]]).minBounds.x = true := by
  have h1 : computeFloatBounds [[⟨.posInf, .finite 0, .finite 0⟩]]
      = ⟨⟨.finite FLT_MAX, .finite 0, .finite 0⟩, ⟨.posInf, .finite 0, .finite 0⟩⟩ := by
    simp only [computeFloatBounds, List.foldl_cons, List.foldl_nil, FloatBounds.addVertex,
      std.min, std.max, FloatValue.lt, FLT_MAX]
    norm_num
  have h2 : computeFloatBounds [[⟨.nan, .finite 0, .finite 0⟩]]
      = ⟨⟨.finite FLT_MAX, .finite 0, .finite 0⟩,
         ⟨.finite (-FLT_MAX), .finite 0, .finite 0⟩⟩ := by
    simp only [computeFloatBounds, List.foldl_cons, List.foldl_nil, FloatBounds.addVertex,
      std.min, std.max, FloatValue.lt, FLT_MAX]
    norm_num
  refine ⟨h1, ?_, h2, ?_, ?_, ?_⟩
  · rw [h1]; simp
  · rw [h2]; simp
  · rw [h2]; simp
  · rw [h2]
    simp only [FloatValue.lt, FLT_MAX]
    norm_num

/-- C20 (amended): for every model with at least one vertex whose vertex coordinates are finite
`float` values, the bounds computed in `renderModelToTexture` are the axis-aligned
bounding box over all vertices of all meshes: every vertex lies inside the box in each
coordinate, and each of the six bounds is attained by some vertex, so each component of
`minBounds` (`maxBounds`) is the minimum (maximum) of that coordinate over all vertices. -/
theorem C20_bounds_are_bounding_box (model : Model)
    (hne : allVertices model.m_meshes ≠ [])
    (hfin : ∀ v ∈ allVertices model.m_meshes, v.pos.isFinite) :
    (∀ v ∈ allVertices model.m_meshes,
      ((computeBounds model.m_meshes).minBounds.x ≤ v.pos.x
        ∧ v.pos.x ≤ (computeBounds model.m_meshes).maxBounds.x)
      ∧ ((computeBounds model.m_meshes).minBounds.y ≤ v.pos.y
        ∧ v.pos.y ≤ (computeBounds model.m_meshes).maxBounds.y)
      ∧ ((computeBounds model.m_meshes).minBounds.z ≤ v.pos.z
        ∧ v.pos.z ≤ (computeBounds model.m_meshes).maxBounds.z))
    ∧ (∃ v ∈ allVertices model.m_meshes, v.pos.x = (computeBounds model.m_meshes).minBounds.x)
    ∧ (∃ v ∈ allVertices model.m_meshes, v.pos.y = (computeBounds model.m_meshes).minBounds.y)
    ∧ (∃ v ∈ allVertices model.m_meshes, v.pos.z = (computeBounds model.m_meshes).minBounds.z)
    ∧ (∃ v ∈ allVertices model.m_meshes, v.pos.x = (computeBounds model.m_meshes).maxBounds.x)
    ∧ (∃ v ∈ allVertices model.m_meshes, v.pos.y = (computeBounds model.m_meshes).maxBounds.y)
    ∧ (∃ v ∈ allVertices model.m_meshes, v.pos.z = (computeBounds model.m_meshes).maxBounds.z) := by
  have hb : computeBounds model.m_meshes
      = (allVertices model.m_meshes).foldl Bounds.addVertex
          ⟨⟨FLT_MAX, FLT_MAX, FLT_MAX⟩, ⟨-FLT_MAX, -FLT_MAX, -FLT_MAX⟩⟩ := by
    unfold computeBounds
    exact foldl_meshes_allVertices _ _
  obtain ⟨c1, c2, c3, c4, c5, c6⟩ := foldl_addVertex_components (allVertices model.m_meshes)
    ⟨⟨FLT_MAX, FLT_MAX, FLT_MAX⟩, ⟨-FLT_MAX, -FLT_MAX, -FLT_MAX⟩⟩
  simp only [] at c1 c2 c3 c4 c5 c6
  obtain ⟨x1, x2⟩ := foldl_min_attained (fun v => v.pos.x) _ hne (fun v hv => (hfin v hv).1.2)
  obtain ⟨y1, y2⟩ := foldl_min_attained (fun v => v.pos.y) _ hne (fun v hv => (hfin v hv).2.1.2)
  obtain ⟨z1, z2⟩ := foldl_min_attained (fun v => v.pos.z) _ hne (fun v hv => (hfin v hv).2.2.2)
  obtain ⟨x3, x4⟩ := foldl_max_attained (fun v => v.pos.x) _ hne (fun v hv => (hfin v hv).1.1)
  obtain ⟨y3, y4⟩ := foldl_max_attained (fun v => v.pos.y) _ hne (fun v hv => (hfin v hv).2.1.1)
  obtain ⟨z3, z4⟩ := foldl_max_attained (fun v => v.pos.z) _ hne (fun v hv => (hfin v hv).2.2.1)
  rw [hb, c1, c2, c3, c4, c5, c6]
  exact ⟨fun v hv => ⟨⟨x1 v hv, x3 v hv⟩, ⟨y1 v hv, y3 v hv⟩, ⟨z1 v hv, z3 v hv⟩⟩,
    x2, y2, z2, x4, y4, z4⟩

/-- Witness for C20: the model of two non-empty meshes and an empty one, with the
vertices (0,5,-1), (2,-3,4), (-7,1,1); its box runs from (-7,-3,-1) to (2,5,4). -/
theorem C20_bounds_are_bounding_box_witness :
    allVertices twoMeshModel.m_meshes ≠ []
    ∧ (∀ v ∈ allVertices twoMeshModel.m_meshes,
        (computeBounds twoMeshModel.m_meshes).minBounds.x ≤ v.pos.x
        ∧ v.pos.x ≤ (computeBounds twoMeshModel.m_meshes).maxBounds.x)
    ∧ (∃ v ∈ allVertices twoMeshModel.m_meshes,
        v.pos.x = (computeBounds twoMeshModel.m_meshes).minBounds.x)
    ∧ computeBounds twoMeshModel.m_meshes = ⟨⟨-7, -3, -1⟩, ⟨2, 5, 4⟩⟩ := by
  have hne : allVertices twoMeshModel.m_meshes ≠ [] := by
    simp [allVertices, twoMeshModel]
  have h := C20_bounds_are_bounding_box twoMeshModel hne
    (by
      intro v hv
      simp only [allVertices, twoMeshModel, List.flatMap_cons, List.flatMap_nil,
        List.append_nil, List.nil_append, List.cons_append, List.mem_cons,
        List.mem_singleton, List.not_mem_nil, or_false] at hv
      rcases hv with hv | hv | hv <;> subst hv <;>
        (unfold Vec3.isFinite FLT_MAX; norm_num))
  refine ⟨hne, fun v hv => (h.1 v hv).1, h.2.1, ?_⟩
  simp only [computeBounds, twoMeshModel, List.foldl_cons, List.foldl_nil, Bounds.addVertex,
    FLT_MAX]
  norm_num

/-! ## C13: the steps of `recreateSwapChain` -/

theorem vecAt_set_self (fbs : List Handle) (i : Nat) (fb : Handle) (h : i < fbs.length) :
    vecAt (fbs.set i fb) i = fb := by
  simp [vecAt, List.getD_eq_getElem?_getD, List.getElem?_set, h]

theorem vecAt_set_other (fbs : List Handle) (i j : Nat) (fb : Handle) (h : j ≠ i) :
    vecAt (fbs.set i fb) j = vecAt fbs j := by
  simp [vecAt, List.getD_eq_getElem?_getD, List.getElem?_set, h.symm]

/-- What a returning framebuffer loop did: one creation per index from `i` on, each for
the image view of its index, its handle stored at its index. -/
theorem createFramebuffersLoop_ok (sc : SwapChain) (n : Nat) :
    ∀ (results : List VkResult) (i : Nat) (dev : VulkanDevice) (fbs : List Handle)
      (s : VulkanDevice × List Handle), i + n ≤ fbs.length →
      createFramebuffersLoop sc n results i dev fbs = .ok s →
      s.2.length = fbs.length
      ∧ (∀ j, j < i → vecAt s.2 j = vecAt fbs j)
      ∧ s.1.calls = dev.calls ++ (List.range n).map (fun j =>
          Call.vkCreateFramebuffer (vecAt s.2 (i + j)) (vecAt sc.m_swapChainImageViews (i + j))
            sc.m_depthImageView sc.m_swapChainExtent) := by
  induction n with
  | zero =>
    intro results i dev fbs s _ h
    simp only [createFramebuffersLoop] at h
    injection h with h
    subst h
    simp
  | succ n ih =>
    intro results i dev fbs s hlen h
    simp only [createFramebuffersLoop] at h
    split_ifs at h
    obtain ⟨h1, h2, h3⟩ := ih _ (i + 1) _ _ s
      (by rw [List.length_set]; omega) h
    rw [List.length_set] at h1
    refine ⟨h1, ?_, ?_⟩
    · intro j hj
      rw [h2 j (by omega), vecAt_set_other _ _ _ _ (by omega)]
    · have hi : vecAt s.2 i = dev.fresh.1 := by
        rw [h2 i (by omega), vecAt_set_self _ _ _ (by omega)]
      rw [h3, List.range_succ_eq_map, List.map_cons, List.map_map]
      simp only [VulkanDevice.log, fresh_calls, List.append_assoc, List.singleton_append,
        Nat.add_zero, hi]
      congr 2
      apply List.map_congr_left
      intro j _
      simp only [Function.comp, Nat.succ_eq_add_one]
      rw [show i + 1 + j = i + (j + 1) by omega]

/-- The framebuffer loop returns when every creation succeeds. -/
theorem createFramebuffersLoop_returns (sc : SwapChain) (n : Nat) :
    ∀ (results : List VkResult) (i : Nat) (dev : VulkanDevice) (fbs : List Handle),
      (∀ res ∈ results, res = VK_SUCCESS) →
      ∃ s, createFramebuffersLoop sc n results i dev fbs = .ok s := by
  induction n with
  | zero =>
    intro results i dev fbs _
    exact ⟨_, rfl⟩
  | succ n ih =>
    intro results i dev fbs hall
    simp only [createFramebuffersLoop]
    have hhead : results.headD VK_SUCCESS = VK_SUCCESS := by
      cases results with
      | nil => rfl
      | cons a rest => exact hall a (List.mem_cons_self _ _)
    simp only [hhead, ne_eq, not_true_eq_false, if_false]
    exact ih _ _ _ _ (fun res hres => hall res (List.mem_of_mem_tail hres))

/-- What a returning `createFramebuffers` did. -/
theorem createFramebuffers_ok_calls (dev : VulkanDevice) (r : Renderer)
    (results : List VkResult) (s : VulkanDevice × Renderer)
    (h : r.createFramebuffers dev results = .ok s) :
    s.2 = { r with m_framebuffers := s.2.m_framebuffers }
    ∧ s.2.m_framebuffers.length = r.m_swapChain.m_swapChainImages.length
    ∧ s.1.calls = dev.calls ++ (List.range r.m_swapChain.m_swapChainImages.length).map (fun i =>
        Call.vkCreateFramebuffer (vecAt s.2.m_framebuffers i)
          (vecAt r.m_swapChain.m_swapChainImageViews i)
          r.m_swapChain.m_depthImageView r.m_swapChain.m_swapChainExtent) := by
  unfold Renderer.createFramebuffers at h
  simp only [] at h
  split at h
  · rename_i dev1 fbs hloop
    injection h with h
    subst h
    obtain ⟨h1, _, h3⟩ := createFramebuffersLoop_ok _ _ _ 0 _ _ _
      (by rw [vecResize_length]; omega) hloop
    rw [vecResize_length] at h1
    refine ⟨rfl, h1, ?_⟩
    simp only [Nat.zero_add] at h3
    exact h3
  · exact absurd h (by simp)

/-- What a returning `createCommandBuffers` did. -/
theorem createCommandBuffers_ok_calls (dev : VulkanDevice) (r : Renderer) (result : VkResult)
    (s : VulkanDevice × Renderer) (h : r.createCommandBuffers dev result = .ok s) :
    s.2 = { r with m_commandBuffers := s.2.m_commandBuffers }
    ∧ s.2.m_commandBuffers.length = MAX_FRAMES_IN_FLIGHT
    ∧ s.1.calls = dev.calls ++ [Call.vkAllocateCommandBuffers s.2.m_commandBuffers] := by
  unfold Renderer.createCommandBuffers at h
  simp only [] at h
  split_ifs at h
  injection h with h
  subst h
  refine ⟨rfl, ?_, rfl⟩
  simp [VulkanDevice.freshN, vecResize_length]

theorem createFramebuffers_extentIndependent (dev : VulkanDevice) (r : Renderer)
    (results : List VkResult) (o : Outcome (VulkanDevice × Renderer))
    (h : r.createFramebuffers dev results = o) :
    o.state.2.extentIndependent = r.extentIndependent := by
  subst h
  unfold Renderer.createFramebuffers
  simp only []
  split <;> rfl

theorem createCommandBuffers_extentIndependent (dev : VulkanDevice) (r : Renderer)
    (result : VkResult) (o : Outcome (VulkanDevice × Renderer))
    (h : r.createCommandBuffers dev result = o) :
    o.state.2.extentIndependent = r.extentIndependent := by
  subst h
  unfold Renderer.createCommandBuffers
  simp only []
  split_ifs <;> rfl

/-- Whatever `recreateSwapChain` meets, it leaves the extent-independent members alone. -/
theorem recreateSwapChain_extentIndependent (dev : VulkanDevice) (r : Renderer)
    (env : RecreateEnv) (width height : Nat) :
    (r.recreateSwapChain dev env width height).state.2.extentIndependent
      = r.extentIndependent := by
  unfold Renderer.recreateSwapChain
  simp only []
  split
  · rfl
  · split
    · rename_i s what h
      have h1 := createFramebuffers_extentIndependent _ _ _ _ h
      exact h1
    · rename_i dev5 r3 h
      have h1 := createFramebuffers_extentIndependent _ _ _ _ h
      rw [createCommandBuffers_extentIndependent _ _ _ _ rfl]
      exact h1

theorem RecreateEnv_allSucceed_iff (env : RecreateEnv) :
    env.allSucceed = true ↔
      (env.swapChain.createResult = VK_SUCCESS ∧ env.swapChain.depthImageOk = true
        ∧ (∀ res ∈ env.framebufferResults, res = VK_SUCCESS)
        ∧ env.allocateResult = VK_SUCCESS) := by
  unfold RecreateEnv.allSucceed
  simp only [Bool.and_eq_true, beq_iff_eq, List.all_eq_true, and_assoc]

theorem SwapChain_create_returns (dev : VulkanDevice) (env : SwapChainEnv) (width height : Nat)
    (h1 : env.createResult = VK_SUCCESS) (h2 : env.depthImageOk = true) :
    (SwapChain.create dev env width height).isOk = true := by
  simp [SwapChain.create, VulkanDevice.createImage, h1, h2, Outcome.isOk]

theorem createFramebuffers_returns (dev : VulkanDevice) (r : Renderer)
    (results : List VkResult) (o : Outcome (VulkanDevice × Renderer))
    (ho : r.createFramebuffers dev results = o) (h : ∀ res ∈ results, res = VK_SUCCESS) :
    o.isOk = true := by
  subst ho
  obtain ⟨s, hs⟩ := createFramebuffersLoop_returns r.m_swapChain
    r.m_swapChain.m_swapChainImages.length results 0 dev
    (vecResize r.m_framebuffers r.m_swapChain.m_swapChainImages.length) h
  unfold Renderer.createFramebuffers
  simp only [hs]
  rfl

theorem createCommandBuffers_returns (dev : VulkanDevice) (r : Renderer) (result : VkResult)
    (h : result = VK_SUCCESS) : (r.createCommandBuffers dev result).isOk = true := by
  simp [Renderer.createCommandBuffers, h, Outcome.isOk]

/-- When every driver answer is a success, `recreateSwapChain` returns. -/
theorem recreateSwapChain_returns (dev : VulkanDevice) (r : Renderer) (env : RecreateEnv)
    (width height : Nat) (hall : env.allSucceed = true) :
    (r.recreateSwapChain dev env width height).isOk = true := by
  obtain ⟨h1, h2, h3, h4⟩ := (RecreateEnv_allSucceed_iff env).mp hall
  unfold Renderer.recreateSwapChain
  simp only []
  split
  · rename_i dev3 x what hsc
    have hs := SwapChain_create_returns
      (dev.waitIdle.logAll (r.m_framebuffers.map Call.vkDestroyFramebuffer)) env.swapChain
      width height h1 h2
    rw [hsc] at hs
    exact absurd hs (by simp [Outcome.isOk])
  · rename_i dev3 sc hsc
    split
    · rename_i s what hfb
      have hs := createFramebuffers_returns _ _ _ _ hfb h3
      exact absurd hs (by simp [Outcome.isOk])
    · exact createCommandBuffers_returns _ _ _ h4

/-- C13: a `recreateSwapChain(width, height)` that returns has made, after the calls
made before it, exactly these calls in this order: (a) the device-idle wait; (b) one
`vkDestroyFramebuffer` per existing framebuffer; (c) the creation of the new swap chain
with the extent chosen for (width, height), followed only by the creations of its images
and views (the old swap chain is destroyed right after the new one is built); (d) one
`vkCreateFramebuffer` per image of the new swap chain, for the view of that image, the
handle stored at the index of the image; (e) one allocation of the `MAX_FRAMES_IN_FLIGHT`
per-slot command buffers.  It returns whenever every driver call succeeds.  Whether it
returns or throws, it leaves the frame-sync semaphores and fences, both pipelines with
their layouts, the descriptor sets and the current slot index unchanged. -/
theorem C13_recreateSwapChain_steps (dev : VulkanDevice) (r : Renderer) (env : RecreateEnv)
    (width height : Nat) :
    (∀ s : VulkanDevice × Renderer, r.recreateSwapChain dev env width height = .ok s →
      ∃ made : List Call,
        s.1.calls = dev.calls
          ++ [Call.vkDeviceWaitIdle]
          ++ r.m_framebuffers.map Call.vkDestroyFramebuffer
          ++ (Call.vkCreateSwapchainKHR s.2.m_swapChain.m_swapChain
                (requestedImageCount env.swapChain.support.capabilities)
                ((chooseSwapSurfaceFormat env.swapChain.support.formats).format,
                 (chooseSwapSurfaceFormat env.swapChain.support.formats).colorSpace)
                (chooseSwapExtent env.swapChain.support.capabilities width height)
                (chooseSwapPresentMode env.swapChain.support.presentModes) :: made)
          ++ r.m_swapChain.cleanupCalls
          ++ (List.range s.2.m_swapChain.m_swapChainImages.length).map (fun i =>
                Call.vkCreateFramebuffer (vecAt s.2.m_framebuffers i)
                  (vecAt s.2.m_swapChain.m_swapChainImageViews i)
                  s.2.m_swapChain.m_depthImageView s.2.m_swapChain.m_swapChainExtent)
          ++ [Call.vkAllocateCommandBuffers s.2.m_commandBuffers]
        ∧ (∀ c ∈ made, c.isImageSetup = true)
        ∧ s.2.m_swapChain.m_swapChainExtent
            = chooseSwapExtent env.swapChain.support.capabilities width height
        ∧ s.2.m_framebuffers.length = s.2.m_swapChain.m_swapChainImages.length
        ∧ s.2.m_swapChain.m_swapChainImageViews.length
            = s.2.m_swapChain.m_swapChainImages.length
        ∧ s.2.m_commandBuffers.length = MAX_FRAMES_IN_FLIGHT)
    ∧ (env.allSucceed = true → (r.recreateSwapChain dev env width height).isOk = true)
    ∧ (r.recreateSwapChain dev env width height).state.2.m_imageAvailableSemaphores
        = r.m_imageAvailableSemaphores
    ∧ (r.recreateSwapChain dev env width height).state.2.m_renderFinishedSemaphores
        = r.m_renderFinishedSemaphores
    ∧ (r.recreateSwapChain dev env width height).state.2.m_inFlightFences = r.m_inFlightFences
    ∧ (r.recreateSwapChain dev env width height).state.2.m_gridPipeline = r.m_gridPipeline
    ∧ (r.recreateSwapChain dev env width height).state.2.m_gridPipelineLayout
        = r.m_gridPipelineLayout
    ∧ (r.recreateSwapChain dev env width height).state.2.m_gridDescriptorSets
        = r.m_gridDescriptorSets
    ∧ (r.recreateSwapChain dev env width height).state.2.m_modelPipeline = r.m_modelPipeline
    ∧ (r.recreateSwapChain dev env width height).state.2.m_modelPipelineLayout
        = r.m_modelPipelineLayout
    ∧ (r.recreateSwapChain dev env width height).state.2.m_modelDescriptorSets
        = r.m_modelDescriptorSets
    ∧ (r.recreateSwapChain dev env width height).state.2.m_currentFrame = r.m_currentFrame := by
  refine ⟨?_, recreateSwapChain_returns dev r env width height, ?_⟩
  · intro s h
    unfold Renderer.recreateSwapChain at h
    simp only [] at h
    split at h
    · exact absurd h (by simp)
    · rename_i dev3 sc hsc
      split at h
      · exact absurd h (by simp)
      · rename_i dev5 r3 hfb
        obtain ⟨made, c1, c2, c3, c4, _⟩ := SwapChain_create_calls _ _ _ _ _ hsc
        have c5 := SwapChain_create_extent _ _ _ _ _ hsc
        obtain ⟨f1, f2, f3⟩ := createFramebuffers_ok_calls _ _ _ _ hfb
        obtain ⟨b1, b2, b3⟩ := createCommandBuffers_ok_calls _ _ _ _ h
        simp only [] at c1 c3 c4 c5 f1 f2 f3
        have hsw3 : r3.m_swapChain = sc := by
          have h1 := congrArg Renderer.m_swapChain f1
          exact h1
        have hsw : s.2.m_swapChain = sc := by
          have h1 := congrArg Renderer.m_swapChain b1
          exact h1.trans hsw3
        have hfbs : s.2.m_framebuffers = r3.m_framebuffers := by
          have h1 := congrArg Renderer.m_framebuffers b1
          exact h1
        refine ⟨made, ?_, c2, ?_, ?_, ?_, b2⟩
        · rw [b3, f3, hsw, hfbs]
          simp only [VulkanDevice.logAll, VulkanDevice.waitIdle, VulkanDevice.log, c1,
            List.append_assoc]
        · rw [hsw, c5]
        · rw [hsw, hfbs, f2]
        · rw [hsw, c3, c4]
  · have h := recreateSwapChain_extentIndependent dev r env width height
    simp only [Renderer.extentIndependent, Prod.mk.injEq] at h
    exact h

/-- Witness for C13: `recreateSwapChain(1024, 768)` from `startRenderer` (framebuffers
131, 132, 133) on a surface that leaves the extent to the swap chain and hands out three
images. -/
theorem C13_recreateSwapChain_steps_witness :
    resizedRenderer = .ok resizedRenderer.state
    ∧ (recreateWith freeSupport).allSucceed = true
    ∧ resizedRenderer.state.1.calls.drop startRenderer.state.1.calls.length
        = [Call.vkDeviceWaitIdle,
           Call.vkDestroyFramebuffer 131, Call.vkDestroyFramebuffer 132,
           Call.vkDestroyFramebuffer 133,
           Call.vkCreateSwapchainKHR 1008 3 (50, 0) ⟨1024, 768⟩ 2,
           Call.createImageView 1012 1009, Call.createImageView 1013 1010,
           Call.createImageView 1014 1011, Call.createImage 1015 1016 1024 768,
           Call.createImageView 1017 1015,
           Call.vkDestroyImageView 122, Call.vkDestroyImage 120, Call.vkFreeMemory 121,
           Call.vkDestroyImageView 111, Call.vkDestroyImageView 112,
           Call.vkDestroyImageView 113, Call.vkDestroySwapchainKHR 100,
           Call.vkCreateFramebuffer 1018 1012 1017 ⟨1024, 768⟩,
           Call.vkCreateFramebuffer 1019 1013 1017 ⟨1024, 768⟩,
           Call.vkCreateFramebuffer 1020 1014 1017 ⟨1024, 768⟩,
           Call.vkAllocateCommandBuffers [1021, 1022]]
    ∧ resizedRenderer.state.2.m_framebuffers.length = 3
    ∧ resizedRenderer.state.2.m_commandBuffers.length = MAX_FRAMES_IN_FLIGHT
    ∧ resizedRenderer.isOk = true
    ∧ resizedRenderer.state.2.m_inFlightFences = startRenderer.state.2.m_inFlightFences
    ∧ resizedRenderer.state.2.m_currentFrame = startRenderer.state.2.m_currentFrame :=
  have h := C13_recreateSwapChain_steps startRenderer.state.1 startRenderer.state.2
    (recreateWith freeSupport) 1024 768
  ⟨by rfl, by rfl, by rfl,
   (h.1 resizedRenderer.state (by rfl)).elim (fun _ hm => hm.2.2.2.1),
   (h.1 resizedRenderer.state (by rfl)).elim (fun _ hm => hm.2.2.2.2.2),
   h.2.1 (by rfl), h.2.2.2.2.1, h.2.2.2.2.2.2.2.2.2.2.2⟩

/-! ## C30: the faces of `loadOBJ` -/

theorem Extends_refl (s : ObjState) : s.Extends s := fun _ _ h => h

theorem Extends_trans (s s1 s2 : ObjState) (h1 : s.Extends s1) (h2 : s1.Extends s2) :
    s.Extends s2 := fun key v h => h2 key v (h1 key v h)

theorem lookup_mem (m : List (String × Nat)) (key : String) (v : Nat)
    (h : m.lookup key = some v) : (key, v) ∈ m := by
  induction m with
  | nil => simp at h
  | cons e rest ih =>
    obtain ⟨k, w⟩ := e
    rw [List.lookup_cons] at h
    by_cases hk : key = k
    · subst hk
      simp only [beq_self_eq_true] at h
      injection h with h
      subst h
      exact List.mem_cons_self _ _
    · have hb : (key == k) = false := by simpa using hk
      simp only [hb] at h
      exact List.mem_cons_of_mem _ (ih h)

/-- One corner that completes: one index is appended, it is the index of the reference
from then on, and the bound on the indices is kept. -/
theorem addFaceVertex_done (stoi : String → Option Int) (s s1 : ObjState) (vertex : String)
    (h : addFaceVertex stoi s vertex = .done s1) :
    ∃ index, s1.indices = s.indices ++ [index]
      ∧ s1.uniqueVertices.lookup vertex = some index
      ∧ s.Extends s1 ∧ s1.positions = s.positions
      ∧ (s.IndexInv → s1.IndexInv) := by
  unfold addFaceVertex at h
  split at h
  · rename_i index hl
    injection h with h
    subst h
    refine ⟨index, rfl, hl, Extends_refl _, rfl, ?_⟩
    intro hinv
    refine ⟨hinv.1, ?_⟩
    intro x hx
    rcases List.mem_append.mp hx with hx | hx
    · exact hinv.2 x hx
    · rw [List.mem_singleton.mp hx]
      exact hinv.1 _ (lookup_mem _ _ _ hl)
  · rename_i hl
    simp only [] at h
    split at h
    · exact absurd h (by simp)
    · rename_i v hv
      injection h with h
      subst h
      refine ⟨static_cast_uint32_t s.vertices.length, rfl, ?_, ?_, rfl, ?_⟩
      · simp [List.lookup_cons]
      · intro key w hkey
        by_cases hk : key = vertex
        · subst hk
          rw [hl] at hkey
          exact absurd hkey (by simp)
        · have hb : (key == vertex) = false := by simpa using hk
          simp only [List.lookup_cons, hb]
          exact hkey
      · intro hinv
        have hlt : static_cast_uint32_t s.vertices.length < s.vertices.length + 1 := by
          unfold static_cast_uint32_t
          have := Nat.mod_le s.vertices.length (2 ^ 32)
          omega
        refine ⟨?_, ?_⟩
        · intro e he
          simp only [List.length_append, List.length_singleton]
          rcases List.mem_cons.mp he with he | he
          · rw [he]
            exact hlt
          · exact Nat.lt_succ_of_lt (hinv.1 e he)
        · intro x hx
          simp only [List.length_append, List.length_singleton]
          rcases List.mem_append.mp hx with hx | hx
          · exact Nat.lt_succ_of_lt (hinv.2 x hx)
          · rw [List.mem_singleton.mp hx]
            exact hlt

theorem refIndex_of_extends (s1 s2 : ObjState) (faceVertices : List String) (idx : Nat)
    (vertex : String) (index : Nat) (hget : faceVertices.get? idx = some vertex)
    (hl : s1.uniqueVertices.lookup vertex = some index) (hext : s1.Extends s2) :
    refIndex s2 faceVertices idx = some index := by
  unfold refIndex
  rw [hget]
  exact hext _ _ hl

/-- The corners of one triangle that complete. -/
theorem addFaceCorners_done (stoi : String → Option Int) (faceVertices : List String)
    (idxs : List Nat) :
    ∀ s s1 : ObjState, addFaceCorners stoi faceVertices idxs s = .done s1 →
      ∃ appended : List Nat, s1.indices = s.indices ++ appended
        ∧ (∀ s2 : ObjState, s1.Extends s2 →
            appended.map some = idxs.map (refIndex s2 faceVertices))
        ∧ s.Extends s1 ∧ s1.positions = s.positions
        ∧ (s.IndexInv → s1.IndexInv) := by
  induction idxs with
  | nil =>
    intro s s1 h
    simp only [addFaceCorners] at h
    injection h with h
    subst h
    exact ⟨[], by simp, fun _ _ => rfl, Extends_refl _, rfl, fun h => h⟩
  | cons idx rest ih =>
    intro s s1 h
    simp only [addFaceCorners] at h
    split at h
    · exact absurd h (by simp)
    · rename_i vertex hget
      split at h
      · rename_i sm hm
        obtain ⟨index, a1, a2, a3, a4, a5⟩ := addFaceVertex_done stoi s sm vertex hm
        obtain ⟨appended, b1, b2, b3, b4, b5⟩ := ih sm s1 h
        refine ⟨index :: appended, ?_, ?_, Extends_trans _ _ _ a3 b3, b4.trans a4,
          fun hinv => b5 (a5 hinv)⟩
        · rw [b1, a1]
          simp
        · intro s2 hext
          rw [List.map_cons, List.map_cons, b2 s2 hext,
            refIndex_of_extends sm s2 faceVertices idx vertex index hget a2
              (Extends_trans _ _ _ b3 hext)]
      · rename_i r hr
        cases hv : addFaceVertex stoi s vertex with
        | done sm => exact absurd hv (hr sm)
        | threw sm =>
          rw [hv] at h
          exact absurd h (by simp)
        | outOfRange sm i =>
          rw [hv] at h
          exact absurd h (by simp)

theorem range_succ_flatMap {β : Type} (n : Nat) (f : Nat → List β) :
    (List.range (n + 1)).flatMap f = f 0 ++ (List.range n).flatMap (fun t => f (t + 1)) := by
  rw [List.range_succ_eq_map, List.flatMap_cons, List.flatMap_map]

/-- A face loop that completes. -/
theorem faceLoop_done (stoi : String → Option Int) (faceVertices : List String) (n : Nat) :
    ∀ (i : Nat) (s s1 : ObjState), i + n < 2 ^ 64 →
      faceLoop stoi faceVertices n i s = .done s1 →
      ∃ appended : List Nat, s1.indices = s.indices ++ appended
        ∧ (∀ s2 : ObjState, s1.Extends s2 →
            appended.map some = (List.range n).flatMap (fun t =>
              [refIndex s2 faceVertices 0, refIndex s2 faceVertices (i + t),
               refIndex s2 faceVertices (i + t + 1)]))
        ∧ s.Extends s1 ∧ s1.positions = s.positions
        ∧ (s.IndexInv → s1.IndexInv) := by
  induction n with
  | zero =>
    intro i s s1 _ h
    simp only [faceLoop] at h
    injection h with h
    subst h
    exact ⟨[], by simp, fun _ _ => rfl, Extends_refl _, rfl, fun h => h⟩
  | succ n ih =>
    intro i s s1 hi h
    simp only [faceLoop] at h
    have hmod : (i + 1) % 2 ^ 64 = i + 1 := by omega
    rw [hmod] at h
    split at h
    · rename_i sm hm
      obtain ⟨app1, a1, a2, a3, a4, a5⟩ := addFaceCorners_done stoi faceVertices _ s sm hm
      obtain ⟨app2, b1, b2, b3, b4, b5⟩ := ih (i + 1) sm s1 (by omega) h
      refine ⟨app1 ++ app2, ?_, ?_, Extends_trans _ _ _ a3 b3, b4.trans a4,
        fun hinv => b5 (a5 hinv)⟩
      · rw [b1, a1, List.append_assoc]
      · intro s2 hext
        rw [List.map_append, a2 s2 (Extends_trans _ _ _ b3 hext), b2 s2 hext,
          range_succ_flatMap]
        simp only [List.map_cons, List.map_nil, Nat.add_zero]
        congr 1
        apply List.flatMap_congr
        intro t _
        rw [show i + 1 + t = i + (t + 1) by omega]
    · rename_i r hr
      cases hv : addFaceCorners stoi faceVertices [0, i, i + 1] s with
      | done sm => exact absurd hv (hr sm)
      | threw sm =>
        rw [hv] at h
        exact absurd h (by simp)
      | outOfRange sm j =>
        rw [hv] at h
        exact absurd h (by simp)

/-- One corner completes when the reference parses. -/
theorem addFaceVertex_returns (stoi : String → Option Int) (s : ObjState) (vertex : String)
    (h : parseFaceVertex stoi s.positions vertex ≠ none) :
    ∃ s1, addFaceVertex stoi s vertex = .done s1 := by
  unfold addFaceVertex
  split
  · exact ⟨_, rfl⟩
  · simp only []
    split
    · rename_i hp
      exact absurd hp h
    · exact ⟨_, rfl⟩

theorem addFaceCorners_returns (stoi : String → Option Int) (faceVertices : List String)
    (positions : List Vec3)
    (hparse : ∀ vertex ∈ faceVertices, parseFaceVertex stoi positions vertex ≠ none)
    (idxs : List Nat) :
    ∀ s : ObjState, s.positions = positions → (∀ idx ∈ idxs, idx < faceVertices.length) →
      ∃ s1, addFaceCorners stoi faceVertices idxs s = .done s1 := by
  induction idxs with
  | nil =>
    intro s _ _
    exact ⟨_, rfl⟩
  | cons idx rest ih =>
    intro s hpos hidx
    have hlt := hidx idx (List.mem_cons_self _ _)
    have hget : faceVertices.get? idx = some (faceVertices.get ⟨idx, hlt⟩) :=
      List.get?_eq_get hlt
    have hmem : faceVertices.get ⟨idx, hlt⟩ ∈ faceVertices := List.get_mem _ _ _
    obtain ⟨sm, hm⟩ := addFaceVertex_returns stoi s _ (by rw [hpos]; exact hparse _ hmem)
    obtain ⟨_, _, _, _, hp, _⟩ := addFaceVertex_done stoi s sm _ hm
    obtain ⟨s1, h1⟩ := ih sm (hp.trans hpos)
      (fun j hj => hidx j (List.mem_cons_of_mem _ hj))
    refine ⟨s1, ?_⟩
    simp only [addFaceCorners, hget, hm]
    exact h1

theorem faceLoop_returns (stoi : String → Option Int) (faceVertices : List String)
    (positions : List Vec3)
    (hparse : ∀ vertex ∈ faceVertices, parseFaceVertex stoi positions vertex ≠ none)
    (hlen : faceVertices.length < 2 ^ 64) (n : Nat) :
    ∀ (i : Nat) (s : ObjState), s.positions = positions → i + n < faceVertices.length →
      ∃ s1, faceLoop stoi faceVertices n i s = .done s1 := by
  induction n with
  | zero =>
    intro i s _ _
    exact ⟨_, rfl⟩
  | succ n ih =>
    intro i s hpos hi
    have hmod : (i + 1) % 2 ^ 64 = i + 1 := by omega
    obtain ⟨sm, hm⟩ := addFaceCorners_returns stoi faceVertices positions hparse
      [0, i, i + 1] s hpos (by
        intro idx hidx
        simp only [List.mem_cons, List.mem_singleton, List.not_mem_nil, or_false] at hidx
        rcases hidx with h | h | h <;> omega)
    obtain ⟨_, _, _, _, hp, _⟩ := addFaceCorners_done stoi faceVertices _ s sm hm
    obtain ⟨s1, h1⟩ := ih (i + 1) sm (hp.trans hpos) (by omega)
    refine ⟨s1, ?_⟩
    simp only [faceLoop, hmod, hm]
    exact h1

theorem flatMap_triple_length {β : Type} (n : Nat) :
    ∀ f g h : Nat → β, ((List.range n).flatMap (fun t => [f t, g t, h t])).length = 3 * n := by
  induction n with
  | zero =>
    intro f g h
    rfl
  | succ n ih =>
    intro f g h
    rw [range_succ_flatMap, List.length_append,
      ih (fun t => f (t + 1)) (fun t => g (t + 1)) (fun t => h (t + 1))]
    simp only [List.length_cons, List.length_nil]
    omega

/-- One iteration on a line without references reads outside the (empty) list. -/
theorem faceLoop_empty (stoi : String → Option Int) (n i : Nat) (s : ObjState) :
    faceLoop stoi [] (n + 1) i s = .outOfRange s 0 := by
  simp [faceLoop, addFaceCorners]

/-- C30 (what the code does): for the handling of one `f` line by `Model::loadOBJ`, from
any state `s` and with any behaviour of `std::stoi`:
with k = 0 references the loop bound `faceVertices.size() - 1` wraps around to 2^64 - 1,
the loop is entered and its first step reads `faceVertices[0]` outside the empty list
(nothing has been appended before);
with k = 1 or k = 2 references nothing is read and nothing is appended;
with 3 <= k < 2^64 references a handling that completes has appended exactly 3*(k-2)
indices, the triangles (0, t+1, t+2) for t = 0..k-3 given by the indices of the
references at these places, and when the indices were below the vertex count before they
are so afterwards; it completes whenever `std::stoi` throws on no reference of the line. -/
theorem C30_face_fan (stoi : String → Option Int) (s : ObjState) :
    processFaceLine stoi [] s = .outOfRange s 0
    ∧ (∀ faceVertices : List String, faceVertices.length = 1 ∨ faceVertices.length = 2 →
        processFaceLine stoi faceVertices s = .done s)
    ∧ (∀ (faceVertices : List String) (s1 : ObjState), 3 ≤ faceVertices.length →
        faceVertices.length < 2 ^ 64 → processFaceLine stoi faceVertices s = .done s1 →
        ∃ appended : List Nat,
          s1.indices = s.indices ++ appended
          ∧ appended.length = 3 * (faceVertices.length - 2)
          ∧ appended.map some = (List.range (faceVertices.length - 2)).flatMap (fun t =>
              [refIndex s1 faceVertices 0, refIndex s1 faceVertices (t + 1),
               refIndex s1 faceVertices (t + 2)])
          ∧ (s.IndexInv → s1.IndexInv ∧ ∀ x ∈ appended, x < s1.vertices.length))
    ∧ (∀ faceVertices : List String, 3 ≤ faceVertices.length →
        faceVertices.length < 2 ^ 64 →
        (∀ vertex ∈ faceVertices, parseFaceVertex stoi s.positions vertex ≠ none) →
        ∃ s1, processFaceLine stoi faceVertices s = .done s1) := by
  refine ⟨?_, ?_, ?_, ?_⟩
  · have hb : (([] : List String).length + 2 ^ 64 - 1) % 2 ^ 64 - 1 = (2 ^ 64 - 3) + 1 := by
      norm_num
    unfold processFaceLine
    simp only []
    rw [hb]
    exact faceLoop_empty stoi _ 1 s
  · intro faceVertices hk
    have hb : (faceVertices.length + 2 ^ 64 - 1) % 2 ^ 64 - 1 = 0 := by omega
    unfold processFaceLine
    simp only []
    rw [hb]
    rfl
  · intro faceVertices s1 h3 hlen h
    have hb : (faceVertices.length + 2 ^ 64 - 1) % 2 ^ 64 - 1 = faceVertices.length - 2 := by
      omega
    unfold processFaceLine at h
    simp only [] at h
    rw [hb] at h
    obtain ⟨appended, a1, a2, _, _, a5⟩ :=
      faceLoop_done stoi faceVertices (faceVertices.length - 2) 1 s s1 (by omega) h
    have a3 := a2 s1 (Extends_refl _)
    have hfun : (fun t => [refIndex s1 faceVertices 0, refIndex s1 faceVertices (1 + t),
          refIndex s1 faceVertices (1 + t + 1)])
        = (fun t => [refIndex s1 faceVertices 0, refIndex s1 faceVertices (t + 1),
          refIndex s1 faceVertices (t + 2)]) := by
      funext t
      rw [show 1 + t = t + 1 by omega]
    rw [hfun] at a3
    refine ⟨appended, a1, ?_, a3, ?_⟩
    · have hl := congrArg List.length a3
      rw [List.length_map] at hl
      rw [hl]
      exact flatMap_triple_length _ _ _ _
    · intro hinv
      have hinv1 := a5 hinv
      refine ⟨hinv1, ?_⟩
      intro x hx
      apply hinv1.2
      rw [a1]
      exact List.mem_append_right _ hx
  · intro faceVertices h3 hlen hparse
    have hb : (faceVertices.length + 2 ^ 64 - 1) % 2 ^ 64 - 1 = faceVertices.length - 2 := by
      omega
    unfold processFaceLine
    simp only []
    rw [hb]
    exact faceLoop_returns stoi faceVertices s.positions hparse hlen _ 1 s rfl (by omega)

/-- Witness for C30: from the start state, with a `std::stoi` that returns 1 on every
string: the line `f` (no reference) reads outside the list; `f 1 2` appends nothing;
`f 1 2 3 4` completes and appends the triangles (0, 1, 2) and (0, 2, 3). -/
theorem C30_face_fan_witness :
    processFaceLine (fun _ => some 1) [] ObjState.start = .outOfRange ObjState.start 0
    ∧ processFaceLine (fun _ => some 1) ["1", "2"] ObjState.start = .done ObjState.start
    ∧ (∃ s1, processFaceLine (fun _ => some 1) ["1", "2", "3", "4"] ObjState.start = .done s1
        ∧ s1.indices = [0, 1, 2, 0, 2, 3]) :=
  have h := C30_face_fan (fun _ => some 1) ObjState.start
  ⟨h.1, h.2.1 ["1", "2"] (Or.inr rfl),
   (h.2.2.2 ["1", "2", "3", "4"] (by decide) (by decide)
      (by intro v _; simp [parseFaceVertex])).elim
    (fun s1 hs1 => ⟨s1, hs1, by
      have h2 : processFaceLine (fun _ => some 1) ["1", "2", "3", "4"] ObjState.start
          = .done ⟨[], [⟨⟨0, 0, 0⟩⟩, ⟨⟨0, 0, 0⟩⟩, ⟨⟨0, 0, 0⟩⟩, ⟨⟨0, 0, 0⟩⟩], [0, 1, 2, 0, 2, 3],
              [("4", 3), ("3", 2), ("2", 1), ("1", 0)]⟩ := by
        simp [processFaceLine, faceLoop, addFaceCorners, addFaceVertex, parseFaceVertex,
          static_cast_uint32_t, ObjState.start, List.lookup]
      rw [h2] at hs1
      injection hs1 with hs1
      rw [← hs1]⟩)⟩

/-! ## C29: the grid placement of `Scene::addModel` -/

theorem static_cast_int_small (n : Nat) (h : n < 2 ^ 31) : static_cast_int n = (n : Int) := by
  unfold static_cast_int
  omega

/-- The transform `addModel` computes for the model number `n`. -/
theorem addModel_transform (n : Nat) (h : n < 2 ^ 31) :
    glm.scale (glm.translate Mat4.identity
        ⟨((Int.tmod (static_cast_int n) 3 - Int.tdiv 3 2 : Int) : ℚ) * 5, 0,
         ((Int.tdiv (static_cast_int n) 3 - Int.tdiv 3 2 : Int) : ℚ) * 5⟩)
      ⟨1 / 10, 1 / 10, 1 / 10⟩
      = gridTransformSpec n := by
  rw [static_cast_int_small n h]
  have h1 : Int.tmod (n : Int) 3 = ((n % 3 : Nat) : Int) := by
    simp [Int.tmod_eq_emod]
  have h2 : Int.tdiv (n : Int) 3 = ((n / 3 : Nat) : Int) := by
    simp [Int.tdiv_eq_ediv]
  have h3 : Int.tdiv 3 2 = 1 := by decide
  rw [h1, h2, h3]
  simp [glm.scale, glm.translate, Mat4.identity, Vec4.smul, Vec4.add, gridTransformSpec]
  constructor <;> norm_cast

theorem addModel_identity (scene : Scene) (model : Model)
    (hid : model.m_transform = Mat4.identity) (hn : scene.m_models.length < 2 ^ 31) :
    (scene.addModel model).m_models
      = scene.m_models ++ [{ model with m_transform := gridTransformSpec scene.m_models.length }] := by
  unfold Scene.addModel
  simp only [hid, beq_self_eq_true, if_true]
  rw [addModel_transform _ hn]

theorem addModel_custom (scene : Scene) (model : Model)
    (hid : model.m_transform ≠ Mat4.identity) :
    (scene.addModel model).m_models = scene.m_models ++ [model] := by
  unfold Scene.addModel
  have hb : (model.m_transform == Mat4.identity) = false := by simpa using hid
  simp only [hb, Bool.false_eq_true, if_false]

theorem addModel_length (scene : Scene) (model : Model) :
    (scene.addModel model).m_models.length = scene.m_models.length + 1 := by
  unfold Scene.addModel
  simp only []
  split_ifs <;> simp

theorem gridTransformSpec_injective (i j : Nat)
    (h : (gridTransformSpec i).translation = (gridTransformSpec j).translation) : i = j := by
  unfold gridTransformSpec Mat4.translation at h
  simp only [Vec3.mk.injEq] at h
  obtain ⟨hx, _, hz⟩ := h
  have h1 : ((i % 3 : Nat) : ℚ) = ((j % 3 : Nat) : ℚ) := by linarith
  have h2 : ((i / 3 : Nat) : ℚ) = ((j / 3 : Nat) : ℚ) := by linarith
  have h3 : i % 3 = j % 3 := Nat.cast_injective h1
  have h4 : i / 3 = j / 3 := Nat.cast_injective h2
  omega

/-- The models of a scene built by `addModel` alone: the one at place `i` (counted from
the models present before) that came with the identity transform has the grid transform
of its place. -/
theorem addModels_placed (models : List Model) :
    ∀ scene : Scene, scene.m_models.length + models.length ≤ 2 ^ 31 →
      (scene.addModels models).m_models.length = scene.m_models.length + models.length
      ∧ (∀ i, i < scene.m_models.length →
          (scene.addModels models).m_models[i]? = scene.m_models[i]?)
      ∧ (∀ i (model : Model), models[i]? = some model →
          (scene.addModels models).m_models[scene.m_models.length + i]?
            = some (if model.m_transform = Mat4.identity then
                { model with m_transform := gridTransformSpec (scene.m_models.length + i) }
              else model)) := by
  induction models with
  | nil =>
    intro scene _
    refine ⟨rfl, fun _ _ => rfl, ?_⟩
    intro i model h
    simp at h
  | cons m rest ih =>
    intro scene hlen
    simp only [List.length_cons] at hlen
    have hl := addModel_length scene m
    obtain ⟨a1, a2, a3⟩ := ih (scene.addModel m) (by rw [hl]; omega)
    have hstep : (scene.addModel m).m_models
        = scene.m_models ++ [if m.m_transform = Mat4.identity then
            { m with m_transform := gridTransformSpec scene.m_models.length } else m] := by
      by_cases hid : m.m_transform = Mat4.identity
      · rw [addModel_identity scene m hid (by omega)]
        simp only [hid, if_true]
      · rw [addModel_custom scene m hid]
        simp only [hid, if_false]
    have hfold : scene.addModels (m :: rest) = (scene.addModel m).addModels rest := rfl
    rw [hfold]
    refine ⟨?_, ?_, ?_⟩
    · rw [a1, hl]
      simp only [List.length_cons]
      omega
    · intro i hi
      rw [a2 i (by rw [hl]; omega), hstep, List.getElem?_append_left hi]
    · intro i model hget
      cases i with
      | zero =>
        simp only [List.getElem?_cons_zero, Option.some.injEq] at hget
        subst hget
        rw [Nat.add_zero, a2 _ (by rw [hl]; omega), hstep]
        simp
      | succ i =>
        simp only [List.getElem?_cons_succ] at hget
        have := a3 i model hget
        rw [hl] at this
        rw [show scene.m_models.length + (i + 1) = scene.m_models.length + 1 + i by omega]
        exact this

theorem removeModel_zero (scene : Scene) (h0 : 0 < scene.m_models.length)
    (hn : scene.m_models.length < 2 ^ 31) :
    scene.removeModel 0 = Scene.mk (scene.m_models.eraseIdx 0) := by
  unfold Scene.removeModel
  have hc : (0 : Int) ≤ 0 ∧ (0 : Int) < static_cast_int scene.m_models.length := by
    rw [static_cast_int_small _ hn]
    omega
  rw [if_pos hc]
  rfl

theorem sceneAfterRemoval_models :
    sceneAfterRemoval.m_models
      = [{ pointModel with m_transform := gridTransformSpec 1 },
         { twoMeshModel with m_transform := gridTransformSpec 1 }] := by
  have e1 := addModel_identity (Scene.mk []) triangleModel rfl (by decide)
  simp only [List.nil_append, List.length_nil] at e1
  have e2 := addModel_identity ((Scene.mk []).addModel triangleModel) pointModel rfl
    (by rw [e1]; decide)
  rw [e1] at e2
  simp only [List.length_singleton, List.singleton_append] at e2
  have e3 := removeModel_zero (((Scene.mk []).addModel triangleModel).addModel pointModel)
    (by rw [e2]; decide) (by rw [e2]; decide)
  rw [e2] at e3
  simp only [List.eraseIdx_cons_zero] at e3
  unfold sceneAfterRemoval
  rw [e3]
  exact addModel_identity _ twoMeshModel rfl (by decide)

/-- C29 (what the code does): `Scene::addModel` appends the model at the end of the model
list; a model that comes with the identity transform gets the translation
(((n mod 3) - 1) * 5, 0, ((n div 3) - 1) * 5) with uniform scale 0.1, `n` being the
number of models in the scene at that moment (below 2^31), any other model is kept as it
is.  In a scene built by `addModel` alone no two auto-positioned models share their
translation.  After a removal they do: when two models are added, the first is removed
and a third is added, the two models in the scene both sit at (0, 0, -5). -/
theorem C29_addModel_grid (scene : Scene) (model : Model) :
    (model.m_transform = Mat4.identity → scene.m_models.length < 2 ^ 31 →
      (scene.addModel model).m_models
        = scene.m_models
          ++ [{ model with m_transform := gridTransformSpec scene.m_models.length }])
    ∧ (model.m_transform ≠ Mat4.identity →
        (scene.addModel model).m_models = scene.m_models ++ [model])
    ∧ (∀ (models : List Model) (i j : Nat) (a b : Model), models.length ≤ 2 ^ 31 →
        models[i]? = some a → models[j]? = some b →
        a.m_transform = Mat4.identity → b.m_transform = Mat4.identity → i ≠ j →
        ∃ pa pb : Model,
          ((Scene.mk []).addModels models).m_models[i]? = some pa
          ∧ ((Scene.mk []).addModels models).m_models[j]? = some pb
          ∧ pa.m_transform.translation ≠ pb.m_transform.translation)
    ∧ sceneAfterRemoval.m_models.map (fun m => m.m_transform.translation)
        = [⟨0, 0, -5⟩, ⟨0, 0, -5⟩] := by
  refine ⟨addModel_identity scene model, addModel_custom scene model, ?_, ?_⟩
  · intro models i j a b hlen ha hb hida hidb hij
    obtain ⟨_, _, h3⟩ := addModels_placed models (Scene.mk []) (by simpa using hlen)
    have pa := h3 i a ha
    have pb := h3 j b hb
    simp only [List.length_nil, Nat.zero_add, hida, hidb, if_true] at pa pb
    refine ⟨_, _, pa, pb, ?_⟩
    intro heq
    exact hij (gridTransformSpec_injective i j heq)
  · rw [sceneAfterRemoval_models]
    simp [gridTransformSpec, Mat4.translation]

/-- Witness for C29: the first model added to the empty scene, and three models added in
a row. -/
theorem C29_addModel_grid_witness :
    ((Scene.mk []).addModel triangleModel).m_models
        = [{ triangleModel with m_transform := gridTransformSpec 0 }]
    ∧ (∃ pa pb : Model,
        ((Scene.mk []).addModels [triangleModel, pointModel, twoMeshModel]).m_models[0]? = some pa
        ∧ ((Scene.mk []).addModels [triangleModel, pointModel, twoMeshModel]).m_models[2]?
            = some pb
        ∧ pa.m_transform.translation ≠ pb.m_transform.translation) :=
  have h := C29_addModel_grid (Scene.mk []) triangleModel
  ⟨h.1 rfl (by decide),
   h.2.2.1 [triangleModel, pointModel, twoMeshModel] 0 2 triangleModel twoMeshModel
     (by decide) rfl rfl rfl rfl (by decide)⟩

/-! ## C21: the thumbnail camera and the translated model -/

theorem thumbnailModelMatrix_eq (meshes : List Mesh) :
    thumbnailModelMatrix meshes
      = ⟨⟨1, 0, 0, 0⟩, ⟨0, 1, 0, 0⟩, ⟨0, 0, 1, 0⟩,
         ⟨-(thumbnailCamera meshes).modelCenter.x, -(thumbnailCamera meshes).modelCenter.y,
          -(thumbnailCamera meshes).modelCenter.z, 1⟩⟩ := by
  simp [thumbnailModelMatrix, glm.translate, Mat4.identity, Vec4.smul, Vec4.add]

theorem transformPoint_thumbnailModelMatrix (meshes : List Mesh) (p : Vec3) :
    (thumbnailModelMatrix meshes).transformPoint p
      = Vec3.sub p (thumbnailCamera meshes).modelCenter := by
  rw [thumbnailModelMatrix_eq]
  simp only [Mat4.transformPoint, Vec3.sub, Vec3.mk.injEq]
  refine ⟨by ring, by ring, by ring⟩

theorem offsetModel_camera :
    thumbnailCamera offsetModel.m_meshes
      = { modelCenter := ⟨201 / 2, 1 / 2, 0⟩, modelSize := ⟨1, 1, 0⟩, maxDimension := 1,
          cameraDistance := 9 / 5,
          cameraPos := ⟨201 / 2 + 27 / 25, 1 / 2 + 18 / 25, 36 / 25⟩,
          nearPlane := 1 / 10, farPlane := 18 } := by
  simp only [thumbnailCamera, computeBounds, offsetModel, List.foldl_cons, List.foldl_nil,
    Bounds.addVertex, FLT_MAX]
  norm_num

/-- C21 (what the code does): for every model, the pushed model matrix (the translation
by minus the bounding-box centre) puts the centre at the origin and moves every point by
minus the centre, while the look-at target handed to `glm::lookAt` is the centre before
the translation; the two coincide exactly when the centre is the origin.  The eye sits at
target + cameraDistance * (0.6, 0.4, 0.8) with cameraDistance = 1.8 * the largest box
extent, so its squared distance from the target is 1.16 * cameraDistance^2.  When every
step up to the recording succeeds this matrix is the one recorded.  For the triangle
(100,0,0), (101,0,0), (100,1,0) the target is (100.5, 0.5, 0), not the origin, and every
vertex of the translated triangle lies beyond the far plane (18) of the camera. -/
theorem C21_camera_target_is_untranslated (dev : VulkanDevice) (t : ThumbnailRenderer)
    (env : ThumbnailEnv) (model : Model) (target : Handle) :
    (thumbnailModelMatrix model.m_meshes).transformPoint
        (thumbnailCamera model.m_meshes).modelCenter = ⟨0, 0, 0⟩
    ∧ (∀ p : Vec3, (thumbnailModelMatrix model.m_meshes).transformPoint p
        = Vec3.sub p (thumbnailCamera model.m_meshes).modelCenter)
    ∧ thumbnailLookAtTarget model.m_meshes = (thumbnailCamera model.m_meshes).modelCenter
    ∧ (thumbnailLookAtTarget model.m_meshes
          = (thumbnailModelMatrix model.m_meshes).transformPoint
              (thumbnailCamera model.m_meshes).modelCenter
        ↔ (thumbnailCamera model.m_meshes).modelCenter = ⟨0, 0, 0⟩)
    ∧ Vec3.sub (thumbnailCamera model.m_meshes).cameraPos (thumbnailLookAtTarget model.m_meshes)
        = ⟨(thumbnailCamera model.m_meshes).cameraDistance * (3 / 5),
           (thumbnailCamera model.m_meshes).cameraDistance * (2 / 5),
           (thumbnailCamera model.m_meshes).cameraDistance * (4 / 5)⟩
    ∧ (thumbnailCamera model.m_meshes).cameraDistance
        = (thumbnailCamera model.m_meshes).maxDimension * (9 / 5)
    ∧ Vec3.dot
        (Vec3.sub (thumbnailCamera model.m_meshes).cameraPos
          (thumbnailLookAtTarget model.m_meshes))
        (Vec3.sub (thumbnailCamera model.m_meshes).cameraPos
          (thumbnailLookAtTarget model.m_meshes))
        = (29 / 25) * (thumbnailCamera model.m_meshes).cameraDistance ^ 2
    ∧ (env.beginResult = VK_SUCCESS →
        Call.vkCmdPushConstants t.m_commandBuffer t.m_modelPipelineLayout
            { PushConstants.zero with model := thumbnailModelMatrix model.m_meshes }
          ∈ (t.renderModelToTexture dev env model target).state.calls)
    ∧ thumbnailLookAtTarget offsetModel.m_meshes = ⟨201 / 2, 1 / 2, 0⟩
    ∧ (∀ v ∈ allVertices offsetModel.m_meshes,
        beyondFarPlane (thumbnailCamera offsetModel.m_meshes).cameraPos
          (thumbnailLookAtTarget offsetModel.m_meshes)
          (thumbnailCamera offsetModel.m_meshes).farPlane
          ((thumbnailModelMatrix offsetModel.m_meshes).transformPoint v.pos)) := by
  have hpoint : ∀ p : Vec3, (thumbnailModelMatrix model.m_meshes).transformPoint p
      = Vec3.sub p (thumbnailCamera model.m_meshes).modelCenter :=
    transformPoint_thumbnailModelMatrix model.m_meshes
  have hzero : (thumbnailModelMatrix model.m_meshes).transformPoint
      (thumbnailCamera model.m_meshes).modelCenter = ⟨0, 0, 0⟩ := by
    rw [hpoint]
    simp [Vec3.sub]
  have hoff : Vec3.sub (thumbnailCamera model.m_meshes).cameraPos
      (thumbnailLookAtTarget model.m_meshes)
        = ⟨(thumbnailCamera model.m_meshes).cameraDistance * (3 / 5),
           (thumbnailCamera model.m_meshes).cameraDistance * (2 / 5),
           (thumbnailCamera model.m_meshes).cameraDistance * (4 / 5)⟩ := by
    simp [thumbnailLookAtTarget, thumbnailCamera, Vec3.sub]
  refine ⟨hzero, hpoint, rfl, ?_, hoff, rfl, ?_, ?_, ?_, ?_⟩
  · rw [hzero]
    rfl
  · rw [hoff]
    simp only [Vec3.dot]
    ring
  · intro hb
    rw [thumbnailModelMatrix_eq]
    unfold ThumbnailRenderer.renderModelToTexture
    simp only [hb, ne_eq, not_true_eq_false, if_false]
    split_ifs <;>
      simp [Outcome.state, VulkanDevice.logAll, VulkanDevice.log, VulkanDevice.fresh]
  · simp only [thumbnailLookAtTarget, offsetModel_camera]
  · intro v hv
    rw [transformPoint_thumbnailModelMatrix]
    simp only [thumbnailLookAtTarget, offsetModel_camera]
    simp only [allVertices, offsetModel, List.flatMap_cons, List.flatMap_nil, List.append_nil,
      List.mem_cons, List.mem_singleton, List.not_mem_nil, or_false] at hv
    rcases hv with hv | hv | hv <;> subst hv <;>
      (simp only [beyondFarPlane, Vec3.sub, Vec3.dot]; norm_num)

/-- Witness for C21: the thumbnail of the triangle (100,0,0), (101,0,0), (100,1,0). -/
theorem C21_camera_target_is_untranslated_witness :
    okThumbnail.beginResult = VK_SUCCESS
    ∧ Call.vkCmdPushConstants 203 205
          { PushConstants.zero with model := thumbnailModelMatrix offsetModel.m_meshes }
        ∈ (startThumbnails.renderModelToTexture ⟨[], 1⟩ okThumbnail offsetModel 1).state.calls
    ∧ thumbnailLookAtTarget offsetModel.m_meshes = ⟨201 / 2, 1 / 2, 0⟩
    ∧ (thumbnailModelMatrix offsetModel.m_meshes).transformPoint
        (thumbnailCamera offsetModel.m_meshes).modelCenter = ⟨0, 0, 0⟩ :=
  have h := C21_camera_target_is_untranslated ⟨[], 1⟩ startThumbnails okThumbnail offsetModel 1
  ⟨rfl, h.2.2.2.2.2.2.2.1 rfl, h.2.2.2.2.2.2.2.2.1, h.1⟩

/-! ## C25: the descriptor rewrites of one frame -/

theorem drawMeshes_filterMap {β : Type} (r : Renderer) (model : Model) (g : Call → Option β)
    (f : Mesh → List β)
    (hp : ∀ pc mesh, (r.drawMesh model pc mesh).filterMap g = f mesh) :
    ∀ (meshes : List Mesh) (pc : PushConstants),
      (r.drawMeshes model pc meshes).filterMap g = meshes.flatMap f := by
  intro meshes
  induction meshes with
  | nil => intro pc; rfl
  | cons mesh rest ih =>
    intro pc
    rw [Renderer.drawMeshes, List.filterMap_append, hp, ih, List.flatMap_cons]

theorem drawModels_filterMap {β : Type} (r : Renderer) (g : Call → Option β)
    (f : Model → Mesh → List β)
    (hp : ∀ model pc mesh, (r.drawMesh model pc mesh).filterMap g = f model mesh) :
    ∀ models : List Model,
      (models.flatMap r.drawModel).filterMap g
        = models.flatMap (fun model => model.m_meshes.flatMap (f model)) := by
  intro models
  induction models with
  | nil => rfl
  | cons model rest ih =>
    rw [List.flatMap_cons, List.filterMap_append, ih, List.flatMap_cons,
      Renderer.drawModel, drawMeshes_filterMap r model g (f model) (hp model)]

theorem drawnMeshes_map {β : Type} (scene : Scene) (h : Model → Mesh → β) :
    scene.m_models.flatMap (fun model => model.m_meshes.flatMap (fun mesh => [h model mesh]))
      = scene.drawnMeshes.map (fun e => h e.1 e.2) := by
  unfold Scene.drawnMeshes
  rw [List.map_flatMap]
  apply List.flatMap_congr
  intro model _
  rw [flatMap_singleton_fun, List.map_map]
  rfl

theorem updateDescriptorSetForMesh_write (r : Renderer) (model : Model) (mesh : Mesh) :
    (r.updateDescriptorSetForMesh model mesh.materialIndex).descriptorWrite
      = some (vecAt r.m_modelDescriptorSets r.m_currentFrame, 1, r.writtenPair model mesh) := by
  unfold Renderer.writtenPair Renderer.updateDescriptorSetForMesh
  simp only []
  split_ifs <;> rfl

theorem drawMesh_descriptorWrite (r : Renderer) (model : Model) (pc : PushConstants)
    (mesh : Mesh) :
    (r.drawMesh model pc mesh).filterMap Call.descriptorWrite
      = [(vecAt r.m_modelDescriptorSets r.m_currentFrame, 1, r.writtenPair model mesh)] := by
  have hw := updateDescriptorSetForMesh_write r model mesh
  simp only [Renderer.drawMesh, List.filterMap_cons, hw]
  rfl

theorem drawMesh_descriptorBind (r : Renderer) (model : Model) (pc : PushConstants)
    (mesh : Mesh) :
    (r.drawMesh model pc mesh).filterMap Call.descriptorBind
      = [(vecAt r.m_commandBuffers r.m_currentFrame, r.m_modelPipelineLayout,
          vecAt r.m_modelDescriptorSets r.m_currentFrame)] := by
  unfold Renderer.drawMesh Renderer.updateDescriptorSetForMesh
  simp only []
  split_ifs <;> rfl

/-- The descriptor writes of `renderScene`, in order. -/
theorem renderSceneCalls_descriptorWrite (r : Renderer) (scene : Scene) :
    (r.renderSceneCalls scene).filterMap Call.descriptorWrite
      = scene.drawnMeshes.map (fun e =>
          (vecAt r.m_modelDescriptorSets r.m_currentFrame, 1, r.writtenPair e.1 e.2)) := by
  have h := drawModels_filterMap r Call.descriptorWrite
    (fun model mesh =>
      [(vecAt r.m_modelDescriptorSets r.m_currentFrame, 1, r.writtenPair model mesh)])
    (fun model pc mesh => drawMesh_descriptorWrite r model pc mesh) scene.m_models
  rw [drawnMeshes_map scene (fun model mesh =>
    (vecAt r.m_modelDescriptorSets r.m_currentFrame, 1, r.writtenPair model mesh))] at h
  unfold Renderer.renderSceneCalls Renderer.updateModelUniformBuffer
    Renderer.updateGridUniformBuffer
  split_ifs with he
  · have hnil : scene.drawnMeshes = [] := by
      unfold Scene.drawnMeshes
      rw [List.isEmpty_iff.mp he]
      rfl
    rw [hnil]
    rfl
  · simp only [List.filterMap_append, h]
    simp [Call.descriptorWrite]

/-- The descriptor binds of `renderScene`, in order. -/
theorem renderSceneCalls_descriptorBind (r : Renderer) (scene : Scene) :
    (r.renderSceneCalls scene).filterMap Call.descriptorBind
      = scene.drawnMeshes.map (fun _ =>
          (vecAt r.m_commandBuffers r.m_currentFrame, r.m_modelPipelineLayout,
           vecAt r.m_modelDescriptorSets r.m_currentFrame))
        ++ [(vecAt r.m_commandBuffers r.m_currentFrame, r.m_gridPipelineLayout,
             vecAt r.m_gridDescriptorSets r.m_currentFrame)] := by
  have h := drawModels_filterMap r Call.descriptorBind
    (fun _ _ =>
      [(vecAt r.m_commandBuffers r.m_currentFrame, r.m_modelPipelineLayout,
        vecAt r.m_modelDescriptorSets r.m_currentFrame)])
    (fun model pc mesh => drawMesh_descriptorBind r model pc mesh) scene.m_models
  rw [drawnMeshes_map scene (fun _ _ =>
    (vecAt r.m_commandBuffers r.m_currentFrame, r.m_modelPipelineLayout,
     vecAt r.m_modelDescriptorSets r.m_currentFrame))] at h
  unfold Renderer.renderSceneCalls Renderer.updateModelUniformBuffer
    Renderer.updateGridUniformBuffer
  split_ifs with he
  · have hnil : scene.drawnMeshes = [] := by
      unfold Scene.drawnMeshes
      rw [List.isEmpty_iff.mp he]
      rfl
    rw [hnil]
    rfl
  · simp only [List.filterMap_append, h]
    simp [Call.descriptorBind]

theorem filter_all_true {α : Type} (p : α → Bool) (l : List α) (h : ∀ a ∈ l, p a = true) :
    l.filter p = l := List.filter_eq_self.mpr h

/-- C25: in one `renderScene` call every per-mesh descriptor rewrite goes to binding 1 of
the model descriptor set of the current slot, one rewrite per drawn mesh in drawing
order, and every model draw binds this same set (the grid binds its own); `renderScene`
submits nothing.  So for a scene with at least one mesh, whatever was written before,
binding 1 of that set holds after `renderScene` the pair written for the last mesh of
the last model with meshes: every earlier rewrite of the frame is overwritten before the
command buffer is submitted. -/
theorem C25_last_mesh_texture_wins (dev : VulkanDevice) (r : Renderer) (scene : Scene)
    (hne : scene.drawnMeshes ≠ []) :
    (r.renderSceneCalls scene).filterMap Call.descriptorWrite
        = scene.drawnMeshes.map (fun e =>
            (vecAt r.m_modelDescriptorSets r.m_currentFrame, 1, r.writtenPair e.1 e.2))
    ∧ (r.renderSceneCalls scene).filterMap Call.descriptorBind
        = scene.drawnMeshes.map (fun _ =>
            (vecAt r.m_commandBuffers r.m_currentFrame, r.m_modelPipelineLayout,
             vecAt r.m_modelDescriptorSets r.m_currentFrame))
          ++ [(vecAt r.m_commandBuffers r.m_currentFrame, r.m_gridPipelineLayout,
               vecAt r.m_gridDescriptorSets r.m_currentFrame)]
    ∧ (r.renderSceneCalls scene).filter Call.isQueueSubmit = []
    ∧ descriptorContents (r.renderScene dev scene).1.calls
        (vecAt r.m_modelDescriptorSets r.m_currentFrame) 1
        = some (r.writtenPair (scene.drawnMeshes.getLast hne).1
            (scene.drawnMeshes.getLast hne).2) := by
  refine ⟨renderSceneCalls_descriptorWrite r scene, renderSceneCalls_descriptorBind r scene,
    renderSceneCalls_filter_queueSubmit r scene, ?_⟩
  unfold descriptorContents Renderer.renderScene VulkanDevice.logAll
  simp only [List.filterMap_append, List.filter_append, renderSceneCalls_descriptorWrite]
  rw [filter_all_true _ (scene.drawnMeshes.map _) (by
    intro a ha
    obtain ⟨e, _, he⟩ := List.mem_map.mp ha
    rw [← he]
    simp)]
  rw [List.getLast?_append]
  have hne2 : scene.drawnMeshes.map (fun e =>
      (vecAt r.m_modelDescriptorSets r.m_currentFrame, 1, r.writtenPair e.1 e.2)) ≠ [] := by
    simpa using hne
  rw [List.getLast?_eq_getLast _ hne2, List.getLast_map]
  simp

/-- Witness for C25: one model with two textured meshes (views 31 and 71); after
`renderScene` binding 1 of the slot's model set (152) holds the second texture only. -/
theorem C25_last_mesh_texture_wins_witness :
    twoTextureScene.drawnMeshes ≠ []
    ∧ (startRenderer.state.2.renderSceneCalls twoTextureScene).filterMap Call.descriptorWrite
        = [(152, 1, 31, 32), (152, 1, 71, 72)]
    ∧ descriptorContents
        (startRenderer.state.2.renderScene startRenderer.state.1 twoTextureScene).1.calls 152 1
        = some (71, 72) :=
  have hne : twoTextureScene.drawnMeshes ≠ [] := by
    simp [Scene.drawnMeshes, twoTextureScene]
  have h := C25_last_mesh_texture_wins startRenderer.state.1 startRenderer.state.2
    twoTextureScene hne
  ⟨hne, h.1, h.2.2.2⟩

/-! ## C26: the push constants of a mesh -/

theorem drawMesh_pushConstants (r : Renderer) (model : Model) (pc : PushConstants)
    (mesh : Mesh) : (r.drawMesh model pc mesh).filterMap Call.pushConstants = [pc] := by
  unfold Renderer.drawMesh Renderer.updateDescriptorSetForMesh
  simp only []
  split_ifs <;> rfl

theorem drawMeshes_pushConstants (r : Renderer) (model : Model) :
    ∀ (meshes : List Mesh) (pc : PushConstants),
      (r.drawMeshes model pc meshes).filterMap Call.pushConstants
        = pushConstantsSent model pc meshes := by
  intro meshes
  induction meshes with
  | nil => intro pc; rfl
  | cons mesh rest ih =>
    intro pc
    rw [Renderer.drawMeshes, List.filterMap_append, drawMesh_pushConstants, ih,
      pushConstantsSent]
    rfl

/-- C26 (what the code does): the variable `pushConstants` of `renderScene` is set once
per model (the model's transform, grey (0.9, 0.9, 0.9), hasTexture 0) and lives across
the meshes of the model.  For a mesh whose material index is in range the constants
sent carry the material's diffuse colour, and hasTexture is 1 exactly when the
material's texture view is not null, whatever its sampler; for a mesh whose material
index is out of range the constants sent are the ones of the mesh drawn before it in the
model (the model's initial ones for the first mesh).  So in `staleMaterialModel` the
second mesh (index out of range) is sent the red colour and hasTexture 1 of the first
one while its descriptor rewrite binds the default texture, and in `viewOnlyModel` the
mesh is sent hasTexture 1 while its rewrite binds the default texture. -/
theorem C26_push_constants_carry_over (r : Renderer) (model : Model) :
    (r.drawModel model).filterMap Call.pushConstants
        = pushConstantsSent model
            { PushConstants.zero with
              model := model.m_transform, materialDiffuse := ⟨9 / 10, 9 / 10, 9 / 10⟩,
              hasTexture := 0 }
            model.m_meshes
    ∧ (∀ (pc : PushConstants) (mesh : Mesh) (material : Material),
        model.m_materials.get? mesh.materialIndex = some material →
        meshPushConstants model pc mesh
          = { pc with
              materialDiffuse := material.diffuse
              hasTexture := if material.textureImageView ≠ VK_NULL_HANDLE then 1 else 0 })
    ∧ (∀ (pc : PushConstants) (mesh : Mesh),
        model.m_materials.length ≤ mesh.materialIndex → meshPushConstants model pc mesh = pc)
    ∧ (r.drawModel staleMaterialModel).filterMap Call.pushConstants
        = [⟨Mat4.identity, ⟨1, 0, 0⟩, 1⟩, ⟨Mat4.identity, ⟨1, 0, 0⟩, 1⟩]
    ∧ (r.drawModel staleMaterialModel).filterMap Call.descriptorWrite
        = [(vecAt r.m_modelDescriptorSets r.m_currentFrame, 1, 31, 32),
           (vecAt r.m_modelDescriptorSets r.m_currentFrame, 1,
            r.m_defaultTextureImageView, r.m_defaultTextureSampler)]
    ∧ (r.drawModel viewOnlyModel).filterMap Call.pushConstants
        = [⟨Mat4.identity, ⟨0, 1, 0⟩, 1⟩]
    ∧ (r.drawModel viewOnlyModel).filterMap Call.descriptorWrite
        = [(vecAt r.m_modelDescriptorSets r.m_currentFrame, 1,
            r.m_defaultTextureImageView, r.m_defaultTextureSampler)] := by
  refine ⟨drawMeshes_pushConstants r model _ _, ?_, ?_, ?_, ?_, ?_, ?_⟩
  · intro pc mesh material hm
    unfold meshPushConstants Model.getMaterialTextureView
    simp only [hm]
  · intro pc mesh hlen
    unfold meshPushConstants
    simp only [List.get?_eq_none.mpr hlen]
  · rw [Renderer.drawModel, drawMeshes_pushConstants]
    simp [pushConstantsSent, meshPushConstants, staleMaterialModel,
      Model.getMaterialTextureView, PushConstants.zero, VK_NULL_HANDLE]
  · simp [Renderer.drawModel, Renderer.drawMeshes, Renderer.drawMesh, staleMaterialModel,
      Renderer.updateDescriptorSetForMesh, Model.getMaterialTextureView,
      Model.getMaterialTextureSampler, Call.descriptorWrite, VK_NULL_HANDLE]
  · rw [Renderer.drawModel, drawMeshes_pushConstants]
    simp [pushConstantsSent, meshPushConstants, viewOnlyModel,
      Model.getMaterialTextureView, PushConstants.zero, VK_NULL_HANDLE]
  · simp [Renderer.drawModel, Renderer.drawMeshes, Renderer.drawMesh, viewOnlyModel,
      Renderer.updateDescriptorSetForMesh, Model.getMaterialTextureView,
      Model.getMaterialTextureSampler, Call.descriptorWrite, VK_NULL_HANDLE]

/-- Witness for C26: the two meshes of `staleMaterialModel` on the start renderer. -/
theorem C26_push_constants_carry_over_witness :
    meshPushConstants staleMaterialModel ⟨Mat4.identity, ⟨9 / 10, 9 / 10, 9 / 10⟩, 0⟩
        ⟨[], [0, 1, 2], 0, 21, 41, 22, 42⟩
      = ⟨Mat4.identity, ⟨1, 0, 0⟩, if (31 : Handle) ≠ VK_NULL_HANDLE then 1 else 0⟩
    ∧ meshPushConstants staleMaterialModel ⟨Mat4.identity, ⟨1, 0, 0⟩, 1⟩
        ⟨[], [0, 1, 2, 2, 3, 0], 5, 23, 43, 24, 44⟩
      = ⟨Mat4.identity, ⟨1, 0, 0⟩, 1⟩
    ∧ (startRenderer.state.2.drawModel staleMaterialModel).filterMap Call.descriptorWrite
        = [(152, 1, 31, 32), (152, 1, 170, 171)] :=
  have h := C26_push_constants_carry_over startRenderer.state.2 staleMaterialModel
  ⟨h.2.1 _ ⟨[], [0, 1, 2], 0, 21, 41, 22, 42⟩ ⟨⟨1, 0, 0⟩, 35, 36, 31, 32⟩ rfl,
   h.2.2.1 _ ⟨[], [0, 1, 2, 2, 3, 0], 5, 23, 43, 24, 44⟩ (by decide),
   h.2.2.2.2.1⟩

/-! ## C24: `Model::cleanup` -/

theorem Mesh_cleanupCalls_textureRelease (mesh : Mesh) :
    mesh.cleanupCalls.filter Call.isTextureRelease = [] := by
  unfold Mesh.cleanupCalls
  split_ifs <;> rfl

theorem Mesh_cleanupCalls_freedMemory (mesh : Mesh) :
    mesh.cleanupCalls.filterMap Call.freedMemory
      = [mesh.vertexBufferMemory, mesh.indexBufferMemory].filter (fun m => m != VK_NULL_HANDLE) := by
  by_cases h2 : mesh.vertexBufferMemory = VK_NULL_HANDLE <;>
    by_cases h4 : mesh.indexBufferMemory = VK_NULL_HANDLE <;>
    (simp only [Mesh.cleanupCalls, h2, h4, ne_eq, not_true_eq_false, not_false_eq_true,
       if_true, if_false]
     split_ifs <;> simp [Call.freedMemory, List.filter_cons, h2, h4])

theorem flatMap_filter_nil {α β : Type} (l : List α) (f : α → List β) (p : β → Bool)
    (h : ∀ a, (f a).filter p = []) : (l.flatMap f).filter p = [] := by
  induction l with
  | nil => rfl
  | cons a rest ih => rw [List.flatMap_cons, List.filter_append, h, ih]; rfl

theorem flatMap_filterMap {α β γ : Type} (l : List α) (f : α → List β) (g : β → Option γ) :
    (l.flatMap f).filterMap g = l.flatMap (fun a => (f a).filterMap g) := by
  induction l with
  | nil => rfl
  | cons a rest ih => rw [List.flatMap_cons, List.filterMap_append, ih, List.flatMap_cons]

/-- C24 (what the code does): `Model::cleanup` releases, mesh by mesh, the vertex buffer,
its memory, the index buffer and its memory (each when not null, the memory right after
its buffer), then empties the mesh list and the material list; a second cleanup makes no
call.  It releases no image, image view or sampler, and the only memory it frees is
buffer memory of the meshes: the texture image, memory, view and sampler of the
materials are dropped with the material list without being released. -/
theorem C24_cleanup_releases_meshes_only (dev : VulkanDevice) (model : Model) :
    (∃ released : List Call,
      (model.cleanup dev).1.calls = dev.calls ++ released
      ∧ ((∀ mesh ∈ model.m_meshes, mesh.vertexBuffer ≠ VK_NULL_HANDLE
            ∧ mesh.vertexBufferMemory ≠ VK_NULL_HANDLE ∧ mesh.indexBuffer ≠ VK_NULL_HANDLE
            ∧ mesh.indexBufferMemory ≠ VK_NULL_HANDLE) →
          released = model.m_meshes.flatMap (fun mesh =>
            [Call.resource (.vkDestroyBuffer mesh.vertexBuffer),
             Call.vkFreeMemory mesh.vertexBufferMemory,
             Call.resource (.vkDestroyBuffer mesh.indexBuffer),
             Call.vkFreeMemory mesh.indexBufferMemory]))
      ∧ released.filter Call.isTextureRelease = []
      ∧ released.filterMap Call.freedMemory
          = model.m_meshes.flatMap (fun mesh =>
              [mesh.vertexBufferMemory, mesh.indexBufferMemory].filter
                (fun m => m != VK_NULL_HANDLE)))
    ∧ (model.cleanup dev).2.m_meshes = []
    ∧ (model.cleanup dev).2.m_materials = []
    ∧ ((model.cleanup dev).2.cleanup (model.cleanup dev).1).1.calls
        = (model.cleanup dev).1.calls := by
  refine ⟨⟨model.m_meshes.flatMap Mesh.cleanupCalls, rfl, ?_, ?_, ?_⟩, rfl, rfl, ?_⟩
  · intro hall
    apply List.flatMap_congr
    intro mesh hmesh
    obtain ⟨h1, h2, h3, h4⟩ := hall mesh hmesh
    simp [Mesh.cleanupCalls, h1, h2, h3, h4]
  · exact flatMap_filter_nil _ _ _ Mesh_cleanupCalls_textureRelease
  · rw [flatMap_filterMap]
    apply List.flatMap_congr
    intro mesh _
    exact Mesh_cleanupCalls_freedMemory mesh
  · simp [Model.cleanup, VulkanDevice.logAll]

/-- Witness for C24: `staleMaterialModel` has two meshes (buffers 21 to 24, memories 41 to
44) and one material with a loaded texture (image 35, memory 36, view 31, sampler 32);
the cleanup releases the eight mesh handles and nothing of the material, which is gone
from the model afterwards. -/
theorem C24_cleanup_releases_meshes_only_witness :
    (staleMaterialModel.cleanup ⟨[], 1⟩).1.calls
        = [Call.resource (.vkDestroyBuffer 21), Call.vkFreeMemory 41,
           Call.resource (.vkDestroyBuffer 22), Call.vkFreeMemory 42,
           Call.resource (.vkDestroyBuffer 23), Call.vkFreeMemory 43,
           Call.resource (.vkDestroyBuffer 24), Call.vkFreeMemory 44]
    ∧ staleMaterialModel.m_materials.map
          (fun m => (m.textureImage, m.textureImageMemory, m.textureImageView, m.textureSampler))
        = [(35, 36, 31, 32)]
    ∧ (staleMaterialModel.cleanup ⟨[], 1⟩).2.m_materials = []
    ∧ (staleMaterialModel.cleanup ⟨[], 1⟩).2.m_meshes = [] :=
  have h := C24_cleanup_releases_meshes_only ⟨[], 1⟩ staleMaterialModel
  ⟨by rfl, by rfl, h.2.2.1, h.2.1⟩

/-! ## C28: one framebuffer per swap-chain image -/

theorem createRenderPass_targets (dev : VulkanDevice) (r : Renderer) (result : VkResult)
    (s : VulkanDevice × Renderer) (h : r.createRenderPass dev result = .ok s) :
    s.2.targets = r.targets := by
  simp only [Renderer.createRenderPass, VulkanDevice.vkCreate] at h
  split_ifs at h
  simp only [Outcome.ok.injEq] at h
  subst h
  rfl

theorem createUniformBuffersLoop_targets (n : Nat) :
    ∀ (oks : List Bool) (i : Nat) (dev : VulkanDevice) (r : Renderer)
      (s : VulkanDevice × Renderer),
      createUniformBuffersLoop n oks i dev r = .ok s → s.2.targets = r.targets := by
  induction n with
  | zero =>
    intro oks i dev r s h
    simp only [createUniformBuffersLoop, Outcome.ok.injEq] at h
    subst h
    rfl
  | succ n ih =>
    intro oks i dev r s h
    simp only [createUniformBuffersLoop, VulkanDevice.createBuffer] at h
    split_ifs at h
    exact (ih _ _ _ _ _ h).trans rfl

theorem createUniformBuffers_targets (dev : VulkanDevice) (r : Renderer) (oks : List Bool)
    (s : VulkanDevice × Renderer) (h : r.createUniformBuffers dev oks = .ok s) :
    s.2.targets = r.targets :=
  (createUniformBuffersLoop_targets _ _ _ _ _ _ h).trans rfl

theorem createDefaultTexture_targets (dev : VulkanDevice) (r : Renderer)
    (env : DefaultTextureEnv) (s : VulkanDevice × Renderer)
    (h : r.createDefaultTexture dev env = .ok s) : s.2.targets = r.targets := by
  simp only [Renderer.createDefaultTexture, VulkanDevice.createBuffer, VulkanDevice.createImage,
    VulkanDevice.vkCreate] at h
  split_ifs at h
  simp only [Outcome.ok.injEq] at h
  subst h
  rfl

theorem createGridPipeline_targets (dev : VulkanDevice) (r : Renderer) (denv : DescriptorEnv)
    (env : ShaderEnv) (s : VulkanDevice × Renderer)
    (h : r.createGridPipeline dev denv env = .ok s) : s.2.targets = r.targets := by
  simp only [Renderer.createGridPipeline, loadShaders, readFile, createShaderModule,
    VulkanDevice.vkCreate] at h
  split_ifs at h
  simp only [Outcome.ok.injEq] at h
  subst h
  rfl

theorem createModelPipeline_targets (dev : VulkanDevice) (r : Renderer)
    (env : ShaderEnv) (s : VulkanDevice × Renderer)
    (h : r.createModelPipeline dev env = .ok s) : s.2.targets = r.targets := by
  simp only [Renderer.createModelPipeline, loadShaders, readFile, createShaderModule,
    VulkanDevice.vkCreate] at h
  split_ifs at h
  simp only [Outcome.ok.injEq] at h
  subst h
  rfl

theorem createSyncObjectsLoop_targets (n : Nat) :
    ∀ (results : List (VkResult × VkResult × VkResult)) (i : Nat) (dev : VulkanDevice)
      (r : Renderer) (s : VulkanDevice × Renderer),
      createSyncObjectsLoop n results i dev r = .ok s → s.2.targets = r.targets := by
  induction n with
  | zero =>
    intro results i dev r s h
    simp only [createSyncObjectsLoop, Outcome.ok.injEq] at h
    subst h
    rfl
  | succ n ih =>
    intro results i dev r s h
    simp only [createSyncObjectsLoop] at h
    split_ifs at h
    exact (ih _ _ _ _ _ h).trans rfl

theorem createSyncObjects_targets (dev : VulkanDevice) (r : Renderer)
    (results : List (VkResult × VkResult × VkResult)) (s : VulkanDevice × Renderer)
    (h : r.createSyncObjects dev results = .ok s) : s.2.targets = r.targets :=
  (createSyncObjectsLoop_targets _ _ _ _ _ _ h).trans rfl

theorem createCommandBuffers_targets (dev : VulkanDevice) (r : Renderer) (result : VkResult)
    (s : VulkanDevice × Renderer) (h : r.createCommandBuffers dev result = .ok s) :
    s.2.targets = r.targets :=
  (congrArg Renderer.targets (createCommandBuffers_ok_calls dev r result s h).1).trans rfl

/-- What a returning run of the constructor statements leaves: the swap chain it started
with, and one framebuffer per image of it. -/
theorem constructSteps_framebuffers (dev : VulkanDevice) (r : Renderer) (env : RendererEnv)
    (s : VulkanDevice × Renderer) (h : r.constructSteps dev env = .ok s) :
    s.2.m_swapChain = r.m_swapChain
    ∧ s.2.m_framebuffers.length = r.m_swapChain.m_swapChainImages.length := by
  unfold Renderer.constructSteps at h
  split at h
  · exact absurd h (by simp)
  rename_i dev1 r1 h1
  split at h
  · exact absurd h (by simp)
  rename_i dev2 r2 h2
  split at h
  · exact absurd h (by simp)
  rename_i dev3 r3 h3
  split at h
  · exact absurd h (by simp)
  rename_i dev4 r4 h4
  split at h
  · exact absurd h (by simp)
  rename_i dev5 r5 h5
  split at h
  · exact absurd h (by simp)
  rename_i dev6 r6 h6
  split at h
  · exact absurd h (by simp)
  rename_i dev7 r7 h7
  have e1 : r1.targets = r.targets := createRenderPass_targets _ _ _ _ h1
  obtain ⟨e2, e2len, _⟩ := createFramebuffers_ok_calls _ _ _ _ h2
  have e2sc : r2.m_swapChain = r1.m_swapChain := (congrArg Renderer.m_swapChain e2).trans rfl
  have e2len1 : r2.m_framebuffers.length = r1.m_swapChain.m_swapChainImages.length := e2len
  have e3 : r3.targets = r2.targets := createUniformBuffers_targets _ _ _ _ h3
  have e4 : r4.targets = r3.targets := createDefaultTexture_targets _ _ _ _ h4
  have e5 : r5.targets = r4.targets := createGridPipeline_targets _ _ _ _ _ h5
  have e6 : r6.targets = r5.targets := createModelPipeline_targets _ _ _ _ h6
  have e7 : r7.targets = r6.targets := createCommandBuffers_targets _ _ _ _ h7
  have e8 : s.2.targets = r7.targets := createSyncObjects_targets _ _ _ _ h
  have e : s.2.targets = r2.targets := by rw [e8, e7, e6, e5, e4, e3]
  have e1sc : r1.m_swapChain = r.m_swapChain := congrArg Prod.fst e1
  have esc : s.2.m_swapChain = r2.m_swapChain := congrArg Prod.fst e
  have efb : s.2.m_framebuffers = r2.m_framebuffers := congrArg Prod.snd e
  refine ⟨by rw [esc, e2sc, e1sc], ?_⟩
  rw [efb, e2len1, e1sc]

theorem construct_framebufferPerImage (dev : VulkanDevice) (junk : Handle) (env : RendererEnv)
    (width height : Nat) (s : VulkanDevice × Renderer × ThumbnailRenderer)
    (h : Renderer.construct dev junk env width height = .ok s) :
    s.2.1.framebufferPerImage := by
  unfold Renderer.construct at h
  split at h
  · exact absurd h (by simp)
  rename_i dev1 sc hsc
  split at h
  · exact absurd h (by simp)
  rename_i dev2 r hr
  split at h
  · exact absurd h (by simp)
  rename_i dev3 t ht
  simp only [Outcome.ok.injEq] at h
  subst h
  obtain ⟨made, _, _, himages, hviews, _⟩ := SwapChain_create_calls _ _ _ _ _ hsc
  have himages1 : sc.m_swapChainImages.length = env.swapChain.imageCount := himages
  have hviews1 : sc.m_swapChainImageViews.length = env.swapChain.imageCount := hviews
  obtain ⟨e1, e2⟩ := constructSteps_framebuffers _ _ _ _ hr
  have e1a : r.m_swapChain = sc := e1
  have e2a : r.m_framebuffers.length = sc.m_swapChainImages.length := e2
  refine ⟨?_, ?_⟩
  · show r.m_framebuffers.length = r.m_swapChain.m_swapChainImages.length
    rw [e2a, e1a]
  · show r.m_swapChain.m_swapChainImages.length = r.m_swapChain.m_swapChainImageViews.length
    rw [e1a, himages1, hviews1]

theorem recreateSwapChain_framebufferPerImage (dev : VulkanDevice) (r : Renderer)
    (env : RecreateEnv) (width height : Nat) (s : VulkanDevice × Renderer)
    (h : r.recreateSwapChain dev env width height = .ok s) : s.2.framebufferPerImage := by
  unfold Renderer.recreateSwapChain at h
  simp only [] at h
  split at h
  · exact absurd h (by simp)
  rename_i dev3 sc hsc
  split at h
  · exact absurd h (by simp)
  rename_i dev5 r3 h3
  obtain ⟨made, _, _, himages0, hviews0, _⟩ := SwapChain_create_calls _ _ _ _ _ hsc
  have himages : sc.m_swapChainImages.length = env.swapChain.imageCount := himages0
  have hviews : sc.m_swapChainImageViews.length = env.swapChain.imageCount := hviews0
  obtain ⟨e3, e3len0, _⟩ := createFramebuffers_ok_calls _ _ _ _ h3
  have e3len : r3.m_framebuffers.length = sc.m_swapChainImages.length := e3len0
  have e4 : s.2.targets = r3.targets := createCommandBuffers_targets _ _ _ _ h
  have e3sc : r3.m_swapChain = sc := (congrArg Renderer.m_swapChain e3).trans rfl
  have esc : s.2.m_swapChain = r3.m_swapChain := congrArg Prod.fst e4
  have efb : s.2.m_framebuffers = r3.m_framebuffers := congrArg Prod.snd e4
  refine ⟨?_, ?_⟩
  · show s.2.m_framebuffers.length = s.2.m_swapChain.m_swapChainImages.length
    rw [efb, esc, e3sc, e3len]
  · show s.2.m_swapChain.m_swapChainImages.length = s.2.m_swapChain.m_swapChainImageViews.length
    rw [esc, e3sc, himages, hviews]

/-- C28: when the constructor `Renderer::Renderer` returns, and when a
`recreateSwapChain` returns, the renderer holds exactly one framebuffer per swap-chain
image: `m_framebuffers.size()` is the number of swap-chain images, which is the number
of image views.  With that, every image index below the image count is a valid index of
`m_framebuffers`, and a `beginFrame` that acquires such an index begins its render pass
on the framebuffer stored at that index. -/
theorem C28_one_framebuffer_per_image :
    (∀ (dev : VulkanDevice) (junk : Handle) (env : RendererEnv) (width height : Nat)
        (s : VulkanDevice × Renderer × ThumbnailRenderer),
        Renderer.construct dev junk env width height = .ok s → s.2.1.framebufferPerImage)
    ∧ (∀ (dev : VulkanDevice) (r : Renderer) (env : RecreateEnv) (width height : Nat)
        (s : VulkanDevice × Renderer),
        r.recreateSwapChain dev env width height = .ok s → s.2.framebufferPerImage)
    ∧ (∀ (r : Renderer), r.framebufferPerImage →
        ∀ i, i < r.m_swapChain.m_swapChainImages.length →
          i < r.m_framebuffers.length
          ∧ r.m_framebuffers[i]? = some (vecAt r.m_framebuffers i))
    ∧ (∀ (dev : VulkanDevice) (r : Renderer) (env : FrameEnv) (s : VulkanDevice × Renderer),
        r.framebufferPerImage →
        env.acquireResult = VK_SUCCESS ∨ env.acquireResult = VK_SUBOPTIMAL_KHR →
        env.acquiredImageIndex < r.m_swapChain.m_swapChainImages.length →
        r.beginFrame dev env = .ok s →
        ∃ fb, r.m_framebuffers[env.acquiredImageIndex]? = some fb
          ∧ s.1.calls.getLast? = some (Call.vkCmdBeginRenderPass
              (vecAt r.m_commandBuffers r.m_currentFrame) r.m_renderPass fb
              r.m_swapChain.m_swapChainExtent)) := by
  have hidx : ∀ (r : Renderer), r.framebufferPerImage →
      ∀ i, i < r.m_swapChain.m_swapChainImages.length →
        i < r.m_framebuffers.length
        ∧ r.m_framebuffers[i]? = some (vecAt r.m_framebuffers i) := by
    intro r hinv i hi
    have hlt : i < r.m_framebuffers.length := by rw [hinv.1]; exact hi
    refine ⟨hlt, ?_⟩
    simp [vecAt, List.getD_eq_getElem?_getD, List.getElem?_eq_getElem hlt]
  refine ⟨construct_framebufferPerImage, recreateSwapChain_framebufferPerImage, hidx, ?_⟩
  intro dev r env s hinv hacq hi h
  refine ⟨vecAt r.m_framebuffers env.acquiredImageIndex, (hidx r hinv _ hi).2, ?_⟩
  have hne : env.acquireResult ≠ VK_ERROR_OUT_OF_DATE_KHR := by
    rcases hacq with h1 | h1 <;> rw [h1] <;> decide
  have hnot : ¬ (env.acquireResult ≠ VK_SUCCESS ∧ env.acquireResult ≠ VK_SUBOPTIMAL_KHR) := by
    intro hcon
    rcases hacq with h1 | h1
    · exact hcon.1 h1
    · exact hcon.2 h1
  simp only [Renderer.beginFrame, hacq, hne, hnot, if_true, if_false] at h
  split_ifs at h
  simp only [Outcome.ok.injEq] at h
  subst h
  simp [VulkanDevice.log, VulkanDevice.logAll]

theorem C28_one_framebuffer_per_image_witness :
    constructedRenderer.state.2.1.framebufferPerImage
    ∧ resizedRenderer.state.2.framebufferPerImage
    ∧ (2 < constructedRenderer.state.2.1.m_framebuffers.length
        ∧ constructedRenderer.state.2.1.m_framebuffers[2]? = some 14)
    ∧ (∃ fb, startRenderer.state.2.m_framebuffers[(okFrame 1).acquiredImageIndex]? = some fb
        ∧ (startRenderer.state.2.beginFrame startRenderer.state.1 (okFrame 1)).state.1.calls.getLast?
          = some (Call.vkCmdBeginRenderPass
              (vecAt startRenderer.state.2.m_commandBuffers startRenderer.state.2.m_currentFrame)
              startRenderer.state.2.m_renderPass fb
              startRenderer.state.2.m_swapChain.m_swapChainExtent)) :=
  ⟨C28_one_framebuffer_per_image.1 VulkanDevice.initial 7 okConstruct 800 600
      constructedRenderer.state (by rfl),
   C28_one_framebuffer_per_image.2.1 startRenderer.state.1 startRenderer.state.2
      (recreateWith freeSupport) 1024 768 resizedRenderer.state (by rfl),
   C28_one_framebuffer_per_image.2.2.1 constructedRenderer.state.2.1
      (by constructor <;> rfl) 2 (by decide),
   C28_one_framebuffer_per_image.2.2.2 startRenderer.state.1 startRenderer.state.2 (okFrame 1)
      (startRenderer.state.2.beginFrame startRenderer.state.1 (okFrame 1)).state
      (by constructor <;> rfl) (Or.inl (by rfl)) (by decide) (by rfl)⟩

/-! ## C27: the command buffers of the device pool -/

/-- A part of a log whose calls neither allocate nor hand back command buffers leaves
both lists as they were. -/
theorem commandBuffers_append_neutral (calls part : List Call)
    (h : ∀ c ∈ part, c.allocated = [] ∧ c.freed = []) :
    allocatedCommandBuffers (calls ++ part) = allocatedCommandBuffers calls
    ∧ freedCommandBuffers (calls ++ part) = freedCommandBuffers calls := by
  induction part generalizing calls with
  | nil => simp
  | cons c rest ih =>
    have hc := h c (List.mem_cons_self _ _)
    have hrest := ih (calls ++ [c]) (fun d hd => h d (List.mem_cons_of_mem _ hd))
    rw [show calls ++ c :: rest = (calls ++ [c]) ++ rest by simp]
    rw [hrest.1, hrest.2]
    simp [allocatedCommandBuffers, freedCommandBuffers, List.flatMap_append, hc.1, hc.2]

theorem commandBuffers_step (calls later part : List Call) (heq : later = calls ++ part)
    (h : ∀ c ∈ part, c.allocated = [] ∧ c.freed = []) :
    allocatedCommandBuffers later = allocatedCommandBuffers calls
    ∧ freedCommandBuffers later = freedCommandBuffers calls := by
  subst heq
  exact commandBuffers_append_neutral calls part h

theorem isImageSetup_neutral (c : Call) (h : c.isImageSetup = true) :
    c.allocated = [] ∧ c.freed = [] := by
  cases c <;> simp [Call.isImageSetup] at h <;> exact ⟨rfl, rfl⟩

theorem SwapChain_cleanupCalls_neutral (sc : SwapChain) :
    ∀ c ∈ sc.cleanupCalls, c.allocated = [] ∧ c.freed = [] := by
  intro c hc
  simp only [SwapChain.cleanupCalls, List.mem_append, List.mem_map, List.mem_ite_nil_right,
    List.mem_singleton] at hc
  rcases hc with (((hc | hc) | hc) | hc) | hc
  · rw [hc.2]; exact ⟨rfl, rfl⟩
  · rw [hc.2]; exact ⟨rfl, rfl⟩
  · rw [hc.2]; exact ⟨rfl, rfl⟩
  · obtain ⟨v, _, rfl⟩ := hc
    exact ⟨rfl, rfl⟩
  · rw [hc.2]; exact ⟨rfl, rfl⟩

theorem Renderer_cleanupCalls_neutral (r : Renderer) :
    ∀ c ∈ r.cleanupCalls, c.allocated = [] ∧ c.freed = [] := by
  intro c hc
  simp only [Renderer.cleanupCalls, Renderer.pipelineCleanupCalls, Renderer.uniformCleanupCalls,
    Renderer.textureCleanupCalls, Renderer.syncCleanupCalls, List.mem_append, List.mem_flatMap,
    List.mem_map, List.mem_ite_nil_right, List.mem_singleton, List.mem_cons, List.not_mem_nil,
    or_false] at hc
  rcases hc with ((((hc | hc) | hc) | hc) | hc) | hc
  · rcases hc with ((((hc | hc) | hc) | hc) | hc) | hc <;> (rw [hc.2]; exact ⟨rfl, rfl⟩)
  · obtain ⟨i, _, hc⟩ := hc
    rcases hc with ((hc | hc) | hc) | hc <;> (rw [hc.2]; exact ⟨rfl, rfl⟩)
  · rcases hc with ((hc | hc) | hc) | hc <;> (rw [hc.2]; exact ⟨rfl, rfl⟩)
  · obtain ⟨fb, _, rfl⟩ := hc
    exact ⟨rfl, rfl⟩
  · obtain ⟨i, _, hc⟩ := hc
    rcases hc with hc | hc | hc <;> (rw [hc]; exact ⟨rfl, rfl⟩)
  · rw [hc.2]; exact ⟨rfl, rfl⟩

theorem cleanupOffscreenCalls_neutral (t : ThumbnailRenderer) :
    ∀ c ∈ t.cleanupOffscreenCalls, c.allocated = [] ∧ c.freed = [] := by
  intro c hc
  simp only [ThumbnailRenderer.cleanupOffscreenCalls, ThumbnailRenderer.pipelineCleanupCalls,
    ThumbnailRenderer.uniformCleanupCalls, ThumbnailRenderer.targetCleanupCalls,
    List.mem_append, List.mem_ite_nil_right, List.mem_singleton] at hc
  rcases hc with (hc | hc) | hc
  · rcases hc with ((hc | hc) | hc) | hc <;> (rw [hc.2]; exact ⟨rfl, rfl⟩)
  · rcases hc with (hc | hc) | hc <;> (rw [hc.2]; exact ⟨rfl, rfl⟩)
  · rcases hc with (((((((hc | hc) | hc) | hc) | hc) | hc) | hc) | hc) | hc <;>
      (rw [hc.2]; exact ⟨rfl, rfl⟩)

theorem releaseCalls_neutral (th : ThumbnailData) :
    ∀ c ∈ th.releaseCalls, c.allocated = [] ∧ c.freed = [] := by
  intro c hc
  simp only [ThumbnailData.releaseCalls, List.mem_append, List.mem_ite_nil_right,
    List.mem_singleton] at hc
  rcases hc with ((hc | hc) | hc) | hc <;> (rw [hc.2]; exact ⟨rfl, rfl⟩)

/-- The log of the destructor of the renderer: the calls of `cleanup`, of the destructor
of the thumbnail renderer, and of the swap chain, in this order. -/
theorem destroy_calls (dev : VulkanDevice) (r : Renderer) (t : ThumbnailRenderer) :
    (r.destroy dev t).calls = dev.calls ++ r.cleanupCalls
      ++ (t.cleanupOffscreenCalls ++ t.m_thumbnails.flatMap (fun pair => pair.2.releaseCalls))
      ++ r.m_swapChain.cleanupCalls := by
  simp [Renderer.destroy, Renderer.cleanup, ThumbnailRenderer.destroy,
    ThumbnailRenderer.cleanupOffscreenResources, ThumbnailRenderer.clearThumbnails,
    VulkanDevice.logAll, List.append_assoc]

theorem destroy_neutral (dev : VulkanDevice) (r : Renderer) (t : ThumbnailRenderer) :
    allocatedCommandBuffers (r.destroy dev t).calls = allocatedCommandBuffers dev.calls
    ∧ freedCommandBuffers (r.destroy dev t).calls = freedCommandBuffers dev.calls := by
  rw [destroy_calls, List.append_assoc, List.append_assoc]
  apply commandBuffers_append_neutral
  intro c hc
  simp only [List.mem_append, List.mem_flatMap] at hc
  rcases hc with hc | (hc | ⟨pair, _, hc⟩) | hc
  · exact Renderer_cleanupCalls_neutral r c hc
  · exact cleanupOffscreenCalls_neutral t c hc
  · exact releaseCalls_neutral pair.2 c hc
  · exact SwapChain_cleanupCalls_neutral _ c hc

/-- What a returning `recreateSwapChain` does to the command buffers of the device pool:
it allocates the new per-slot command buffers and hands none back. -/
theorem recreateSwapChain_commandBuffers (dev : VulkanDevice) (r : Renderer) (env : RecreateEnv)
    (width height : Nat) (s : VulkanDevice × Renderer)
    (h : r.recreateSwapChain dev env width height = .ok s) :
    allocatedCommandBuffers s.1.calls = allocatedCommandBuffers dev.calls ++ s.2.m_commandBuffers
    ∧ freedCommandBuffers s.1.calls = freedCommandBuffers dev.calls
    ∧ s.2.m_commandBuffers.length = MAX_FRAMES_IN_FLIGHT := by
  unfold Renderer.recreateSwapChain at h
  simp only [] at h
  split at h
  · exact absurd h (by simp)
  rename_i dev3 sc hsc
  split at h
  · exact absurd h (by simp)
  rename_i dev5 r3 h3
  obtain ⟨made, hcalls3, hmade, _⟩ := SwapChain_create_calls _ _ _ _ _ hsc
  obtain ⟨_, _, hcalls5⟩ := createFramebuffers_ok_calls _ _ _ _ h3
  obtain ⟨_, hlen, hcalls⟩ := createCommandBuffers_ok_calls _ _ _ _ h
  have n1 := commandBuffers_step dev.calls dev.waitIdle.calls [Call.vkDeviceWaitIdle] rfl
    (by intro c hc; rw [List.mem_singleton.1 hc]; exact ⟨rfl, rfl⟩)
  have n2 := commandBuffers_step dev.waitIdle.calls
    (dev.waitIdle.logAll (r.m_framebuffers.map Call.vkDestroyFramebuffer)).calls
    (r.m_framebuffers.map Call.vkDestroyFramebuffer) rfl
    (by intro c hc; obtain ⟨fb, _, rfl⟩ := List.mem_map.1 hc; exact ⟨rfl, rfl⟩)
  have n3 := commandBuffers_step _ _ _ hcalls3 (by
      intro c hc
      rcases List.mem_cons.1 hc with hc | hc
      · rw [hc]; exact ⟨rfl, rfl⟩
      · exact isImageSetup_neutral c (hmade c hc))
  have n4 := commandBuffers_step dev3.calls (dev3.logAll r.m_swapChain.cleanupCalls).calls
    r.m_swapChain.cleanupCalls rfl (SwapChain_cleanupCalls_neutral _)
  have n5 := commandBuffers_step _ _ _ hcalls5 (by
      intro c hc
      obtain ⟨i, _, rfl⟩ := List.mem_map.1 hc
      exact ⟨rfl, rfl⟩)
  have hs : s.1.calls = dev5.calls ++ [Call.vkAllocateCommandBuffers s.2.m_commandBuffers] :=
    hcalls
  have hall : allocatedCommandBuffers dev5.calls = allocatedCommandBuffers dev.calls
      ∧ freedCommandBuffers dev5.calls = freedCommandBuffers dev.calls :=
    ⟨n5.1.trans (n4.1.trans (n3.1.trans (n2.1.trans n1.1))),
     n5.2.trans (n4.2.trans (n3.2.trans (n2.2.trans n1.2)))⟩
  refine ⟨?_, ?_, hlen⟩
  · rw [hs]
    simp only [allocatedCommandBuffers, List.flatMap_append] at hall ⊢
    rw [hall.1]
    simp [Call.allocated]
  · rw [hs]
    simp only [freedCommandBuffers, List.flatMap_append] at hall ⊢
    rw [hall.2]
    simp [Call.freed]

theorem recreateSwapChains_commandBuffers :
    ∀ (envs : List (RecreateEnv × Nat × Nat)) (dev : VulkanDevice) (r : Renderer)
      (s : VulkanDevice × Renderer), r.recreateSwapChains dev envs = .ok s →
      (allocatedCommandBuffers s.1.calls).length
        = (allocatedCommandBuffers dev.calls).length + MAX_FRAMES_IN_FLIGHT * envs.length
      ∧ freedCommandBuffers s.1.calls = freedCommandBuffers dev.calls := by
  intro envs
  induction envs with
  | nil =>
    intro dev r s h
    simp only [Renderer.recreateSwapChains, Outcome.ok.injEq] at h
    subst h
    simp
  | cons e rest ih =>
    intro dev r s h
    obtain ⟨env, width, height⟩ := e
    simp only [Renderer.recreateSwapChains] at h
    split at h
    · exact absurd h (by simp)
    rename_i dev1 r1 h1
    obtain ⟨a1, f1, l1⟩ := recreateSwapChain_commandBuffers _ _ _ _ _ _ h1
    obtain ⟨a2, f2⟩ := ih _ _ _ h
    have a1x : allocatedCommandBuffers dev1.calls
        = allocatedCommandBuffers dev.calls ++ r1.m_commandBuffers := a1
    have l1x : r1.m_commandBuffers.length = MAX_FRAMES_IN_FLIGHT := l1
    have f1x : freedCommandBuffers dev1.calls = freedCommandBuffers dev.calls := f1
    refine ⟨?_, f2.trans f1x⟩
    rw [a2, a1x, List.length_append, l1x, List.length_cons]
    ring

set_option maxRecDepth 8192 in
/-- C27 (what the code does): every `recreateSwapChain` that returns allocates
`MAX_FRAMES_IN_FLIGHT` new command buffers from the command pool of the device and hands
none of the previous ones back.  So after a sequence of `n` such calls the number of
command buffers allocated and not freed has grown by `2 * n`, it does not stay at 2.
The destructor of the renderer hands none back either: it leaves the number as it is. -/
theorem C27_command_buffers_accumulate (dev : VulkanDevice) (r : Renderer)
    (envs : List (RecreateEnv × Nat × Nat)) (s : VulkanDevice × Renderer)
    (t : ThumbnailRenderer) (h : r.recreateSwapChains dev envs = .ok s) :
    unfreedCommandBuffers s.1.calls
      = unfreedCommandBuffers dev.calls + MAX_FRAMES_IN_FLIGHT * envs.length
    ∧ freedCommandBuffers s.1.calls = freedCommandBuffers dev.calls
    ∧ (∀ (env : RecreateEnv) (width height : Nat) (s1 : VulkanDevice × Renderer),
        s.2.recreateSwapChain s.1 env width height = .ok s1 →
        allocatedCommandBuffers s1.1.calls
          = allocatedCommandBuffers s.1.calls ++ s1.2.m_commandBuffers
        ∧ s1.2.m_commandBuffers.length = MAX_FRAMES_IN_FLIGHT
        ∧ freedCommandBuffers s1.1.calls = freedCommandBuffers s.1.calls)
    ∧ unfreedCommandBuffers (s.2.destroy s.1 t).calls = unfreedCommandBuffers s.1.calls
    ∧ unfreedCommandBuffers constructedRenderer.state.1.calls = 2
    ∧ unfreedCommandBuffers resizedTwice.state.1.calls = 6
    ∧ unfreedCommandBuffers constructedThenDestroyed.calls = 2 := by
  obtain ⟨a, f⟩ := recreateSwapChains_commandBuffers envs dev r s h
  refine ⟨?_, f, ?_, ?_, by rfl, by rfl, by rfl⟩
  · simp only [unfreedCommandBuffers, a, f]
    push_cast
    ring
  · intro env width height s1 h1
    obtain ⟨a1, f1, l1⟩ := recreateSwapChain_commandBuffers _ _ _ _ _ _ h1
    exact ⟨a1, l1, f1⟩
  · obtain ⟨a1, f1⟩ := destroy_neutral s.1 s.2 t
    simp only [unfreedCommandBuffers, a1, f1]

set_option maxRecDepth 8192 in
theorem C27_command_buffers_accumulate_witness :
    unfreedCommandBuffers resizedTwice.state.1.calls
      = unfreedCommandBuffers constructedRenderer.state.1.calls + MAX_FRAMES_IN_FLIGHT * 2
    ∧ freedCommandBuffers resizedTwice.state.1.calls = [] :=
  ⟨(C27_command_buffers_accumulate constructedRenderer.state.1 constructedRenderer.state.2.1
      [(recreateWith freeSupport, 1024, 768), (recreateWith freeSupport, 640, 480)]
      resizedTwice.state constructedRenderer.state.2.2 (by rfl)).1,
   (C27_command_buffers_accumulate constructedRenderer.state.1 constructedRenderer.state.2.1
      [(recreateWith freeSupport, 1024, 768), (recreateWith freeSupport, 640, 480)]
      resizedTwice.state constructedRenderer.state.2.2 (by rfl)).2.1⟩

/-! ## C22: the uniform buffers at shutdown -/

theorem Renderer_cleanupCalls_unmapped (r : Renderer) :
    ∀ c ∈ r.cleanupCalls, c.unmapped = none := by
  intro c hc
  simp only [Renderer.cleanupCalls, Renderer.pipelineCleanupCalls, Renderer.uniformCleanupCalls,
    Renderer.textureCleanupCalls, Renderer.syncCleanupCalls, List.mem_append, List.mem_flatMap,
    List.mem_map, List.mem_ite_nil_right, List.mem_singleton, List.mem_cons, List.not_mem_nil,
    or_false] at hc
  rcases hc with ((((hc | hc) | hc) | hc) | hc) | hc
  · rcases hc with ((((hc | hc) | hc) | hc) | hc) | hc <;> (rw [hc.2]; rfl)
  · obtain ⟨i, _, hc⟩ := hc
    rcases hc with ((hc | hc) | hc) | hc <;> (rw [hc.2]; rfl)
  · rcases hc with ((hc | hc) | hc) | hc <;> (rw [hc.2]; rfl)
  · obtain ⟨fb, _, rfl⟩ := hc
    rfl
  · obtain ⟨i, _, hc⟩ := hc
    rcases hc with hc | hc | hc <;> (rw [hc]; rfl)
  · rw [hc.2]; rfl

theorem filterMap_eq_nil_of_forall {α β : Type} (f : α → Option β) (l : List α)
    (h : ∀ a ∈ l, f a = none) : l.filterMap f = [] := by
  induction l with
  | nil => rfl
  | cons a rest ih =>
    rw [List.filterMap_cons, h a (List.mem_cons_self _ _)]
    exact ih (fun b hb => h b (List.mem_cons_of_mem _ hb))

/-- What a returning `createUniformBuffers` did: per slot it created the model buffer and
mapped its memory, then the grid buffer and mapped its memory, and it unmapped nothing. -/
theorem createUniformBuffers_ok_calls (dev : VulkanDevice) (r : Renderer) (oks : List Bool)
    (s : VulkanDevice × Renderer) (h : r.createUniformBuffers dev oks = .ok s) :
    s.2.m_modelUniformBuffersMemory.length = MAX_FRAMES_IN_FLIGHT
    ∧ s.2.m_gridUniformBuffersMemory.length = MAX_FRAMES_IN_FLIGHT
    ∧ s.1.calls = dev.calls ++ (List.range MAX_FRAMES_IN_FLIGHT).flatMap (fun i =>
        [Call.resource (.createBuffer (vecAt s.2.m_modelUniformBuffers i)
            (vecAt s.2.m_modelUniformBuffersMemory i)),
         Call.resource (.vkMapMemory (vecAt s.2.m_modelUniformBuffersMemory i)
            (vecAt s.2.m_modelUniformBuffersMapped i)),
         Call.resource (.createBuffer (vecAt s.2.m_gridUniformBuffers i)
            (vecAt s.2.m_gridUniformBuffersMemory i)),
         Call.resource (.vkMapMemory (vecAt s.2.m_gridUniformBuffersMemory i)
            (vecAt s.2.m_gridUniformBuffersMapped i))]) := by
  simp only [Renderer.createUniformBuffers, MAX_FRAMES_IN_FLIGHT, createUniformBuffersLoop,
    VulkanDevice.createBuffer] at h
  split_ifs at h
  simp only [Outcome.ok.injEq] at h
  subst h
  refine ⟨?_, ?_, ?_⟩
  · simp [vecResize_length, MAX_FRAMES_IN_FLIGHT]
  · simp [vecResize_length, MAX_FRAMES_IN_FLIGHT]
  · simp [MAX_FRAMES_IN_FLIGHT, List.range_succ, VulkanDevice.vkMapMemory, VulkanDevice.log,
      VulkanDevice.fresh, vecAt, vecResize_length, List.getD_eq_getElem?_getD,
      List.getElem?_set]

theorem uniformCleanupCalls_mem (r : Renderer) (i : Nat) (hi : i < MAX_FRAMES_IN_FLIGHT)
    (c : Call) (hc : c ∈ r.uniformCleanupCalls i) : c ∈ r.cleanupCalls := by
  simp only [Renderer.cleanupCalls, List.mem_append, List.mem_flatMap, List.mem_range]
  exact Or.inl (Or.inl (Or.inl (Or.inl (Or.inr ⟨i, hi, hc⟩))))

set_option maxRecDepth 8192 in
/-- C22 (what the code does): `createUniformBuffers` maps the memory of every per-slot
model and grid uniform buffer and unmaps none of them.  `Renderer::cleanup` makes no
`vkUnmapMemory` call at all: it destroys each of these buffers and frees each of these
memories while the memory is still mapped.  The thumbnail renderer, in
`cleanupOffscreenResources`, does unmap the memory of its uniform buffer before it frees
it.  In the run that builds the renderer and destroys it, the four uniform buffer
memories are freed while mapped. -/
theorem C22_uniform_memory_freed_while_mapped (dev : VulkanDevice) (r : Renderer)
    (oks : List Bool) (s : VulkanDevice × Renderer) (t : ThumbnailRenderer)
    (h : r.createUniformBuffers dev oks = .ok s) :
    (∀ i, i < MAX_FRAMES_IN_FLIGHT →
        Call.resource (.vkMapMemory (vecAt s.2.m_modelUniformBuffersMemory i)
          (vecAt s.2.m_modelUniformBuffersMapped i)) ∈ s.1.calls
        ∧ Call.resource (.vkMapMemory (vecAt s.2.m_gridUniformBuffersMemory i)
          (vecAt s.2.m_gridUniformBuffersMapped i)) ∈ s.1.calls)
    ∧ (s.1.calls.drop dev.calls.length).filterMap Call.unmapped = []
    ∧ (∀ (dev1 : VulkanDevice) (r1 : Renderer),
        (r1.cleanup dev1).1.calls = dev1.calls ++ r1.cleanupCalls
        ∧ r1.cleanupCalls.filterMap Call.unmapped = []
        ∧ ∀ i, i < MAX_FRAMES_IN_FLIGHT →
            (i < r1.m_modelUniformBuffers.length →
              vecAt r1.m_modelUniformBuffers i ≠ VK_NULL_HANDLE →
              Call.resource (.vkDestroyBuffer (vecAt r1.m_modelUniformBuffers i))
                ∈ r1.cleanupCalls)
            ∧ (i < r1.m_modelUniformBuffersMemory.length →
              vecAt r1.m_modelUniformBuffersMemory i ≠ VK_NULL_HANDLE →
              Call.vkFreeMemory (vecAt r1.m_modelUniformBuffersMemory i) ∈ r1.cleanupCalls)
            ∧ (i < r1.m_gridUniformBuffers.length →
              vecAt r1.m_gridUniformBuffers i ≠ VK_NULL_HANDLE →
              Call.resource (.vkDestroyBuffer (vecAt r1.m_gridUniformBuffers i))
                ∈ r1.cleanupCalls)
            ∧ (i < r1.m_gridUniformBuffersMemory.length →
              vecAt r1.m_gridUniformBuffersMemory i ≠ VK_NULL_HANDLE →
              Call.vkFreeMemory (vecAt r1.m_gridUniformBuffersMemory i) ∈ r1.cleanupCalls))
    ∧ (t.m_uniformBufferMapped ≠ VK_NULL_HANDLE → t.m_uniformBufferMemory ≠ VK_NULL_HANDLE →
        ∃ before after, t.cleanupOffscreenCalls
            = before ++ Call.resource (.vkUnmapMemory t.m_uniformBufferMemory) :: after
          ∧ Call.vkFreeMemory t.m_uniformBufferMemory ∈ after)
    ∧ constructedRenderer.state.2.1.m_modelUniformBuffersMemory = [16, 22]
    ∧ constructedRenderer.state.2.1.m_gridUniformBuffersMemory = [19, 25]
    ∧ freedWhileMapped [] constructedThenDestroyed.calls = [16, 19, 22, 25] := by
  obtain ⟨_, _, hcalls⟩ := createUniformBuffers_ok_calls dev r oks s h
  refine ⟨?_, ?_, ?_, ?_, by rfl, by rfl, by rfl⟩
  · intro i hi
    rw [hcalls]
    constructor
    · apply List.mem_append_right
      rw [List.mem_flatMap]
      exact ⟨i, List.mem_range.2 hi, by simp⟩
    · apply List.mem_append_right
      rw [List.mem_flatMap]
      exact ⟨i, List.mem_range.2 hi, by simp⟩
  · rw [hcalls, List.drop_left]
    apply filterMap_eq_nil_of_forall
    intro c hc
    obtain ⟨i, _, hc⟩ := List.mem_flatMap.1 hc
    simp only [List.mem_cons, List.mem_singleton, List.not_mem_nil, or_false] at hc
    rcases hc with hc | hc | hc | hc <;> (rw [hc]; rfl)
  · intro dev1 r1
    refine ⟨rfl, filterMap_eq_nil_of_forall _ _ (Renderer_cleanupCalls_unmapped r1), ?_⟩
    intro i hi
    refine ⟨?_, ?_, ?_, ?_⟩ <;>
    · intro hlen hne
      apply uniformCleanupCalls_mem r1 i hi
      simp [Renderer.uniformCleanupCalls, hlen, hne]
  · intro hmapped hmemory
    refine ⟨t.pipelineCleanupCalls,
      (if t.m_uniformBuffer ≠ VK_NULL_HANDLE
        then [Call.resource (.vkDestroyBuffer t.m_uniformBuffer)] else [])
      ++ [Call.vkFreeMemory t.m_uniformBufferMemory] ++ t.targetCleanupCalls, ?_, ?_⟩
    · simp [ThumbnailRenderer.cleanupOffscreenCalls, ThumbnailRenderer.uniformCleanupCalls,
        hmapped, hmemory]
    · simp

theorem C22_uniform_memory_freed_while_mapped_witness :
    (∀ i, i < MAX_FRAMES_IN_FLIGHT →
        Call.resource (.vkMapMemory
          (vecAt (blankRenderer.createUniformBuffers VulkanDevice.initial []).state.2.m_modelUniformBuffersMemory i)
          (vecAt (blankRenderer.createUniformBuffers VulkanDevice.initial []).state.2.m_modelUniformBuffersMapped i))
          ∈ (blankRenderer.createUniformBuffers VulkanDevice.initial []).state.1.calls
        ∧ Call.resource (.vkMapMemory
          (vecAt (blankRenderer.createUniformBuffers VulkanDevice.initial []).state.2.m_gridUniformBuffersMemory i)
          (vecAt (blankRenderer.createUniformBuffers VulkanDevice.initial []).state.2.m_gridUniformBuffersMapped i))
          ∈ (blankRenderer.createUniformBuffers VulkanDevice.initial []).state.1.calls)
    ∧ (∃ before after, constructedRenderer.state.2.2.cleanupOffscreenCalls
          = before ++ Call.resource (.vkUnmapMemory 68) :: after
        ∧ Call.vkFreeMemory 68 ∈ after) :=
  ⟨(C22_uniform_memory_freed_while_mapped VulkanDevice.initial blankRenderer []
      (blankRenderer.createUniformBuffers VulkanDevice.initial []).state
      constructedRenderer.state.2.2 (by rfl)).1,
   (C22_uniform_memory_freed_while_mapped VulkanDevice.initial blankRenderer []
      (blankRenderer.createUniformBuffers VulkanDevice.initial []).state
      constructedRenderer.state.2.2 (by rfl)).2.2.2.1 (by decide) (by decide)⟩

/-! ## C23: the order of the teardown -/

set_option maxRecDepth 8192 in
/-- C23 (what the code does): the destructor of the renderer runs `cleanup()`, then the
destructor of the thumbnail renderer, then the one of the swap chain.  Within it the
render pass is destroyed last in `cleanup()`, after both pipelines and every framebuffer;
the views of the swap chain are destroyed in the last part, after every framebuffer; the
descriptor pool of the renderer is destroyed before the default view and sampler.  But
the descriptor set of the thumbnail renderer, which `updateDescriptorSetWithDefaultTexture`
points at the default view and sampler, outlives them: `cleanup()` destroys the view and
the sampler, and the pool of that set is destroyed only afterwards, by the destructor of
the thumbnail renderer. -/
theorem C23_default_texture_outlived_by_thumbnail_set (dev : VulkanDevice) (r : Renderer)
    (t : ThumbnailRenderer)
    (hview : r.m_defaultTextureImageView ≠ VK_NULL_HANDLE)
    (hsampler : r.m_defaultTextureSampler ≠ VK_NULL_HANDLE)
    (hpool : t.m_descriptorPool ≠ VK_NULL_HANDLE) :
    (r.destroy dev t).calls = dev.calls ++ r.cleanupCalls
      ++ (t.cleanupOffscreenCalls ++ t.m_thumbnails.flatMap (fun pair => pair.2.releaseCalls))
      ++ r.m_swapChain.cleanupCalls
    ∧ (r.m_renderPass ≠ VK_NULL_HANDLE →
        ∃ before, r.cleanupCalls
            = before ++ [Call.resource (.vkDestroyRenderPass r.m_renderPass)]
          ∧ (r.m_modelPipeline ≠ VK_NULL_HANDLE →
              Call.resource (.vkDestroyPipeline r.m_modelPipeline) ∈ before)
          ∧ (r.m_gridPipeline ≠ VK_NULL_HANDLE →
              Call.resource (.vkDestroyPipeline r.m_gridPipeline) ∈ before)
          ∧ ∀ fb ∈ r.m_framebuffers, Call.vkDestroyFramebuffer fb ∈ before)
    ∧ (∀ fb ∈ r.m_framebuffers, Call.vkDestroyFramebuffer fb ∈ r.cleanupCalls)
    ∧ (r.m_descriptorPool ≠ VK_NULL_HANDLE →
        ∃ before after, r.cleanupCalls = before ++ after
          ∧ Call.resource (.vkDestroyDescriptorPool r.m_descriptorPool) ∈ before
          ∧ Call.vkDestroySampler r.m_defaultTextureSampler ∉ before
          ∧ Call.vkDestroyImageView r.m_defaultTextureImageView ∉ before
          ∧ Call.vkDestroySampler r.m_defaultTextureSampler ∈ after
          ∧ Call.vkDestroyImageView r.m_defaultTextureImageView ∈ after)
    ∧ (t.updateDescriptorSetWithDefaultTexture dev r).calls
        = dev.calls ++ [Call.vkUpdateDescriptorSets t.m_descriptorSet 1
            r.m_defaultTextureImageView r.m_defaultTextureSampler]
    ∧ Call.vkDestroySampler r.m_defaultTextureSampler ∈ r.cleanupCalls
    ∧ Call.vkDestroyImageView r.m_defaultTextureImageView ∈ r.cleanupCalls
    ∧ Call.resource (.vkDestroyDescriptorPool t.m_descriptorPool) ∈ t.cleanupOffscreenCalls
    ∧ (t.m_descriptorPool ≠ r.m_descriptorPool →
        Call.resource (.vkDestroyDescriptorPool t.m_descriptorPool) ∉ r.cleanupCalls)
    ∧ descriptorContents constructedRenderer.state.1.calls
        constructedRenderer.state.2.2.m_descriptorSet 1
        = some (constructedRenderer.state.2.1.m_defaultTextureImageView,
                constructedRenderer.state.2.1.m_defaultTextureSampler)
    ∧ constructedThenDestroyed.calls.indexOf (Call.vkDestroySampler
        constructedRenderer.state.2.1.m_defaultTextureSampler) = 103
    ∧ constructedThenDestroyed.calls.indexOf (Call.vkDestroyImageView
        constructedRenderer.state.2.1.m_defaultTextureImageView) = 104
    ∧ constructedThenDestroyed.calls.indexOf (Call.resource (.vkDestroyDescriptorPool
        constructedRenderer.state.2.2.m_descriptorPool)) = 120 := by
  have hfb : ∀ fb ∈ r.m_framebuffers, Call.vkDestroyFramebuffer fb
      ∈ r.pipelineCleanupCalls ++ (List.range MAX_FRAMES_IN_FLIGHT).flatMap r.uniformCleanupCalls
        ++ r.textureCleanupCalls ++ r.m_framebuffers.map Call.vkDestroyFramebuffer
        ++ r.syncCleanupCalls := by
    intro fb hfb
    apply List.mem_append_left
    apply List.mem_append_right
    exact List.mem_map.2 ⟨fb, hfb, rfl⟩
  have hs : Call.vkDestroySampler r.m_defaultTextureSampler ∈ r.textureCleanupCalls := by
    simp [Renderer.textureCleanupCalls, hsampler]
  have hv : Call.vkDestroyImageView r.m_defaultTextureImageView ∈ r.textureCleanupCalls := by
    simp [Renderer.textureCleanupCalls, hview]
  have htex : ∀ c ∈ r.textureCleanupCalls, c ∈ r.cleanupCalls := by
    intro c hc
    simp only [Renderer.cleanupCalls, List.mem_append]
    exact Or.inl (Or.inl (Or.inl (Or.inr hc)))
  refine ⟨destroy_calls dev r t, ?_, ?_, ?_, ?_, htex _ hs, htex _ hv, ?_, ?_,
    by rfl, by rfl, by rfl, by rfl⟩
  · intro hrp
    refine ⟨r.pipelineCleanupCalls
        ++ (List.range MAX_FRAMES_IN_FLIGHT).flatMap r.uniformCleanupCalls
        ++ r.textureCleanupCalls ++ r.m_framebuffers.map Call.vkDestroyFramebuffer
        ++ r.syncCleanupCalls, ?_, ?_, ?_, hfb⟩
    · simp [Renderer.cleanupCalls, hrp]
    · intro hp
      simp [Renderer.pipelineCleanupCalls, hp]
    · intro hp
      simp [Renderer.pipelineCleanupCalls, hp]
  · intro fb hmem
    have h1 := hfb fb hmem
    simp only [Renderer.cleanupCalls, List.mem_append] at h1 ⊢
    exact Or.inl h1
  · intro hp
    refine ⟨r.pipelineCleanupCalls
        ++ (List.range MAX_FRAMES_IN_FLIGHT).flatMap r.uniformCleanupCalls,
      r.textureCleanupCalls ++ r.m_framebuffers.map Call.vkDestroyFramebuffer
        ++ r.syncCleanupCalls
        ++ (if r.m_renderPass ≠ VK_NULL_HANDLE
            then [Call.resource (.vkDestroyRenderPass r.m_renderPass)] else []),
      ?_, ?_, ?_, ?_, ?_, ?_⟩
    · simp [Renderer.cleanupCalls, List.append_assoc]
    · simp [Renderer.pipelineCleanupCalls, hp]
    · simp [Renderer.pipelineCleanupCalls, Renderer.uniformCleanupCalls]
    · simp [Renderer.pipelineCleanupCalls, Renderer.uniformCleanupCalls]
    · simp only [List.mem_append]
      exact Or.inl (Or.inl (Or.inl hs))
    · simp only [List.mem_append]
      exact Or.inl (Or.inl (Or.inl hv))
  · simp [ThumbnailRenderer.updateDescriptorSetWithDefaultTexture, hview, hsampler,
      VulkanDevice.log]
  · simp [ThumbnailRenderer.cleanupOffscreenCalls, ThumbnailRenderer.pipelineCleanupCalls, hpool]
  · intro hne
    simp [Renderer.cleanupCalls, Renderer.pipelineCleanupCalls, Renderer.uniformCleanupCalls,
      Renderer.textureCleanupCalls, Renderer.syncCleanupCalls, hne]

set_option maxRecDepth 8192 in
theorem C23_default_texture_outlived_by_thumbnail_set_witness :
    Call.vkDestroySampler 34 ∈ constructedRenderer.state.2.1.cleanupCalls
    ∧ Call.vkDestroyImageView 33 ∈ constructedRenderer.state.2.1.cleanupCalls
    ∧ Call.resource (.vkDestroyDescriptorPool 71)
        ∈ constructedRenderer.state.2.2.cleanupOffscreenCalls
    ∧ Call.resource (.vkDestroyDescriptorPool 71) ∉ constructedRenderer.state.2.1.cleanupCalls :=
  ⟨(C23_default_texture_outlived_by_thumbnail_set constructedRenderer.state.1
      constructedRenderer.state.2.1 constructedRenderer.state.2.2
      (by decide) (by decide) (by decide)).2.2.2.2.2.1,
   (C23_default_texture_outlived_by_thumbnail_set constructedRenderer.state.1
      constructedRenderer.state.2.1 constructedRenderer.state.2.2
      (by decide) (by decide) (by decide)).2.2.2.2.2.2.1,
   (C23_default_texture_outlived_by_thumbnail_set constructedRenderer.state.1
      constructedRenderer.state.2.1 constructedRenderer.state.2.2
      (by decide) (by decide) (by decide)).2.2.2.2.2.2.2.1,
   (C23_default_texture_outlived_by_thumbnail_set constructedRenderer.state.1
      constructedRenderer.state.2.1 constructedRenderer.state.2.2
      (by decide) (by decide) (by decide)).2.2.2.2.2.2.2.2.1 (by decide)⟩

end VulkanViewer
